import Mathlib

/-!
# Security Manager of node-ble-host: a shallow embedding of `lib/internal/smp.js`

Buffers are lists of natural numbers (one per byte), JavaScript variables that may be
`null` or `undefined` are `Option` values, and the closure variables of a session are the
fields of a record.  Every function of the source that mutates the session is a function
from session record to session record; what the session does to the outside world
(PDUs handed to the transport, events, controller commands, storage writes) is appended
to the field `log` of the record in the order in which the source performs it.

A closure that the source hands to its surroundings (the sent-callback of a PDU, the
callback of an event) is a value; that the surroundings call it is a step of its own
(`onCallback`, `cont`, `passkeyCallback`), taken after the handler that handed the closure
over has returned.  What the listener of the pairing-request event may do while the event
is emitted is given by `PairingRequestHandler`.
-/

namespace BleHost

/-! ## Constants of `smp.js` -/

def SMP_PAIRING_REQUEST : Nat := 0x01
def SMP_PAIRING_RESPONSE : Nat := 0x02
def SMP_PAIRING_CONFIRM : Nat := 0x03
def SMP_PAIRING_RANDOM : Nat := 0x04
def SMP_PAIRING_FAILED : Nat := 0x05
def SMP_ENCRYPTION_INFORMATION : Nat := 0x06
def SMP_MASTER_IDENTIFICATION : Nat := 0x07
def SMP_IDENTITY_INFORMATION : Nat := 0x08
def SMP_IDENTITY_ADDRESS_INFORMATION : Nat := 0x09
def SMP_SIGNING_INFORMATION : Nat := 0x0a
def SMP_SECURITY_REQUEST : Nat := 0x0b
def SMP_PAIRING_PUBLIC_KEY : Nat := 0x0c
def SMP_DHKEY_CHECK : Nat := 0x0d
def SMP_KEYPRESS_NOTIFICATION : Nat := 0x0e

def STATE_IDLE : Nat := 0
def STATE_W4_PACKET_ENQUEUED : Nat := 1
def STATE_W4_PACKET : Nat := 2
def STATE_W4_USER_FEATURES : Nat := 3
def STATE_W4_USER_PASSKEY : Nat := 4
def STATE_W4_USER_NUMERIC_COMPARISON : Nat := 5
def STATE_W4_LTK_REQUEST : Nat := 6
def STATE_W4_ENCRYPTION_STARTED : Nat := 7
def STATE_CANCELLED_BY_PEER_AND_W4_ENCRYPTION_STARTED : Nat := 8
def STATE_CANCELLED_BY_LOCAL_AND_W4_ENCRYPTION_STARTED : Nat := 9
def STATE_W4_LAST_ACK : Nat := 9
def STATE_TIMEDOUT : Nat := 40

def IO_CAP_DISPLAY_ONLY : Nat := 0x00
def IO_CAP_DISPLAY_YES_NO : Nat := 0x01
def IO_CAP_KEYBOARD_ONLY : Nat := 0x02
def IO_CAP_NO_INPUT_NO_OUTPUT : Nat := 0x03
def IO_CAP_KEYBOARD_DISPLAY : Nat := 0x04

def ASSOCIATION_MODEL_JUST_WORKS : Nat := 0
def ASSOCIATION_MODEL_PASSKEY_ENTRY_INIT_INPUTS : Nat := 1
def ASSOCIATION_MODEL_PASSKEY_ENTRY_RSP_INPUTS : Nat := 2
def ASSOCIATION_MODEL_PASSKEY_ENTRY_BOTH_INPUTS : Nat := 3
def ASSOCIATION_MODEL_NUMERIC_COMPARISON : Nat := 4

/-- Reason codes of `smp-errors.js` used by the two sessions. -/
def SmpErrors.AUTHENTICATION_REQUIREMENTS : Nat := 0x03
def SmpErrors.CONFIRM_VALUE_FAILED : Nat := 0x04
def SmpErrors.COMMAND_NOT_SUPPORTED : Nat := 0x07
def SmpErrors.UNSPECIFIED_REASON : Nat := 0x08
def SmpErrors.INVALID_PARAMETERS : Nat := 0x0a
def SmpErrors.DHKEY_CHECK_FAILED : Nat := 0x0b

/-- Status codes of `errors.js` used by the initiator. -/
def Errors.HCI_PIN_OR_KEY_MISSING : Nat := 0x06
def Errors.HCI_OE_USER_ENDED_CONNECTION : Nat := 0x13
def Errors.HCI_UNSUPPORTED_REMOTE_FEATURE : Nat := 0x1a

def SC_IS_SUPPORTED : Bool := true

/-! ## Buffers -/

/-- The byte at index `i` of a buffer (`data[i]`); the sessions only index inside the
length they have checked. -/
def byteAt (data : List Nat) (i : Nat) : Nat := data.getD i 0

/-- `Buffer.from([...])`: every element is stored modulo 256. -/
def bufferFrom (l : List Nat) : List Nat := l.map (fun v => v % 256)

/-- `Buffer.alloc(n)`: `n` zero bytes. -/
def bufferAlloc (n : Nat) : List Nat := List.replicate n 0

/-- `buf.slice(a, b)`. -/
def slice (data : List Nat) (a b : Nat) : List Nat := (data.take b).drop a

/-- `src.copy(dst, at)`: overwrite `dst` from offset `at` with as much of `src` as fits. -/
def copyInto (src dst : List Nat) (start : Nat) : List Nat :=
  dst.take start ++ (src.take (dst.length - start)) ++ dst.drop (start + src.length)

/-- JavaScript number to Boolean shift helper: `b << k` for a Boolean `b`. -/
def boolShl (b : Bool) (k : Nat) : Nat := if b then 2 ^ k else 0

/-! ## Pairing features -/

structure KeyDistr where
  encKey : Bool
  idKey : Bool
  deriving DecidableEq, Repr

structure PairingFeatures where
  ioCap : Nat
  bondingFlags : Nat
  mitm : Bool
  sc : Bool
  keypress : Bool
  maxKeySize : Nat
  initKeyDistr : KeyDistr
  rspKeyDistr : KeyDistr
  deriving DecidableEq, Repr

/-- The function `parsePairingReqRsp` (the `freeze` argument only makes the result
immutable). -/
def parsePairingReqRsp (data : List Nat) : PairingFeatures :=
  { ioCap := if byteAt data 1 ≤ IO_CAP_KEYBOARD_DISPLAY then byteAt data 1 else IO_CAP_NO_INPUT_NO_OUTPUT
    bondingFlags := byteAt data 3 &&& 3
    mitm := (byteAt data 3 &&& 4) != 0
    sc := (byteAt data 3 &&& 8) != 0
    keypress := (byteAt data 3 &&& 16) != 0
    maxKeySize := byteAt data 4
    initKeyDistr :=
      { encKey := (byteAt data 5 &&& 1) != 0
        idKey := (byteAt data 5 &&& 2) != 0 }
    rspKeyDistr :=
      { encKey := (byteAt data 6 &&& 1) != 0
        idKey := (byteAt data 6 &&& 2) != 0 } }

/-- A JavaScript value as far as `fixFeaturesFromUser` tells values apart: `undefined`
(also a missing property), a Boolean, an integer number, or anything else. -/
inductive JsVal where
  | undefined
  | bool (b : Bool)
  | int (n : Int)
  | other
  deriving DecidableEq, Repr

/-- The `initKeyDistr` / `rspKeyDistr` property of a user object when it is an object. -/
structure UserKeyDistr where
  encKey : JsVal
  idKey : JsVal
  deriving DecidableEq, Repr

/-- A feature object handed in by the user; `none` for a key-distribution property that is
not an object. -/
structure UserFeatures where
  ioCap : JsVal
  bondingFlags : JsVal
  mitm : JsVal
  keypress : JsVal
  maxKeySize : JsVal
  initKeyDistr : Option UserKeyDistr
  rspKeyDistr : Option UserKeyDistr
  deriving DecidableEq, Repr

/-- The object `Object.create(null)`: every property is `undefined`. -/
def emptyUserKeyDistr : UserKeyDistr := { encKey := JsVal.undefined, idKey := JsVal.undefined }

def emptyUserFeatures : UserFeatures :=
  { ioCap := JsVal.undefined, bondingFlags := JsVal.undefined, mitm := JsVal.undefined,
    keypress := JsVal.undefined, maxKeySize := JsVal.undefined,
    initKeyDistr := none, rspKeyDistr := none }

/-- `Number.isInteger(v) && v >= lo && v <= hi ? v : dflt`. -/
def intInRangeOr (v : JsVal) (lo hi : Int) (dflt : Nat) : Nat :=
  match v with
  | JsVal.int n => if lo ≤ n ∧ n ≤ hi then n.toNat else dflt
  | _ => dflt

/-- `v !== false`. -/
def notFalse (v : JsVal) : Bool :=
  match v with
  | JsVal.bool false => false
  | _ => true

/-- `v === true`. -/
def isTrue (v : JsVal) : Bool :=
  match v with
  | JsVal.bool true => true
  | _ => false

/-- The function `fixFeaturesFromUser`; the argument is `none` when the user value is not
an object (or is `null`). -/
def fixFeaturesFromUser (rsp : Option UserFeatures) : PairingFeatures :=
  let rsp := rsp.getD emptyUserFeatures
  let rspInitKeyDistr := rsp.initKeyDistr.getD emptyUserKeyDistr
  let rspRspKeyDistr := rsp.rspKeyDistr.getD emptyUserKeyDistr
  { ioCap := intInRangeOr rsp.ioCap 0 4 IO_CAP_NO_INPUT_NO_OUTPUT
    bondingFlags := if rsp.bondingFlags = JsVal.int 0 then 0 else 1
    mitm := isTrue rsp.mitm
    sc := SC_IS_SUPPORTED
    keypress := isTrue rsp.keypress
    maxKeySize := intInRangeOr rsp.maxKeySize 7 16 16
    initKeyDistr :=
      { encKey := notFalse rspInitKeyDistr.encKey
        idKey := notFalse rspInitKeyDistr.idKey }
    rspKeyDistr :=
      { encKey := notFalse rspRspKeyDistr.encKey
        idKey := notFalse rspRspKeyDistr.idKey } }

/-- The function `buildPairingFeaturesPacket`. -/
def buildPairingFeaturesPacket (opcode : Nat) (rsp : PairingFeatures) : List Nat :=
  let authReq := rsp.bondingFlags ||| boolShl rsp.mitm 2 ||| boolShl rsp.sc 3 ||| boolShl rsp.keypress 4
  let initKeyDistr := boolShl rsp.initKeyDistr.encKey 0 ||| boolShl rsp.initKeyDistr.idKey 1
  let rspKeyDistr := boolShl rsp.rspKeyDistr.encKey 0 ||| boolShl rsp.rspKeyDistr.idKey 1
  bufferFrom [opcode, rsp.ioCap, 0, authReq, rsp.maxKeySize, initKeyDistr, rspKeyDistr]

/-- The function `bitwiseAndKeys`: the updated first argument. -/
def bitwiseAndKeys (rsp req : PairingFeatures) : PairingFeatures :=
  { rsp with
    initKeyDistr :=
      { encKey := rsp.initKeyDistr.encKey && req.initKeyDistr.encKey
        idKey := rsp.initKeyDistr.idKey && req.initKeyDistr.idKey }
    rspKeyDistr :=
      { encKey := rsp.rspKeyDistr.encKey && req.rspKeyDistr.encKey
        idKey := rsp.rspKeyDistr.idKey && req.rspKeyDistr.idKey } }

/-- The function `combineAuthReq`: the updated first argument.  In
`bondingFlags &= (req.bondingFlags >= 1)` the Boolean is converted to 0 or 1. -/
def combineAuthReq (pairingFeatures req : PairingFeatures) : PairingFeatures :=
  { pairingFeatures with
    bondingFlags := pairingFeatures.bondingFlags &&& (if req.bondingFlags ≥ 1 then 1 else 0)
    mitm := pairingFeatures.mitm || req.mitm
    sc := pairingFeatures.sc && req.sc
    keypress := pairingFeatures.keypress && req.keypress
    maxKeySize := min pairingFeatures.maxKeySize req.maxKeySize }

/-- The function `getAssociationModel`. -/
def getAssociationModel (init rsp : Nat) (sc mitm : Bool) : Nat :=
  if !mitm then ASSOCIATION_MODEL_JUST_WORKS else
  let init := if !sc && init == IO_CAP_DISPLAY_YES_NO then IO_CAP_DISPLAY_ONLY else init
  let rsp := if !sc && rsp == IO_CAP_DISPLAY_YES_NO then IO_CAP_DISPLAY_ONLY else rsp
  if init == IO_CAP_NO_INPUT_NO_OUTPUT || rsp == IO_CAP_NO_INPUT_NO_OUTPUT then
    ASSOCIATION_MODEL_JUST_WORKS
  else if init == IO_CAP_KEYBOARD_ONLY && rsp == IO_CAP_KEYBOARD_ONLY then
    ASSOCIATION_MODEL_PASSKEY_ENTRY_BOTH_INPUTS
  else if init == IO_CAP_KEYBOARD_ONLY then
    ASSOCIATION_MODEL_PASSKEY_ENTRY_INIT_INPUTS
  else if rsp == IO_CAP_KEYBOARD_ONLY then
    ASSOCIATION_MODEL_PASSKEY_ENTRY_RSP_INPUTS
  else if init == IO_CAP_KEYBOARD_DISPLAY && rsp == IO_CAP_KEYBOARD_DISPLAY then
    (if sc then ASSOCIATION_MODEL_NUMERIC_COMPARISON else ASSOCIATION_MODEL_PASSKEY_ENTRY_RSP_INPUTS)
  else if init == IO_CAP_DISPLAY_ONLY && rsp == IO_CAP_KEYBOARD_DISPLAY then
    ASSOCIATION_MODEL_PASSKEY_ENTRY_RSP_INPUTS
  else if rsp == IO_CAP_DISPLAY_ONLY && init == IO_CAP_KEYBOARD_DISPLAY then
    ASSOCIATION_MODEL_PASSKEY_ENTRY_INIT_INPUTS
  else if init == IO_CAP_DISPLAY_ONLY || rsp == IO_CAP_DISPLAY_ONLY then
    ASSOCIATION_MODEL_JUST_WORKS
  else
    ASSOCIATION_MODEL_NUMERIC_COMPARISON

/-- The demotion `d` of the table lookup: Display-YesNo becomes Display-Only, every other
capability is kept. -/
def demoteDisplayYesNo (cap : Nat) : Nat :=
  if cap = IO_CAP_DISPLAY_YES_NO then IO_CAP_DISPLAY_ONLY else cap

/-- The capability used for the table lookup: demoted when Secure Connections is off. -/
def lookupCap (sc : Bool) (cap : Nat) : Nat := if sc then cap else demoteDisplayYesNo cap

/-! ## Cryptographic toolbox -/

/-- What the toolbox takes from outside `smp.js`: the AES-128 block cipher of the Node
`crypto` module (`createCipheriv('AES-128-ECB', key, '').update(block)`), and the
process-wide ECDH key pair `myEcdh` with its public key `myEcdhPubKey` (both coordinates
least significant byte first) and `myEcdh.computeSecret`, which is `none` when it throws. -/
structure Crypto where
  aes128 : List Nat → List Nat → List Nat
  myEcdhPubKeyX : List Nat
  myEcdhPubKeyY : List Nat
  computeSecret : List Nat → Option (List Nat)

/-- The function `xor`: the result has the length of the shorter argument. -/
def xor (a b : List Nat) : List Nat := List.zipWith (fun x y => x ^^^ y) a b

/-- One iteration of the loop of `leftShift128`, on the bytes from the last to the first:
the accumulator is the carry and the bytes already shifted. -/
def leftShiftStep (byte : Nat) (acc : Nat × List Nat) : Nat × List Nat :=
  (byte >>> 7, (((byte <<< 1) ||| acc.1) % 256) :: acc.2)

/-- The function `leftShift128`: the returned carry and the buffer after the shift. -/
def leftShift128 (v : List Nat) : Nat × List Nat := v.foldr leftShiftStep (0, [])

/-- The statement `L[15] ^= 0x87`. -/
def xorLastByte (l : List Nat) : List Nat := l.set 15 (byteAt l 15 ^^^ 0x87)

/-- The statement `if (leftShift128(L)) { L[15] ^= 0x87; }`. -/
def doubleSubkey (l : List Nat) : List Nat :=
  let r := leftShift128 l
  if r.1 ≠ 0 then xorLastByte r.2 else r.2

/-- The loop `for (i = 0; i < n - 1; i++)` of `AESCMAC`, with `count` iterations left. -/
def cmacLoop (aes : List Nat → List Nat) (message : List Nat) : Nat → List Nat → Nat → List Nat × Nat
  | 0, x, processed => (x, processed)
  | count + 1, x, processed =>
    cmacLoop aes message count (aes (xor x (slice message processed (processed + 16)))) (processed + 16)

/-- The function `AESCMAC`. -/
def AESCMAC (c : Crypto) (key message : List Nat) : List Nat :=
  let zero := bufferAlloc 16
  let aes := c.aes128 key
  let l := doubleSubkey (aes zero)
  let flag := !(message.length == 0 || message.length % 16 != 0)
  let l := if flag then l else doubleSubkey l
  let n := (message.length + 15) >>> 4
  let r := cmacLoop aes message (n - 1) zero 0
  let last := copyInto (message.drop r.2) (bufferAlloc 16) 0
  let last := if flag then last else last.set (message.length % 16) 0x80
  aes (xor (xor r.1 l) last)

/-- The function `Toolbox.e`. -/
def Toolbox.e (c : Crypto) (key plaintextData : List Nat) : List Nat :=
  (c.aes128 key.reverse plaintextData.reverse).reverse

/-- The function `Toolbox.c1`. -/
def Toolbox.c1 (c : Crypto) (k r pres preq : List Nat) (iat : Nat) (ia : List Nat) (rat : Nat)
    (ra : List Nat) : List Nat :=
  let p1 := bufferFrom [iat, rat] ++ preq ++ pres
  let p2 := ra ++ ia ++ bufferAlloc 4
  Toolbox.e c k (xor (Toolbox.e c k (xor r p1)) p2)

/-- The function `Toolbox.s1`. -/
def Toolbox.s1 (c : Crypto) (k r1 r2 : List Nat) : List Nat :=
  let r1 := slice r1 0 8
  let r2 := slice r2 0 8
  Toolbox.e c k (r2 ++ r1)

/-- The function `Toolbox.f4`. -/
def Toolbox.f4 (c : Crypto) (u v x : List Nat) (z : Nat) : List Nat :=
  (AESCMAC c x.reverse (bufferFrom [z] ++ v ++ u).reverse).reverse

/-- The constant `SALT` of `Toolbox.f5`. -/
def f5Salt : List Nat :=
  [0x6C, 0x88, 0x83, 0x91, 0xAA, 0xF5, 0xA5, 0x38, 0x60, 0x37, 0x0B, 0xDB, 0x5A, 0x60, 0x83, 0xBE]

/-- The function `Toolbox.f5`: the pair `[macKey, ltk]`. -/
def Toolbox.f5 (c : Crypto) (w n1 n2 a1 a2 : List Nat) : List Nat × List Nat :=
  let t := AESCMAC c f5Salt w.reverse
  let v := [0x62, 0x74, 0x6c, 0x65] ++ n1.reverse ++ n2.reverse ++ a1.reverse ++ a2.reverse ++ bufferFrom [1, 0]
  let macKey := (AESCMAC c t (bufferFrom [0] ++ v)).reverse
  let ltk := (AESCMAC c t (bufferFrom [1] ++ v)).reverse
  (macKey, ltk)

/-- The function `Toolbox.f6`. -/
def Toolbox.f6 (c : Crypto) (w n1 n2 r ioCap a1 a2 : List Nat) : List Nat :=
  (AESCMAC c w.reverse (a2 ++ a1 ++ ioCap ++ r ++ n2 ++ n1).reverse).reverse

/-- The call `buf.readUInt32BE(12)`. -/
def readUInt32BE (buf : List Nat) (off : Nat) : Nat :=
  byteAt buf off * 2 ^ 24 + byteAt buf (off + 1) * 2 ^ 16 + byteAt buf (off + 2) * 2 ^ 8 + byteAt buf (off + 3)

/-- The function `Toolbox.g2`. -/
def Toolbox.g2 (c : Crypto) (u v x y : List Nat) : Nat :=
  readUInt32BE (AESCMAC c x.reverse (y ++ v ++ u).reverse) 12

/-- The call `key.writeUInt32LE(passkey)` on a zeroed 16 byte buffer: `passkeyToTk`. -/
def passkeyToTk (passkey : Nat) : List Nat :=
  [passkey % 256, passkey / 2 ^ 8 % 256, passkey / 2 ^ 16 % 256, passkey / 2 ^ 24 % 256] ++ bufferAlloc 12

/-- The function `padKey`. -/
def padKey (key : List Nat) : List Nat := copyInto key (bufferAlloc 16) 0

/-- The result object of `generateLtkEaEb`. -/
structure LtkEaEb where
  ltk : List Nat
  Ea : List Nat
  Eb : List Nat
  deriving DecidableEq, Repr

/-- The function `generateLtkEaEb`; `none` is the `null` returned when the peer point is
not on the curve. -/
def generateLtkEaEb (c : Crypto) (peerPublicKey : List Nat × List Nat) (ia : List Nat) (iat : Nat)
    (ra : List Nat) (rat : Nat) (initRandomValue rspRandomValue : List Nat) (userPasskey : Nat)
    (maxKeySize : Nat) (ioCapA ioCapB : List Nat) : Option LtkEaEb :=
  let buf := [0x04] ++ (slice peerPublicKey.1 0 32).reverse ++ (slice peerPublicKey.2 0 32).reverse
  match c.computeSecret buf with
  | none => none
  | some secret =>
    let sharedSecret := secret.reverse
    let a := ia ++ bufferFrom [iat]
    let b := ra ++ bufferFrom [rat]
    let keys := Toolbox.f5 c sharedSecret initRandomValue rspRandomValue a b
    let macKey := keys.1
    let ltk := slice keys.2 0 maxKeySize
    let ea := Toolbox.f6 c macKey initRandomValue rspRandomValue (passkeyToTk userPasskey) ioCapA a b
    let eb := Toolbox.f6 c macKey rspRandomValue initRandomValue (passkeyToTk userPasskey) ioCapB b a
    some { ltk := ltk, Ea := ea, Eb := eb }

/-! ## What a session exchanges with its surroundings -/

/-- The addresses a session reads from its connection at construction: `iat`, `ia`, `rat`
and `ra` (initiator and responder address type and address bytes). -/
structure Link where
  iat : Nat
  ia : List Nat
  rat : Nat
  ra : List Nat

/-- The stored key `availableLtk`. -/
structure AvailableLtk where
  ltk : List Nat
  rand : List Nat
  ediv : Nat
  mitm : Bool
  sc : Bool
  deriving DecidableEq, Repr

/-- The object passed with the encrypt event and kept in `currentEncryptionLevel`;
`keySize` is `none` when the source evaluates it to `undefined`. -/
structure EncryptionLevel where
  mitm : Bool
  sc : Bool
  keySize : Option Nat
  deriving DecidableEq, Repr

/-- The object `{addressType, address}` built from an Identity Address Information PDU;
`addressType` is true for "random", and the address is kept as the six bytes that the
source formats with `bufferToBdAddr`. -/
structure IdentityAddress where
  addressType : Bool
  address : List Nat
  deriving DecidableEq, Repr

/-- The object `res` of `pairingDone`; `irk` and `identityAddress` are those of the peer. -/
structure PairingResult where
  sc : Bool
  mitm : Bool
  bond : Bool
  rspRand : Option (List Nat)
  rspEdiv : Option Nat
  rspLtk : Option (List Nat)
  initRand : Option (List Nat)
  initEdiv : Option Nat
  initLtk : Option (List Nat)
  irk : Option (List Nat)
  identityAddress : Option IdentityAddress
  deriving DecidableEq, Repr

/-- The function a `sendPacket` caller passes as third argument (the responder passes
`function() { state = STATE_W4_LTK_REQUEST; }`). -/
inductive PacketCallback where
  | toW4LtkRequest
  deriving DecidableEq, Repr

/-- The closures a session hands to the transport together with a PDU. -/
inductive Callback where
  /-- The closure `function() { hasOutgoingFailedMsg = false; }`. -/
  | failedMsgSent
  /-- The closure of `sendPacket`, with the run counter and the callback it captured. -/
  | packetSent (thisRunCounter : Nat) (callback : Option PacketCallback)
  /-- The closure of the last key-distribution PDU, which calls `pairingDone`. -/
  | lastAck (thisRunCounter : Nat)
  deriving DecidableEq, Repr

/-- The events a session emits.  An event whose listener receives a callback carries what
that callback captured (`thisRunCounter`, and for the responder the parsed request). -/
inductive Event where
  /-- The pairing-request event of the responder, with the parsed Pairing Request. -/
  | pairingRequest (req : PairingFeatures) (thisRunCounter : Nat)
  /-- The pairing-request event of the initiator, with the fields of the Security Request. -/
  | securityRequest (bondingFlags : Nat) (mitm sc keypress : Bool) (thisRunCounter : Nat)
  | passkeyExchange (associationModel : Nat) (passkey : Option (List Char)) (thisRunCounter : Nat)
  | pairingFail (reason : Nat) (isErrorFromRemote : Bool)
  | pairingComplete (res : PairingResult)
  | encrypt (status : Nat) (level : Option EncryptionLevel)
  | keypress (notificationType : Nat)
  | timeout
  deriving DecidableEq, Repr

/-- The two places from which the initiator calls `startEncryptionFn`. -/
inductive EncryptionStart where
  | afterPairing
  | withAvailableLtk (isSecReq : Bool) (bondingFlags : Nat) (mitm sc keypress : Bool)
  deriving DecidableEq, Repr

/-- The closures the responder passes to `ltkReplyCallback` as second argument, called when
the controller reports that encryption has started (or, after a refusal, that the refusal
is delivered). -/
inductive LtkReplyDone where
  /-- The closure of the branch taken in state `STATE_W4_LTK_REQUEST`. -/
  | afterPairing
  /-- The closure passed with a stored key, with the `ltk` and `clearState` it captured. -/
  | withStoredKey (ltk : AvailableLtk) (clearState : Bool)
  /-- The closure passed with the refusal, with the `clearState` it captured. -/
  | refused (clearState : Bool)
  deriving DecidableEq, Repr

/-- What a session does to its surroundings. -/
inductive Action where
  /-- The call `sendDataFn(data, sentCallback, completeCallback)`. -/
  | sendData (data : List Nat) (sentCallback completeCallback : Option Callback)
  /-- The call `smp.emit(...)`. -/
  | emit (e : Event)
  /-- The call `connection.disconnect(...)`. -/
  | disconnect
  /-- The call `storage.storeKeys(...)` with the fields of `res`. -/
  | storeKeys (res : PairingResult)
  /-- The call `updateIdentityAddressFn(addressType, address)`. -/
  | updateIdentityAddress (a : IdentityAddress)
  /-- The call `bondDoneFn()`. -/
  | bondDone
  /-- The call `ltkReplyCallback(key, done)`; the key `none` is the refusal. -/
  | ltkReply (key : Option (List Nat)) (done : LtkReplyDone)
  /-- The call `startEncryptionFn(rand, ediv, key, ...)`. -/
  | startEncryption (rand : List Nat) (ediv : Nat) (key : List Nat) (origin : EncryptionStart)
  /-- An exception leaves the handler. -/
  | throwError
  deriving DecidableEq, Repr

/-- How the listener of the pairing-request event behaves while the event is emitted. -/
inductive PairingRequestHandler where
  /-- No listener: `listenerCount` is zero. -/
  | absent
  /-- The listener passes the value to the callback it received before it returns. -/
  | answers (rsp : Option UserFeatures)
  /-- The listener returns without having called the callback. -/
  | defers
  deriving DecidableEq, Repr

/-- What the surroundings supply while one step runs: the listeners installed, and the
values the calls of `crypto.randomBytes` return. -/
structure Inputs where
  pairingRequestHandler : PairingRequestHandler
  timeoutListener : Bool
  /-- The value `crypto.randomBytes(4).readUInt32LE(0)`. -/
  random4 : Nat
  /-- The value `crypto.randomBytes(16)`. -/
  random16 : List Nat
  /-- The value `crypto.randomBytes(26)`. -/
  random26 : List Nat

/-- The loop `for (var i = maxKeySize; i < 16; i++) { randomBytes[i] = 0; }`. -/
def zeroKeyTail (randomBytes : List Nat) (maxKeySize : Nat) : List Nat :=
  randomBytes.enum.map (fun p => if maxKeySize ≤ p.1 ∧ p.1 < 16 then 0 else p.2)

/-- The expression `("00000" + n).substr(-6)`. -/
def lastSixDigits (n : Nat) : List Char :=
  let l := ['0', '0', '0', '0', '0'] ++ Nat.toDigits 10 n
  l.drop (l.length - 6)

/-- The call `buf.readUInt16LE(0)`. -/
def readUInt16LE (buf : List Nat) : Nat := byteAt buf 0 + byteAt buf 1 * 2 ^ 8

/-- The expression `((userPasskey >> passkeyBitCounter) & 1) | 0x80`; a passkey is at most
999999, so that the 32-bit shift of JavaScript is the shift of natural numbers. -/
def passkeyBit (userPasskey passkeyBitCounter : Nat) : Nat :=
  ((userPasskey >>> passkeyBitCounter) &&& 1) ||| 0x80

/-- The assignment of `userPasskey` after the association model is known: a random
passkey when this side displays it (`displays` is the model in which the peer inputs), zero
for Just Works and Numeric Comparison, `null` otherwise. -/
def initialPasskey (associationModel displays random4 : Nat) : Option Nat :=
  if associationModel == displays then some (random4 % 1000000)
  else if associationModel == ASSOCIATION_MODEL_JUST_WORKS || associationModel == ASSOCIATION_MODEL_NUMERIC_COMPARISON then some 0
  else none

/-! ## The Responder Session: `SmpSlaveConnection` -/

/-- The closure variables of `SmpSlaveConnection`.  `runCounter` stands for the identifier
last drawn from `idGenerator` (successive identifiers are distinct; they are only compared
for equality), `timeoutPending` tells whether the timer set by `restartTimeout` is armed,
and `sendDisabled` whether the timeout has replaced `sendDataFn` by the empty function. -/
structure SlaveState where
  state : Nat
  packetWaitOpcode : Option Nat
  timeoutPending : Bool
  sendDisabled : Bool
  runCounter : Nat
  hasOutgoingFailedMsg : Bool
  pairingRequestData : Option (List Nat)
  pairingResponseData : Option (List Nat)
  pairingFeatures : Option PairingFeatures
  initIoCap : Option Nat
  associationModel : Option Nat
  userPasskey : Option Nat
  initConfirmValue : Option (List Nat)
  initRandomValue : Option (List Nat)
  rspRandomValue : Option (List Nat)
  passkeyBitCounter : Option Nat
  numericComparisonOk : Bool
  peerPublicKey : Option (List Nat × List Nat)
  peerDHKeyCheck : Option (List Nat)
  generatedLtk : Option (List Nat)
  rspLtk : Option (List Nat)
  rspEdivRand : Option (List Nat)
  initEdivRand : Option (List Nat)
  initLtk : Option (List Nat)
  initIrk : Option (List Nat)
  initIdentityAddressInformation : Option IdentityAddress
  availableLtk : Option AvailableLtk
  isBonded : Bool
  isEncrypted : Bool
  currentEncryptionLevel : Option EncryptionLevel
  log : List Action
  deriving DecidableEq, Repr

namespace SmpSlaveConnection

/-- The session as the constructor leaves it; `stored` is the local key found in the
storage, if any. -/
def init (stored : Option AvailableLtk) : SlaveState :=
  { state := STATE_IDLE, packetWaitOpcode := none, timeoutPending := false, sendDisabled := false,
    runCounter := 0, hasOutgoingFailedMsg := false, pairingRequestData := none,
    pairingResponseData := none, pairingFeatures := none, initIoCap := none,
    associationModel := none, userPasskey := none, initConfirmValue := none,
    initRandomValue := none, rspRandomValue := none, passkeyBitCounter := none,
    numericComparisonOk := false, peerPublicKey := none, peerDHKeyCheck := none,
    generatedLtk := none, rspLtk := none, rspEdivRand := none, initEdivRand := none,
    initLtk := none, initIrk := none, initIdentityAddressInformation := none,
    availableLtk := stored, isBonded := stored.isSome, isEncrypted := false,
    currentEncryptionLevel := none, log := [] }

def act (s : SlaveState) (a : Action) : SlaveState := { s with log := s.log ++ [a] }

def emit (s : SlaveState) (e : Event) : SlaveState := act s (Action.emit e)

/-- The variable `sendDataFn`: the transport function, or the empty function after a
timeout. -/
def sendDataFn (s : SlaveState) (data : List Nat) (sentCallback completeCallback : Option Callback) :
    SlaveState :=
  if s.sendDisabled then s else act s (Action.sendData data sentCallback completeCallback)

/-- The call `timeoutClearFn()`. -/
def timeoutClearFn (s : SlaveState) : SlaveState := { s with timeoutPending := false }

def restartTimeout (s : SlaveState) : SlaveState := { timeoutClearFn s with timeoutPending := true }

/-- The function passed to `connection.setTimeout`, run when the armed timer expires. -/
def onTimeout (i : Inputs) (s : SlaveState) : SlaveState :=
  if !s.timeoutPending then s else
  let s := { s with timeoutPending := false, runCounter := s.runCounter + 1, state := STATE_TIMEDOUT,
                    sendDisabled := true }
  if i.timeoutListener then emit s Event.timeout else act s Action.disconnect

def pairingFailed (s : SlaveState) (reason : Nat) : SlaveState :=
  let s := timeoutClearFn s
  let s :=
    if !s.hasOutgoingFailedMsg then
      sendDataFn { s with hasOutgoingFailedMsg := true } (bufferFrom [SMP_PAIRING_FAILED, reason])
        (some Callback.failedMsgSent) none
    else s
  emit { s with state := STATE_IDLE, runCounter := s.runCounter + 1 } (Event.pairingFail reason false)

/-- The function `pairingDone`.  It is only reached after `pairingFeatures` has been set;
without it the source throws at `pairingFeatures.sc`. -/
def pairingDone (s : SlaveState) : SlaveState :=
  let s := { timeoutClearFn s with state := STATE_IDLE, runCounter := s.runCounter + 1 }
  match s.pairingFeatures with
  | none => act s Action.throwError
  | some pairingFeatures =>
    let sc := pairingFeatures.sc
    let res : PairingResult :=
      { sc := sc
        mitm := pairingFeatures.mitm && s.associationModel != some ASSOCIATION_MODEL_JUST_WORKS
        bond := pairingFeatures.bondingFlags != 0
        rspRand := if sc then some (bufferAlloc 8) else s.rspEdivRand.map (fun b => b.drop 2)
        rspEdiv := if sc then some 0 else s.rspEdivRand.map readUInt16LE
        rspLtk := if sc then s.generatedLtk else s.rspLtk
        initRand := if sc then some (bufferAlloc 8) else s.initEdivRand.map (fun b => b.drop 2)
        initEdiv := if sc then some 0 else s.initEdivRand.map readUInt16LE
        initLtk := if sc then s.generatedLtk else s.initLtk
        irk := s.initIrk
        identityAddress := s.initIdentityAddressInformation }
    let s :=
      match res.identityAddress with
      | some a => if a.address ≠ bufferAlloc 6 then act s (Action.updateIdentityAddress a) else s
      | none => s
    let s :=
      if res.bond then act { act s (Action.storeKeys res) with isBonded := true } Action.bondDone else s
    let s :=
      match res.bond, res.rspLtk with
      | true, some rspLtk =>
        { s with availableLtk := some { ltk := rspLtk, rand := res.rspRand.getD [], ediv := res.rspEdiv.getD 0,
                                        mitm := res.mitm, sc := res.sc } }
      | _, _ => s
    emit s (Event.pairingComplete res)

def sendPacket (s : SlaveState) (data : List Nat) (nextPacketOpcode : Option Nat)
    (callback : Option PacketCallback) : SlaveState :=
  if s.state == STATE_TIMEDOUT then s else
  let s := { restartTimeout s with state := STATE_W4_PACKET_ENQUEUED }
  let s := if callback.isNone then { s with packetWaitOpcode := nextPacketOpcode } else s
  let thisRunCounter := s.runCounter
  sendDataFn s data (some (Callback.packetSent thisRunCounter callback)) none

/-- The function `cont` of `onPairingRequest`, with the variables it captured: the parsed
request, `userHandledRequest` and `thisRunCounter`.  It runs when the listener of the
pairing-request event calls it, or at once with `null` when there is no listener. -/
def cont (i : Inputs) (req : PairingFeatures) (userHandledRequest : Bool) (thisRunCounter : Nat)
    (rsp : Option UserFeatures) (s : SlaveState) : SlaveState :=
  if s.state != STATE_W4_USER_FEATURES || s.runCounter != thisRunCounter then s else
  let rsp := fixFeaturesFromUser rsp
  let rsp := bitwiseAndKeys rsp req
  let pairingResponseData := buildPairingFeaturesPacket SMP_PAIRING_RESPONSE rsp
  let pairingFeatures := combineAuthReq rsp req
  let associationModel := getAssociationModel req.ioCap rsp.ioCap pairingFeatures.sc pairingFeatures.mitm
  let s := { s with pairingResponseData := some pairingResponseData, pairingFeatures := some pairingFeatures,
                    associationModel := some associationModel }
  if !userHandledRequest && s.isBonded && !s.isEncrypted && associationModel == ASSOCIATION_MODEL_JUST_WORKS then
    pairingFailed s SmpErrors.AUTHENTICATION_REQUIREMENTS
  else
  let userPasskey := initialPasskey associationModel ASSOCIATION_MODEL_PASSKEY_ENTRY_INIT_INPUTS i.random4
  let s := { s with userPasskey := userPasskey, rspLtk := none, rspEdivRand := none, initLtk := none,
                    initEdivRand := none, initIrk := none, initIdentityAddressInformation := none,
                    passkeyBitCounter := some 0 }
  let s := sendPacket s pairingResponseData
    (some (if pairingFeatures.sc then SMP_PAIRING_PUBLIC_KEY else SMP_PAIRING_CONFIRM)) none
  if associationModel != ASSOCIATION_MODEL_JUST_WORKS && associationModel != ASSOCIATION_MODEL_NUMERIC_COMPARISON then
    emit s (Event.passkeyExchange associationModel (userPasskey.map lastSixDigits) thisRunCounter)
  else s

def onPairingRequest (i : Inputs) (req : PairingFeatures) (s : SlaveState) : SlaveState :=
  let s := { s with initIoCap := some req.ioCap, runCounter := s.runCounter + 1 }
  let thisRunCounter := s.runCounter
  let s := { s with state := STATE_W4_USER_FEATURES }
  match i.pairingRequestHandler with
  | PairingRequestHandler.absent => cont i req false thisRunCounter none s
  | PairingRequestHandler.defers => emit s (Event.pairingRequest req thisRunCounter)
  | PairingRequestHandler.answers rsp =>
    cont i req true thisRunCounter rsp (emit s (Event.pairingRequest req thisRunCounter))

/-- The function `timingSafeEqual`, on buffers of equal length. -/
def timingSafeEqual (a b : List Nat) : Bool := a == b

/-- The function `afterInitsConfirmAndPasskey`.  The buffers it reads have been set when
it is reached; where one is missing the source throws. -/
def afterInitsConfirmAndPasskey (c : Crypto) (k : Link) (i : Inputs) (s : SlaveState) : SlaveState :=
  let rspRandomValue := i.random16
  let s := { s with rspRandomValue := some rspRandomValue }
  match s.pairingFeatures with
  | none => act s Action.throwError
  | some pairingFeatures =>
    if !pairingFeatures.sc then
      match s.pairingResponseData, s.pairingRequestData with
      | some pairingResponseData, some pairingRequestData =>
        let rspConfirmValue := Toolbox.c1 c (passkeyToTk (s.userPasskey.getD 0)) rspRandomValue
          pairingResponseData pairingRequestData k.iat k.ia k.rat k.ra
        sendPacket s (bufferFrom [SMP_PAIRING_CONFIRM] ++ rspConfirmValue) (some SMP_PAIRING_RANDOM) none
      | _, _ => act s Action.throwError
    else
      match s.peerPublicKey with
      | some peerPublicKey =>
        let rspConfirmValue := Toolbox.f4 c c.myEcdhPubKeyX peerPublicKey.1 rspRandomValue
          (passkeyBit (s.userPasskey.getD 0) (s.passkeyBitCounter.getD 0))
        sendPacket s (bufferFrom [SMP_PAIRING_CONFIRM] ++ rspConfirmValue) (some SMP_PAIRING_RANDOM) none
      | none => act s Action.throwError

def afterNumericComparisonOkAndDHKeyCheck (c : Crypto) (k : Link) (s : SlaveState) : SlaveState :=
  match s.peerPublicKey, s.initRandomValue, s.rspRandomValue, s.pairingFeatures, s.pairingRequestData,
    s.pairingResponseData, s.peerDHKeyCheck with
  | some peerPublicKey, some initRandomValue, some rspRandomValue, some pairingFeatures,
    some pairingRequestData, some pairingResponseData, some peerDHKeyCheck =>
    match generateLtkEaEb c peerPublicKey k.ia k.iat k.ra k.rat initRandomValue rspRandomValue
        (s.userPasskey.getD 0) pairingFeatures.maxKeySize (slice pairingRequestData 1 4)
        (slice pairingResponseData 1 4) with
    | none => pairingFailed s SmpErrors.INVALID_PARAMETERS
    | some res =>
      if !timingSafeEqual res.Ea peerDHKeyCheck then pairingFailed s SmpErrors.DHKEY_CHECK_FAILED
      else
        sendPacket { s with generatedLtk := some res.ltk } (bufferFrom [SMP_DHKEY_CHECK] ++ res.Eb) none
          (some PacketCallback.toW4LtkRequest)
  | _, _, _, _, _, _, _ => act s Action.throwError

/-- The test `state != STATE_W4_PACKET || packetWaitOpcode != opcode` that opens most cases
of the data handler. -/
def notWaitingFor (s : SlaveState) (opcode : Nat) : Bool :=
  s.state != STATE_W4_PACKET || s.packetWaitOpcode != some opcode

/-- The case `SMP_PAIRING_REQUEST` of the data handler. -/
def onDataPairingRequest (i : Inputs) (data : List Nat) (s : SlaveState) : SlaveState :=
  if s.state != STATE_IDLE && !(s.state == STATE_W4_PACKET && s.packetWaitOpcode == some SMP_PAIRING_REQUEST) then s
  else if data.length != 7 then pairingFailed s SmpErrors.INVALID_PARAMETERS
  else
    let req := parsePairingReqRsp data
    if req.maxKeySize < 7 || req.maxKeySize > 16 then pairingFailed s SmpErrors.INVALID_PARAMETERS
    else onPairingRequest i req (restartTimeout { s with pairingRequestData := some data })

/-- The case `SMP_PAIRING_CONFIRM` of the data handler. -/
def onDataPairingConfirm (c : Crypto) (k : Link) (i : Inputs) (data : List Nat) (s : SlaveState) :
    SlaveState :=
  if notWaitingFor s SMP_PAIRING_CONFIRM then s
  else if data.length != 17 then pairingFailed s SmpErrors.INVALID_PARAMETERS
  else
    let s := { s with initConfirmValue := some (data.drop 1) }
    if s.userPasskey.isSome then afterInitsConfirmAndPasskey c k i s
    else { s with state := STATE_W4_USER_PASSKEY }

/-- The case `SMP_PAIRING_PUBLIC_KEY` of the data handler.  The case does not end with a
`return`, so that control falls through into the case `SMP_PAIRING_CONFIRM`. -/
def onDataPairingPublicKey (c : Crypto) (k : Link) (i : Inputs) (data : List Nat) (s : SlaveState) :
    SlaveState :=
  if notWaitingFor s SMP_PAIRING_PUBLIC_KEY then s
  else if data.length != 65 then pairingFailed s SmpErrors.INVALID_PARAMETERS
  else
    let peerPublicKey := (slice data 1 33, slice data 33 65)
    let s := { s with peerPublicKey := some peerPublicKey }
    let rsp := copyInto c.myEcdhPubKeyY (copyInto c.myEcdhPubKeyX ([SMP_PAIRING_PUBLIC_KEY] ++ bufferAlloc 64) 1) 33
    let s :=
      if s.associationModel == some ASSOCIATION_MODEL_JUST_WORKS
          || s.associationModel == some ASSOCIATION_MODEL_NUMERIC_COMPARISON then
        let s := sendDataFn s rsp none none
        let rspRandomValue := i.random16
        let s := { s with rspRandomValue := some rspRandomValue }
        sendPacket s (bufferFrom [SMP_PAIRING_CONFIRM] ++ Toolbox.f4 c c.myEcdhPubKeyX peerPublicKey.1 rspRandomValue 0)
          (some SMP_PAIRING_RANDOM) none
      else sendPacket s rsp (some SMP_PAIRING_CONFIRM) none
    onDataPairingConfirm c k i data s

/-- The case `SMP_PAIRING_RANDOM` of the data handler.  Each branch reads only the buffers
the source reads in it (the initiator confirm is not read under Just Works and Numeric
Comparison, where the initiator sends none); where a buffer that is read is missing the
source throws.  In the passkey-entry branch the source builds the reply with
`Buffer.concat([SMP_PAIRING_RANDOM])`, a list holding a number; `Buffer.concat` throws on it
before `passkeyBitCounter` is incremented. -/
def onDataPairingRandom (c : Crypto) (k : Link) (data : List Nat) (s : SlaveState) : SlaveState :=
  if notWaitingFor s SMP_PAIRING_RANDOM then s
  else if data.length != 17 then pairingFailed s SmpErrors.INVALID_PARAMETERS
  else
    let initRandomValue := data.drop 1
    let s := { s with initRandomValue := some initRandomValue }
    match s.pairingFeatures with
    | none => act s Action.throwError
    | some pairingFeatures =>
      if !pairingFeatures.sc then
        match s.pairingResponseData, s.pairingRequestData, s.initConfirmValue with
        | some pairingResponseData, some pairingRequestData, some initConfirmValue =>
          let confirmTest := Toolbox.c1 c (passkeyToTk (s.userPasskey.getD 0)) initRandomValue
            pairingResponseData pairingRequestData k.iat k.ia k.rat k.ra
          if !timingSafeEqual initConfirmValue confirmTest then pairingFailed s SmpErrors.CONFIRM_VALUE_FAILED
          else
            match s.rspRandomValue with
            | none => act s Action.throwError
            | some rspRandomValue =>
              sendPacket s (bufferFrom [SMP_PAIRING_RANDOM] ++ rspRandomValue) none
                (some PacketCallback.toW4LtkRequest)
        | _, _, _ => act s Action.throwError
      else if s.associationModel == some ASSOCIATION_MODEL_JUST_WORKS
          || s.associationModel == some ASSOCIATION_MODEL_NUMERIC_COMPARISON then
        let s := { s with numericComparisonOk := false }
        match s.rspRandomValue with
        | none => act s Action.throwError
        | some rspRandomValue =>
          let s := sendPacket s (bufferFrom [SMP_PAIRING_RANDOM] ++ rspRandomValue) (some SMP_DHKEY_CHECK) none
          if s.associationModel == some ASSOCIATION_MODEL_NUMERIC_COMPARISON then
            match s.peerPublicKey with
            | none => act s Action.throwError
            | some peerPublicKey =>
              let comparisonValue :=
                Toolbox.g2 c peerPublicKey.1 c.myEcdhPubKeyX initRandomValue rspRandomValue % 1000000
              emit s (Event.passkeyExchange ASSOCIATION_MODEL_NUMERIC_COMPARISON
                (some (lastSixDigits comparisonValue)) s.runCounter)
          else s
      else
        match s.peerPublicKey, s.initConfirmValue with
        | some peerPublicKey, some initConfirmValue =>
          let confirmTest := Toolbox.f4 c peerPublicKey.1 c.myEcdhPubKeyX initRandomValue
            (passkeyBit (s.userPasskey.getD 0) (s.passkeyBitCounter.getD 0))
          if !timingSafeEqual initConfirmValue confirmTest then pairingFailed s SmpErrors.CONFIRM_VALUE_FAILED
          else act s Action.throwError
        | _, _ => act s Action.throwError

/-- The case `SMP_DHKEY_CHECK` of the data handler. -/
def onDataDHKeyCheck (c : Crypto) (k : Link) (data : List Nat) (s : SlaveState) : SlaveState :=
  if notWaitingFor s SMP_DHKEY_CHECK then s
  else if data.length != 17 then pairingFailed s SmpErrors.INVALID_PARAMETERS
  else
    let s := { s with peerDHKeyCheck := some (data.drop 1) }
    if s.associationModel != some ASSOCIATION_MODEL_NUMERIC_COMPARISON || s.numericComparisonOk then
      afterNumericComparisonOkAndDHKeyCheck c k s
    else { s with state := STATE_W4_USER_NUMERIC_COMPARISON }

/-- The case `SMP_ENCRYPTION_INFORMATION` of the data handler. -/
def onDataEncryptionInformation (data : List Nat) (s : SlaveState) : SlaveState :=
  if notWaitingFor s SMP_ENCRYPTION_INFORMATION then s
  else if data.length != 17 then pairingFailed s SmpErrors.INVALID_PARAMETERS
  else { s with initLtk := some (data.drop 1), packetWaitOpcode := some SMP_MASTER_IDENTIFICATION }

/-- The case `SMP_MASTER_IDENTIFICATION` of the data handler. -/
def onDataMasterIdentification (data : List Nat) (s : SlaveState) : SlaveState :=
  if notWaitingFor s SMP_MASTER_IDENTIFICATION then s
  else if data.length != 11 then pairingFailed s SmpErrors.INVALID_PARAMETERS
  else
    let s := { s with initEdivRand := some (data.drop 1) }
    match s.pairingFeatures with
    | none => act s Action.throwError
    | some pairingFeatures =>
      if pairingFeatures.initKeyDistr.idKey then { s with packetWaitOpcode := some SMP_IDENTITY_INFORMATION }
      else pairingDone s

/-- The case `SMP_IDENTITY_INFORMATION` of the data handler. -/
def onDataIdentityInformation (data : List Nat) (s : SlaveState) : SlaveState :=
  if notWaitingFor s SMP_IDENTITY_INFORMATION then s
  else if data.length != 17 then pairingFailed s SmpErrors.INVALID_PARAMETERS
  else { s with initIrk := some (data.drop 1), packetWaitOpcode := some SMP_IDENTITY_ADDRESS_INFORMATION }

/-- The case `SMP_IDENTITY_ADDRESS_INFORMATION` of the data handler. -/
def onDataIdentityAddressInformation (data : List Nat) (s : SlaveState) : SlaveState :=
  if notWaitingFor s SMP_IDENTITY_ADDRESS_INFORMATION then s
  else if data.length != 8 then pairingFailed s SmpErrors.INVALID_PARAMETERS
  else
    let info : IdentityAddress := { addressType := byteAt data 1 != 0, address := data.drop 2 }
    pairingDone { s with initIdentityAddressInformation := some info }

/-- The case `SMP_KEYPRESS_NOTIFICATION` of the data handler. -/
def onDataKeypressNotification (data : List Nat) (s : SlaveState) : SlaveState :=
  if s.passkeyBitCounter != some 0 then s
  else if !((s.packetWaitOpcode == some SMP_PAIRING_CONFIRM
        && (s.state == STATE_W4_PACKET || s.state == STATE_W4_PACKET_ENQUEUED))
      || (s.packetWaitOpcode == some SMP_PAIRING_PUBLIC_KEY && s.state == STATE_W4_PACKET)) then s
  else if data.length != 2 then pairingFailed s SmpErrors.INVALID_PARAMETERS
  else
    match s.pairingFeatures with
    | none => act s Action.throwError
    | some pairingFeatures =>
      if !pairingFeatures.keypress || s.initIoCap != some IO_CAP_KEYBOARD_ONLY
          || s.associationModel == some ASSOCIATION_MODEL_JUST_WORKS then s
      else emit s (Event.keypress (byteAt data 1))

/-- The case `SMP_PAIRING_FAILED` of the data handler. -/
def onDataPairingFailed (data : List Nat) (s : SlaveState) : SlaveState :=
  if data.length != 2 then s
  else
    let reason := byteAt data 1
    emit { timeoutClearFn s with state := STATE_IDLE, runCounter := s.runCounter + 1 }
      (Event.pairingFail reason true)

/-- The function registered with `registerOnDataFn`: a PDU arrives. -/
def onData (c : Crypto) (k : Link) (i : Inputs) (data : List Nat) (s : SlaveState) : SlaveState :=
  if data.length == 0 || s.state == STATE_TIMEDOUT then s
  else
    let opcode := byteAt data 0
    if opcode == 0x00 || opcode >= 0x0f then s
    else if opcode == SMP_PAIRING_REQUEST then onDataPairingRequest i data s
    else if opcode == SMP_PAIRING_PUBLIC_KEY then onDataPairingPublicKey c k i data s
    else if opcode == SMP_PAIRING_CONFIRM then onDataPairingConfirm c k i data s
    else if opcode == SMP_PAIRING_RANDOM then onDataPairingRandom c k data s
    else if opcode == SMP_DHKEY_CHECK then onDataDHKeyCheck c k data s
    else if opcode == SMP_ENCRYPTION_INFORMATION then onDataEncryptionInformation data s
    else if opcode == SMP_MASTER_IDENTIFICATION then onDataMasterIdentification data s
    else if opcode == SMP_IDENTITY_INFORMATION then onDataIdentityInformation data s
    else if opcode == SMP_IDENTITY_ADDRESS_INFORMATION then onDataIdentityAddressInformation data s
    else if opcode == SMP_KEYPRESS_NOTIFICATION then onDataKeypressNotification data s
    else if opcode == SMP_PAIRING_FAILED then onDataPairingFailed data s
    else pairingFailed s SmpErrors.COMMAND_NOT_SUPPORTED

/-- The transport calls a closure it received with a PDU. -/
def onCallback (cb : Callback) (s : SlaveState) : SlaveState :=
  match cb with
  | Callback.failedMsgSent => { s with hasOutgoingFailedMsg := false }
  | Callback.packetSent thisRunCounter callback =>
    if s.runCounter != thisRunCounter then s
    else
      match callback with
      | some PacketCallback.toW4LtkRequest => { s with state := STATE_W4_LTK_REQUEST }
      | none => { s with state := STATE_W4_PACKET }
  | Callback.lastAck thisRunCounter =>
    if s.runCounter != thisRunCounter then s else pairingDone s

/-- One received PDU as a step: what the session does (the actions of this step only) and
the session afterwards. -/
def receive (c : Crypto) (k : Link) (i : Inputs) (data : List Nat) (s : SlaveState) :
    SlaveState × List Action :=
  let s' := onData c k i data { s with log := [] }
  ({ s' with log := s.log ++ s'.log }, s'.log)

/-- The callback passed with the passkey-exchange event by `cont`, with the `ignore` and
`thisRunCounter` it captured; `passkeyResponse` is the integer the user value denotes (a
number, or a string of one to six digits), `none` for any other value. -/
def passkeyCallback (c : Crypto) (k : Link) (i : Inputs) (ignore : Bool) (thisRunCounter : Nat)
    (passkeyResponse : Option Int) (s : SlaveState) : SlaveState :=
  if ignore then s
  else
    match passkeyResponse with
    | none => act s Action.throwError
    | some v =>
      if !(0 ≤ v && v ≤ 999999) then act s Action.throwError
      else if s.runCounter != thisRunCounter then s
      else if s.userPasskey.isNone then
        let s := { s with userPasskey := some v.toNat }
        if s.state == STATE_W4_USER_PASSKEY then afterInitsConfirmAndPasskey c k i s else s
      else s

/-- The callback passed with the passkey-exchange event of Numeric Comparison, with the
`thisRunCounter` it captured. -/
def numericComparisonCallback (c : Crypto) (k : Link) (thisRunCounter : Nat) (s : SlaveState) :
    SlaveState :=
  if s.runCounter != thisRunCounter then s
  else
    let s := { s with numericComparisonOk := true }
    if s.state == STATE_W4_USER_NUMERIC_COMPARISON then afterNumericComparisonOkAndDHKeyCheck c k s else s

/-- The function registered with `registerLtkRequestFn`: the controller asks for a key.
The closure handed to `ltkReplyCallback` runs as a later step (`onLtkReplyDone`). -/
def onLtkRequest (c : Crypto) (randNb : List Nat) (ediv : Nat) (s : SlaveState) : SlaveState :=
  if s.state == STATE_W4_LTK_REQUEST && bufferAlloc 8 == randNb && ediv == 0 then
    let s := { s with state := STATE_W4_ENCRYPTION_STARTED }
    match s.pairingFeatures with
    | none => act s Action.throwError
    | some pairingFeatures =>
      if pairingFeatures.sc then
        match s.generatedLtk with
        | none => act s Action.throwError
        | some generatedLtk => act s (Action.ltkReply (some (padKey generatedLtk)) LtkReplyDone.afterPairing)
      else
        match s.rspRandomValue, s.initRandomValue with
        | some rspRandomValue, some initRandomValue =>
          let stk := slice (Toolbox.s1 c (passkeyToTk (s.userPasskey.getD 0)) rspRandomValue initRandomValue)
            0 pairingFeatures.maxKeySize
          act s (Action.ltkReply (some (padKey stk)) LtkReplyDone.afterPairing)
        | _, _ => act s Action.throwError
  else
    let clearState := s.state == STATE_W4_PACKET && s.packetWaitOpcode == some SMP_PAIRING_REQUEST
    let s := if clearState then timeoutClearFn s else s
    match s.availableLtk with
    | some ltk =>
      if randNb == ltk.rand && ediv == ltk.ediv then
        act s (Action.ltkReply (some (padKey ltk.ltk)) (LtkReplyDone.withStoredKey ltk clearState))
      else act s (Action.ltkReply none (LtkReplyDone.refused clearState))
    | none => act s (Action.ltkReply none (LtkReplyDone.refused clearState))

/-- The statement `isEncrypted = true; smp.emit('encrypt', 0, currentEncryptionLevel = ...)`
of the closure passed with the key of a pairing. -/
def encryptedAfterPairing (pairingFeatures : PairingFeatures) (s : SlaveState) : SlaveState :=
  let level : EncryptionLevel :=
    { mitm := pairingFeatures.mitm, sc := pairingFeatures.sc, keySize := some pairingFeatures.maxKeySize }
  emit { s with isEncrypted := true, currentEncryptionLevel := some level } (Event.encrypt 0 (some level))

/-- The closure passed to `ltkReplyCallback` with the key of a pairing: encryption has
started, the responder distributes its keys. -/
def onLtkReplyDoneAfterPairing (k : Link) (i : Inputs) (s : SlaveState) : SlaveState :=
  match s.pairingFeatures with
  | none =>
    if s.state == STATE_W4_ENCRYPTION_STARTED then act s Action.throwError
    else act { s with isEncrypted := true } Action.throwError
  | some pairingFeatures =>
    if s.state == STATE_W4_ENCRYPTION_STARTED then
      let r :=
        if !pairingFeatures.sc && pairingFeatures.rspKeyDistr.encKey then
          let randomBytes := zeroKeyTail i.random26 pairingFeatures.maxKeySize
          let rspLtk := slice randomBytes 0 16
          let rspEdivRand := randomBytes.drop 16
          ({ s with rspLtk := some rspLtk, rspEdivRand := some rspEdivRand },
            [bufferFrom [SMP_ENCRYPTION_INFORMATION] ++ rspLtk,
             bufferFrom [SMP_MASTER_IDENTIFICATION] ++ rspEdivRand])
        else (s, [])
      let s := r.1
      let packets := r.2 ++
        (if pairingFeatures.rspKeyDistr.idKey then
          [[SMP_IDENTITY_INFORMATION] ++ bufferAlloc 16,
           copyInto k.ra ([SMP_IDENTITY_ADDRESS_INFORMATION, k.rat % 256] ++ bufferAlloc 6) 2]
         else [])
      let s := packets.dropLast.foldl (fun s p => sendDataFn (restartTimeout s) p none none) s
      if (!pairingFeatures.sc && pairingFeatures.initKeyDistr.encKey) || pairingFeatures.initKeyDistr.idKey then
        let nextPacketToReceive :=
          if !pairingFeatures.sc && pairingFeatures.initKeyDistr.encKey then SMP_ENCRYPTION_INFORMATION
          else SMP_IDENTITY_INFORMATION
        match packets.getLast? with
        | some lastPacket =>
          encryptedAfterPairing pairingFeatures (sendPacket s lastPacket (some nextPacketToReceive) none)
        | none =>
          encryptedAfterPairing pairingFeatures
            { s with state := STATE_W4_PACKET, packetWaitOpcode := some nextPacketToReceive }
      else
        match packets.getLast? with
        | some lastPacket =>
          let s := { s with state := STATE_W4_LAST_ACK }
          let thisRunCounter := s.runCounter
          encryptedAfterPairing pairingFeatures
            (sendDataFn (restartTimeout s) lastPacket none (some (Callback.lastAck thisRunCounter)))
        | none =>
          let s := encryptedAfterPairing pairingFeatures s
          if s.state == STATE_W4_ENCRYPTION_STARTED then pairingDone s else s
    else encryptedAfterPairing pairingFeatures s

/-- The controller reports the outcome of a key reply: the closure handed over with that
reply runs.  With a stored key the event carries `{mitm: ltk.mitm, sc: ltk.mitm,
keySize: ltk.length}`, where `ltk` is the stored-key object, which has no `length`. -/
def onLtkReplyDone (k : Link) (i : Inputs) (d : LtkReplyDone) (s : SlaveState) : SlaveState :=
  match d with
  | LtkReplyDone.afterPairing => onLtkReplyDoneAfterPairing k i s
  | LtkReplyDone.withStoredKey ltk clearState =>
    let s := { s with isEncrypted := true }
    let s := if clearState then { s with state := STATE_IDLE } else s
    let level : EncryptionLevel := { mitm := ltk.mitm, sc := ltk.mitm, keySize := none }
    emit { s with currentEncryptionLevel := some level } (Event.encrypt 0 (some level))
  | LtkReplyDone.refused clearState =>
    let s := if clearState then { s with state := STATE_IDLE } else s
    emit s (Event.encrypt Errors.HCI_PIN_OR_KEY_MISSING none)

/-- The method `setAvailableLtk`, on arguments of the right JavaScript types. -/
def setAvailableLtk (ltk rand : List Nat) (ediv : Nat) (mitm sc : Bool) (s : SlaveState) : SlaveState :=
  if ltk.length < 7 || ltk.length > 16 then act s Action.throwError
  else if rand.length != 8 then act s Action.throwError
  else if ediv > 0xffff then act s Action.throwError
  else { s with availableLtk := some { ltk := ltk, rand := rand, ediv := ediv, mitm := mitm, sc := sc } }

/-- The method `sendSecurityRequest`. -/
def sendSecurityRequest (bond mitm keypress : Bool) (s : SlaveState) : SlaveState :=
  let authReq := (if bond then 1 else 0) ||| (if mitm then 4 else 0) ||| (if SC_IS_SUPPORTED then 8 else 0)
    ||| (if keypress then 16 else 0)
  if s.state == STATE_IDLE then
    let s := { s with state := STATE_W4_PACKET, packetWaitOpcode := some SMP_PAIRING_REQUEST }
    sendDataFn (restartTimeout s) (bufferFrom [SMP_SECURITY_REQUEST, authReq]) none none
  else s

/-- The method `sendPairingFailed`. -/
def sendPairingFailed (reason : Nat) (s : SlaveState) : SlaveState :=
  if s.state != STATE_IDLE && s.state != STATE_TIMEDOUT then pairingFailed s reason else s

/-- The method `sendKeypressNotification`; `notificationType` is `none` for a value that is
not an integer. -/
def sendKeypressNotification (notificationType : Option Int) (s : SlaveState) : SlaveState :=
  match notificationType with
  | none => act s Action.throwError
  | some v =>
    if v < 0 || v > 5 then act s Action.throwError
    else
      match s.pairingFeatures with
      | none => act s Action.throwError
      | some pairingFeatures =>
        if pairingFeatures.ioCap != IO_CAP_KEYBOARD_ONLY || !pairingFeatures.keypress
            || s.associationModel == some ASSOCIATION_MODEL_JUST_WORKS then s
        else if s.passkeyBitCounter != some 0 then s
        else if !(((s.state == STATE_W4_PACKET || s.state == STATE_W4_PACKET_ENQUEUED)
              && s.packetWaitOpcode == some SMP_PAIRING_CONFIRM)
            || (s.state == STATE_W4_PACKET && s.packetWaitOpcode == some SMP_PAIRING_PUBLIC_KEY)
            || s.state == STATE_W4_USER_PASSKEY) then s
        else sendDataFn (restartTimeout s) (bufferFrom [SMP_KEYPRESS_NOTIFICATION, v.toNat]) none none

end SmpSlaveConnection

/-! ## The Initiator Session: `SmpMasterConnection` -/

/-- The closure variables of `SmpMasterConnection`, with `runCounter`, `timeoutPending`
and `sendDisabled` as in the responder. -/
structure MasterState where
  state : Nat
  packetWaitOpcode : Option Nat
  availableLtk : Option AvailableLtk
  isBonded : Bool
  encryptionProcessWithLtk : Bool
  timeoutPending : Bool
  sendDisabled : Bool
  runCounter : Nat
  userHandledRequest : Bool
  hasOutgoingFailedMsg : Bool
  pairingRequestData : Option (List Nat)
  pairingResponseData : Option (List Nat)
  pairingFeatures : Option PairingFeatures
  associationModel : Option Nat
  initIoCap : Option Nat
  rspIoCap : Option Nat
  peerPublicKey : Option (List Nat × List Nat)
  userPasskey : Option Nat
  passkeyBitCounter : Option Nat
  rspConfirmValue : Option (List Nat)
  initRandomValue : Option (List Nat)
  rspRandomValue : Option (List Nat)
  expectedEb : Option (List Nat)
  generatedLtk : Option (List Nat)
  rspLtk : Option (List Nat)
  rspEdivRand : Option (List Nat)
  initLtk : Option (List Nat)
  initEdivRand : Option (List Nat)
  rspIrk : Option (List Nat)
  rspIdentityAddressInformation : Option IdentityAddress
  savedPairingFailedReason : Option Nat
  isEncrypted : Bool
  currentEncryptionLevel : Option EncryptionLevel
  log : List Action
  deriving DecidableEq, Repr

namespace SmpMasterConnection

/-- The session as the constructor leaves it; `stored` is the peer key found in the
storage, if any. -/
def init (stored : Option AvailableLtk) : MasterState :=
  { state := STATE_IDLE, packetWaitOpcode := none, availableLtk := stored, isBonded := stored.isSome,
    encryptionProcessWithLtk := false, timeoutPending := false, sendDisabled := false,
    runCounter := 0, userHandledRequest := false, hasOutgoingFailedMsg := false,
    pairingRequestData := none, pairingResponseData := none, pairingFeatures := none,
    associationModel := none, initIoCap := none, rspIoCap := none, peerPublicKey := none,
    userPasskey := none, passkeyBitCounter := none, rspConfirmValue := none,
    initRandomValue := none, rspRandomValue := none, expectedEb := none, generatedLtk := none,
    rspLtk := none, rspEdivRand := none, initLtk := none, initEdivRand := none, rspIrk := none,
    rspIdentityAddressInformation := none, savedPairingFailedReason := none, isEncrypted := false,
    currentEncryptionLevel := none, log := [] }

def act (s : MasterState) (a : Action) : MasterState := { s with log := s.log ++ [a] }

def emit (s : MasterState) (e : Event) : MasterState := act s (Action.emit e)

/-- The variable `sendDataFn`: the transport function, or the empty function after a
timeout. -/
def sendDataFn (s : MasterState) (data : List Nat) (sentCallback completeCallback : Option Callback) :
    MasterState :=
  if s.sendDisabled then s else act s (Action.sendData data sentCallback completeCallback)

/-- The call `timeoutClearFn()`. -/
def timeoutClearFn (s : MasterState) : MasterState := { s with timeoutPending := false }

def restartTimeout (s : MasterState) : MasterState := { timeoutClearFn s with timeoutPending := true }

/-- The function passed to `connection.setTimeout`, run when the armed timer expires. -/
def onTimeout (i : Inputs) (s : MasterState) : MasterState :=
  if !s.timeoutPending then s else
  let s := { s with timeoutPending := false, runCounter := s.runCounter + 1, state := STATE_TIMEDOUT,
                    sendDisabled := true }
  if i.timeoutListener then emit s Event.timeout else act s Action.disconnect

def pairingFailed (s : MasterState) (reason : Nat) (isErrorFromRemote : Bool) : MasterState :=
  let s := timeoutClearFn s
  let s :=
    if !s.hasOutgoingFailedMsg && !isErrorFromRemote then
      sendDataFn { s with hasOutgoingFailedMsg := true } (bufferFrom [SMP_PAIRING_FAILED, reason])
        (some Callback.failedMsgSent) none
    else s
  let s := { s with state := STATE_IDLE, runCounter := s.runCounter + 1 }
  if !s.encryptionProcessWithLtk then emit s (Event.pairingFail reason isErrorFromRemote) else s

/-- The function `pairingDone`.  It is only reached after `pairingFeatures` has been set;
without it the source throws at `pairingFeatures.sc`. -/
def pairingDone (s : MasterState) : MasterState :=
  let s := { timeoutClearFn s with state := STATE_IDLE, runCounter := s.runCounter + 1 }
  match s.pairingFeatures with
  | none => act s Action.throwError
  | some pairingFeatures =>
    let sc := pairingFeatures.sc
    let res : PairingResult :=
      { sc := sc
        mitm := pairingFeatures.mitm && s.associationModel != some ASSOCIATION_MODEL_JUST_WORKS
        bond := pairingFeatures.bondingFlags != 0
        rspEdiv := if sc then some 0 else s.rspEdivRand.map readUInt16LE
        rspRand := if sc then some (bufferAlloc 8) else s.rspEdivRand.map (fun b => b.drop 2)
        rspLtk := if sc then s.generatedLtk else s.rspLtk
        initEdiv := if sc then some 0 else s.initEdivRand.map readUInt16LE
        initRand := if sc then some (bufferAlloc 8) else s.initEdivRand.map (fun b => b.drop 2)
        initLtk := if sc then s.generatedLtk else s.initLtk
        irk := s.rspIrk
        identityAddress := s.rspIdentityAddressInformation }
    let s :=
      match res.identityAddress with
      | some a => if a.address ≠ bufferAlloc 6 then act s (Action.updateIdentityAddress a) else s
      | none => s
    let s :=
      if res.bond then act { act s (Action.storeKeys res) with isBonded := true } Action.bondDone else s
    let s :=
      match res.bond, res.rspLtk with
      | true, some rspLtk =>
        { s with availableLtk := some { ltk := rspLtk, rand := res.rspRand.getD [], ediv := res.rspEdiv.getD 0,
                                        mitm := res.mitm, sc := res.sc } }
      | _, _ => s
    emit s (Event.pairingComplete res)

/-- The function `sendPacket`; the initiator never passes a callback. -/
def sendPacket (s : MasterState) (data : List Nat) (nextPacketOpcode : Option Nat) : MasterState :=
  if s.state == STATE_TIMEDOUT then s else
  let s := { restartTimeout s with state := STATE_W4_PACKET_ENQUEUED }
  let s := { s with packetWaitOpcode := nextPacketOpcode }
  let thisRunCounter := s.runCounter
  sendDataFn s data (some (Callback.packetSent thisRunCounter none)) none

def startPairingRequest (req : Option UserFeatures) (s : MasterState) : MasterState :=
  let req := fixFeaturesFromUser req
  let req := { req with bondingFlags := req.bondingFlags &&&
    (if req.initKeyDistr.encKey || req.initKeyDistr.idKey || req.rspKeyDistr.encKey || req.rspKeyDistr.idKey
        || SC_IS_SUPPORTED then 1 else 0) }
  let pairingRequestData := buildPairingFeaturesPacket SMP_PAIRING_REQUEST req
  sendPacket { s with pairingRequestData := some pairingRequestData } pairingRequestData
    (some SMP_PAIRING_RESPONSE)

/-- The function `cont` of `askStartPairing`, with the `thisRunCounter` it captured. -/
def cont (thisRunCounter : Nat) (req : Option UserFeatures) (s : MasterState) : MasterState :=
  if s.state != STATE_W4_USER_FEATURES || s.runCounter != thisRunCounter then s
  else startPairingRequest req s

def askStartPairing (i : Inputs) (bondingFlags : Nat) (mitm sc keypress : Bool) (s : MasterState) :
    MasterState :=
  let s := { restartTimeout s with state := STATE_W4_USER_FEATURES }
  let thisRunCounter := s.runCounter
  match i.pairingRequestHandler with
  | PairingRequestHandler.defers =>
    emit { s with userHandledRequest := true }
      (Event.securityRequest bondingFlags mitm sc keypress thisRunCounter)
  | PairingRequestHandler.answers req =>
    cont thisRunCounter req (emit { s with userHandledRequest := true }
      (Event.securityRequest bondingFlags mitm sc keypress thisRunCounter))
  | PairingRequestHandler.absent =>
    if s.isBonded then
      if !mitm && !s.isEncrypted then pairingFailed s SmpErrors.AUTHENTICATION_REQUIREMENTS false
      else cont thisRunCounter none { s with userHandledRequest := false }
    else cont thisRunCounter none s

/-- The function `timingSafeEqual`, on buffers of equal length. -/
def timingSafeEqual (a b : List Nat) : Bool := a == b

/-- The function `sendConfirm`.  The buffers it reads have been set when it is reached;
where one is missing the source throws. -/
def sendConfirm (c : Crypto) (k : Link) (i : Inputs) (s : MasterState) : MasterState :=
  let initRandomValue := i.random16
  let s := { s with initRandomValue := some initRandomValue }
  match s.pairingFeatures with
  | none => act s Action.throwError
  | some pairingFeatures =>
    if !pairingFeatures.sc then
      match s.pairingResponseData, s.pairingRequestData with
      | some pairingResponseData, some pairingRequestData =>
        let initConfirmValue := Toolbox.c1 c (passkeyToTk (s.userPasskey.getD 0)) initRandomValue
          pairingResponseData pairingRequestData k.iat k.ia k.rat k.ra
        sendPacket s (bufferFrom [SMP_PAIRING_CONFIRM] ++ initConfirmValue) (some SMP_PAIRING_CONFIRM)
      | _, _ => act s Action.throwError
    else
      match s.peerPublicKey with
      | some peerPublicKey =>
        let initConfirmValue := Toolbox.f4 c c.myEcdhPubKeyX peerPublicKey.1 initRandomValue
          (passkeyBit (s.userPasskey.getD 0) (s.passkeyBitCounter.getD 0))
        sendPacket s (bufferFrom [SMP_PAIRING_CONFIRM] ++ initConfirmValue) (some SMP_PAIRING_CONFIRM)
      | none => act s Action.throwError

def startPasskeyExchange (c : Crypto) (k : Link) (i : Inputs) (s : MasterState) : MasterState :=
  if s.associationModel != some ASSOCIATION_MODEL_JUST_WORKS
      && s.associationModel != some ASSOCIATION_MODEL_NUMERIC_COMPARISON then
    let s := { s with state := STATE_W4_USER_PASSKEY }
    let thisRunCounter := s.runCounter
    let ignore := s.associationModel == some ASSOCIATION_MODEL_PASSKEY_ENTRY_RSP_INPUTS
    let s := emit s (Event.passkeyExchange (s.associationModel.getD 0) (s.userPasskey.map lastSixDigits)
      thisRunCounter)
    if ignore then sendConfirm c k i s else s
  else
    match s.pairingFeatures with
    | none => act s Action.throwError
    | some pairingFeatures =>
      if pairingFeatures.sc then
        { s with initRandomValue := some i.random16, state := STATE_W4_PACKET,
                 packetWaitOpcode := some SMP_PAIRING_CONFIRM }
      else sendConfirm c k i s

/-- The callback passed with the passkey-exchange event by `startPasskeyExchange`, with
the `ignore` and `thisRunCounter` it captured; `passkeyResponse` is the integer the user
value denotes (a number, or a string of one to six digits), `none` for any other value. -/
def passkeyCallback (c : Crypto) (k : Link) (i : Inputs) (ignore : Bool) (thisRunCounter : Nat)
    (passkeyResponse : Option Int) (s : MasterState) : MasterState :=
  if ignore then s
  else
    match passkeyResponse with
    | none => act s Action.throwError
    | some v =>
      if !(0 ≤ v && v ≤ 999999) then act s Action.throwError
      else if s.state != STATE_W4_USER_PASSKEY || s.runCounter != thisRunCounter then s
      else if s.userPasskey.isNone then sendConfirm c k i { s with userPasskey := some v.toNat }
      else s

def startEncryptionAfterPairing (c : Crypto) (s : MasterState) : MasterState :=
  match s.pairingFeatures with
  | none => act s Action.throwError
  | some pairingFeatures =>
    let stk :=
      if pairingFeatures.sc then s.generatedLtk.getD []
      else slice (Toolbox.s1 c (passkeyToTk (s.userPasskey.getD 0)) (s.rspRandomValue.getD [])
        (s.initRandomValue.getD [])) 0 pairingFeatures.maxKeySize
    act { s with state := STATE_W4_ENCRYPTION_STARTED }
      (Action.startEncryption (bufferAlloc 8) 0 (padKey stk) EncryptionStart.afterPairing)

/-- The function `sendDHKeyCheck` nested in `onPairingRandom`. -/
def sendDHKeyCheck (c : Crypto) (k : Link) (s : MasterState) : MasterState :=
  match s.peerPublicKey, s.initRandomValue, s.rspRandomValue, s.pairingFeatures, s.pairingRequestData,
    s.pairingResponseData with
  | some peerPublicKey, some initRandomValue, some rspRandomValue, some pairingFeatures,
    some pairingRequestData, some pairingResponseData =>
    match generateLtkEaEb c peerPublicKey k.ia k.iat k.ra k.rat initRandomValue rspRandomValue
        (s.userPasskey.getD 0) pairingFeatures.maxKeySize (slice pairingRequestData 1 4)
        (slice pairingResponseData 1 4) with
    | none => pairingFailed s SmpErrors.INVALID_PARAMETERS false
    | some res =>
      sendPacket { s with expectedEb := some res.Eb, generatedLtk := some res.ltk }
        (bufferFrom [SMP_DHKEY_CHECK] ++ res.Ea) (some SMP_DHKEY_CHECK)
  | _, _, _, _, _, _ => act s Action.throwError

def onPairingRandom (c : Crypto) (k : Link) (i : Inputs) (s : MasterState) : MasterState :=
  match s.pairingFeatures, s.rspConfirmValue, s.rspRandomValue with
  | some pairingFeatures, some rspConfirmValue, some rspRandomValue =>
    if pairingFeatures.sc then
      match s.peerPublicKey with
      | none => act s Action.throwError
      | some peerPublicKey =>
        let usePasskey := s.associationModel != some ASSOCIATION_MODEL_JUST_WORKS
          && s.associationModel != some ASSOCIATION_MODEL_NUMERIC_COMPARISON
        let z := if usePasskey then passkeyBit (s.userPasskey.getD 0) (s.passkeyBitCounter.getD 0) else 0
        if !timingSafeEqual rspConfirmValue (Toolbox.f4 c peerPublicKey.1 c.myEcdhPubKeyX rspRandomValue z) then
          pairingFailed s SmpErrors.CONFIRM_VALUE_FAILED false
        else if s.associationModel == some ASSOCIATION_MODEL_JUST_WORKS then sendDHKeyCheck c k s
        else if s.associationModel == some ASSOCIATION_MODEL_NUMERIC_COMPARISON then
          let comparisonValue :=
            Toolbox.g2 c c.myEcdhPubKeyX peerPublicKey.1 (s.initRandomValue.getD []) rspRandomValue % 1000000
          let thisRunCounter := s.runCounter
          emit { s with state := STATE_W4_USER_NUMERIC_COMPARISON }
            (Event.passkeyExchange ASSOCIATION_MODEL_NUMERIC_COMPARISON (some (lastSixDigits comparisonValue))
              thisRunCounter)
        else
          let s := { s with passkeyBitCounter := some (s.passkeyBitCounter.getD 0 + 1) }
          if s.passkeyBitCounter.getD 0 < 20 then sendConfirm c k i s else sendDHKeyCheck c k s
    else
      match s.pairingResponseData, s.pairingRequestData with
      | some pairingResponseData, some pairingRequestData =>
        if !timingSafeEqual rspConfirmValue (Toolbox.c1 c (passkeyToTk (s.userPasskey.getD 0)) rspRandomValue
            pairingResponseData pairingRequestData k.iat k.ia k.rat k.ra) then
          pairingFailed s SmpErrors.CONFIRM_VALUE_FAILED false
        else startEncryptionAfterPairing c s
      | _, _ => act s Action.throwError
  | _, _, _ => act s Action.throwError

def onPairingResponse (c : Crypto) (k : Link) (i : Inputs) (s : MasterState) : MasterState :=
  match s.pairingRequestData, s.pairingResponseData with
  | some pairingRequestData, some pairingResponseData =>
    let req := parsePairingReqRsp pairingRequestData
    let rsp := parsePairingReqRsp pairingResponseData
    if rsp.maxKeySize < 7 || rsp.maxKeySize > 16 then pairingFailed s SmpErrors.INVALID_PARAMETERS false
    else
      let rsp := bitwiseAndKeys rsp req
      let pairingFeatures := combineAuthReq rsp req
      let associationModel := getAssociationModel req.ioCap rsp.ioCap pairingFeatures.sc pairingFeatures.mitm
      let s := { s with pairingFeatures := some pairingFeatures, associationModel := some associationModel,
                        initIoCap := some req.ioCap, rspIoCap := some rsp.ioCap }
      if !s.userHandledRequest && s.isBonded && !s.isEncrypted
          && associationModel == ASSOCIATION_MODEL_JUST_WORKS then
        pairingFailed s SmpErrors.AUTHENTICATION_REQUIREMENTS false
      else
        let userPasskey := initialPasskey associationModel ASSOCIATION_MODEL_PASSKEY_ENTRY_RSP_INPUTS i.random4
        let s := { s with userPasskey := userPasskey, rspLtk := none, rspEdivRand := none, initLtk := none,
                          initEdivRand := none, rspIrk := none, rspIdentityAddressInformation := none,
                          passkeyBitCounter := some 0 }
        if pairingFeatures.sc then
          let p := copyInto c.myEcdhPubKeyY
            (copyInto c.myEcdhPubKeyX ([SMP_PAIRING_PUBLIC_KEY] ++ bufferAlloc 64) 1) 33
          sendPacket s p (some SMP_PAIRING_PUBLIC_KEY)
        else startPasskeyExchange c k i s
  | _, _ => act s Action.throwError

def onDHKeyCheck (c : Crypto) (eb : List Nat) (s : MasterState) : MasterState :=
  match s.expectedEb with
  | none => act s Action.throwError
  | some expectedEb =>
    if !timingSafeEqual eb expectedEb then pairingFailed s SmpErrors.DHKEY_CHECK_FAILED false
    else startEncryptionAfterPairing c s

def startDistributeOwnKeys (k : Link) (i : Inputs) (s : MasterState) : MasterState :=
  match s.pairingFeatures with
  | none => act s Action.throwError
  | some pairingFeatures =>
    let r :=
      if !pairingFeatures.sc && pairingFeatures.initKeyDistr.encKey then
        let randomBytes := zeroKeyTail i.random26 pairingFeatures.maxKeySize
        let initLtk := slice randomBytes 0 16
        let initEdivRand := randomBytes.drop 16
        ({ s with initLtk := some initLtk, initEdivRand := some initEdivRand },
          [bufferFrom [SMP_ENCRYPTION_INFORMATION] ++ initLtk,
           bufferFrom [SMP_MASTER_IDENTIFICATION] ++ initEdivRand])
      else (s, [])
    let s := r.1
    let packets := r.2 ++
      (if pairingFeatures.initKeyDistr.idKey then
        [[SMP_IDENTITY_INFORMATION] ++ bufferAlloc 16,
         copyInto k.ia ([SMP_IDENTITY_ADDRESS_INFORMATION, k.iat % 256] ++ bufferAlloc 6) 2]
       else [])
    let s := packets.dropLast.foldl (fun s p => sendDataFn (restartTimeout s) p none none) s
    match packets.getLast? with
    | some lastPacket =>
      let s := { s with state := STATE_W4_LAST_ACK }
      let thisRunCounter := s.runCounter
      sendDataFn (restartTimeout s) lastPacket none (some (Callback.lastAck thisRunCounter))
    | none => pairingDone s

def onPairingFailed (reason : Nat) (s : MasterState) : MasterState :=
  if s.state == STATE_W4_ENCRYPTION_STARTED && !s.encryptionProcessWithLtk then
    { s with state := STATE_CANCELLED_BY_PEER_AND_W4_ENCRYPTION_STARTED, savedPairingFailedReason := some reason }
  else if s.state == STATE_CANCELLED_BY_PEER_AND_W4_ENCRYPTION_STARTED
      || s.state == STATE_CANCELLED_BY_LOCAL_AND_W4_ENCRYPTION_STARTED then s
  else pairingFailed s reason true

/-- The inner function `sendPairingFailed` (the public method of the same name guards it). -/
def sendPairingFailed (reason : Nat) (s : MasterState) : MasterState :=
  if s.state == STATE_TIMEDOUT || s.state == STATE_CANCELLED_BY_PEER_AND_W4_ENCRYPTION_STARTED
      || s.state == STATE_CANCELLED_BY_LOCAL_AND_W4_ENCRYPTION_STARTED then s
  else if s.state == STATE_W4_ENCRYPTION_STARTED && !s.encryptionProcessWithLtk then
    { s with state := STATE_CANCELLED_BY_LOCAL_AND_W4_ENCRYPTION_STARTED, savedPairingFailedReason := some reason }
  else pairingFailed s reason false

/-- The function `startEncryptWithAvailableLtk` up to the call of `startEncryptionFn`;
the callback it passes is a later step. -/
def startEncryptWithAvailableLtk (isSecReq : Bool) (bondingFlags : Nat) (mitm sc keypress : Bool)
    (s : MasterState) : MasterState :=
  let s := { s with state := STATE_W4_ENCRYPTION_STARTED, encryptionProcessWithLtk := true }
  match s.availableLtk with
  | none => act s Action.throwError
  | some availableLtk =>
    act s (Action.startEncryption availableLtk.rand availableLtk.ediv (padKey availableLtk.ltk)
      (EncryptionStart.withAvailableLtk isSecReq bondingFlags mitm sc keypress))

/-- The test `state != STATE_W4_PACKET || packetWaitOpcode != opcode` that opens most cases
of the data handler. -/
def notWaitingFor (s : MasterState) (opcode : Nat) : Bool :=
  s.state != STATE_W4_PACKET || s.packetWaitOpcode != some opcode

/-- The case `SMP_SECURITY_REQUEST` of the data handler. -/
def onDataSecurityRequest (i : Inputs) (data : List Nat) (s : MasterState) : MasterState :=
  if s.state != STATE_IDLE then s
  else if data.length != 2 then pairingFailed s SmpErrors.INVALID_PARAMETERS false
  else
    let bondingFlags := byteAt data 1 &&& 3
    let mitm := (byteAt data 1 &&& 4) != 0
    let sc := (byteAt data 1 &&& 8) != 0
    let keypress := (byteAt data 1 &&& 16) != 0
    match s.availableLtk with
    | some availableLtk =>
      if availableLtk.ltk.length == 16 && (availableLtk.mitm || !mitm) && (availableLtk.sc || !sc) then
        startEncryptWithAvailableLtk true bondingFlags mitm sc keypress s
      else askStartPairing i bondingFlags mitm sc keypress s
    | none => askStartPairing i bondingFlags mitm sc keypress s

/-- The case `SMP_PAIRING_RESPONSE` of the data handler. -/
def onDataPairingResponse (c : Crypto) (k : Link) (i : Inputs) (data : List Nat) (s : MasterState) :
    MasterState :=
  if notWaitingFor s SMP_PAIRING_RESPONSE then s
  else if data.length != 7 then pairingFailed s SmpErrors.INVALID_PARAMETERS false
  else onPairingResponse c k i { s with pairingResponseData := some data }

/-- The case `SMP_PAIRING_PUBLIC_KEY` of the data handler. -/
def onDataPairingPublicKey (c : Crypto) (k : Link) (i : Inputs) (data : List Nat) (s : MasterState) :
    MasterState :=
  if notWaitingFor s SMP_PAIRING_PUBLIC_KEY then s
  else if data.length != 65 then pairingFailed s SmpErrors.INVALID_PARAMETERS false
  else startPasskeyExchange c k i { s with peerPublicKey := some (slice data 1 33, slice data 33 65) }

/-- The case `SMP_PAIRING_CONFIRM` of the data handler. -/
def onDataPairingConfirm (data : List Nat) (s : MasterState) : MasterState :=
  if notWaitingFor s SMP_PAIRING_CONFIRM then s
  else if data.length != 17 then pairingFailed s SmpErrors.INVALID_PARAMETERS false
  else
    let s := { s with rspConfirmValue := some (data.drop 1) }
    match s.initRandomValue with
    | none => act s Action.throwError
    | some initRandomValue =>
      sendPacket s (bufferFrom [SMP_PAIRING_RANDOM] ++ initRandomValue) (some SMP_PAIRING_RANDOM)

/-- The case `SMP_PAIRING_RANDOM` of the data handler. -/
def onDataPairingRandom (c : Crypto) (k : Link) (i : Inputs) (data : List Nat) (s : MasterState) :
    MasterState :=
  if notWaitingFor s SMP_PAIRING_RANDOM then s
  else if data.length != 17 then pairingFailed s SmpErrors.INVALID_PARAMETERS false
  else onPairingRandom c k i { s with rspRandomValue := some (data.drop 1) }

/-- The case `SMP_DHKEY_CHECK` of the data handler. -/
def onDataDHKeyCheck (c : Crypto) (data : List Nat) (s : MasterState) : MasterState :=
  if notWaitingFor s SMP_DHKEY_CHECK then s
  else if data.length != 17 then pairingFailed s SmpErrors.INVALID_PARAMETERS false
  else onDHKeyCheck c (data.drop 1) s

/-- The case `SMP_ENCRYPTION_INFORMATION` of the data handler. -/
def onDataEncryptionInformation (data : List Nat) (s : MasterState) : MasterState :=
  if notWaitingFor s SMP_ENCRYPTION_INFORMATION then s
  else if data.length != 17 then pairingFailed s SmpErrors.INVALID_PARAMETERS false
  else { s with rspLtk := some (data.drop 1), packetWaitOpcode := some SMP_MASTER_IDENTIFICATION }

/-- The case `SMP_MASTER_IDENTIFICATION` of the data handler. -/
def onDataMasterIdentification (k : Link) (i : Inputs) (data : List Nat) (s : MasterState) : MasterState :=
  if notWaitingFor s SMP_MASTER_IDENTIFICATION then s
  else if data.length != 11 then pairingFailed s SmpErrors.INVALID_PARAMETERS false
  else
    let s := { s with rspEdivRand := some (data.drop 1) }
    match s.pairingFeatures with
    | none => act s Action.throwError
    | some pairingFeatures =>
      if pairingFeatures.rspKeyDistr.idKey then { s with packetWaitOpcode := some SMP_IDENTITY_INFORMATION }
      else startDistributeOwnKeys k i s

/-- The case `SMP_IDENTITY_INFORMATION` of the data handler. -/
def onDataIdentityInformation (data : List Nat) (s : MasterState) : MasterState :=
  if notWaitingFor s SMP_IDENTITY_INFORMATION then s
  else if data.length != 17 then pairingFailed s SmpErrors.INVALID_PARAMETERS false
  else { s with rspIrk := some (data.drop 1), packetWaitOpcode := some SMP_IDENTITY_ADDRESS_INFORMATION }

/-- The case `SMP_IDENTITY_ADDRESS_INFORMATION` of the data handler. -/
def onDataIdentityAddressInformation (k : Link) (i : Inputs) (data : List Nat) (s : MasterState) :
    MasterState :=
  if notWaitingFor s SMP_IDENTITY_ADDRESS_INFORMATION then s
  else if data.length != 8 then pairingFailed s SmpErrors.INVALID_PARAMETERS false
  else
    let info : IdentityAddress := { addressType := byteAt data 1 != 0, address := data.drop 2 }
    startDistributeOwnKeys k i { s with rspIdentityAddressInformation := some info }

/-- The case `SMP_KEYPRESS_NOTIFICATION` of the data handler. -/
def onDataKeypressNotification (data : List Nat) (s : MasterState) : MasterState :=
  if s.passkeyBitCounter != some 0 then s
  else if !((s.state == STATE_W4_PACKET || s.state == STATE_W4_PACKET_ENQUEUED)
      && (s.packetWaitOpcode == some SMP_PAIRING_PUBLIC_KEY
        || s.packetWaitOpcode == some SMP_PAIRING_CONFIRM)) then s
  else if data.length != 2 then pairingFailed s SmpErrors.INVALID_PARAMETERS false
  else
    match s.pairingFeatures with
    | none => act s Action.throwError
    | some pairingFeatures =>
      if !pairingFeatures.keypress || s.rspIoCap != some IO_CAP_KEYBOARD_ONLY
          || s.associationModel == some ASSOCIATION_MODEL_JUST_WORKS then s
      else emit s (Event.keypress (byteAt data 1))

/-- The case `SMP_PAIRING_FAILED` of the data handler. -/
def onDataPairingFailed (data : List Nat) (s : MasterState) : MasterState :=
  if data.length != 2 then s else onPairingFailed (byteAt data 1) s

/-- The function registered with `registerOnDataFn`: a PDU arrives. -/
def onData (c : Crypto) (k : Link) (i : Inputs) (data : List Nat) (s : MasterState) : MasterState :=
  if data.length == 0 || s.state == STATE_TIMEDOUT then s
  else
    let opcode := byteAt data 0
    if opcode == 0x00 || opcode >= 0x0f then s
    else if opcode == SMP_SECURITY_REQUEST then onDataSecurityRequest i data s
    else if opcode == SMP_PAIRING_RESPONSE then onDataPairingResponse c k i data s
    else if opcode == SMP_PAIRING_PUBLIC_KEY then onDataPairingPublicKey c k i data s
    else if opcode == SMP_PAIRING_CONFIRM then onDataPairingConfirm data s
    else if opcode == SMP_PAIRING_RANDOM then onDataPairingRandom c k i data s
    else if opcode == SMP_DHKEY_CHECK then onDataDHKeyCheck c data s
    else if opcode == SMP_ENCRYPTION_INFORMATION then onDataEncryptionInformation data s
    else if opcode == SMP_MASTER_IDENTIFICATION then onDataMasterIdentification k i data s
    else if opcode == SMP_IDENTITY_INFORMATION then onDataIdentityInformation data s
    else if opcode == SMP_IDENTITY_ADDRESS_INFORMATION then onDataIdentityAddressInformation k i data s
    else if opcode == SMP_KEYPRESS_NOTIFICATION then onDataKeypressNotification data s
    else if opcode == SMP_PAIRING_FAILED then onDataPairingFailed data s
    else sendPairingFailed SmpErrors.COMMAND_NOT_SUPPORTED s

/-- The transport calls a closure it received with a PDU. -/
def onCallback (cb : Callback) (s : MasterState) : MasterState :=
  match cb with
  | Callback.failedMsgSent => { s with hasOutgoingFailedMsg := false }
  | Callback.packetSent thisRunCounter _ =>
    if s.runCounter != thisRunCounter then s else { s with state := STATE_W4_PACKET }
  | Callback.lastAck thisRunCounter =>
    if s.runCounter != thisRunCounter then s else pairingDone s

/-- One received PDU as a step: what the session does (the actions of this step only) and
the session afterwards. -/
def receive (c : Crypto) (k : Link) (i : Inputs) (data : List Nat) (s : MasterState) :
    MasterState × List Action :=
  let s' := onData c k i data { s with log := [] }
  ({ s' with log := s.log ++ s'.log }, s'.log)

/-- The callback passed with the passkey-exchange event of Numeric Comparison, with the
`thisRunCounter` it captured. -/
def numericComparisonCallback (c : Crypto) (k : Link) (thisRunCounter : Nat) (s : MasterState) :
    MasterState :=
  if s.state != STATE_W4_USER_NUMERIC_COMPARISON || s.runCounter != thisRunCounter then s
  else sendDHKeyCheck c k s

/-- The closure `startEncryptionAfterPairing` passes to `startEncryptionFn`: the controller
reports the outcome `(status, on)` of the encryption started after a pairing (`isOn` is
the argument `on`).  The source
ends the closure with `assert(state == STATE_TIMEDOUT)`, and `assert` is not defined in
`smp.js`: reaching that statement throws. -/
def onEncryptionStartedAfterPairing (k : Link) (i : Inputs) (status : Nat) (isOn : Bool) (s : MasterState) :
    MasterState :=
  let success := status == 0 && isOn
  if s.isEncrypted && !success then { act s Action.disconnect with state := STATE_TIMEDOUT }
  else
    match s.pairingFeatures with
    | none =>
      if success then act { s with isEncrypted := true } Action.throwError
      else if s.state == STATE_W4_ENCRYPTION_STARTED then pairingFailed s SmpErrors.UNSPECIFIED_REASON false
      else if s.state == STATE_CANCELLED_BY_LOCAL_AND_W4_ENCRYPTION_STARTED then
        pairingFailed s (s.savedPairingFailedReason.getD 0) false
      else if s.state == STATE_CANCELLED_BY_PEER_AND_W4_ENCRYPTION_STARTED then
        pairingFailed s (s.savedPairingFailedReason.getD 0) true
      else act s Action.throwError
    | some pairingFeatures =>
      let level : EncryptionLevel :=
        { mitm := pairingFeatures.mitm, sc := pairingFeatures.sc, keySize := some pairingFeatures.maxKeySize }
      let s :=
        if success then
          emit { s with isEncrypted := true, currentEncryptionLevel := some level } (Event.encrypt status (some level))
        else s
      if s.state == STATE_W4_ENCRYPTION_STARTED then
        if !success then pairingFailed s SmpErrors.UNSPECIFIED_REASON false
        else if !pairingFeatures.sc && pairingFeatures.rspKeyDistr.encKey then
          { s with state := STATE_W4_PACKET, packetWaitOpcode := some SMP_ENCRYPTION_INFORMATION }
        else if pairingFeatures.rspKeyDistr.idKey then
          { s with state := STATE_W4_PACKET, packetWaitOpcode := some SMP_IDENTITY_INFORMATION }
        else startDistributeOwnKeys k i s
      else if s.state == STATE_CANCELLED_BY_LOCAL_AND_W4_ENCRYPTION_STARTED then
        pairingFailed s (s.savedPairingFailedReason.getD 0) false
      else if s.state == STATE_CANCELLED_BY_PEER_AND_W4_ENCRYPTION_STARTED then
        pairingFailed s (s.savedPairingFailedReason.getD 0) true
      else act s Action.throwError

/-- The closure `startEncryptWithAvailableLtk` passes to `startEncryptionFn`, with the
arguments of `startEncryptWithAvailableLtk` it captured: the controller reports the outcome
`(status, on)` of the encryption started with the stored key.  The event of a success
carries `keySize: availableLtk.length`, which the stored-key object does not have. -/
def onEncryptionStartedWithAvailableLtk (i : Inputs) (isSecReq : Bool) (bondingFlags : Nat)
    (mitm sc keypress : Bool) (status : Nat) (isOn : Bool) (s : MasterState) : MasterState :=
  let s := { s with encryptionProcessWithLtk := false }
  let success := status == 0 && isOn
  let negativeReply := status == Errors.HCI_PIN_OR_KEY_MISSING || (status == 0 && !isOn)
  if s.isEncrypted && !success then { act s Action.disconnect with state := STATE_TIMEDOUT }
  else
    let s := if success then { s with isEncrypted := true } else s
    let s :=
      if s.state != STATE_TIMEDOUT then
        { timeoutClearFn s with runCounter := s.runCounter + 1, state := STATE_IDLE }
      else s
    if negativeReply then
      if isSecReq then askStartPairing i bondingFlags mitm sc keypress s
      else emit s (Event.encrypt Errors.HCI_PIN_OR_KEY_MISSING none)
    else if success then
      match s.availableLtk with
      | none => act s Action.throwError
      | some availableLtk =>
        let level : EncryptionLevel := { mitm := availableLtk.mitm, sc := availableLtk.sc, keySize := none }
        emit { s with currentEncryptionLevel := some level } (Event.encrypt status (some level))
    else emit s (Event.encrypt status none)

/-- The controller reports the outcome of a start-encryption command: the closure handed
over with that command runs. -/
def onEncryptionStarted (k : Link) (i : Inputs) (origin : EncryptionStart) (status : Nat) (isOn : Bool)
    (s : MasterState) : MasterState :=
  match origin with
  | EncryptionStart.afterPairing => onEncryptionStartedAfterPairing k i status isOn s
  | EncryptionStart.withAvailableLtk isSecReq bondingFlags mitm sc keypress =>
    onEncryptionStartedWithAvailableLtk i isSecReq bondingFlags mitm sc keypress status isOn s

/-- The method `setAvailableLtk`, on arguments of the right JavaScript types. -/
def setAvailableLtk (ltk rand : List Nat) (ediv : Nat) (mitm sc : Bool) (s : MasterState) : MasterState :=
  if ltk.length < 7 || ltk.length > 16 then act s Action.throwError
  else if rand.length != 8 then act s Action.throwError
  else if ediv > 0xffff then act s Action.throwError
  else { s with availableLtk := some { ltk := ltk, rand := rand, ediv := ediv, mitm := mitm, sc := sc } }

/-- The method `startEncryption`; the arguments `startEncryptWithAvailableLtk` leaves out
are `undefined` and are not read when `isSecReq` is false. -/
def startEncryption (s : MasterState) : MasterState :=
  match s.availableLtk with
  | none => act s Action.throwError
  | some _ =>
    if s.state != STATE_IDLE then s
    else startEncryptWithAvailableLtk false 0 false false false s

/-- The method `sendPairingRequest`. -/
def sendPairingRequest (req : Option UserFeatures) (s : MasterState) : MasterState :=
  if s.state != STATE_IDLE && s.state != STATE_W4_USER_FEATURES then s
  else startPairingRequest req { s with userHandledRequest := true }

/-- The method `sendPairingFailed` (`this.sendPairingFailed`), which guards the inner
function of the same name. -/
def this_sendPairingFailed (reason : Nat) (s : MasterState) : MasterState :=
  if s.state != STATE_IDLE && s.state != STATE_TIMEDOUT && !s.encryptionProcessWithLtk then
    sendPairingFailed reason s
  else s

/-- The method `sendKeypressNotification`; `notificationType` is `none` for a value that is
not an integer. -/
def sendKeypressNotification (notificationType : Option Int) (s : MasterState) : MasterState :=
  match notificationType with
  | none => act s Action.throwError
  | some v =>
    if v < 0 || v > 5 then act s Action.throwError
    else if s.initIoCap != some IO_CAP_KEYBOARD_ONLY then s
    else
      match s.pairingFeatures with
      | none => act s Action.throwError
      | some pairingFeatures =>
        if !pairingFeatures.keypress || s.associationModel == some ASSOCIATION_MODEL_JUST_WORKS then s
        else if s.state != STATE_W4_USER_PASSKEY then s
        else sendDataFn (restartTimeout s) (bufferFrom [SMP_KEYPRESS_NOTIFICATION, v.toNat]) none none

end SmpMasterConnection

/-! ## Notions used to state the claims -/

/-- The value the listener of the pairing-request event passes to the callback; `null`
stands in when no listener answers. -/
def PairingRequestHandler.answer : PairingRequestHandler → Option UserFeatures
  | PairingRequestHandler.absent => none
  | PairingRequestHandler.answers rsp => rsp
  | PairingRequestHandler.defers => none

/-- The pairing-request event as far as the listener sees it emitted. -/
def PairingRequestHandler.announce (h : PairingRequestHandler) (e : Event) : List Action :=
  match h with
  | PairingRequestHandler.absent => []
  | _ => [Action.emit e]

/-- The responder processes a Pairing Request in this state: it is Idle, or it has sent a
Security Request and waits for the Pairing Request. -/
def SmpSlaveConnection.acceptsPairingRequest (s : SlaveState) : Prop :=
  s.state = STATE_IDLE ∨ (s.state = STATE_W4_PACKET ∧ s.packetWaitOpcode = some SMP_PAIRING_REQUEST)

/-- The actions of `pairingFailed(reason)` in either session when the failure is local:
the Pairing Failed PDU, unless an earlier one still awaits its sent-acknowledgement, and
the event. -/
def localFailure (hasOutgoingFailedMsg : Bool) (reason : Nat) : List Action :=
  (if hasOutgoingFailedMsg then []
    else [Action.sendData [SMP_PAIRING_FAILED, reason % 256] (some Callback.failedMsgSent) none])
  ++ [Action.emit (Event.pairingFail reason false)]

/-- The actions of `pairingFailed(reason)` of the initiator when the failure is local: the
Pairing Failed PDU, unless an earlier one still awaits its sent-acknowledgement, and the
pairing-fail event, unless the outcome of a start-encryption command issued with a stored
key is outstanding (`encryptionProcessWithLtk`). -/
def initiatorLocalFailure (hasOutgoingFailedMsg encryptionProcessWithLtk : Bool) (reason : Nat) :
    List Action :=
  (if hasOutgoingFailedMsg then []
    else [Action.sendData [SMP_PAIRING_FAILED, reason % 256] (some Callback.failedMsgSent) none])
  ++ (if encryptionProcessWithLtk then [] else [Action.emit (Event.pairingFail reason false)])

/-- A cipher used to evaluate the sessions on concrete inputs: the block is returned as it
is, no peer point is accepted. -/
def sampleCrypto : Crypto :=
  { aes128 := fun _ block => block
    myEcdhPubKeyX := List.replicate 32 1
    myEcdhPubKeyY := List.replicate 32 2
    computeSecret := fun _ => none }

def sampleLink : Link := { iat := 0, ia := [1, 2, 3, 4, 5, 6], rat := 1, ra := [6, 5, 4, 3, 2, 1] }

/-- No listener is installed; the random sources return fixed values. -/
def sampleInputs : Inputs :=
  { pairingRequestHandler := PairingRequestHandler.absent, timeoutListener := false, random4 := 123456,
    random16 := List.replicate 16 7, random26 := List.replicate 26 9 }

/-- A stored key, as left by an earlier bonding. -/
def sampleLtk : AvailableLtk :=
  { ltk := List.replicate 16 5, rand := List.replicate 8 0, ediv := 0, mitm := false, sc := true }

/-- The key size of a negotiated feature record is in 7..16. -/
def keySizeInRange (pf : PairingFeatures) : Prop := 7 ≤ pf.maxKeySize ∧ pf.maxKeySize ≤ 16

/-- A step leaves `pairingFeatures` alone or sets it to a record with key size in 7..16. -/
def keepsOrNegotiates (before after : Option PairingFeatures) : Prop :=
  after = before ∨ ∃ pf, after = some pf ∧ keySizeInRange pf

/-- A step of the initiator that changes neither `pairingFeatures` nor
`pairingRequestData`. -/
def SmpMasterConnection.sameNegotiation (s s' : MasterState) : Prop :=
  s'.pairingFeatures = s.pairingFeatures ∧ s'.pairingRequestData = s.pairingRequestData

/-- The Pairing Request kept by the initiator, if any, carries a key size in 7..16. -/
def requestKeySizeInRange (pairingRequestData : Option (List Nat)) : Prop :=
  ∀ d, pairingRequestData = some d → 7 ≤ byteAt d 4 ∧ byteAt d 4 ≤ 16

/-- The initiator processes a Pairing Response in this state: its Pairing Request has been
handed to the controller and it waits for the response. -/
def SmpMasterConnection.acceptsPairingResponse (s : MasterState) : Prop :=
  s.state = STATE_W4_PACKET ∧ s.packetWaitOpcode = some SMP_PAIRING_RESPONSE

/-- An initiator that has sent a Pairing Request built from the default features and has
been told by the transport that the request is sent. -/
def sampleMasterAwaitingResponse : MasterState :=
  SmpMasterConnection.onCallback (Callback.packetSent 0 none)
    (SmpMasterConnection.startPairingRequest none (SmpMasterConnection.init none))

/-! ## Runs of the initiator through the passkey rounds (claim C10) -/

/-- The closure the session passed as sent-callback with the PDU it handed over last. -/
def lastSentCallback (log : List Action) : Option Callback :=
  match log.getLast? with
  | some (Action.sendData _ (some cb) _) => some cb
  | _ => none

/-- The transport reports the PDU handed over last as sent: it calls that closure. -/
def SmpMasterConnection.acknowledgeLast (s : MasterState) : MasterState :=
  match lastSentCallback s.log with
  | some cb => SmpMasterConnection.onCallback cb s
  | none => s

/-- What reaches the initiator during one round of the passkey exchange: the value of the
responder Pairing Confirm, the nonce of the responder Pairing Random, and the 16 bytes
`crypto.randomBytes` returns when the initiator draws its nonce for the next round. -/
structure PasskeyRound where
  rspConfirm : List Nat
  rspRandom : List Nat
  nextRandom : List Nat
  deriving DecidableEq, Repr

/-- One round as the initiator goes through it after it has handed over its Pairing
Confirm: the transport reports the confirm as sent, the responder confirm arrives (the
initiator answers with its Pairing Random), the transport reports the random as sent, and
the responder random arrives. -/
def SmpMasterConnection.passkeyRound (c : Crypto) (k : Link) (i : Inputs) (r : PasskeyRound)
    (s : MasterState) : MasterState :=
  let s := SmpMasterConnection.acknowledgeLast s
  let s := SmpMasterConnection.onData c k i (SMP_PAIRING_CONFIRM :: r.rspConfirm) s
  let s := SmpMasterConnection.acknowledgeLast s
  SmpMasterConnection.onData c k { i with random16 := r.nextRandom } (SMP_PAIRING_RANDOM :: r.rspRandom) s

/-- Successive rounds. -/
def SmpMasterConnection.passkeyRounds (c : Crypto) (k : Link) (i : Inputs) :
    List PasskeyRound → MasterState → MasterState
  | [], s => s
  | r :: rs, s => SmpMasterConnection.passkeyRounds c k i rs (SmpMasterConnection.passkeyRound c k i r s)

/-- The value `0x80 | bit i of the passkey` of claim C10, written from the words of the
claim and not from the source: `0x81` when bit `i` of the binary representation of the
passkey is set, `0x80` when it is not. -/
def passkeyRoundValue (passkey i : Nat) : Nat := if passkey.testBit i then 0x81 else 0x80

/-- The responder confirm of every round verifies: in the round with bit index `j` it is
`f4(PKb.x, PKa.x, Nb, 0x80 | bit j of the passkey)`, and confirm and nonce are 16 bytes. -/
def roundsVerify (c : Crypto) (peerX : List Nat) (passkey : Nat) : Nat → List PasskeyRound → Prop
  | _, [] => True
  | j, r :: rs =>
    r.rspConfirm = Toolbox.f4 c peerX c.myEcdhPubKeyX r.rspRandom (passkeyRoundValue passkey j)
    ∧ r.rspConfirm.length = 16 ∧ r.rspRandom.length = 16
    ∧ roundsVerify c peerX passkey (j + 1) rs

/-- The Pairing Confirm of the round with bit index `j` and initiator nonce `na`:
`f4(PKa.x, PKb.x, Na, 0x80 | bit j of the passkey)` after the opcode. -/
def confirmPdu (c : Crypto) (peerX : List Nat) (passkey runCounter j : Nat) (na : List Nat) : Action :=
  Action.sendData
    (SMP_PAIRING_CONFIRM :: Toolbox.f4 c c.myEcdhPubKeyX peerX na (passkeyRoundValue passkey j))
    (some (Callback.packetSent runCounter none)) none

/-- The Pairing Random that discloses the initiator nonce `na`. -/
def randomPdu (runCounter : Nat) (na : List Nat) : Action :=
  Action.sendData (SMP_PAIRING_RANDOM :: na) (some (Callback.packetSent runCounter none)) none

/-- The step after the last round: the DHKey Check carrying `Ea`, or, when the peer public
key is not a point of the curve, the local failure InvalidParameters (an exception if a
buffer the step reads is missing). -/
def dhKeyCheckStep (c : Crypto) (k : Link) (s : MasterState) (passkey : Nat) (na nb : List Nat) : List Action :=
  match s.peerPublicKey, s.pairingFeatures, s.pairingRequestData, s.pairingResponseData with
  | some peerPublicKey, some pairingFeatures, some pairingRequestData, some pairingResponseData =>
    match generateLtkEaEb c peerPublicKey k.ia k.iat k.ra k.rat na nb passkey pairingFeatures.maxKeySize
        (slice pairingRequestData 1 4) (slice pairingResponseData 1 4) with
    | none => localFailure s.hasOutgoingFailedMsg SmpErrors.INVALID_PARAMETERS
    | some res =>
      [Action.sendData (SMP_DHKEY_CHECK :: res.Ea) (some (Callback.packetSent s.runCounter none)) none]
  | _, _, _, _ => [Action.throwError]

/-- The actions of a run that hands over the Pairing Confirm of the round with bit index
`j` and nonce `na` and then goes through the given rounds: per round the confirm and the
random of the initiator, then the confirm of the round that has begun, or, after the round
with bit index 19, the DHKey Check step. -/
def passkeyTranscript (c : Crypto) (k : Link) (s : MasterState) (peerX : List Nat) (passkey : Nat) :
    Nat → List Nat → List PasskeyRound → List Action
  | j, na, [] => [confirmPdu c peerX passkey s.runCounter j na]
  | j, na, r :: rs =>
    confirmPdu c peerX passkey s.runCounter j na :: randomPdu s.runCounter na ::
      (if j + 1 < 20 then passkeyTranscript c k s peerX passkey (j + 1) r.nextRandom rs
       else dhKeyCheckStep c k s passkey na r.rspRandom)

/-- The opcodes of the PDUs handed to the transport, in order. -/
def sentOpcodes : List Action → List Nat
  | [] => []
  | Action.sendData data _ _ :: rest => byteAt data 0 :: sentOpcodes rest
  | _ :: rest => sentOpcodes rest

/-- The initiator has handed over the Pairing Confirm of the round with bit index `j` and
nonce `na` in a run that began in session `s0` with the given passkey. -/
structure SmpMasterConnection.InPasskeyRound (s0 : MasterState) (passkey j : Nat) (na : List Nat)
    (t : MasterState) : Prop where
  state : t.state = STATE_W4_PACKET_ENQUEUED
  waits : t.packetWaitOpcode = some SMP_PAIRING_CONFIRM
  counter : t.passkeyBitCounter = some j
  nonce : t.initRandomValue = some na
  passkey : t.userPasskey = some passkey
  runCounter : t.runCounter = s0.runCounter
  sendDisabled : t.sendDisabled = false
  pairingFeatures : t.pairingFeatures = s0.pairingFeatures
  associationModel : t.associationModel = s0.associationModel
  peerPublicKey : t.peerPublicKey = s0.peerPublicKey
  pairingRequestData : t.pairingRequestData = s0.pairingRequestData
  pairingResponseData : t.pairingResponseData = s0.pairingResponseData
  hasOutgoingFailedMsg : t.hasOutgoingFailedMsg = s0.hasOutgoingFailedMsg
  encryptionProcessWithLtk : t.encryptionProcessWithLtk = s0.encryptionProcessWithLtk

/-- The sample cipher with an ECDH computation that accepts every peer key. -/
def sampleCryptoEcdh : Crypto := { sampleCrypto with computeSecret := fun _ => some (List.replicate 32 3) }

/-- An initiator that has negotiated Secure Connections with PasskeyEntry-BothInputs, has
received the peer public key and has been given the passkey 123456. -/
def sampleMasterWithPasskey : MasterState :=
  { SmpMasterConnection.init none with
    state := STATE_W4_USER_PASSKEY
    pairingRequestData := some [1, 2, 0, 0x0d, 16, 3, 3]
    pairingResponseData := some [2, 2, 0, 0x0d, 16, 3, 3]
    pairingFeatures := some (combineAuthReq
      (bitwiseAndKeys (parsePairingReqRsp [2, 2, 0, 0x0d, 16, 3, 3]) (parsePairingReqRsp [1, 2, 0, 0x0d, 16, 3, 3]))
      (parsePairingReqRsp [1, 2, 0, 0x0d, 16, 3, 3]))
    associationModel := some ASSOCIATION_MODEL_PASSKEY_ENTRY_BOTH_INPUTS
    initIoCap := some IO_CAP_KEYBOARD_ONLY
    rspIoCap := some IO_CAP_KEYBOARD_ONLY
    peerPublicKey := some (List.replicate 32 4, List.replicate 32 5)
    userPasskey := some 123456
    passkeyBitCounter := some 0 }

/-- Twenty rounds with a responder that knows the passkey 123456: in round `j` its nonce
is 16 bytes `j` and its confirm is computed from that nonce and bit `j`. -/
def sampleRounds : List PasskeyRound :=
  (List.range 20).map (fun j =>
    { rspConfirm := Toolbox.f4 sampleCryptoEcdh (List.replicate 32 4) sampleCryptoEcdh.myEcdhPubKeyX
        (List.replicate 16 j) (passkeyRoundValue 123456 j)
      rspRandom := List.replicate 16 j
      nextRandom := List.replicate 16 (100 + j) })

/-- A bonded responder whose earlier Pairing Failed PDU is still queued: it has failed a
Pairing Request with key size 6, and the transport has not yet reported that PDU as sent. -/
def sampleSlaveFailedUnsent : SlaveState :=
  (SmpSlaveConnection.receive sampleCrypto sampleLink sampleInputs [1, 3, 0, 1, 6, 0, 0]
    (SmpSlaveConnection.init (some sampleLtk))).1

/-- A responder that has answered a Pairing Request and waits for the next PDU of the
pairing. -/
def sampleSlavePairing : SlaveState :=
  (SmpSlaveConnection.receive sampleCrypto sampleLink sampleInputs [1, 3, 0, 1, 16, 0, 0]
    (SmpSlaveConnection.init none)).1

/-- A listener of the pairing-request event is installed and returns without calling the
callback. -/
def sampleInputsDeferring : Inputs :=
  { sampleInputs with pairingRequestHandler := PairingRequestHandler.defers }

/-- A Pairing Request with `bondingFlags` 1 and a Pairing Response with the reserved
`bondingFlags` 2 (`authReq` 0x09 and 0x0a; both with Secure Connections). -/
def sampleBondingRequest : List Nat := [1, 3, 0, 0x09, 16, 3, 3]

def sampleBondingResponse : List Nat := [2, 3, 0, 0x0a, 16, 3, 3]

/-- An initiator that has sent `sampleBondingRequest` and waits for the Pairing Response. -/
def sampleMasterBonding : MasterState :=
  { SmpMasterConnection.init none with
    state := STATE_W4_PACKET, packetWaitOpcode := some SMP_PAIRING_RESPONSE,
    pairingRequestData := some sampleBondingRequest }


/-! ## Runs of the responder towards the passkey rounds (claim C11) -/

/-- A listener of the pairing-request event that answers with Keyboard-Only and MITM
protection; the random sources return fixed values. -/
def sampleInputsKeyboard : Inputs :=
  { sampleInputs with
    pairingRequestHandler := PairingRequestHandler.answers
      (some { emptyUserFeatures with ioCap := JsVal.int 2, mitm := JsVal.bool true }) }

/-- The nonce the sample initiator discloses in the first passkey round. -/
def sampleInitiatorNonce : List Nat := List.replicate 16 99

/-- A responder in the first round of Secure-Connections Passkey Entry with passkey 123456:
it has answered the Pairing Request of a Keyboard-Only initiator, the user has entered the
passkey, it has exchanged public keys, has received the initiator Pairing Confirm of bit 0
and has sent its own, and every PDU it sent has been reported as sent (run 1). -/
def sampleSlaveAwaitingRandom : SlaveState :=
  let s := SmpSlaveConnection.init none
  let s := SmpSlaveConnection.onData sampleCryptoEcdh sampleLink sampleInputsKeyboard [1, 2, 0, 0x0d, 16, 3, 3] s
  let s := SmpSlaveConnection.onCallback (Callback.packetSent 1 none) s
  let s := SmpSlaveConnection.passkeyCallback sampleCryptoEcdh sampleLink sampleInputsKeyboard false 1 (some 123456) s
  let s := SmpSlaveConnection.onData sampleCryptoEcdh sampleLink sampleInputsKeyboard
    ([SMP_PAIRING_PUBLIC_KEY] ++ List.replicate 32 4 ++ List.replicate 32 5) s
  let s := SmpSlaveConnection.onCallback (Callback.packetSent 1 none) s
  let s := SmpSlaveConnection.onData sampleCryptoEcdh sampleLink sampleInputsKeyboard
    (SMP_PAIRING_CONFIRM :: Toolbox.f4 sampleCryptoEcdh (List.replicate 32 4) sampleCryptoEcdh.myEcdhPubKeyX
      sampleInitiatorNonce (passkeyBit 123456 0)) s
  SmpSlaveConnection.onCallback (Callback.packetSent 1 none) s


/-! ## AES-CMAC as RFC 4493 defines it (claim C12)

The definitions of this section follow the text of RFC 4493 (section 2.3, `Generate_Subkey`,
and section 2.4, `AES-CMAC`), not the source: a 128-bit string is a number, written as 16
bytes with the most significant byte first; AES-128 under the key is the function `aes`. -/

namespace Rfc4493

/-- A string of bytes read as a number, most significant byte first. -/
def bytesToNat : List Nat → Nat
  | [] => 0
  | b :: bs => b * 256 ^ bs.length + bytesToNat bs

/-- The number `n` written as a string of `len` bytes, most significant byte first. -/
def natToBytes : Nat → Nat → List Nat
  | 0, _ => []
  | len + 1, n => (n / 256 ^ len % 256) :: natToBytes len n

/-- The constant `const_Zero`. -/
def constZero : List Nat := List.replicate 16 0

/-- The constant `const_Rb` for a block of 128 bits. -/
def constRb : List Nat := List.replicate 15 0 ++ [0x87]

/-- The most significant bit `MSB(L)` of a 128-bit string. -/
def msb (l : List Nat) : Nat := bytesToNat l / 2 ^ 127

/-- The 128-bit string `L << 1`. -/
def shiftLeft1 (l : List Nat) : List Nat := natToBytes 16 (bytesToNat l * 2 % 2 ^ 128)

/-- Steps 2 and 3 of `Generate_Subkey`: `K1` from `L`, and `K2` from `K1`. -/
def double (l : List Nat) : List Nat :=
  if msb l = 0 then shiftLeft1 l else xor (shiftLeft1 l) constRb

/-- The algorithm `Generate_Subkey`: the pair `(K1, K2)`. -/
def generateSubkey (aes : List Nat → List Nat) : List Nat × List Nat :=
  let l := aes constZero
  let k1 := double l
  let k2 := double k1
  (k1, k2)

/-- The block `M_i` of the message, counted from 1; the last block may be incomplete. -/
def block (m : List Nat) (i : Nat) : List Nat := (m.drop (16 * (i - 1))).take 16

/-- The function `padding(x)`: `x` followed by the bit 1 and zero bits up to 128 bits. -/
def padding (x : List Nat) : List Nat := x ++ [0x80] ++ List.replicate (15 - x.length) 0

/-- The algorithm `AES-CMAC` on a message of whole bytes. -/
def aesCmac (aes : List Nat → List Nat) (m : List Nat) : List Nat :=
  let keys := generateSubkey aes
  let n := (m.length + 15) / 16
  let flag := n != 0 && m.length % 16 == 0
  let n := if n = 0 then 1 else n
  let mLast := if flag then xor (block m n) keys.1 else xor (padding (block m n)) keys.2
  let x := (List.range (n - 1)).foldl (fun x i => aes (xor x (block m (i + 1)))) constZero
  aes (xor mLast x)

end Rfc4493

/-- A block: 16 bytes. -/
def IsBlock (l : List Nat) : Prop := l.length = 16 ∧ ∀ x ∈ l, x < 256


/-! ## Sample sessions of a legacy pairing (claims C13 and C16) -/

/-- A Pairing Request and a Pairing Response without the Secure-Connections bit. -/
def sampleLegacyRequest : List Nat := [1, 3, 0, 0x01, 16, 1, 1]

def sampleLegacyResponse : List Nat := [2, 3, 0, 0x01, 10, 1, 1]

/-- The features both sides combine from the two sample PDUs: legacy pairing, key size 10. -/
def sampleLegacyFeatures : PairingFeatures :=
  combineAuthReq (bitwiseAndKeys (parsePairingReqRsp sampleLegacyResponse) (parsePairingReqRsp sampleLegacyRequest))
    (parsePairingReqRsp sampleLegacyRequest)

/-- An initiator of the sample legacy pairing (Just Works, so that the passkey is 0) that
holds both nonces. -/
def sampleMasterLegacy : MasterState :=
  { SmpMasterConnection.init none with
    state := STATE_W4_PACKET
    packetWaitOpcode := some SMP_PAIRING_RANDOM
    pairingRequestData := some sampleLegacyRequest
    pairingResponseData := some sampleLegacyResponse
    pairingFeatures := some sampleLegacyFeatures
    associationModel := some ASSOCIATION_MODEL_JUST_WORKS
    userPasskey := some 0
    passkeyBitCounter := some 0
    initRandomValue := some (List.replicate 16 99)
    rspRandomValue := some (List.replicate 16 7) }

/-- The responder of the sample legacy pairing after both nonces are disclosed: it waits
for the Long-Term-Key-Request. -/
def sampleSlaveLegacy : SlaveState :=
  { SmpSlaveConnection.init none with
    state := STATE_W4_LTK_REQUEST
    pairingRequestData := some sampleLegacyRequest
    pairingResponseData := some sampleLegacyResponse
    pairingFeatures := some sampleLegacyFeatures
    associationModel := some ASSOCIATION_MODEL_JUST_WORKS
    userPasskey := some 0
    passkeyBitCounter := some 0
    initRandomValue := some (List.replicate 16 99)
    rspRandomValue := some (List.replicate 16 7) }


/-! ## Sample sessions of a Secure-Connections pairing (claims C14 and C17) -/

/-- A stand-in for AES-128 that returns a block for every input. -/
def sampleBlockCipher (key block : List Nat) : List Nat :=
  (List.range 16).map (fun n => (byteAt key n + 3 * byteAt block n + n) % 256)

/-- The toolbox of a sample initiator: its public key is `(1.., 2..)`, and its ECDH
computation yields the shared secret `3..`. -/
def sampleCryptoInitiator : Crypto :=
  { aes128 := sampleBlockCipher
    myEcdhPubKeyX := List.replicate 32 1
    myEcdhPubKeyY := List.replicate 32 2
    computeSecret := fun _ => some (List.replicate 32 3) }

/-- The toolbox of a sample responder: its public key is `(4.., 5..)`, and its ECDH
computation yields the same shared secret. -/
def sampleCryptoResponder : Crypto :=
  { aes128 := sampleBlockCipher
    myEcdhPubKeyX := List.replicate 32 4
    myEcdhPubKeyY := List.replicate 32 5
    computeSecret := fun _ => some (List.replicate 32 3) }

/-- The Pairing Request and Pairing Response of the sample pairing: both sides
Keyboard-Display, with MITM protection and Secure Connections (Numeric Comparison). -/
def sampleScRequest : List Nat := [1, 4, 0, 0x0d, 16, 3, 3]

def sampleScResponse : List Nat := [2, 4, 0, 0x0d, 16, 3, 3]

def sampleScFeatures : PairingFeatures :=
  combineAuthReq (bitwiseAndKeys (parsePairingReqRsp sampleScResponse) (parsePairingReqRsp sampleScRequest))
    (parsePairingReqRsp sampleScRequest)

/-- The initiator of the sample pairing when it holds both nonces. -/
def sampleMasterSc : MasterState :=
  { SmpMasterConnection.init none with
    state := STATE_W4_USER_NUMERIC_COMPARISON
    packetWaitOpcode := some SMP_PAIRING_RANDOM
    pairingRequestData := some sampleScRequest
    pairingResponseData := some sampleScResponse
    pairingFeatures := some sampleScFeatures
    associationModel := some ASSOCIATION_MODEL_NUMERIC_COMPARISON
    initIoCap := some IO_CAP_KEYBOARD_DISPLAY
    rspIoCap := some IO_CAP_KEYBOARD_DISPLAY
    peerPublicKey := some (List.replicate 32 4, List.replicate 32 5)
    userPasskey := some 0
    passkeyBitCounter := some 0
    initRandomValue := some (List.replicate 16 99)
    rspRandomValue := some (List.replicate 16 7) }

/-- The responder of the sample pairing when it holds both nonces, the user has confirmed
the comparison value, and it waits for the DHKey Check. -/
def sampleSlaveSc : SlaveState :=
  { SmpSlaveConnection.init none with
    state := STATE_W4_PACKET
    packetWaitOpcode := some SMP_DHKEY_CHECK
    pairingRequestData := some sampleScRequest
    pairingResponseData := some sampleScResponse
    pairingFeatures := some sampleScFeatures
    associationModel := some ASSOCIATION_MODEL_NUMERIC_COMPARISON
    initIoCap := some IO_CAP_KEYBOARD_DISPLAY
    peerPublicKey := some (List.replicate 32 1, List.replicate 32 2)
    userPasskey := some 0
    passkeyBitCounter := some 0
    numericComparisonOk := true
    initRandomValue := some (List.replicate 16 99)
    rspRandomValue := some (List.replicate 16 7) }


/-! ## A pairing run in loopback: the exchange of confirms and nonces (claim C16) -/

/-- The PDU a session handed to the transport last. -/
def lastSentData (log : List Action) : List Nat :=
  match log.getLast? with
  | some (Action.sendData data _ _) => data
  | _ => []

/-- The transport reports the PDU handed over last as sent: it calls that closure. -/
def SmpSlaveConnection.acknowledgeLast (s : SlaveState) : SlaveState :=
  match lastSentCallback s.log with
  | some cb => SmpSlaveConnection.onCallback cb s
  | none => s

/-- An initiator and a responder connected to each other (the same `Link`: the own address
of one is the peer address of the other) exchange confirms and nonces: the initiator sends
its confirm, and from then on every PDU one session hands to the transport is reported as
sent and delivered to the other session.  `im` and `is` supply the nonce each side draws. -/
def confirmExchange (c : Crypto) (k : Link) (im is : Inputs) (m : MasterState) (s : SlaveState) :
    MasterState × SlaveState :=
  let m := SmpMasterConnection.sendConfirm c k im m
  let initConfirm := lastSentData m.log
  let m := SmpMasterConnection.acknowledgeLast m
  let s := SmpSlaveConnection.onData c k is initConfirm s
  let rspConfirm := lastSentData s.log
  let s := SmpSlaveConnection.acknowledgeLast s
  let m := SmpMasterConnection.onData c k im rspConfirm m
  let initRandom := lastSentData m.log
  let m := SmpMasterConnection.acknowledgeLast m
  let s := SmpSlaveConnection.onData c k is initRandom s
  let rspRandom := lastSentData s.log
  let s := SmpSlaveConnection.acknowledgeLast s
  let m := SmpMasterConnection.onData c k im rspRandom m
  (m, s)

/-- The responder of the sample legacy pairing when it waits for the initiator confirm. -/
def sampleSlaveLegacyAwaitingConfirm : SlaveState :=
  { SmpSlaveConnection.init none with
    state := STATE_W4_PACKET
    packetWaitOpcode := some SMP_PAIRING_CONFIRM
    pairingRequestData := some sampleLegacyRequest
    pairingResponseData := some sampleLegacyResponse
    pairingFeatures := some sampleLegacyFeatures
    associationModel := some ASSOCIATION_MODEL_JUST_WORKS
    userPasskey := some 0
    passkeyBitCounter := some 0 }

/-- The initiator of the sample legacy pairing when it has received the Pairing Response. -/
def sampleMasterLegacyAfterResponse : MasterState :=
  { SmpMasterConnection.init none with
    state := STATE_W4_PACKET
    packetWaitOpcode := some SMP_PAIRING_RESPONSE
    pairingRequestData := some sampleLegacyRequest
    pairingResponseData := some sampleLegacyResponse
    pairingFeatures := some sampleLegacyFeatures
    associationModel := some ASSOCIATION_MODEL_JUST_WORKS
    userPasskey := some 0
    passkeyBitCounter := some 0 }

/-- The nonce the sample responder draws. -/
def sampleInputsResponder : Inputs := { sampleInputs with random16 := List.replicate 16 55 }


/-! ## Notions for the comparison value (claim C17) -/

/-- The number a string of decimal digits denotes. -/
def decimalValue (s : List Char) : Nat := s.foldl (fun acc ch => 10 * acc + (ch.toNat - 48)) 0

/-- The `d` lowest decimal digits of `n`, the most significant first. -/
def decimalDigits : Nat → Nat → List Char
  | 0, _ => []
  | d + 1, n => decimalDigits d (n / 10) ++ [Nat.digitChar (n % 10)]

/-- The initiator of the sample Secure-Connections pairing when it waits for the Pairing
Random of the responder: it holds the confirm `f4(PKb.x, PKa.x, Nb, 0)` of the responder. -/
def sampleMasterAwaitingNonce : MasterState :=
  { sampleMasterSc with
    state := STATE_W4_PACKET
    rspRandomValue := none
    rspConfirmValue := some (Toolbox.f4 sampleCryptoInitiator (List.replicate 32 4)
      sampleCryptoInitiator.myEcdhPubKeyX (List.replicate 16 7) 0) }

/-- The responder of the sample Secure-Connections pairing when it waits for the Pairing
Random of the initiator. -/
def sampleSlaveAwaitingNonce : SlaveState :=
  { sampleSlaveSc with
    packetWaitOpcode := some SMP_PAIRING_RANDOM
    numericComparisonOk := false
    initRandomValue := none }


/-! ## Sessions after the timeout (claims C18 to C20) -/

/-- A responder whose timer expired while it was pairing. -/
def sampleSlaveTimedOut : SlaveState := SmpSlaveConnection.onTimeout sampleInputs sampleSlavePairing

/-- An initiator whose timer expired while it waited for the Pairing Response. -/
def sampleMasterTimedOut : MasterState :=
  SmpMasterConnection.onTimeout sampleInputs sampleMasterAwaitingResponse


/-- A listener of the timeout event is installed (so that the timeout does not disconnect);
no listener of the pairing-request event. -/
def sampleInputsTimeoutListener : Inputs := { sampleInputs with timeoutListener := true }

/-- An initiator with a stored key that times out while a start-encryption command is
still outstanding: a Security Request makes it start encryption with the stored key, the
peer then sends Pairing Failed (the session is Idle again), a second Security Request that
asks for MITM protection (which the stored key does not have) makes it send a Pairing
Request, and the timer set for that request expires. -/
def sampleMasterTimedOutEncrypting : MasterState :=
  let s := SmpMasterConnection.init (some sampleLtk)
  let s := SmpMasterConnection.onData sampleCrypto sampleLink sampleInputs [0x0b, 0x01] s
  let s := SmpMasterConnection.onData sampleCrypto sampleLink sampleInputs [0x05, 0x08] s
  let s := SmpMasterConnection.onData sampleCrypto sampleLink sampleInputs [0x0b, 0x05] s
  SmpMasterConnection.onTimeout sampleInputsTimeoutListener s


/-! ## The steps of a Responder Session (claim C19) -/

/-- What can happen to a Responder Session: every function the session registers with or
hands to its surroundings, and every method it offers. -/
inductive SlaveInput where
  /-- A PDU arrives. -/
  | data (d : List Nat)
  /-- The controller asks for a long-term key. -/
  | ltkRequest (randNb : List Nat) (ediv : Nat)
  /-- The controller reports the outcome of a key reply. -/
  | ltkReplyDone (d : LtkReplyDone)
  | setAvailableLtk (ltk rand : List Nat) (ediv : Nat) (mitm sc : Bool)
  | sendSecurityRequest (bond mitm keypress : Bool)
  | sendPairingFailed (reason : Nat)
  | sendKeypressNotification (notificationType : Option Int)
  /-- The user calls the callback of a pairing-request event. -/
  | pairingRequestCallback (req : PairingFeatures) (thisRunCounter : Nat) (rsp : Option UserFeatures)
  /-- The user calls the callback of a passkey-exchange event of a Passkey Entry model. -/
  | passkeyCallback (ignore : Bool) (thisRunCounter : Nat) (passkeyResponse : Option Int)
  /-- The user calls the callback of a passkey-exchange event of Numeric Comparison. -/
  | numericComparisonCallback (thisRunCounter : Nat)
  /-- The transport calls a closure it received with a PDU. -/
  | acknowledge (cb : Callback)
  /-- The timer expires. -/
  | timeout
  deriving DecidableEq, Repr

namespace SmpSlaveConnection

/-- The session after one step. -/
def step (c : Crypto) (k : Link) (i : Inputs) (e : SlaveInput) (s : SlaveState) : SlaveState :=
  match e with
  | SlaveInput.data d => onData c k i d s
  | SlaveInput.ltkRequest randNb ediv => onLtkRequest c randNb ediv s
  | SlaveInput.ltkReplyDone d => onLtkReplyDone k i d s
  | SlaveInput.setAvailableLtk ltk rand ediv mitm sc => setAvailableLtk ltk rand ediv mitm sc s
  | SlaveInput.sendSecurityRequest bond mitm keypress => sendSecurityRequest bond mitm keypress s
  | SlaveInput.sendPairingFailed reason => sendPairingFailed reason s
  | SlaveInput.sendKeypressNotification notificationType => sendKeypressNotification notificationType s
  | SlaveInput.pairingRequestCallback req thisRunCounter rsp => cont i req true thisRunCounter rsp s
  | SlaveInput.passkeyCallback ignore thisRunCounter passkeyResponse =>
    passkeyCallback c k i ignore thisRunCounter passkeyResponse s
  | SlaveInput.numericComparisonCallback thisRunCounter => numericComparisonCallback c k thisRunCounter s
  | SlaveInput.acknowledge cb => onCallback cb s
  | SlaveInput.timeout => onTimeout i s

/-- A step can be taken: a closure can only be called after the session has handed it
over (with a PDU, a key reply or an event), and the timer only expires while armed. -/
def enabled (e : SlaveInput) (s : SlaveState) : Prop :=
  match e with
  | SlaveInput.ltkReplyDone d => ∃ key, Action.ltkReply key d ∈ s.log
  | SlaveInput.pairingRequestCallback req thisRunCounter _ =>
    Action.emit (Event.pairingRequest req thisRunCounter) ∈ s.log
  | SlaveInput.passkeyCallback ignore thisRunCounter _ =>
    ∃ associationModel passkey,
      Action.emit (Event.passkeyExchange associationModel passkey thisRunCounter) ∈ s.log
      ∧ associationModel ≠ ASSOCIATION_MODEL_NUMERIC_COMPARISON
      ∧ ignore = (associationModel == ASSOCIATION_MODEL_PASSKEY_ENTRY_INIT_INPUTS)
  | SlaveInput.numericComparisonCallback thisRunCounter =>
    ∃ passkey, Action.emit (Event.passkeyExchange ASSOCIATION_MODEL_NUMERIC_COMPARISON passkey thisRunCounter)
      ∈ s.log
  | SlaveInput.acknowledge cb =>
    ∃ data other, Action.sendData data (some cb) other ∈ s.log ∨ Action.sendData data other (some cb) ∈ s.log
  | SlaveInput.timeout => s.timeoutPending = true
  | _ => True

/-- The sessions that arise: the session the constructor leaves, and every session reached
from it by steps that can be taken, whatever the surroundings supply. -/
inductive Reachable (c : Crypto) (k : Link) : SlaveState → Prop where
  | init (stored : Option AvailableLtk) : Reachable c k (init stored)
  | step (i : Inputs) (e : SlaveInput) (s : SlaveState) :
      Reachable c k s → enabled e s → Reachable c k (step c k i e s)

end SmpSlaveConnection

/-- The PDUs handed to the transport, in order. -/
def sentPdus : List Action → List (List Nat)
  | [] => []
  | Action.sendData data _ _ :: rest => data :: sentPdus rest
  | _ :: rest => sentPdus rest

/-- The run counter a closure handed to the transport has captured. -/
def Callback.counter : Callback → Option Nat
  | Callback.failedMsgSent => none
  | Callback.packetSent thisRunCounter _ => some thisRunCounter
  | Callback.lastAck thisRunCounter => some thisRunCounter

/-- The run counters captured by the closures an action hands to the transport. -/
def callbackCounters : Action → List Nat
  | Action.sendData _ sentCallback completeCallback =>
    (sentCallback.toList ++ completeCallback.toList).filterMap Callback.counter
  | _ => []

/-- The invariant behind claim C19, on the four variables it concerns: every run counter
captured by a closure handed to the transport is at most the current one, and is smaller
once sending is disabled; and a session in `STATE_TIMEDOUT` has sending disabled. -/
def CountersFresh (state : Nat) (sendDisabled : Bool) (runCounter : Nat) (log : List Action) : Prop :=
  (∀ a ∈ log, ∀ n ∈ callbackCounters a, n ≤ runCounter ∧ (sendDisabled = true → n < runCounter))
  ∧ (state = STATE_TIMEDOUT → sendDisabled = true)

def SmpSlaveConnection.Inv (s : SlaveState) : Prop :=
  CountersFresh s.state s.sendDisabled s.runCounter s.log

/-- A responder that answered a Pairing Request and whose timer then expired, as a run of
steps. -/
def sampleSlaveTimedOutRun : SlaveState :=
  SmpSlaveConnection.step sampleCrypto sampleLink sampleInputsTimeoutListener SlaveInput.timeout
    (SmpSlaveConnection.step sampleCrypto sampleLink sampleInputs (SlaveInput.data [1, 3, 0, 1, 16, 0, 0])
      (SmpSlaveConnection.init none))

/-- A responder that times out while the outcome of a key reply is still outstanding: it
sent a Security Request, refused a Long-Term-Key-Request (no stored key), then received a
Pairing Request, and the timer set for the answer expired. -/
def sampleSlaveTimedOutAwaitingReply : SlaveState :=
  SmpSlaveConnection.step sampleCrypto sampleLink sampleInputsTimeoutListener SlaveInput.timeout
    (SmpSlaveConnection.step sampleCrypto sampleLink sampleInputsDeferring (SlaveInput.data [1, 3, 0, 1, 16, 0, 0])
      (SmpSlaveConnection.step sampleCrypto sampleLink sampleInputs (SlaveInput.ltkRequest (bufferAlloc 8) 0)
        (SmpSlaveConnection.step sampleCrypto sampleLink sampleInputs
          (SlaveInput.sendSecurityRequest true false false) (SmpSlaveConnection.init none))))

/-! ## Key requests of the controller (claims C28 and C29) -/

/-- The key of the pairing in progress that the responder hands to the controller: the
generated LTK under Secure Connections, else the first `maxKeySize` bytes of
`s1(TK, Srand, Mrand)`. -/
def freshKey (c : Crypto) (sc : Bool) (maxKeySize userPasskey : Nat) (generatedLtk srand mrand : List Nat) :
    List Nat :=
  if sc then generatedLtk else slice (Toolbox.s1 c (passkeyToTk userPasskey) srand mrand) 0 maxKeySize

/-- The responder of the sample legacy pairing, waiting for the Long-Term-Key-Request,
which also holds a stored key whose lookup tag is all zero (`sampleLtk`). -/
def sampleSlaveLegacyBonded : SlaveState :=
  { sampleSlaveLegacy with availableLtk := some sampleLtk, isBonded := true }

/-- The test `state == STATE_W4_PACKET && packetWaitOpcode == SMP_PAIRING_REQUEST` of the
key-request handler: a Security Request has been sent and the Pairing Request is awaited. -/
def SmpSlaveConnection.awaitsPairingRequest (s : SlaveState) : Bool :=
  s.state == STATE_W4_PACKET && s.packetWaitOpcode == some SMP_PAIRING_REQUEST

/-- The stored key, if there is one and its lookup tag is the one of the request. -/
def SmpSlaveConnection.storedKeyFor (s : SlaveState) (randNb : List Nat) (ediv : Nat) : Option AvailableLtk :=
  s.availableLtk.filter (fun ltk => randNb == ltk.rand && ediv == ltk.ediv)

/-- The reply to a key request outside a pairing: the stored key written into 16 zero
bytes, or the refusal; each with the closure the handler passes along. -/
def storedKeyReply (found : Option AvailableLtk) (clearState : Bool) : Action :=
  match found with
  | some ltk => Action.ltkReply (some (padKey ltk.ltk)) (LtkReplyDone.withStoredKey ltk clearState)
  | none => Action.ltkReply none (LtkReplyDone.refused clearState)

/-- A bonded responder that has sent a Security Request and waits for the Pairing
Request. -/
def sampleSlaveAfterSecurityRequest : SlaveState :=
  SmpSlaveConnection.sendSecurityRequest true false false (SmpSlaveConnection.init (some sampleLtk))

/-! ## Security Request on the initiator (claim C30) -/

/-- The start-encryption commands among the actions: `(rand, ediv, key)` of each, in
order. -/
def startedEncryptions : List Action → List (List Nat × Nat × List Nat)
  | [] => []
  | Action.startEncryption rand ediv key _ :: rest => (rand, ediv, key) :: startedEncryptions rest
  | _ :: rest => startedEncryptions rest

/-- The stored key, if there is one and it meets what a Security Request asks for: 16
bytes long, `mitm` at least the requested `mitm`, `sc` at least the requested `sc`. -/
def SmpMasterConnection.usableStoredKey (s : MasterState) (mitm sc : Bool) : Option AvailableLtk :=
  s.availableLtk.filter (fun ltk => ltk.ltk.length == 16 && (ltk.mitm || !mitm) && (ltk.sc || !sc))

/-! ## Failure while the encryption is being started (claims C21 to C23) -/

/-- The Pairing Response of a peer without Secure Connections that asks the initiator for
its encryption key and distributes no key itself. -/
def samplePeerResponse : List Nat := [2, 3, 0, 0x01, 16, 1, 0]

/-- The nonce of the sample peer. -/
def samplePeerNonce : List Nat := List.replicate 16 55

/-- A legacy Just-Works pairing of the initiator, begun in session `s0` by a call of
`sendPairingRequest`, up to the start of the encryption: the peer answers with
`samplePeerResponse`, its confirm and its nonce, and every PDU of the initiator is
reported as sent before the answer arrives. -/
def sampleMasterPairsFrom (s0 : MasterState) : MasterState :=
  let s := SmpMasterConnection.sendPairingRequest none s0
  let s := SmpMasterConnection.acknowledgeLast s
  let s := SmpMasterConnection.onData sampleCrypto sampleLink sampleInputs samplePeerResponse s
  let s := SmpMasterConnection.acknowledgeLast s
  let s := SmpMasterConnection.onData sampleCrypto sampleLink sampleInputs
    ([SMP_PAIRING_CONFIRM] ++ Toolbox.c1 sampleCrypto (passkeyToTk 0) samplePeerNonce samplePeerResponse
      (s.pairingRequestData.getD []) sampleLink.iat sampleLink.ia sampleLink.rat sampleLink.ra) s
  let s := SmpMasterConnection.acknowledgeLast s
  SmpMasterConnection.onData sampleCrypto sampleLink sampleInputs ([SMP_PAIRING_RANDOM] ++ samplePeerNonce) s

/-- An initiator that has paired and waits for the outcome of the start-encryption
command. -/
def sampleMasterEncrypting : MasterState := sampleMasterPairsFrom (SmpMasterConnection.init none)

/-- An initiator with a stored key that received a Security Request, issued the
start-encryption command with the stored key, and then received Pairing Failed: it is back
in `STATE_IDLE` while the outcome of that command is outstanding. -/
def sampleMasterIdleOutstanding : MasterState :=
  SmpMasterConnection.onData sampleCrypto sampleLink sampleInputs [0x05, 0x08]
    (SmpMasterConnection.onData sampleCrypto sampleLink sampleInputs [0x0b, 0x01]
      (SmpMasterConnection.init (some sampleLtk)))

/-- The initiator `sampleMasterIdleOutstanding` after a call of `sendPairingRequest` and
the acknowledgement of the Pairing Request: it waits for the Pairing Response. -/
def sampleMasterAwaitingResponseOutstanding : MasterState :=
  SmpMasterConnection.acknowledgeLast (SmpMasterConnection.sendPairingRequest none sampleMasterIdleOutstanding)

/-- The initiator `sampleMasterIdleOutstanding` after a pairing: it waits for the outcome
of the start-encryption command issued after the pairing, and the outcome of the one
issued with the stored key is outstanding as well. -/
def sampleMasterEncryptingOutstanding : MasterState := sampleMasterPairsFrom sampleMasterIdleOutstanding

/-- The sample initiator after the controller has reported the encryption as started: it
has sent its encryption key (Encryption Information, Master Identification) and waits for
the acknowledgement of the last PDU. -/
def sampleMasterAwaitingLastAck : MasterState :=
  SmpMasterConnection.onEncryptionStarted sampleLink sampleInputs EncryptionStart.afterPairing 0 true
    sampleMasterEncrypting

/-- The state in which a deferred failure is recorded, by its origin. -/
def deferredState (remote : Bool) : Nat :=
  if remote then STATE_CANCELLED_BY_PEER_AND_W4_ENCRYPTION_STARTED
  else STATE_CANCELLED_BY_LOCAL_AND_W4_ENCRYPTION_STARTED

/-- A deferred failure with this reason and origin is recorded: the state and the saved
reason are those that `onPairingFailed` resp. `sendPairingFailed` set during the wait for
the encryption after a pairing, and no encryption with a stored key is outstanding. -/
def SmpMasterConnection.deferredFailure (s : MasterState) (reason : Nat) (remote : Bool) : Prop :=
  s.state = deferredState remote ∧ s.savedPairingFailedReason = some reason
    ∧ s.encryptionProcessWithLtk = false

/-- The pairing-fail report of `pairingFailed(reason, isErrorFromRemote)`: the event, after
the Pairing Failed PDU when the failure is local. -/
def failureReport (hasOutgoingFailedMsg : Bool) (reason : Nat) (remote : Bool) : List Action :=
  if remote then [Action.emit (Event.pairingFail reason true)] else localFailure hasOutgoingFailedMsg reason

/-- An initiator with a stored key whose link has been encrypted with that key: the user
called `startEncryption` and the controller reported success. -/
def sampleMasterEncrypted : MasterState :=
  SmpMasterConnection.onEncryptionStarted sampleLink sampleInputs
    (EncryptionStart.withAvailableLtk false 0 false false false) 0 true
    (SmpMasterConnection.startEncryption (SmpMasterConnection.init (some sampleLtk)))

/-- The initiator on the encrypted link has paired anew, and while it waits for the outcome
of the start-encryption command the peer has sent Pairing Failed with reason 8. -/
def sampleMasterDeferredOnEncryptedLink : MasterState :=
  SmpMasterConnection.onData sampleCrypto sampleLink sampleInputs [SMP_PAIRING_FAILED, 8]
    (sampleMasterPairsFrom sampleMasterEncrypted)

/-- The sample initiator (link not encrypted before) with the deferred failure of the peer,
reason 8. -/
def sampleMasterDeferred : MasterState :=
  SmpMasterConnection.onData sampleCrypto sampleLink sampleInputs [SMP_PAIRING_FAILED, 8] sampleMasterEncrypting

/-! ## Pairing Failed after a failure (claim C26) -/

/-- A responder that is Idle because its pairing attempt failed: the peer sent Pairing
Failed with reason 8 during the pairing. -/
def sampleSlaveFailed : SlaveState :=
  SmpSlaveConnection.onData sampleCrypto sampleLink sampleInputs [SMP_PAIRING_FAILED, 8] sampleSlavePairing

/-- An initiator that is Idle because its pairing attempt failed: the peer answered the
Pairing Request with Pairing Failed, reason 8. -/
def sampleMasterFailed : MasterState :=
  SmpMasterConnection.onData sampleCrypto sampleLink sampleInputs [SMP_PAIRING_FAILED, 8]
    sampleMasterAwaitingResponse

/-! ## PDUs of a wrong length (claim C25) -/

/-- The length the wire format defines for the PDU with this opcode, as claim C25 lists
them; `none` for the opcodes it lists no length for. -/
def wireLength (opcode : Nat) : Option Nat :=
  if opcode == SMP_PAIRING_REQUEST || opcode == SMP_PAIRING_RESPONSE then some 7
  else if opcode == SMP_PAIRING_CONFIRM || opcode == SMP_PAIRING_RANDOM
      || opcode == SMP_ENCRYPTION_INFORMATION || opcode == SMP_IDENTITY_INFORMATION
      || opcode == SMP_DHKEY_CHECK then some 17
  else if opcode == SMP_PAIRING_FAILED || opcode == SMP_SECURITY_REQUEST
      || opcode == SMP_KEYPRESS_NOTIFICATION then some 2
  else if opcode == SMP_MASTER_IDENTIFICATION then some 11
  else if opcode == SMP_IDENTITY_ADDRESS_INFORMATION then some 8
  else if opcode == SMP_PAIRING_PUBLIC_KEY then some 65
  else none

/-- The responder handles a PDU with this opcode in its present state: the test that opens
the case of the opcode in the data handler lets the PDU pass.  Pairing Failed, which has no
such test, and the opcodes without a case are left out. -/
def SmpSlaveConnection.acceptsOpcode (s : SlaveState) (opcode : Nat) : Bool :=
  if opcode == SMP_PAIRING_REQUEST then
    s.state == STATE_IDLE || (s.state == STATE_W4_PACKET && s.packetWaitOpcode == some SMP_PAIRING_REQUEST)
  else if opcode == SMP_KEYPRESS_NOTIFICATION then
    s.passkeyBitCounter == some 0
      && ((s.packetWaitOpcode == some SMP_PAIRING_CONFIRM
          && (s.state == STATE_W4_PACKET || s.state == STATE_W4_PACKET_ENQUEUED))
        || (s.packetWaitOpcode == some SMP_PAIRING_PUBLIC_KEY && s.state == STATE_W4_PACKET))
  else if opcode == SMP_PAIRING_PUBLIC_KEY || opcode == SMP_PAIRING_CONFIRM || opcode == SMP_PAIRING_RANDOM
      || opcode == SMP_DHKEY_CHECK || opcode == SMP_ENCRYPTION_INFORMATION
      || opcode == SMP_MASTER_IDENTIFICATION || opcode == SMP_IDENTITY_INFORMATION
      || opcode == SMP_IDENTITY_ADDRESS_INFORMATION then
    !SmpSlaveConnection.notWaitingFor s opcode
  else false

/-- The initiator handles a PDU with this opcode in its present state (as for the
responder). -/
def SmpMasterConnection.acceptsOpcode (s : MasterState) (opcode : Nat) : Bool :=
  if opcode == SMP_SECURITY_REQUEST then s.state == STATE_IDLE
  else if opcode == SMP_KEYPRESS_NOTIFICATION then
    s.passkeyBitCounter == some 0
      && ((s.state == STATE_W4_PACKET || s.state == STATE_W4_PACKET_ENQUEUED)
        && (s.packetWaitOpcode == some SMP_PAIRING_PUBLIC_KEY
          || s.packetWaitOpcode == some SMP_PAIRING_CONFIRM))
  else if opcode == SMP_PAIRING_RESPONSE || opcode == SMP_PAIRING_PUBLIC_KEY || opcode == SMP_PAIRING_CONFIRM
      || opcode == SMP_PAIRING_RANDOM || opcode == SMP_DHKEY_CHECK || opcode == SMP_ENCRYPTION_INFORMATION
      || opcode == SMP_MASTER_IDENTIFICATION || opcode == SMP_IDENTITY_INFORMATION
      || opcode == SMP_IDENTITY_ADDRESS_INFORMATION then
    !SmpMasterConnection.notWaitingFor s opcode
  else false

/-- A responder that has answered a Pairing Request with the Secure-Connections bit: once
its Pairing Response is reported as sent it waits for the public key of the initiator. -/
def sampleSlaveAwaitingKey : SlaveState :=
  SmpSlaveConnection.onData sampleCrypto sampleLink sampleInputs [1, 3, 0, 0x09, 16, 0, 0]
    (SmpSlaveConnection.init none)

/-! ## Key distribution (claims C31 and C32) -/

/-- The responder of the sample legacy pairing (key size 10), with both responder key bits
set in the combined features, after the controller has asked for the key of the pairing:
it waits for the encryption to start. -/
def sampleSlaveEncryptionStarted : SlaveState :=
  SmpSlaveConnection.onLtkRequest sampleCrypto (bufferAlloc 8) 0
    { sampleSlaveLegacy with
      pairingFeatures := some { sampleLegacyFeatures with rspKeyDistr := { encKey := true, idKey := true } } }

/-- The array `packets` of `startDistributeOwnKeys`: the key PDUs of the initiator, by the
combined features. -/
def SmpMasterConnection.ownKeyPdus (k : Link) (i : Inputs) (pf : PairingFeatures) : List (List Nat) :=
  (if !pf.sc && pf.initKeyDistr.encKey then
    [[SMP_ENCRYPTION_INFORMATION] ++ slice (zeroKeyTail i.random26 pf.maxKeySize) 0 16,
     [SMP_MASTER_IDENTIFICATION] ++ (zeroKeyTail i.random26 pf.maxKeySize).drop 16]
   else [])
  ++ (if pf.initKeyDistr.idKey then
    [[SMP_IDENTITY_INFORMATION] ++ bufferAlloc 16,
     copyInto k.ia ([SMP_IDENTITY_ADDRESS_INFORMATION, k.iat % 256] ++ bufferAlloc 6) 2]
   else [])

/-- A legacy Just-Works pairing of the initiator up to the start of the encryption: the
user asks for a pairing with the features `req`, the peer answers with the Pairing
Response `response`, its confirm and its nonce, and every PDU of the initiator is reported
as sent before the answer arrives. -/
def sampleMasterPairing (req : Option UserFeatures) (response : List Nat) : MasterState :=
  let s := SmpMasterConnection.sendPairingRequest req (SmpMasterConnection.init none)
  let s := SmpMasterConnection.acknowledgeLast s
  let s := SmpMasterConnection.onData sampleCrypto sampleLink sampleInputs response s
  let s := SmpMasterConnection.acknowledgeLast s
  let s := SmpMasterConnection.onData sampleCrypto sampleLink sampleInputs
    ([SMP_PAIRING_CONFIRM] ++ Toolbox.c1 sampleCrypto (passkeyToTk 0) samplePeerNonce response
      (s.pairingRequestData.getD []) sampleLink.iat sampleLink.ia sampleLink.rat sampleLink.ra) s
  let s := SmpMasterConnection.acknowledgeLast s
  SmpMasterConnection.onData sampleCrypto sampleLink sampleInputs ([SMP_PAIRING_RANDOM] ++ samplePeerNonce) s

/-- An initiator that has paired with a peer without Secure Connections, both sides
distributing their encryption key, and waits for the outcome of the start-encryption
command. -/
def sampleMasterEncryptingBothKeys : MasterState := sampleMasterPairing none [2, 3, 0, 0x01, 16, 1, 1]

/-- After a step from `s` to `s'` the initiator has sent no PDU and waits for the PDU
`opcode` of the responder; the negotiated features and the transport are as before. -/
def SmpMasterConnection.awaitsResponderKey (s s' : MasterState) (opcode : Nat) : Prop :=
  sentPdus s'.log = sentPdus s.log ∧ s'.state = STATE_W4_PACKET ∧ s'.packetWaitOpcode = some opcode
  ∧ s'.pairingFeatures = s.pairingFeatures ∧ s'.sendDisabled = s.sendDisabled

/-! ## Keypress notifications sent by the user (claim C33) -/

/-- User features of a Keyboard-Only device that asks for MITM protection and keypress
notifications. -/
def sampleUserKeypress : UserFeatures :=
  { emptyUserFeatures with ioCap := JsVal.int 2, mitm := JsVal.bool true, keypress := JsVal.bool true }

/-- A listener of the pairing-request event that answers with `sampleUserKeypress`. -/
def sampleInputsKeypress : Inputs :=
  { sampleInputs with pairingRequestHandler := PairingRequestHandler.answers (some sampleUserKeypress) }

/-- An initiator whose user is asked for the passkey: it has sent a Pairing Request with
`sampleUserKeypress`, and a Display-Only peer has answered with MITM protection and
keypress notifications (legacy pairing, PasskeyEntry-InitiatorInputs). -/
def sampleMasterEnteringPasskey : MasterState :=
  let s := SmpMasterConnection.sendPairingRequest (some sampleUserKeypress) (SmpMasterConnection.init none)
  let s := SmpMasterConnection.acknowledgeLast s
  SmpMasterConnection.onData sampleCrypto sampleLink sampleInputs [2, 0, 0, 0x14, 16, 0, 0] s

/-- A responder whose user is asked for the passkey: a Display-Only initiator has sent a
Pairing Request with MITM protection and keypress notifications, and the listener has
answered with `sampleUserKeypress` (legacy pairing, PasskeyEntry-ResponderInputs). -/
def sampleSlaveEnteringPasskey : SlaveState :=
  SmpSlaveConnection.onData sampleCrypto sampleLink sampleInputsKeypress [1, 0, 0, 0x14, 16, 0, 0]
    (SmpSlaveConnection.init none)

/-! ## The advertising data builder: `advertising-data-builder.js` (claim C34) -/

/-- The errors the builder throws, as far as `addData` and `addFlags` go:
`'This item does not fit, needs ... bytes but have only ... left'` with its two numbers,
and `'Already has flags'`. -/
inductive BuilderError where
  | doesNotFit (needs left : Nat)
  | alreadyHasFlags
  deriving DecidableEq, Repr

/-- The closure variables `data` and `hasFlags` of `AdvertisingDataBuilder`. -/
structure AdvertisingDataBuilder where
  data : List Nat
  hasFlags : Bool
  deriving DecidableEq, Repr

deriving instance DecidableEq for Except

namespace AdvertisingDataBuilder

/-- The builder as the constructor leaves it. -/
def init : AdvertisingDataBuilder := { data := bufferAlloc 0, hasFlags := false }

/-- The function `addData`. -/
def addData (type : Nat) (buf : List Nat) (b : AdvertisingDataBuilder) : Except BuilderError AdvertisingDataBuilder :=
  if b.data.length + 2 + buf.length > 31 then
    Except.error (BuilderError.doesNotFit (2 + buf.length) (31 - b.data.length))
  else Except.ok { b with data := b.data ++ bufferFrom [1 + buf.length, type] ++ buf }

/-- The array `keys` of `addFlags`. -/
def flagKeys : List String :=
  ["leLimitedDiscoverableMode", "leGeneralDiscoverableMode", "brEdrNotSupported",
   "simultaneousLeAndBdEdrToSameDeviceCapableController", "simultaneousLeAndBrEdrToSameDeviceCapableHost"]

/-- The loop of `addFlags`: bit `i` of the result is set when `flags` includes `keys[i]`. -/
def flagsByte (flags : List String) : Nat :=
  flagKeys.enum.foldl (fun acc p => if flags.contains p.2 then acc ||| (1 <<< p.1) else acc) 0

/-- The method `addFlags`, on an array of strings.  The source never assigns `hasFlags`. -/
def addFlags (flags : List String) (b : AdvertisingDataBuilder) : Except BuilderError AdvertisingDataBuilder :=
  let flagsByte := flagsByte flags
  if b.hasFlags then Except.error BuilderError.alreadyHasFlags
  else addData 0x01 (bufferFrom [flagsByte]) b

/-- The method `build`. -/
def build (b : AdvertisingDataBuilder) : List Nat := bufferFrom b.data

end AdvertisingDataBuilder

/-! ## Security properties reported with the encrypt event (claims C35 and C36) -/

/-- An initiator whose user asked for MITM protection and whose peer, like itself, has no
input and no output: the legacy pairing used Just Works, neither side distributes a key,
and the initiator waits for the outcome of the start-encryption command. -/
def sampleMasterEncryptingMitm : MasterState :=
  sampleMasterPairing (some { emptyUserFeatures with mitm := JsVal.bool true }) [2, 3, 0, 0x00, 16, 0, 0]

/-- A responder without listener whose peer asked for MITM protection in a legacy Pairing
Request without key distribution: the pairing used Just Works, the initiator has sent its
confirm and its nonce, every PDU of the responder has been reported as sent, the
controller has asked for the key, and the responder waits for the encryption to start. -/
def sampleSlaveEncryptingMitm : SlaveState :=
  let s := SmpSlaveConnection.onData sampleCrypto sampleLink sampleInputs [1, 3, 0, 0x04, 16, 0, 0]
    (SmpSlaveConnection.init none)
  let s := SmpSlaveConnection.acknowledgeLast s
  let s := SmpSlaveConnection.onData sampleCrypto sampleLink sampleInputs
    ([SMP_PAIRING_CONFIRM] ++ Toolbox.c1 sampleCrypto (passkeyToTk 0) samplePeerNonce
      (s.pairingResponseData.getD []) [1, 3, 0, 0x04, 16, 0, 0] sampleLink.iat sampleLink.ia sampleLink.rat
      sampleLink.ra) s
  let s := SmpSlaveConnection.acknowledgeLast s
  let s := SmpSlaveConnection.onData sampleCrypto sampleLink sampleInputs ([SMP_PAIRING_RANDOM] ++ samplePeerNonce) s
  let s := SmpSlaveConnection.acknowledgeLast s
  SmpSlaveConnection.onLtkRequest sampleCrypto (bufferAlloc 8) 0 s

/-! ## Both roles negotiate the same features (claim C37) -/

/-- A responder whose listener has been handed the Pairing Request `sampleBondingRequest`
and has not answered yet. -/
def sampleSlaveAskingUser : SlaveState :=
  SmpSlaveConnection.onData sampleCrypto sampleLink sampleInputsDeferring sampleBondingRequest
    (SmpSlaveConnection.init none)

/-! ## The duplicate cache: `DuplicateCache` of `utils.js` (claim C40) -/

/-- A node object `{prev, next, key, value}` of the cache.  A reference to a node is the
index of the node among the objects created (`none` is `null`); values are numbers here. -/
structure CacheNode where
  prev : Option Nat
  next : Option Nat
  key : String
  value : Nat
  deriving DecidableEq, Repr

/-- The closure variables of `DuplicateCache` (`capacity` is the argument of the
constructor, which the methods count down and up), the node objects created so far, and
the keys of the remove events emitted so far. -/
structure DuplicateCache where
  nodes : List CacheNode
  first : Option Nat
  last : Option Nat
  nodeMap : List (String × Nat)
  capacity : Nat
  removeEvents : List String
  deriving DecidableEq, Repr

namespace DuplicateCache

/-- The constructor: it throws for a capacity that is not positive. -/
def create (capacity : Int) : Option DuplicateCache :=
  if capacity ≤ 0 then none
  else some { nodes := [], first := none, last := none, nodeMap := [], capacity := capacity.toNat,
              removeEvents := [] }

/-- The expression `nodeMap[key]`: the node stored under the key, if any. -/
def lookup (d : DuplicateCache) (key : String) : Option Nat :=
  (d.nodeMap.find? (fun p => p.1 == key)).map (fun p => p.2)

/-- The method `isDuplicate`: `key in nodeMap`. -/
def isDuplicate (d : DuplicateCache) (key : String) : Bool := (d.lookup key).isSome

/-- The method `get`. -/
def get (d : DuplicateCache) (key : String) : Option Nat :=
  match d.lookup key with
  | some n => (d.nodes.get? n).map (fun node => node.value)
  | none => none

/-- The assignment `node.prev = p` to the node object `n`. -/
def setPrev (nodes : List CacheNode) (n : Nat) (p : Option Nat) : List CacheNode :=
  nodes.enum.map (fun q => if q.1 = n then { q.2 with prev := p } else q.2)

/-- The statement `delete nodeMap[key]`. -/
def deleteKey (nodeMap : List (String × Nat)) (key : String) : List (String × Nat) :=
  nodeMap.filter (fun p => p.1 != key)

/-- The method `remove`: the cache afterwards and the value returned. -/
def remove (key : String) (d : DuplicateCache) : DuplicateCache × Bool :=
  match d.lookup key with
  | some n =>
    match d.nodes.get? n with
    | some node =>
      let d := { d with nodeMap := deleteKey d.nodeMap key }
      let d :=
        match node.next with
        | some nx => { d with nodes := setPrev d.nodes nx node.prev }
        | none => d
      let d := if d.first == some n then { d with first := node.next } else d
      let d := if d.last == some n then { d with last := node.prev } else d
      ({ d with capacity := d.capacity + 1 }, true)
    | none => (d, false)
  | none => (d, false)

/-- The method `add`: the cache afterwards and the value returned; `none` when the source
throws at `first.key` because `first` is `null`. -/
def add (key : String) (value : Nat) (d : DuplicateCache) : Option (DuplicateCache × Bool) :=
  let r := remove key d
  let d := r.1
  let isPresent := r.2
  let evicted : Option (DuplicateCache × Option String) :=
    if d.capacity == 0 then
      match d.first.bind (fun n => d.nodes.get? n) with
      | none => none
      | some firstNode =>
        let firstKey := firstNode.key
        let d := { d with nodeMap := deleteKey d.nodeMap firstNode.key, first := firstNode.next }
        let d :=
          match d.first with
          | some f => { d with nodes := setPrev d.nodes f none }
          | none => { d with last := none }
        some ({ d with capacity := d.capacity + 1 }, some firstKey)
    else some (d, none)
  match evicted with
  | none => none
  | some (d, firstKey) =>
    let node : CacheNode := { prev := d.last, next := none, key := key, value := value }
    let n := d.nodes.length
    let d := { d with nodes := d.nodes ++ [node], nodeMap := (key, n) :: deleteKey d.nodeMap key, last := some n }
    let d := if d.first == none then { d with first := some n } else d
    let d := { d with capacity := d.capacity - 1 }
    let d :=
      match firstKey with
      | some fk => if fk != key then { d with removeEvents := d.removeEvents ++ [fk] } else d
      | none => d
    some (d, !isPresent)

/-- The keys stored in the cache. -/
def keys (d : DuplicateCache) : List String := d.nodeMap.map (fun p => p.1)

/-- A run of `add` calls from a fresh cache; `none` when the constructor or a call throws. -/
def addAll (capacity : Int) (entries : List (String × Nat)) : Option DuplicateCache :=
  entries.foldl (fun d e => d.bind (fun d => (add e.1 e.2 d).map (fun r => r.1))) (create capacity)

end DuplicateCache

/-! ## Numeric comparison gates the DHKey Check (claim C38) -/

/-- The DHKey Check PDUs among the PDUs handed to the transport, in order. -/
def dhKeyChecks (log : List Action) : List (List Nat) :=
  (sentPdus log).filter (fun d => d.head? == some SMP_DHKEY_CHECK)

/-- The closures an action hands to the transport. -/
def callbacksOf : Action → List Callback
  | Action.sendData _ sentCallback completeCallback => sentCallback.toList ++ completeCallback.toList
  | _ => []

/-- No PDU in the log carries the closure of `sendPacket` that captured this run counter
and this callback. -/
def NoPacketSent (log : List Action) (runCounter : Nat) (callback : Option PacketCallback) : Prop :=
  ∀ a ∈ log, Callback.packetSent runCounter callback ∉ callbacksOf a

/-- Numeric Comparison is the model of a Secure-Connections pairing. -/
def comparisonInUse (associationModel : Option Nat) (pairingFeatures : Option PairingFeatures) : Prop :=
  associationModel = some ASSOCIATION_MODEL_NUMERIC_COMPARISON
  ∧ ∃ pf, pairingFeatures = some pf ∧ pf.sc = true

/-- The invariant behind the responder part of claim C38, on the variables it concerns;
`confirmed` is the run counter at the last call of a confirmation callback that passed the
run-counter test.  A confirmation flag that is set belongs to the current run, or the
responder cannot take a DHKey Check before the flag is reset: it does not wait for that PDU
in `STATE_W4_PACKET`, and no acknowledgement of this run can bring it there.  Under Numeric
Comparison a PDU whose acknowledgement leads to `STATE_W4_LTK_REQUEST` has been sent in this
run only after the confirmation, and the responder is in that state only after it.  While
the user is asked for the features, no PDU of this run has been sent with a closure of
`sendPacket`. -/
def GateOn (confirmed : Option Nat) (state : Nat) (packetWaitOpcode : Option Nat) (numericComparisonOk : Bool)
    (associationModel : Option Nat) (pairingFeatures : Option PairingFeatures) (runCounter : Nat)
    (log : List Action) : Prop :=
  (numericComparisonOk = true → confirmed = some runCounter
    ∨ (packetWaitOpcode = some SMP_DHKEY_CHECK → state ≠ STATE_W4_PACKET ∧ NoPacketSent log runCounter none))
  ∧ (comparisonInUse associationModel pairingFeatures → confirmed = some runCounter
    ∨ NoPacketSent log runCounter (some PacketCallback.toW4LtkRequest))
  ∧ (state = STATE_W4_USER_FEATURES → NoPacketSent log runCounter none
    ∧ NoPacketSent log runCounter (some PacketCallback.toW4LtkRequest))
  ∧ (state = STATE_W4_LTK_REQUEST → comparisonInUse associationModel pairingFeatures →
    confirmed = some runCounter)

namespace SmpSlaveConnection

def Gate (confirmed : Option Nat) (s : SlaveState) : Prop :=
  Inv s ∧ GateOn confirmed s.state s.packetWaitOpcode s.numericComparisonOk s.associationModel
    s.pairingFeatures s.runCounter s.log

/-- The run whose comparison value the user has confirmed last, after a step: a call of the
confirmation callback that captured the current run counter passes the test of the
callback and is recorded. -/
def confirmedAfter (e : SlaveInput) (s : SlaveState) (confirmed : Option Nat) : Option Nat :=
  match e with
  | SlaveInput.numericComparisonCallback n => if n = s.runCounter then some n else confirmed
  | _ => confirmed

/-- The sessions that arise, each with the run whose comparison value was confirmed last
(`none` before the first confirmation). -/
inductive ReachableConfirmed (c : Crypto) (k : Link) : SlaveState → Option Nat → Prop where
  | init (stored : Option AvailableLtk) : ReachableConfirmed c k (init stored) none
  | step (i : Inputs) (e : SlaveInput) (s : SlaveState) (confirmed : Option Nat) :
      ReachableConfirmed c k s confirmed → enabled e s →
      ReachableConfirmed c k (step c k i e s) (confirmedAfter e s confirmed)

end SmpSlaveConnection

/-- What can happen to an Initiator Session: every function the session registers with or
hands to its surroundings, and every method it offers. -/
inductive MasterInput where
  /-- A PDU arrives. -/
  | data (d : List Nat)
  /-- The controller reports the outcome of a start-encryption command. -/
  | encryptionStarted (origin : EncryptionStart) (status : Nat) (isOn : Bool)
  | setAvailableLtk (ltk rand : List Nat) (ediv : Nat) (mitm sc : Bool)
  | startEncryption
  | sendPairingRequest (req : Option UserFeatures)
  | sendPairingFailed (reason : Nat)
  | sendKeypressNotification (notificationType : Option Int)
  /-- The user calls the callback of a pairing-request event. -/
  | pairingRequestCallback (thisRunCounter : Nat) (req : Option UserFeatures)
  /-- The user calls the callback of a passkey-exchange event of a Passkey Entry model. -/
  | passkeyCallback (ignore : Bool) (thisRunCounter : Nat) (passkeyResponse : Option Int)
  /-- The user calls the callback of a passkey-exchange event of Numeric Comparison. -/
  | numericComparisonCallback (thisRunCounter : Nat)
  /-- The transport calls a closure it received with a PDU. -/
  | acknowledge (cb : Callback)
  /-- The timer expires. -/
  | timeout
  deriving DecidableEq, Repr

/-- The start-encryption commands issued after a pairing, in order. -/
def afterPairingStarts (log : List Action) : List Action :=
  log.filter (fun a =>
    match a with
    | Action.startEncryption _ _ _ EncryptionStart.afterPairing => true
    | _ => false)

/-- The invariant behind the initiator part of claim C38, on the variables it concerns;
`confirmed` is the run counter at the last call of a confirmation callback that passed the
tests of the callback.  No closure in the log has captured a run counter above the current
one.  Under Numeric Comparison an initiator that awaits the DHKey Check of the responder
holds the confirmation of this run, or it cannot take that PDU: it is not in
`STATE_W4_PACKET` and no acknowledgement of this run can bring it there.  Numeric
Comparison is only chosen in a Secure-Connections pairing. -/
def MasterGateOn (confirmed : Option Nat) (state : Nat) (packetWaitOpcode : Option Nat)
    (associationModel : Option Nat) (pairingFeatures : Option PairingFeatures) (runCounter : Nat)
    (log : List Action) : Prop :=
  (∀ a ∈ log, ∀ n ∈ callbackCounters a, n ≤ runCounter)
  ∧ (packetWaitOpcode = some SMP_DHKEY_CHECK →
      associationModel = some ASSOCIATION_MODEL_NUMERIC_COMPARISON →
      confirmed = some runCounter
      ∨ (state ≠ STATE_W4_PACKET ∧ ∀ callback, NoPacketSent log runCounter callback))
  ∧ (associationModel = some ASSOCIATION_MODEL_NUMERIC_COMPARISON →
      comparisonInUse associationModel pairingFeatures)

namespace SmpMasterConnection

/-- The session after one step. -/
def step (c : Crypto) (k : Link) (i : Inputs) (e : MasterInput) (s : MasterState) : MasterState :=
  match e with
  | MasterInput.data d => onData c k i d s
  | MasterInput.encryptionStarted origin status isOn => onEncryptionStarted k i origin status isOn s
  | MasterInput.setAvailableLtk ltk rand ediv mitm sc => setAvailableLtk ltk rand ediv mitm sc s
  | MasterInput.startEncryption => startEncryption s
  | MasterInput.sendPairingRequest req => sendPairingRequest req s
  | MasterInput.sendPairingFailed reason => this_sendPairingFailed reason s
  | MasterInput.sendKeypressNotification notificationType => sendKeypressNotification notificationType s
  | MasterInput.pairingRequestCallback thisRunCounter req => cont thisRunCounter req s
  | MasterInput.passkeyCallback ignore thisRunCounter passkeyResponse =>
    passkeyCallback c k i ignore thisRunCounter passkeyResponse s
  | MasterInput.numericComparisonCallback thisRunCounter => numericComparisonCallback c k thisRunCounter s
  | MasterInput.acknowledge cb => onCallback cb s
  | MasterInput.timeout => onTimeout i s

/-- A step can be taken: a closure can only be called after the session has handed it
over (with a PDU, a start-encryption command or an event), and the timer only expires
while armed. -/
def enabled (e : MasterInput) (s : MasterState) : Prop :=
  match e with
  | MasterInput.encryptionStarted origin _ _ =>
    ∃ rand ediv key, Action.startEncryption rand ediv key origin ∈ s.log
  | MasterInput.pairingRequestCallback thisRunCounter _ =>
    ∃ bondingFlags mitm sc keypress,
      Action.emit (Event.securityRequest bondingFlags mitm sc keypress thisRunCounter) ∈ s.log
  | MasterInput.passkeyCallback ignore thisRunCounter _ =>
    ∃ associationModel passkey,
      Action.emit (Event.passkeyExchange associationModel passkey thisRunCounter) ∈ s.log
      ∧ associationModel ≠ ASSOCIATION_MODEL_NUMERIC_COMPARISON
      ∧ ignore = (associationModel == ASSOCIATION_MODEL_PASSKEY_ENTRY_RSP_INPUTS)
  | MasterInput.numericComparisonCallback thisRunCounter =>
    ∃ passkey, Action.emit (Event.passkeyExchange ASSOCIATION_MODEL_NUMERIC_COMPARISON passkey thisRunCounter)
      ∈ s.log
  | MasterInput.acknowledge cb =>
    ∃ data other, Action.sendData data (some cb) other ∈ s.log ∨ Action.sendData data other (some cb) ∈ s.log
  | MasterInput.timeout => s.timeoutPending = true
  | _ => True

def Gate (confirmed : Option Nat) (s : MasterState) : Prop :=
  MasterGateOn confirmed s.state s.packetWaitOpcode s.associationModel s.pairingFeatures s.runCounter s.log

/-- The run whose comparison value the user has confirmed last, after a step: a call of the
confirmation callback passes the tests of the callback when it captured the current run
counter and the initiator waits for the confirmation, and is then recorded. -/
def confirmedAfter (e : MasterInput) (s : MasterState) (confirmed : Option Nat) : Option Nat :=
  match e with
  | MasterInput.numericComparisonCallback n =>
    if n = s.runCounter ∧ s.state = STATE_W4_USER_NUMERIC_COMPARISON then some n else confirmed
  | _ => confirmed

/-- The sessions that arise, each with the run whose comparison value was confirmed last
(`none` before the first confirmation). -/
inductive ReachableConfirmed (c : Crypto) (k : Link) : MasterState → Option Nat → Prop where
  | init (stored : Option AvailableLtk) : ReachableConfirmed c k (init stored) none
  | step (i : Inputs) (e : MasterInput) (s : MasterState) (confirmed : Option Nat) :
      ReachableConfirmed c k s confirmed → enabled e s →
      ReachableConfirmed c k (step c k i e s) (confirmedAfter e s confirmed)

end SmpMasterConnection

/-- The actions of the initiator that claim C38 gates: the DHKey Check PDUs and the
start-encryption commands issued after a pairing. -/
def gatedActions (log : List Action) : List (List Nat) × List Action :=
  (dhKeyChecks log, afterPairingStarts log)

/-- Numeric Comparison has been chosen only in a Secure-Connections pairing, and every
pairing-request event carries an I/O capability in the range the parser leaves. -/
def SmpSlaveConnection.Negotiated (s : SlaveState) : Prop :=
  (s.associationModel = some ASSOCIATION_MODEL_NUMERIC_COMPARISON →
    comparisonInUse s.associationModel s.pairingFeatures)
  ∧ (∀ req n, Action.emit (Event.pairingRequest req n) ∈ s.log → req.ioCap ≤ 4)


/-- A user who answers the pairing request with Keyboard-Display and MITM protection. -/
def sampleUserComparison : UserFeatures :=
  { emptyUserFeatures with ioCap := JsVal.int 4, mitm := JsVal.bool true }

/-- The surroundings of the sample responder: the listener of the pairing-request event
answers at once, the nonce is `7..`. -/
def sampleInputsComparison : Inputs :=
  { sampleInputs with pairingRequestHandler := PairingRequestHandler.answers (some sampleUserComparison) }

/-- The surroundings of the sample initiator: the nonce is `99..`. -/
def sampleInputsInitiator : Inputs := { sampleInputs with random16 := List.replicate 16 99 }

/-- The Pairing Public Key PDUs of the sample pairing. -/
def sampleInitiatorKey : List Nat := [SMP_PAIRING_PUBLIC_KEY] ++ List.replicate 32 1 ++ List.replicate 32 2

def sampleResponderKey : List Nat := [SMP_PAIRING_PUBLIC_KEY] ++ List.replicate 32 4 ++ List.replicate 32 5

/-- The Pairing Confirm of the sample responder, `f4(PKb.x, PKa.x, Nb, 0)`. -/
def sampleResponderConfirm : List Nat :=
  [SMP_PAIRING_CONFIRM, 144, 5, 166, 195, 196, 105, 106, 135, 168, 221, 254, 27, 220, 65, 66, 95]

/-- The Pairing Random PDUs of the sample pairing. -/
def sampleInitiatorRandom : List Nat := [SMP_PAIRING_RANDOM] ++ List.replicate 16 99

def sampleResponderRandom : List Nat := [SMP_PAIRING_RANDOM] ++ List.replicate 16 7

/-- The DHKey Check `Ea` of the sample initiator. -/
def sampleInitiatorCheck : List Nat :=
  [SMP_DHKEY_CHECK, 60, 98, 201, 76, 2, 160, 91, 90, 47, 235, 141, 45, 184, 51, 198, 46]

/-- The steps of the sample responder up to the receipt of the DHKey Check of the
initiator: Pairing Request, Pairing Public Key and Pairing Random arrive, each answer is
acknowledged, the comparison value is shown, then the DHKey Check arrives. -/
def sampleResponderSteps : List SlaveInput :=
  [SlaveInput.data sampleScRequest, SlaveInput.acknowledge (Callback.packetSent 1 none),
   SlaveInput.data sampleInitiatorKey, SlaveInput.acknowledge (Callback.packetSent 1 none),
   SlaveInput.data sampleInitiatorRandom, SlaveInput.acknowledge (Callback.packetSent 1 none),
   SlaveInput.data sampleInitiatorCheck]

/-- The responder after the first `n` of these steps. -/
def sampleSlaveComparing (n : Nat) : SlaveState :=
  (sampleResponderSteps.take n).foldl
    (fun s e => SmpSlaveConnection.step sampleCryptoResponder sampleLink sampleInputsComparison e s)
    (SmpSlaveConnection.init none)

/-- The steps of the sample initiator up to the display of the comparison value: the
user starts the pairing, Pairing Response, Pairing Public Key, Pairing Confirm and Pairing
Random arrive, and each PDU of the initiator is acknowledged. -/
def sampleInitiatorSteps : List MasterInput :=
  [MasterInput.sendPairingRequest (some sampleUserComparison), MasterInput.acknowledge (Callback.packetSent 0 none),
   MasterInput.data sampleScResponse, MasterInput.acknowledge (Callback.packetSent 0 none),
   MasterInput.data sampleResponderKey, MasterInput.data sampleResponderConfirm,
   MasterInput.acknowledge (Callback.packetSent 0 none), MasterInput.data sampleResponderRandom]

/-- The initiator after the first `n` of these steps. -/
def sampleMasterComparing (n : Nat) : MasterState :=
  (sampleInitiatorSteps.take n).foldl
    (fun s e => SmpMasterConnection.step sampleCryptoInitiator sampleLink sampleInputsInitiator e s)
    (SmpMasterConnection.init none)

/-! ## Association model (claims C2 to C6) -/

/-- C2: `getAssociationModel` returns JustWorks for every pair of capabilities and every
`sc` when `mitm` is false, and, when `mitm` is true, whenever the initiator or the
responder capability is No-Input-No-Output. -/
theorem getAssociationModel_just_works (init rsp : Nat) (sc : Bool) :
    getAssociationModel init rsp sc false = ASSOCIATION_MODEL_JUST_WORKS
    ∧ getAssociationModel IO_CAP_NO_INPUT_NO_OUTPUT rsp sc true = ASSOCIATION_MODEL_JUST_WORKS
    ∧ getAssociationModel init IO_CAP_NO_INPUT_NO_OUTPUT sc true = ASSOCIATION_MODEL_JUST_WORKS := by
  refine ⟨by simp [getAssociationModel], ?_, ?_⟩
  · cases sc <;> simp [getAssociationModel, IO_CAP_NO_INPUT_NO_OUTPUT, IO_CAP_DISPLAY_YES_NO]
  · cases sc <;> simp [getAssociationModel, IO_CAP_NO_INPUT_NO_OUTPUT, IO_CAP_DISPLAY_YES_NO]

/-- C3, as stated, fails: with `mitm` true, an initiator that is Keyboard-Only facing a
Display-Only responder gets PasskeyEntry-InitiatorInputs, not PasskeyEntry-ResponderInputs,
and a Keyboard-Only responder facing a Display-Only initiator gets
PasskeyEntry-ResponderInputs, not PasskeyEntry-InitiatorInputs. -/
theorem keyboard_only_other_side_inputs_fails :
    getAssociationModel IO_CAP_KEYBOARD_ONLY IO_CAP_DISPLAY_ONLY true true
        ≠ ASSOCIATION_MODEL_PASSKEY_ENTRY_RSP_INPUTS
    ∧ getAssociationModel IO_CAP_DISPLAY_ONLY IO_CAP_KEYBOARD_ONLY true true
        ≠ ASSOCIATION_MODEL_PASSKEY_ENTRY_INIT_INPUTS := by
  decide

/-- C3, amended: with `mitm` true, when exactly one side is Keyboard-Only and the other
side is not No-Input-No-Output, the Keyboard-Only side is the one that inputs the passkey:
initiator Keyboard-Only gives PasskeyEntry-InitiatorInputs, responder Keyboard-Only gives
PasskeyEntry-ResponderInputs. -/
theorem keyboard_only_side_inputs (other : Nat) (sc : Bool)
    (hk : other ≠ IO_CAP_KEYBOARD_ONLY) (hn : other ≠ IO_CAP_NO_INPUT_NO_OUTPUT) :
    getAssociationModel IO_CAP_KEYBOARD_ONLY other sc true = ASSOCIATION_MODEL_PASSKEY_ENTRY_INIT_INPUTS
    ∧ getAssociationModel other IO_CAP_KEYBOARD_ONLY sc true = ASSOCIATION_MODEL_PASSKEY_ENTRY_RSP_INPUTS := by
  simp only [IO_CAP_KEYBOARD_ONLY, IO_CAP_NO_INPUT_NO_OUTPUT] at hk hn
  constructor <;> cases sc <;>
    simp [getAssociationModel, IO_CAP_KEYBOARD_ONLY, IO_CAP_NO_INPUT_NO_OUTPUT, IO_CAP_DISPLAY_YES_NO,
      IO_CAP_DISPLAY_ONLY, hk, hn] <;>
    split <;> simp_all

/-- Witness of `keyboard_only_side_inputs`: the other side is Keyboard-Display. -/
theorem keyboard_only_side_inputs_witness :
    IO_CAP_KEYBOARD_DISPLAY ≠ IO_CAP_KEYBOARD_ONLY ∧ IO_CAP_KEYBOARD_DISPLAY ≠ IO_CAP_NO_INPUT_NO_OUTPUT
    ∧ getAssociationModel IO_CAP_KEYBOARD_ONLY IO_CAP_KEYBOARD_DISPLAY false true
        = ASSOCIATION_MODEL_PASSKEY_ENTRY_INIT_INPUTS
    ∧ getAssociationModel IO_CAP_KEYBOARD_DISPLAY IO_CAP_KEYBOARD_ONLY false true
        = ASSOCIATION_MODEL_PASSKEY_ENTRY_RSP_INPUTS :=
  ⟨by decide, by decide, keyboard_only_side_inputs IO_CAP_KEYBOARD_DISPLAY false (by decide) (by decide)⟩

/-- C4: with `mitm` true, two Keyboard-Only sides give PasskeyEntry-BothInputs for every
`sc`; two Keyboard-Display sides give NumericComparison when `sc` is true and
PasskeyEntry-ResponderInputs when `sc` is false. -/
theorem getAssociationModel_equal_keyboards (sc : Bool) :
    getAssociationModel IO_CAP_KEYBOARD_ONLY IO_CAP_KEYBOARD_ONLY sc true
        = ASSOCIATION_MODEL_PASSKEY_ENTRY_BOTH_INPUTS
    ∧ getAssociationModel IO_CAP_KEYBOARD_DISPLAY IO_CAP_KEYBOARD_DISPLAY true true
        = ASSOCIATION_MODEL_NUMERIC_COMPARISON
    ∧ getAssociationModel IO_CAP_KEYBOARD_DISPLAY IO_CAP_KEYBOARD_DISPLAY false true
        = ASSOCIATION_MODEL_PASSKEY_ENTRY_RSP_INPUTS := by
  cases sc <;> decide

/-- C5: with `mitm` true, when the lookup capability (Display-YesNo demoted to Display-Only
if `sc` is false) of one side is Display-Only and that of the other is Keyboard-Display,
the Keyboard-Display side inputs the passkey; and a side whose lookup capability is
Display-Only facing Display-Only or Display-YesNo gives JustWorks. -/
theorem getAssociationModel_display_only (init rsp : Nat) (sc : Bool) :
    (lookupCap sc init = IO_CAP_DISPLAY_ONLY → lookupCap sc rsp = IO_CAP_KEYBOARD_DISPLAY →
      getAssociationModel init rsp sc true = ASSOCIATION_MODEL_PASSKEY_ENTRY_RSP_INPUTS)
    ∧ (lookupCap sc init = IO_CAP_KEYBOARD_DISPLAY → lookupCap sc rsp = IO_CAP_DISPLAY_ONLY →
      getAssociationModel init rsp sc true = ASSOCIATION_MODEL_PASSKEY_ENTRY_INIT_INPUTS)
    ∧ (lookupCap sc init = IO_CAP_DISPLAY_ONLY → (rsp = IO_CAP_DISPLAY_ONLY ∨ rsp = IO_CAP_DISPLAY_YES_NO) →
      getAssociationModel init rsp sc true = ASSOCIATION_MODEL_JUST_WORKS)
    ∧ ((init = IO_CAP_DISPLAY_ONLY ∨ init = IO_CAP_DISPLAY_YES_NO) → lookupCap sc rsp = IO_CAP_DISPLAY_ONLY →
      getAssociationModel init rsp sc true = ASSOCIATION_MODEL_JUST_WORKS) := by
  cases sc <;>
    simp only [lookupCap, demoteDisplayYesNo, getAssociationModel, IO_CAP_DISPLAY_ONLY, IO_CAP_DISPLAY_YES_NO,
      IO_CAP_KEYBOARD_ONLY, IO_CAP_NO_INPUT_NO_OUTPUT, IO_CAP_KEYBOARD_DISPLAY] <;>
    refine ⟨?_, ?_, ?_, ?_⟩ <;> intro h1 h2 <;>
    first
      | (split at h1 <;> split at h2 <;> simp_all)
      | (split at h1 <;> rcases h2 with h2 | h2 <;> simp_all)
      | (rcases h1 with h1 | h1 <;> split at h2 <;> simp_all)

/-- Witness of `getAssociationModel_display_only`: legacy pairing of a Display-YesNo
initiator (demoted to Display-Only) with a Keyboard-Display responder. -/
theorem getAssociationModel_display_only_witness :
    lookupCap false IO_CAP_DISPLAY_YES_NO = IO_CAP_DISPLAY_ONLY
    ∧ lookupCap false IO_CAP_KEYBOARD_DISPLAY = IO_CAP_KEYBOARD_DISPLAY
    ∧ getAssociationModel IO_CAP_DISPLAY_YES_NO IO_CAP_KEYBOARD_DISPLAY false true
        = ASSOCIATION_MODEL_PASSKEY_ENTRY_RSP_INPUTS :=
  ⟨by decide, by decide,
    (getAssociationModel_display_only IO_CAP_DISPLAY_YES_NO IO_CAP_KEYBOARD_DISPLAY false).1
      (by decide) (by decide)⟩

/-- C6: without Secure Connections the model selected for `(init, rsp)` is the one selected
for the demoted capabilities, for every `init`, `rsp` and `mitm`; and for capabilities of
the data model (values 0 to 4) NumericComparison is never selected when `sc` is false. -/
theorem getAssociationModel_legacy_demotion (init rsp : Nat) (mitm : Bool) :
    getAssociationModel init rsp false mitm
        = getAssociationModel (demoteDisplayYesNo init) (demoteDisplayYesNo rsp) false mitm
    ∧ (init ≤ IO_CAP_KEYBOARD_DISPLAY → rsp ≤ IO_CAP_KEYBOARD_DISPLAY →
        getAssociationModel init rsp false mitm ≠ ASSOCIATION_MODEL_NUMERIC_COMPARISON) := by
  constructor
  · cases mitm
    · simp [getAssociationModel]
    · by_cases h1 : init = 1 <;> by_cases h2 : rsp = 1 <;>
        simp [getAssociationModel, demoteDisplayYesNo, IO_CAP_DISPLAY_YES_NO, IO_CAP_DISPLAY_ONLY, h1, h2]
  · intro hi hr
    simp only [IO_CAP_KEYBOARD_DISPLAY] at hi hr
    interval_cases init <;> interval_cases rsp <;> cases mitm <;> decide

/-- Witness of `getAssociationModel_legacy_demotion`: two Display-YesNo sides, which Secure
Connections would resolve to NumericComparison, resolve to JustWorks in legacy pairing. -/
theorem getAssociationModel_legacy_demotion_witness :
    IO_CAP_DISPLAY_YES_NO ≤ IO_CAP_KEYBOARD_DISPLAY
    ∧ getAssociationModel IO_CAP_DISPLAY_YES_NO IO_CAP_DISPLAY_YES_NO false true
        ≠ ASSOCIATION_MODEL_NUMERIC_COMPARISON :=
  ⟨by decide,
    (getAssociationModel_legacy_demotion IO_CAP_DISPLAY_YES_NO IO_CAP_DISPLAY_YES_NO true).2
      (by decide) (by decide)⟩

/-! ## Feature combination (claims C7 and C9) -/

/-- C7: after `bitwiseAndKeys` and `combineAuthReq` each of the four key-distribution bits
is the AND of the bits of the two sides (so it is set only if it is set on either side),
`maxKeySize` is the minimum, `mitm` the OR, `sc` and `keypress` the AND. -/
theorem combined_features (a b : PairingFeatures) :
    let pf := combineAuthReq (bitwiseAndKeys a b) b
    pf.initKeyDistr.encKey = (a.initKeyDistr.encKey && b.initKeyDistr.encKey)
    ∧ pf.initKeyDistr.idKey = (a.initKeyDistr.idKey && b.initKeyDistr.idKey)
    ∧ pf.rspKeyDistr.encKey = (a.rspKeyDistr.encKey && b.rspKeyDistr.encKey)
    ∧ pf.rspKeyDistr.idKey = (a.rspKeyDistr.idKey && b.rspKeyDistr.idKey)
    ∧ (pf.initKeyDistr.encKey = true → a.initKeyDistr.encKey = true ∧ b.initKeyDistr.encKey = true)
    ∧ (pf.initKeyDistr.idKey = true → a.initKeyDistr.idKey = true ∧ b.initKeyDistr.idKey = true)
    ∧ (pf.rspKeyDistr.encKey = true → a.rspKeyDistr.encKey = true ∧ b.rspKeyDistr.encKey = true)
    ∧ (pf.rspKeyDistr.idKey = true → a.rspKeyDistr.idKey = true ∧ b.rspKeyDistr.idKey = true)
    ∧ pf.maxKeySize = min a.maxKeySize b.maxKeySize
    ∧ pf.mitm = (a.mitm || b.mitm)
    ∧ pf.sc = (a.sc && b.sc)
    ∧ pf.keypress = (a.keypress && b.keypress) := by
  simp [combineAuthReq, bitwiseAndKeys]

/-! ## Basic facts about the operations of the responder -/

namespace SmpSlaveConnection

theorem slave_pairingFailed_log (s : SlaveState) (reason : Nat) (h : s.sendDisabled = false) :
    (pairingFailed s reason).log = s.log ++ localFailure s.hasOutgoingFailedMsg reason := by
  cases hf : s.hasOutgoingFailedMsg <;>
    simp [pairingFailed, timeoutClearFn, sendDataFn, emit, act, localFailure, bufferFrom, h, hf,
      SMP_PAIRING_FAILED]

theorem slave_pairingFailed_state (s : SlaveState) (reason : Nat) :
    (pairingFailed s reason).state = STATE_IDLE := by
  simp [pairingFailed, emit, act]

theorem slave_pairingFailed_pairingFeatures (s : SlaveState) (reason : Nat) :
    (pairingFailed s reason).pairingFeatures = s.pairingFeatures := by
  cases hf : s.hasOutgoingFailedMsg <;> cases hd : s.sendDisabled <;>
    simp [pairingFailed, timeoutClearFn, sendDataFn, emit, act, hf, hd]

theorem slave_sendPacket_log (s : SlaveState) (data : List Nat) (next : Option Nat) (cb : Option PacketCallback)
    (ht : s.state ≠ STATE_TIMEDOUT) (h : s.sendDisabled = false) :
    (sendPacket s data next cb).log
      = s.log ++ [Action.sendData data (some (Callback.packetSent s.runCounter cb)) none] := by
  cases cb <;> simp [sendPacket, restartTimeout, timeoutClearFn, sendDataFn, act, ht, h]

theorem slave_sendPacket_state (s : SlaveState) (data : List Nat) (next : Option Nat) (cb : Option PacketCallback)
    (ht : s.state ≠ STATE_TIMEDOUT) :
    (sendPacket s data next cb).state = STATE_W4_PACKET_ENQUEUED := by
  cases cb <;> cases hd : s.sendDisabled <;>
    simp [sendPacket, restartTimeout, timeoutClearFn, sendDataFn, act, ht, hd]

theorem slave_sendPacket_pairingFeatures (s : SlaveState) (data : List Nat) (next : Option Nat)
    (cb : Option PacketCallback) :
    (sendPacket s data next cb).pairingFeatures = s.pairingFeatures := by
  unfold sendPacket
  split
  · rfl
  · cases cb <;> cases hd : s.sendDisabled <;> simp [restartTimeout, timeoutClearFn, sendDataFn, act, hd]

end SmpSlaveConnection


/-! ## Downgrade rejection (claim C1) -/

/-- C1, amended: when the responder handles a well-formed Pairing Request (seven bytes, key
size in 7..16, received while it accepts a Pairing Request) and the continuation of the
pairing-request event runs (at once when no listener is installed, otherwise when the
listener calls back), it fails the pairing with AuthenticationRequirements exactly when no
listener is installed, the peer is bonded, the link is not encrypted and the negotiated
model is JustWorks.  It then is Idle and its only actions are the Pairing Failed PDU
`[0x05, 0x03]`, left out while an earlier Pairing Failed still awaits its
sent-acknowledgement, and the pairing-fail event: no Pairing Response, no passkey-exchange
event.  In every other case the Pairing Response is sent. -/
theorem responder_downgrade_rejection (c : Crypto) (k : Link) (i : Inputs) (data : List Nat) (s : SlaveState)
    (hstate : SmpSlaveConnection.acceptsPairingRequest s)
    (hsend : s.sendDisabled = false)
    (hop : byteAt data 0 = SMP_PAIRING_REQUEST) (hlen : data.length = 7)
    (hmin : 7 ≤ byteAt data 4) (hmax : byteAt data 4 ≤ 16)
    (hanswer : i.pairingRequestHandler ≠ PairingRequestHandler.defers) :
    let req := parsePairingReqRsp data
    let rsp := bitwiseAndKeys (fixFeaturesFromUser i.pairingRequestHandler.answer) req
    let pairingFeatures := combineAuthReq rsp req
    let associationModel := getAssociationModel req.ioCap rsp.ioCap pairingFeatures.sc pairingFeatures.mitm
    let rejected := i.pairingRequestHandler = PairingRequestHandler.absent ∧ s.isBonded = true
      ∧ s.isEncrypted = false ∧ associationModel = ASSOCIATION_MODEL_JUST_WORKS
    let pairingResponse := Action.sendData (buildPairingFeaturesPacket SMP_PAIRING_RESPONSE rsp)
      (some (Callback.packetSent (s.runCounter + 1) none)) none
    let r := SmpSlaveConnection.receive c k i data s
    (rejected →
        r.2 = localFailure s.hasOutgoingFailedMsg SmpErrors.AUTHENTICATION_REQUIREMENTS
        ∧ r.1.state = STATE_IDLE)
    ∧ (¬ rejected →
        r.2 = i.pairingRequestHandler.announce (Event.pairingRequest req (s.runCounter + 1))
            ++ [pairingResponse]
            ++ (if associationModel ≠ ASSOCIATION_MODEL_JUST_WORKS
                  ∧ associationModel ≠ ASSOCIATION_MODEL_NUMERIC_COMPARISON then
                [Action.emit (Event.passkeyExchange associationModel
                  ((initialPasskey associationModel ASSOCIATION_MODEL_PASSKEY_ENTRY_INIT_INPUTS i.random4).map
                    lastSixDigits) (s.runCounter + 1))]
                else [])
        ∧ r.1.state = STATE_W4_PACKET_ENQUEUED)
    ∧ (Action.emit (Event.pairingFail SmpErrors.AUTHENTICATION_REQUIREMENTS false) ∈ r.2 ↔ rejected)
    ∧ (pairingResponse ∈ r.2 ↔ ¬ rejected)
    ∧ (rejected → ∀ m p t, Action.emit (Event.passkeyExchange m p t) ∉ r.2) := by
  intro req rsp pairingFeatures associationModel rejected pairingResponse r
  have hne : data.length ≠ 0 := by omega
  have hnt : s.state ≠ STATE_TIMEDOUT := by
    rcases hstate with h | ⟨h1, h2⟩
    · rw [h]; decide
    · rw [h1]; decide
  have hguard : (s.state != STATE_IDLE
      && !(s.state == STATE_W4_PACKET && s.packetWaitOpcode == some SMP_PAIRING_REQUEST)) = false := by
    rcases hstate with h | ⟨h1, h2⟩
    · simp [h]
    · simp [h1, h2]
  have hkey : ((parsePairingReqRsp data).maxKeySize < 7 || (parsePairingReqRsp data).maxKeySize > 16) = false := by
    simp [parsePairingReqRsp]; omega
  have hstep : SmpSlaveConnection.onData c k i data { s with log := [] }
      = SmpSlaveConnection.onPairingRequest i req
          (SmpSlaveConnection.restartTimeout { s with log := [], pairingRequestData := some data }) := by
    unfold SmpSlaveConnection.onData SmpSlaveConnection.onDataPairingRequest
    rw [if_neg (by simp [hne, hnt]), if_neg (by simp [hop, SMP_PAIRING_REQUEST])]
    simp only [hop, beq_self_eq_true, if_true]
    rw [if_neg (by simpa using hguard), if_neg (by simp [hlen]), if_neg (by simpa using hkey)]
  have hW : STATE_W4_USER_FEATURES ≠ STATE_TIMEDOUT := by decide
  have hmain : (rejected → r.2 = localFailure s.hasOutgoingFailedMsg SmpErrors.AUTHENTICATION_REQUIREMENTS
        ∧ r.1.state = STATE_IDLE)
      ∧ (¬ rejected →
        r.2 = i.pairingRequestHandler.announce (Event.pairingRequest req (s.runCounter + 1))
            ++ [pairingResponse]
            ++ (if associationModel ≠ ASSOCIATION_MODEL_JUST_WORKS
                  ∧ associationModel ≠ ASSOCIATION_MODEL_NUMERIC_COMPARISON then
                [Action.emit (Event.passkeyExchange associationModel
                  ((initialPasskey associationModel ASSOCIATION_MODEL_PASSKEY_ENTRY_INIT_INPUTS i.random4).map
                    lastSixDigits) (s.runCounter + 1))]
                else [])
        ∧ r.1.state = STATE_W4_PACKET_ENQUEUED) := by
    refine ⟨fun hrej => ?_, fun hnrej => ?_⟩
    · obtain ⟨hh, hb, he, hm⟩ := hrej
      have hm' : getAssociationModel req.ioCap (bitwiseAndKeys (fixFeaturesFromUser none) req).ioCap
          (combineAuthReq (bitwiseAndKeys (fixFeaturesFromUser none) req) req).sc
          (combineAuthReq (bitwiseAndKeys (fixFeaturesFromUser none) req) req).mitm
          = ASSOCIATION_MODEL_JUST_WORKS := by
        simpa [associationModel, rsp, pairingFeatures, hh, PairingRequestHandler.answer] using hm
      simp only [r, SmpSlaveConnection.receive, hstep, SmpSlaveConnection.onPairingRequest, hh]
      simp only [SmpSlaveConnection.cont, SmpSlaveConnection.restartTimeout, SmpSlaveConnection.timeoutClearFn]
      rw [if_neg (by simp), if_pos (by simp [hb, he, hm'])]
      simp [SmpSlaveConnection.slave_pairingFailed_log, SmpSlaveConnection.slave_pairingFailed_state, hsend]
    · have hcond : (i.pairingRequestHandler = PairingRequestHandler.absent → ¬ (s.isBonded = true
          ∧ s.isEncrypted = false ∧ associationModel = ASSOCIATION_MODEL_JUST_WORKS)) := by
        intro hh hc
        exact hnrej ⟨hh, hc⟩
      simp only [r, SmpSlaveConnection.receive, hstep, SmpSlaveConnection.onPairingRequest]
      cases hh : i.pairingRequestHandler with
      | defers => exact absurd hh hanswer
      | absent =>
        have hc := hcond hh
        simp only [associationModel, rsp, pairingFeatures, hh, PairingRequestHandler.answer] at hc ⊢
        simp only [SmpSlaveConnection.cont, SmpSlaveConnection.restartTimeout, SmpSlaveConnection.timeoutClearFn]
        rw [if_neg (by simp), if_neg (by simpa using hc)]
        split <;> rename_i hpk
        · simp only [Bool.and_eq_true, bne_iff_ne, ne_eq] at hpk
          simp [SmpSlaveConnection.emit, SmpSlaveConnection.act, SmpSlaveConnection.slave_sendPacket_log,
            SmpSlaveConnection.slave_sendPacket_state, hW, hsend, PairingRequestHandler.announce, hpk, pairingResponse, rsp, hh,
            PairingRequestHandler.answer]
        · simp only [Bool.and_eq_true, bne_iff_ne, ne_eq] at hpk
          simp [SmpSlaveConnection.emit, SmpSlaveConnection.act, SmpSlaveConnection.slave_sendPacket_log,
            SmpSlaveConnection.slave_sendPacket_state, hW, hsend, PairingRequestHandler.announce, hpk, pairingResponse, rsp, hh,
            PairingRequestHandler.answer]
      | answers u =>
        simp only [associationModel, rsp, pairingFeatures, hh, PairingRequestHandler.answer]
        simp only [SmpSlaveConnection.cont, SmpSlaveConnection.restartTimeout, SmpSlaveConnection.timeoutClearFn,
          SmpSlaveConnection.emit, SmpSlaveConnection.act]
        rw [if_neg (by simp), if_neg (by simp)]
        split <;> rename_i hpk
        · simp only [Bool.and_eq_true, bne_iff_ne, ne_eq] at hpk
          simp [SmpSlaveConnection.slave_sendPacket_log,
            SmpSlaveConnection.slave_sendPacket_state, hW, hsend, PairingRequestHandler.announce, hpk, pairingResponse, rsp, hh,
            PairingRequestHandler.answer]
        · simp only [Bool.and_eq_true, bne_iff_ne, ne_eq] at hpk
          simp [SmpSlaveConnection.slave_sendPacket_log,
            SmpSlaveConnection.slave_sendPacket_state, hW, hsend, PairingRequestHandler.announce, hpk, pairingResponse, rsp, hh,
            PairingRequestHandler.answer]
  obtain ⟨hyes, hno⟩ := hmain
  refine ⟨hyes, hno, ?_, ?_, ?_⟩
  · constructor
    · intro hmem
      by_contra hnr
      rw [(hno hnr).1] at hmem
      cases hh : i.pairingRequestHandler <;>
        simp [PairingRequestHandler.announce, hh, pairingResponse] at hmem
    · intro hrej
      rw [(hyes hrej).1]
      simp [localFailure]
  · constructor
    · intro hmem hrej
      rw [(hyes hrej).1] at hmem
      cases hf : s.hasOutgoingFailedMsg <;> simp [localFailure, hf, pairingResponse] at hmem
    · intro hnr
      rw [(hno hnr).1]
      simp
  · intro hrej m p t hmem
    rw [(hyes hrej).1] at hmem
    cases hf : s.hasOutgoingFailedMsg <;> simp [localFailure, hf] at hmem

/-- Witness of `responder_downgrade_rejection`: a bonded, unencrypted responder without
listener receives a Pairing Request from a No-Input-No-Output peer and fails it. -/
theorem responder_downgrade_rejection_witness :
    SmpSlaveConnection.acceptsPairingRequest (SmpSlaveConnection.init (some sampleLtk))
    ∧ (SmpSlaveConnection.receive sampleCrypto sampleLink sampleInputs [1, 3, 0, 1, 16, 0, 0]
        (SmpSlaveConnection.init (some sampleLtk))).2
      = [Action.sendData [5, 3] (some Callback.failedMsgSent) none,
         Action.emit (Event.pairingFail 3 false)] := by
  have h := responder_downgrade_rejection sampleCrypto sampleLink sampleInputs [1, 3, 0, 1, 16, 0, 0]
    (SmpSlaveConnection.init (some sampleLtk)) (Or.inl rfl) rfl rfl rfl (by decide) (by decide)
    (by decide)
  exact ⟨Or.inl rfl, (h.1 ⟨rfl, rfl, rfl, by decide⟩).1⟩

/-! ## Bonding flags (claim C9) -/

/-- C9, on the code: the initiator has requested bonding (`bondingFlags` 1 in its Pairing
Request) and the Pairing Response carries `bondingFlags` 2; both are non-zero, and the
`bondingFlags` left in `pairingFeatures` by `combineAuthReq` is 0.  The responder, given
the same two values with the roles exchanged, is left with 1. -/
theorem initiator_drops_bonding_flags_two :
    (parsePairingReqRsp sampleBondingRequest).bondingFlags = 1
    ∧ (parsePairingReqRsp sampleBondingResponse).bondingFlags = 2
    ∧ ((SmpMasterConnection.onData sampleCrypto sampleLink sampleInputs sampleBondingResponse
        sampleMasterBonding).pairingFeatures.map (fun pf => pf.bondingFlags)) = some 0
    ∧ (combineAuthReq (bitwiseAndKeys (parsePairingReqRsp sampleBondingRequest)
        (parsePairingReqRsp sampleBondingResponse)) (parsePairingReqRsp sampleBondingResponse)).bondingFlags
      = 1 := by
  decide

/-! ## Key size: what each operation leaves unchanged (towards claim C8) -/

theorem fixFeaturesFromUser_maxKeySize (u : Option UserFeatures) :
    7 ≤ (fixFeaturesFromUser u).maxKeySize ∧ (fixFeaturesFromUser u).maxKeySize ≤ 16 := by
  simp only [fixFeaturesFromUser, intInRangeOr]
  split
  · split <;> omega
  · omega

namespace SmpSlaveConnection

@[simp] theorem slave_act_pairingFeatures (s : SlaveState) (a : Action) :
    (act s a).pairingFeatures = s.pairingFeatures := rfl

@[simp] theorem slave_emit_pairingFeatures (s : SlaveState) (e : Event) :
    (emit s e).pairingFeatures = s.pairingFeatures := rfl

@[simp] theorem slave_sendDataFn_pairingFeatures (s : SlaveState) (d : List Nat) (a b : Option Callback) :
    (sendDataFn s d a b).pairingFeatures = s.pairingFeatures := by
  unfold sendDataFn; split <;> rfl

theorem slave_pairingDone_pairingFeatures (s : SlaveState) :
    (pairingDone s).pairingFeatures = s.pairingFeatures := by
  unfold pairingDone
  simp only [timeoutClearFn]
  split
  · rfl
  · simp only [emit, act]
    repeat' split
    all_goals rfl

theorem slave_afterInitsConfirmAndPasskey_pairingFeatures (c : Crypto) (k : Link) (i : Inputs)
    (s : SlaveState) : (afterInitsConfirmAndPasskey c k i s).pairingFeatures = s.pairingFeatures := by
  unfold afterInitsConfirmAndPasskey
  cases h1 : s.pairingFeatures <;> cases h2 : s.pairingResponseData <;> cases h3 : s.pairingRequestData <;>
    cases h4 : s.peerPublicKey <;>
    simp only [h1, h2, h3, h4] <;>
    (try split) <;> simp [slave_sendPacket_pairingFeatures, h1]

theorem slave_afterNumericComparisonOkAndDHKeyCheck_pairingFeatures (c : Crypto) (k : Link)
    (s : SlaveState) : (afterNumericComparisonOkAndDHKeyCheck c k s).pairingFeatures = s.pairingFeatures := by
  unfold afterNumericComparisonOkAndDHKeyCheck
  split
  · split
    · simp [slave_pairingFailed_pairingFeatures]
    · split <;> simp [slave_sendPacket_pairingFeatures, slave_pairingFailed_pairingFeatures]
  · rfl

theorem slave_onDataPairingConfirm_pairingFeatures (c : Crypto) (k : Link) (i : Inputs) (data : List Nat)
    (s : SlaveState) : (onDataPairingConfirm c k i data s).pairingFeatures = s.pairingFeatures := by
  unfold onDataPairingConfirm
  try dsimp only
  split
  · rfl
  · split
    · exact slave_pairingFailed_pairingFeatures _ _
    · split
      · rw [slave_afterInitsConfirmAndPasskey_pairingFeatures]
      · rfl

theorem slave_onDataPairingPublicKey_pairingFeatures (c : Crypto) (k : Link) (i : Inputs) (data : List Nat)
    (s : SlaveState) : (onDataPairingPublicKey c k i data s).pairingFeatures = s.pairingFeatures := by
  unfold onDataPairingPublicKey
  try dsimp only
  split
  · rfl
  · split
    · exact slave_pairingFailed_pairingFeatures _ _
    · rw [slave_onDataPairingConfirm_pairingFeatures]
      split <;> simp [slave_sendPacket_pairingFeatures]

theorem slave_onDataPairingRandom_pairingFeatures (c : Crypto) (k : Link) (data : List Nat)
    (s : SlaveState) : (onDataPairingRandom c k data s).pairingFeatures = s.pairingFeatures := by
  unfold onDataPairingRandom
  try dsimp only
  split
  · rfl
  · split
    · exact slave_pairingFailed_pairingFeatures _ _
    · cases h1 : s.pairingFeatures <;> simp only [h1] <;> try rfl
      split
      · cases h4 : s.pairingResponseData <;> cases h5 : s.pairingRequestData <;>
          cases h3 : s.initConfirmValue <;> simp only [h3, h4, h5] <;> try rfl
        split
        · simp [slave_pairingFailed_pairingFeatures, h1]
        · cases h2 : s.rspRandomValue <;> simp only [h2] <;>
            simp [slave_sendPacket_pairingFeatures, act, h1]
      · split
        · cases h2 : s.rspRandomValue <;> simp only [h2] <;> try rfl
          split
          · split <;> simp [slave_sendPacket_pairingFeatures, emit, act, h1]
          · simp [slave_sendPacket_pairingFeatures, h1]
        · cases h6 : s.peerPublicKey <;> cases h3 : s.initConfirmValue <;> simp only [h3, h6] <;> try rfl
          split <;> simp [slave_pairingFailed_pairingFeatures, act, h1]

theorem slave_onDataDHKeyCheck_pairingFeatures (c : Crypto) (k : Link) (data : List Nat)
    (s : SlaveState) : (onDataDHKeyCheck c k data s).pairingFeatures = s.pairingFeatures := by
  unfold onDataDHKeyCheck
  try dsimp only
  split
  · rfl
  · split
    · exact slave_pairingFailed_pairingFeatures _ _
    · split
      · rw [slave_afterNumericComparisonOkAndDHKeyCheck_pairingFeatures]
      · rfl

theorem slave_onDataEncryptionInformation_pairingFeatures (data : List Nat) (s : SlaveState) :
    (onDataEncryptionInformation data s).pairingFeatures = s.pairingFeatures := by
  unfold onDataEncryptionInformation
  try dsimp only
  split
  · rfl
  · split
    · exact slave_pairingFailed_pairingFeatures _ _
    · rfl

theorem slave_onDataMasterIdentification_pairingFeatures (data : List Nat) (s : SlaveState) :
    (onDataMasterIdentification data s).pairingFeatures = s.pairingFeatures := by
  unfold onDataMasterIdentification
  try dsimp only
  split
  · rfl
  · split
    · exact slave_pairingFailed_pairingFeatures _ _
    · cases h1 : s.pairingFeatures <;> simp only [h1] <;> try rfl
      split
      · simp [h1]
      · rw [slave_pairingDone_pairingFeatures]

theorem slave_onDataIdentityInformation_pairingFeatures (data : List Nat) (s : SlaveState) :
    (onDataIdentityInformation data s).pairingFeatures = s.pairingFeatures := by
  unfold onDataIdentityInformation
  try dsimp only
  split
  · rfl
  · split
    · exact slave_pairingFailed_pairingFeatures _ _
    · rfl

theorem slave_onDataIdentityAddressInformation_pairingFeatures (data : List Nat) (s : SlaveState) :
    (onDataIdentityAddressInformation data s).pairingFeatures = s.pairingFeatures := by
  unfold onDataIdentityAddressInformation
  try dsimp only
  split
  · rfl
  · split
    · exact slave_pairingFailed_pairingFeatures _ _
    · rw [slave_pairingDone_pairingFeatures]

theorem slave_onDataKeypressNotification_pairingFeatures (data : List Nat) (s : SlaveState) :
    (onDataKeypressNotification data s).pairingFeatures = s.pairingFeatures := by
  unfold onDataKeypressNotification
  try dsimp only
  split
  · rfl
  · split
    · rfl
    · split
      · exact slave_pairingFailed_pairingFeatures _ _
      · split
        · rfl
        · split <;> rfl

theorem slave_onDataPairingFailed_pairingFeatures (data : List Nat) (s : SlaveState) :
    (onDataPairingFailed data s).pairingFeatures = s.pairingFeatures := by
  unfold onDataPairingFailed
  try dsimp only
  split <;> rfl

/-- The continuation of the pairing-request event leaves `pairingFeatures` alone or sets
it to the combination of the user features with the request, whose key size is in 7..16
when that of the request is. -/
theorem slave_cont_pairingFeatures (i : Inputs) (req : PairingFeatures) (userHandledRequest : Bool)
    (thisRunCounter : Nat) (rsp : Option UserFeatures) (s : SlaveState)
    (hmin : 7 ≤ req.maxKeySize) (hmax : req.maxKeySize ≤ 16) :
    keepsOrNegotiates s.pairingFeatures (cont i req userHandledRequest thisRunCounter rsp s).pairingFeatures := by
  unfold cont
  try dsimp only
  split
  · exact Or.inl rfl
  · right
    refine ⟨combineAuthReq (bitwiseAndKeys (fixFeaturesFromUser rsp) req) req, ?_, ?_⟩
    · split
      · rw [slave_pairingFailed_pairingFeatures]
      · split <;> simp [slave_sendPacket_pairingFeatures]
    · have h := fixFeaturesFromUser_maxKeySize rsp
      simp only [keySizeInRange, combineAuthReq, bitwiseAndKeys]
      omega

theorem slave_onDataPairingRequest_pairingFeatures (i : Inputs) (data : List Nat) (s : SlaveState) :
    keepsOrNegotiates s.pairingFeatures (onDataPairingRequest i data s).pairingFeatures := by
  unfold onDataPairingRequest
  try dsimp only
  split
  · exact Or.inl rfl
  · split
    · exact Or.inl (slave_pairingFailed_pairingFeatures _ _)
    · split
      · exact Or.inl (slave_pairingFailed_pairingFeatures _ _)
      · rename_i hk
        have hk' : 7 ≤ (parsePairingReqRsp data).maxKeySize ∧ (parsePairingReqRsp data).maxKeySize ≤ 16 := by
          simp at hk; omega
        unfold onPairingRequest
        try dsimp only
        split
        · exact slave_cont_pairingFeatures _ _ _ _ _ _ hk'.1 hk'.2
        · exact Or.inl rfl
        · exact slave_cont_pairingFeatures _ _ _ _ _ _ hk'.1 hk'.2

/-- Case analysis on the data handler of the responder: a property that holds for the
session left alone and for the result of every case holds for the result of `onData`. -/
theorem slave_onData_cases (p : SlaveState → Prop) (c : Crypto) (k : Link) (i : Inputs) (data : List Nat)
    (s : SlaveState) (hignore : p s)
    (h01 : p (onDataPairingRequest i data s))
    (h0c : p (onDataPairingPublicKey c k i data s))
    (h03 : p (onDataPairingConfirm c k i data s))
    (h04 : p (onDataPairingRandom c k data s))
    (h0d : p (onDataDHKeyCheck c k data s))
    (h06 : p (onDataEncryptionInformation data s))
    (h07 : p (onDataMasterIdentification data s))
    (h08 : p (onDataIdentityInformation data s))
    (h09 : p (onDataIdentityAddressInformation data s))
    (h0e : p (onDataKeypressNotification data s))
    (h05 : p (onDataPairingFailed data s))
    (hother : p (pairingFailed s SmpErrors.COMMAND_NOT_SUPPORTED)) :
    p (onData c k i data s) := by
  rw [onData]
  by_cases h0 : (data.length == 0 || s.state == STATE_TIMEDOUT) = true
  · rw [if_pos h0]; exact hignore
  rw [if_neg h0]
  generalize byteAt data 0 = opcode
  show p (ite _ _ _)
  by_cases h1 : (opcode == 0x00 || opcode >= 0x0f) = true
  · rw [if_pos h1]; exact hignore
  rw [if_neg h1]
  by_cases h2 : (opcode == SMP_PAIRING_REQUEST) = true
  · rw [if_pos h2]; exact h01
  rw [if_neg h2]
  by_cases h3 : (opcode == SMP_PAIRING_PUBLIC_KEY) = true
  · rw [if_pos h3]; exact h0c
  rw [if_neg h3]
  by_cases h4 : (opcode == SMP_PAIRING_CONFIRM) = true
  · rw [if_pos h4]; exact h03
  rw [if_neg h4]
  by_cases h5 : (opcode == SMP_PAIRING_RANDOM) = true
  · rw [if_pos h5]; exact h04
  rw [if_neg h5]
  by_cases h6 : (opcode == SMP_DHKEY_CHECK) = true
  · rw [if_pos h6]; exact h0d
  rw [if_neg h6]
  by_cases h7 : (opcode == SMP_ENCRYPTION_INFORMATION) = true
  · rw [if_pos h7]; exact h06
  rw [if_neg h7]
  by_cases h8 : (opcode == SMP_MASTER_IDENTIFICATION) = true
  · rw [if_pos h8]; exact h07
  rw [if_neg h8]
  by_cases h9 : (opcode == SMP_IDENTITY_INFORMATION) = true
  · rw [if_pos h9]; exact h08
  rw [if_neg h9]
  by_cases h10 : (opcode == SMP_IDENTITY_ADDRESS_INFORMATION) = true
  · rw [if_pos h10]; exact h09
  rw [if_neg h10]
  by_cases h11 : (opcode == SMP_KEYPRESS_NOTIFICATION) = true
  · rw [if_pos h11]; exact h0e
  rw [if_neg h11]
  by_cases h12 : (opcode == SMP_PAIRING_FAILED) = true
  · rw [if_pos h12]; exact h05
  rw [if_neg h12]
  exact hother

theorem slave_onData_pairingFeatures (c : Crypto) (k : Link) (i : Inputs) (data : List Nat) (s : SlaveState) :
    keepsOrNegotiates s.pairingFeatures (onData c k i data s).pairingFeatures := by
  apply slave_onData_cases (fun s' => keepsOrNegotiates s.pairingFeatures s'.pairingFeatures)
  · exact Or.inl rfl
  · exact slave_onDataPairingRequest_pairingFeatures i data s
  · exact Or.inl (slave_onDataPairingPublicKey_pairingFeatures _ _ _ _ _)
  · exact Or.inl (slave_onDataPairingConfirm_pairingFeatures _ _ _ _ _)
  · exact Or.inl (slave_onDataPairingRandom_pairingFeatures _ _ _ _)
  · exact Or.inl (slave_onDataDHKeyCheck_pairingFeatures _ _ _ _)
  · exact Or.inl (slave_onDataEncryptionInformation_pairingFeatures _ _)
  · exact Or.inl (slave_onDataMasterIdentification_pairingFeatures _ _)
  · exact Or.inl (slave_onDataIdentityInformation_pairingFeatures _ _)
  · exact Or.inl (slave_onDataIdentityAddressInformation_pairingFeatures _ _)
  · exact Or.inl (slave_onDataKeypressNotification_pairingFeatures _ _)
  · exact Or.inl (slave_onDataPairingFailed_pairingFeatures _ _)
  · exact Or.inl (slave_pairingFailed_pairingFeatures _ _)

end SmpSlaveConnection

namespace SmpMasterConnection

theorem master_sameNegotiation_trans {s s' s'' : MasterState} (h1 : sameNegotiation s s')
    (h2 : sameNegotiation s' s'') : sameNegotiation s s'' :=
  ⟨h2.1.trans h1.1, h2.2.trans h1.2⟩

theorem master_sendDataFn_same (s : MasterState) (d : List Nat) (a b : Option Callback) :
    sameNegotiation s (sendDataFn s d a b) := by
  unfold sendDataFn; split <;> exact ⟨rfl, rfl⟩

theorem master_pairingFailed_same (s : MasterState) (reason : Nat) (remote : Bool) :
    sameNegotiation s (pairingFailed s reason remote) := by
  unfold pairingFailed
  dsimp only [timeoutClearFn, emit, act]
  have h := fun t => master_sendDataFn_same t (bufferFrom [SMP_PAIRING_FAILED, reason]) (some Callback.failedMsgSent) none
  split <;> split <;> first | exact ⟨rfl, rfl⟩ | exact ⟨(h _).1, (h _).2⟩

theorem master_sendPacket_same (s : MasterState) (d : List Nat) (n : Option Nat) :
    sameNegotiation s (sendPacket s d n) := by
  unfold sendPacket
  split
  · exact ⟨rfl, rfl⟩
  · exact master_sendDataFn_same _ _ _ _

theorem master_pairingDone_same (s : MasterState) : sameNegotiation s (pairingDone s) := by
  unfold pairingDone
  simp only [timeoutClearFn]
  split
  · exact ⟨rfl, rfl⟩
  · simp only [emit, act]
    repeat' split
    all_goals exact ⟨rfl, rfl⟩

end SmpMasterConnection

namespace SmpMasterConnection

theorem master_same_refl (s : MasterState) : sameNegotiation s s := ⟨rfl, rfl⟩

theorem master_act_same (s : MasterState) (a : Action) : sameNegotiation s (act s a) := ⟨rfl, rfl⟩

theorem master_emit_same (s : MasterState) (e : Event) : sameNegotiation s (emit s e) := ⟨rfl, rfl⟩

theorem master_sendConfirm_same (c : Crypto) (k : Link) (i : Inputs) (s : MasterState) :
    sameNegotiation s (sendConfirm c k i s) := by
  unfold sendConfirm
  cases h1 : s.pairingFeatures <;> cases h2 : s.pairingResponseData <;> cases h3 : s.pairingRequestData <;>
    cases h4 : s.peerPublicKey <;>
    simp only [h1, h2, h3, h4] <;>
    (try split) <;>
    first
      | exact ⟨h1.symm, h3.symm⟩
      | exact ⟨((master_sendPacket_same _ _ _).1).trans h1.symm, ((master_sendPacket_same _ _ _).2).trans h3.symm⟩

theorem master_startPasskeyExchange_same (c : Crypto) (k : Link) (i : Inputs) (s : MasterState) :
    sameNegotiation s (startPasskeyExchange c k i s) := by
  unfold startPasskeyExchange
  split
  · dsimp only
    split
    · exact master_sameNegotiation_trans ⟨rfl, rfl⟩ (master_sendConfirm_same c k i _)
    · exact ⟨rfl, rfl⟩
  · split
    · exact ⟨rfl, rfl⟩
    · split
      · exact ⟨rfl, rfl⟩
      · exact master_sendConfirm_same c k i s

theorem master_startEncryptionAfterPairing_same (c : Crypto) (s : MasterState) :
    sameNegotiation s (startEncryptionAfterPairing c s) := by
  unfold startEncryptionAfterPairing
  split <;> exact ⟨rfl, rfl⟩

theorem master_sendDHKeyCheck_same (c : Crypto) (k : Link) (s : MasterState) :
    sameNegotiation s (sendDHKeyCheck c k s) := by
  unfold sendDHKeyCheck
  split
  · split
    · exact master_pairingFailed_same _ _ _
    · exact master_sameNegotiation_trans ⟨rfl, rfl⟩ (master_sendPacket_same _ _ _)
  · exact ⟨rfl, rfl⟩

theorem master_onPairingRandom_same (c : Crypto) (k : Link) (i : Inputs) (s : MasterState) :
    sameNegotiation s (onPairingRandom c k i s) := by
  unfold onPairingRandom
  split
  · split
    · split
      · exact ⟨rfl, rfl⟩
      · dsimp only
        repeat' split
        all_goals first
          | exact ⟨rfl, rfl⟩
          | exact master_pairingFailed_same _ _ _
          | exact master_sendDHKeyCheck_same _ _ _
          | exact master_sameNegotiation_trans ⟨rfl, rfl⟩ (master_sendConfirm_same c k i _)
    · split
      · split
        · exact master_pairingFailed_same _ _ _
        · exact master_startEncryptionAfterPairing_same _ _
      · exact ⟨rfl, rfl⟩
  · exact ⟨rfl, rfl⟩

theorem master_onDHKeyCheck_same (c : Crypto) (eb : List Nat) (s : MasterState) :
    sameNegotiation s (onDHKeyCheck c eb s) := by
  unfold onDHKeyCheck
  split
  · exact ⟨rfl, rfl⟩
  · split
    · exact master_pairingFailed_same _ _ _
    · exact master_startEncryptionAfterPairing_same _ _

theorem master_sendAll_same (ps : List (List Nat)) (s : MasterState) :
    sameNegotiation s (ps.foldl (fun s p => sendDataFn (restartTimeout s) p none none) s) := by
  induction ps generalizing s with
  | nil => exact ⟨rfl, rfl⟩
  | cons p ps ih =>
    exact master_sameNegotiation_trans
      (master_sameNegotiation_trans ⟨rfl, rfl⟩ (master_sendDataFn_same (restartTimeout s) p none none))
      (ih _)

theorem master_startDistributeOwnKeys_same (k : Link) (i : Inputs) (s : MasterState) :
    sameNegotiation s (startDistributeOwnKeys k i s) := by
  unfold startDistributeOwnKeys
  split
  · exact ⟨rfl, rfl⟩
  · dsimp only
    have hr : ∀ (b : Bool) (t : MasterState) (l : List (List Nat)) ,
        sameNegotiation s t → sameNegotiation s (if b = true then (t, l) else (s, [])).1 := by
      intro b t l ht
      cases b
      · exact ⟨rfl, rfl⟩
      · exact ht
    split
    · refine master_sameNegotiation_trans (master_sameNegotiation_trans ?_ (master_sendAll_same _ _))
        (master_sameNegotiation_trans ⟨rfl, rfl⟩ (master_sendDataFn_same _ _ _ _))
      split <;> exact ⟨rfl, rfl⟩
    · refine master_sameNegotiation_trans (master_sameNegotiation_trans ?_ (master_sendAll_same _ _))
        (master_pairingDone_same _)
      split <;> exact ⟨rfl, rfl⟩

theorem master_onPairingFailed_same (reason : Nat) (s : MasterState) :
    sameNegotiation s (onPairingFailed reason s) := by
  unfold onPairingFailed
  split
  · exact ⟨rfl, rfl⟩
  · split
    · exact ⟨rfl, rfl⟩
    · exact master_pairingFailed_same _ _ _

theorem master_sendPairingFailed_same (reason : Nat) (s : MasterState) :
    sameNegotiation s (sendPairingFailed reason s) := by
  unfold sendPairingFailed
  split
  · exact ⟨rfl, rfl⟩
  · split
    · exact ⟨rfl, rfl⟩
    · exact master_pairingFailed_same _ _ _

theorem master_startEncryptWithAvailableLtk_same (isSecReq : Bool) (bondingFlags : Nat)
    (mitm sc keypress : Bool) (s : MasterState) :
    sameNegotiation s (startEncryptWithAvailableLtk isSecReq bondingFlags mitm sc keypress s) := by
  unfold startEncryptWithAvailableLtk
  dsimp only
  split <;> exact ⟨rfl, rfl⟩

/-- What `onData` guarantees about the negotiation of the initiator: the kept Pairing
Request still carries a key size in 7..16, and `pairingFeatures` is left alone or set to
a record with key size in 7..16. -/
theorem master_same_negotiationOk {s s' : MasterState} (h : sameNegotiation s s')
    (hreq : requestKeySizeInRange s.pairingRequestData) :
    requestKeySizeInRange s'.pairingRequestData
    ∧ keepsOrNegotiates s.pairingFeatures s'.pairingFeatures := by
  refine ⟨?_, Or.inl h.1⟩
  rw [h.2]
  exact hreq

theorem buildPairingFeaturesPacket_maxKeySize (opcode : Nat) (f : PairingFeatures) (h : f.maxKeySize ≤ 16) :
    byteAt (buildPairingFeaturesPacket opcode f) 4 = f.maxKeySize := by
  simp only [buildPairingFeaturesPacket, bufferFrom, byteAt, List.map, List.getD_cons_succ, List.getD_cons_zero]
  omega

theorem master_startPairingRequest_negotiation (req : Option UserFeatures) (s : MasterState) :
    (startPairingRequest req s).pairingFeatures = s.pairingFeatures
    ∧ requestKeySizeInRange (startPairingRequest req s).pairingRequestData := by
  unfold startPairingRequest
  dsimp only
  have hk := fixFeaturesFromUser_maxKeySize req
  constructor
  · exact (master_sendPacket_same _ _ _).1
  · rw [(master_sendPacket_same _ _ _).2]
    intro d hd
    simp only [Option.some.injEq] at hd
    subst hd
    rw [buildPairingFeaturesPacket_maxKeySize]
    · exact hk
    · exact hk.2

theorem master_cont_negotiation (thisRunCounter : Nat) (req : Option UserFeatures) (s : MasterState)
    (hreq : requestKeySizeInRange s.pairingRequestData) :
    (cont thisRunCounter req s).pairingFeatures = s.pairingFeatures
    ∧ requestKeySizeInRange (cont thisRunCounter req s).pairingRequestData := by
  unfold cont
  split
  · exact ⟨rfl, hreq⟩
  · exact master_startPairingRequest_negotiation req s

theorem master_askStartPairing_negotiation (i : Inputs) (bondingFlags : Nat) (mitm sc keypress : Bool)
    (s : MasterState) (hreq : requestKeySizeInRange s.pairingRequestData) :
    (askStartPairing i bondingFlags mitm sc keypress s).pairingFeatures = s.pairingFeatures
    ∧ requestKeySizeInRange (askStartPairing i bondingFlags mitm sc keypress s).pairingRequestData := by
  unfold askStartPairing
  dsimp only
  split
  · exact ⟨rfl, hreq⟩
  · exact master_cont_negotiation _ _ _ hreq
  · split
    · split
      · exact ⟨(master_pairingFailed_same _ _ _).1, by rw [(master_pairingFailed_same _ _ _).2]; exact hreq⟩
      · exact master_cont_negotiation _ _ _ hreq
    · exact master_cont_negotiation _ _ _ hreq

theorem master_onPairingResponse_negotiation (c : Crypto) (k : Link) (i : Inputs) (s : MasterState)
    (hreq : requestKeySizeInRange s.pairingRequestData) :
    (onPairingResponse c k i s).pairingRequestData = s.pairingRequestData
    ∧ keepsOrNegotiates s.pairingFeatures (onPairingResponse c k i s).pairingFeatures := by
  unfold onPairingResponse
  split
  · rename_i pairingRequestData pairingResponseData h1 h2
    have hq := hreq pairingRequestData h1
    dsimp only
    split
    · exact ⟨(master_pairingFailed_same _ _ _).2, Or.inl (master_pairingFailed_same _ _ _).1⟩
    · rename_i hk
      have hin : keySizeInRange (combineAuthReq (bitwiseAndKeys (parsePairingReqRsp pairingResponseData)
          (parsePairingReqRsp pairingRequestData)) (parsePairingReqRsp pairingRequestData)) := by
        have h4 : (parsePairingReqRsp pairingRequestData).maxKeySize = byteAt pairingRequestData 4 := rfl
        simp only [Bool.or_eq_true, decide_eq_true_eq, not_or, not_lt] at hk
        simp only [keySizeInRange, combineAuthReq, bitwiseAndKeys, h4]
        omega
      split
      · exact ⟨(master_pairingFailed_same _ _ _).2, Or.inr ⟨_, (master_pairingFailed_same _ _ _).1, hin⟩⟩
      · split
        · exact ⟨(master_sendPacket_same _ _ _).2, Or.inr ⟨_, (master_sendPacket_same _ _ _).1, hin⟩⟩
        · exact ⟨(master_startPasskeyExchange_same _ _ _ _).2,
            Or.inr ⟨_, (master_startPasskeyExchange_same _ _ _ _).1, hin⟩⟩
  · exact ⟨rfl, Or.inl rfl⟩

end SmpMasterConnection

namespace SmpMasterConnection

/-- Case analysis on the data handler of the initiator: a property that holds for the
session left alone and for the result of every case holds for the result of `onData`. -/
theorem master_onData_cases (p : MasterState → Prop) (c : Crypto) (k : Link) (i : Inputs) (data : List Nat)
    (s : MasterState) (hignore : p s)
    (h0b : p (onDataSecurityRequest i data s))
    (h02 : p (onDataPairingResponse c k i data s))
    (h0c : p (onDataPairingPublicKey c k i data s))
    (h03 : p (onDataPairingConfirm data s))
    (h04 : p (onDataPairingRandom c k i data s))
    (h0d : p (onDataDHKeyCheck c data s))
    (h06 : p (onDataEncryptionInformation data s))
    (h07 : p (onDataMasterIdentification k i data s))
    (h08 : p (onDataIdentityInformation data s))
    (h09 : p (onDataIdentityAddressInformation k i data s))
    (h0e : p (onDataKeypressNotification data s))
    (h05 : p (onDataPairingFailed data s))
    (hother : p (sendPairingFailed SmpErrors.COMMAND_NOT_SUPPORTED s)) :
    p (onData c k i data s) := by
  rw [onData]
  by_cases h0 : (data.length == 0 || s.state == STATE_TIMEDOUT) = true
  · rw [if_pos h0]; exact hignore
  rw [if_neg h0]
  generalize byteAt data 0 = opcode
  show p (ite _ _ _)
  by_cases h1 : (opcode == 0x00 || opcode >= 0x0f) = true
  · rw [if_pos h1]; exact hignore
  rw [if_neg h1]
  by_cases h2 : (opcode == SMP_SECURITY_REQUEST) = true
  · rw [if_pos h2]; exact h0b
  rw [if_neg h2]
  by_cases h2' : (opcode == SMP_PAIRING_RESPONSE) = true
  · rw [if_pos h2']; exact h02
  rw [if_neg h2']
  by_cases h3 : (opcode == SMP_PAIRING_PUBLIC_KEY) = true
  · rw [if_pos h3]; exact h0c
  rw [if_neg h3]
  by_cases h4 : (opcode == SMP_PAIRING_CONFIRM) = true
  · rw [if_pos h4]; exact h03
  rw [if_neg h4]
  by_cases h5 : (opcode == SMP_PAIRING_RANDOM) = true
  · rw [if_pos h5]; exact h04
  rw [if_neg h5]
  by_cases h6 : (opcode == SMP_DHKEY_CHECK) = true
  · rw [if_pos h6]; exact h0d
  rw [if_neg h6]
  by_cases h7 : (opcode == SMP_ENCRYPTION_INFORMATION) = true
  · rw [if_pos h7]; exact h06
  rw [if_neg h7]
  by_cases h8 : (opcode == SMP_MASTER_IDENTIFICATION) = true
  · rw [if_pos h8]; exact h07
  rw [if_neg h8]
  by_cases h9 : (opcode == SMP_IDENTITY_INFORMATION) = true
  · rw [if_pos h9]; exact h08
  rw [if_neg h9]
  by_cases h10 : (opcode == SMP_IDENTITY_ADDRESS_INFORMATION) = true
  · rw [if_pos h10]; exact h09
  rw [if_neg h10]
  by_cases h11 : (opcode == SMP_KEYPRESS_NOTIFICATION) = true
  · rw [if_pos h11]; exact h0e
  rw [if_neg h11]
  by_cases h12 : (opcode == SMP_PAIRING_FAILED) = true
  · rw [if_pos h12]; exact h05
  rw [if_neg h12]
  exact hother

theorem master_onDataSecurityRequest_negotiation (i : Inputs) (data : List Nat) (s : MasterState)
    (hreq : requestKeySizeInRange s.pairingRequestData) :
    requestKeySizeInRange (onDataSecurityRequest i data s).pairingRequestData
    ∧ keepsOrNegotiates s.pairingFeatures (onDataSecurityRequest i data s).pairingFeatures := by
  have hask := fun b m sc kp =>
    master_askStartPairing_negotiation i b m sc kp s hreq
  unfold onDataSecurityRequest
  split
  · exact ⟨hreq, Or.inl rfl⟩
  · split
    · exact master_same_negotiationOk (master_pairingFailed_same _ _ _) hreq
    · dsimp only
      split
      · split
        · exact master_same_negotiationOk (master_startEncryptWithAvailableLtk_same _ _ _ _ _ _) hreq
        · exact ⟨(hask _ _ _ _).2, Or.inl (hask _ _ _ _).1⟩
      · exact ⟨(hask _ _ _ _).2, Or.inl (hask _ _ _ _).1⟩

theorem master_onDataPairingResponse_negotiation (c : Crypto) (k : Link) (i : Inputs) (data : List Nat)
    (s : MasterState) (hreq : requestKeySizeInRange s.pairingRequestData) :
    requestKeySizeInRange (onDataPairingResponse c k i data s).pairingRequestData
    ∧ keepsOrNegotiates s.pairingFeatures (onDataPairingResponse c k i data s).pairingFeatures := by
  unfold onDataPairingResponse
  split
  · exact ⟨hreq, Or.inl rfl⟩
  · split
    · exact master_same_negotiationOk (master_pairingFailed_same _ _ _) hreq
    · have h := master_onPairingResponse_negotiation c k i { s with pairingResponseData := some data } hreq
      exact ⟨by rw [h.1]; exact hreq, h.2⟩

theorem master_onDataPairingPublicKey_same (c : Crypto) (k : Link) (i : Inputs) (data : List Nat)
    (s : MasterState) : sameNegotiation s (onDataPairingPublicKey c k i data s) := by
  unfold onDataPairingPublicKey
  split
  · exact ⟨rfl, rfl⟩
  · split
    · exact master_pairingFailed_same _ _ _
    · exact master_sameNegotiation_trans ⟨rfl, rfl⟩ (master_startPasskeyExchange_same c k i _)

theorem master_onDataPairingConfirm_same (data : List Nat) (s : MasterState) :
    sameNegotiation s (onDataPairingConfirm data s) := by
  unfold onDataPairingConfirm
  split
  · exact ⟨rfl, rfl⟩
  · split
    · exact master_pairingFailed_same _ _ _
    · dsimp only
      split
      · exact ⟨rfl, rfl⟩
      · exact master_sameNegotiation_trans ⟨rfl, rfl⟩ (master_sendPacket_same _ _ _)

theorem master_onDataPairingRandom_same (c : Crypto) (k : Link) (i : Inputs) (data : List Nat)
    (s : MasterState) : sameNegotiation s (onDataPairingRandom c k i data s) := by
  unfold onDataPairingRandom
  split
  · exact ⟨rfl, rfl⟩
  · split
    · exact master_pairingFailed_same _ _ _
    · exact master_sameNegotiation_trans ⟨rfl, rfl⟩ (master_onPairingRandom_same c k i _)

theorem master_onDataDHKeyCheck_same (c : Crypto) (data : List Nat) (s : MasterState) :
    sameNegotiation s (onDataDHKeyCheck c data s) := by
  unfold onDataDHKeyCheck
  split
  · exact ⟨rfl, rfl⟩
  · split
    · exact master_pairingFailed_same _ _ _
    · exact master_onDHKeyCheck_same _ _ _

theorem master_onDataEncryptionInformation_same (data : List Nat) (s : MasterState) :
    sameNegotiation s (onDataEncryptionInformation data s) := by
  unfold onDataEncryptionInformation
  split
  · exact ⟨rfl, rfl⟩
  · split
    · exact master_pairingFailed_same _ _ _
    · exact ⟨rfl, rfl⟩

theorem master_onDataMasterIdentification_same (k : Link) (i : Inputs) (data : List Nat) (s : MasterState) :
    sameNegotiation s (onDataMasterIdentification k i data s) := by
  unfold onDataMasterIdentification
  split
  · exact ⟨rfl, rfl⟩
  · split
    · exact master_pairingFailed_same _ _ _
    · dsimp only
      split
      · exact ⟨rfl, rfl⟩
      · split
        · exact ⟨rfl, rfl⟩
        · exact master_sameNegotiation_trans ⟨rfl, rfl⟩ (master_startDistributeOwnKeys_same k i _)

theorem master_onDataIdentityInformation_same (data : List Nat) (s : MasterState) :
    sameNegotiation s (onDataIdentityInformation data s) := by
  unfold onDataIdentityInformation
  split
  · exact ⟨rfl, rfl⟩
  · split
    · exact master_pairingFailed_same _ _ _
    · exact ⟨rfl, rfl⟩

theorem master_onDataIdentityAddressInformation_same (k : Link) (i : Inputs) (data : List Nat)
    (s : MasterState) : sameNegotiation s (onDataIdentityAddressInformation k i data s) := by
  unfold onDataIdentityAddressInformation
  split
  · exact ⟨rfl, rfl⟩
  · split
    · exact master_pairingFailed_same _ _ _
    · exact master_sameNegotiation_trans ⟨rfl, rfl⟩ (master_startDistributeOwnKeys_same k i _)

theorem master_onDataKeypressNotification_same (data : List Nat) (s : MasterState) :
    sameNegotiation s (onDataKeypressNotification data s) := by
  unfold onDataKeypressNotification
  split
  · exact ⟨rfl, rfl⟩
  · split
    · exact ⟨rfl, rfl⟩
    · split
      · exact master_pairingFailed_same _ _ _
      · split
        · exact ⟨rfl, rfl⟩
        · split <;> exact ⟨rfl, rfl⟩

theorem master_onDataPairingFailed_same (data : List Nat) (s : MasterState) :
    sameNegotiation s (onDataPairingFailed data s) := by
  unfold onDataPairingFailed
  split
  · exact ⟨rfl, rfl⟩
  · exact master_onPairingFailed_same _ _

theorem master_onData_negotiation (c : Crypto) (k : Link) (i : Inputs) (data : List Nat) (s : MasterState)
    (hreq : requestKeySizeInRange s.pairingRequestData) :
    requestKeySizeInRange (onData c k i data s).pairingRequestData
    ∧ keepsOrNegotiates s.pairingFeatures (onData c k i data s).pairingFeatures := by
  apply master_onData_cases (fun s' => requestKeySizeInRange s'.pairingRequestData
    ∧ keepsOrNegotiates s.pairingFeatures s'.pairingFeatures)
  · exact ⟨hreq, Or.inl rfl⟩
  · exact master_onDataSecurityRequest_negotiation i data s hreq
  · exact master_onDataPairingResponse_negotiation c k i data s hreq
  · exact master_same_negotiationOk (master_onDataPairingPublicKey_same _ _ _ _ _) hreq
  · exact master_same_negotiationOk (master_onDataPairingConfirm_same _ _) hreq
  · exact master_same_negotiationOk (master_onDataPairingRandom_same _ _ _ _ _) hreq
  · exact master_same_negotiationOk (master_onDataDHKeyCheck_same _ _ _) hreq
  · exact master_same_negotiationOk (master_onDataEncryptionInformation_same _ _) hreq
  · exact master_same_negotiationOk (master_onDataMasterIdentification_same _ _ _ _) hreq
  · exact master_same_negotiationOk (master_onDataIdentityInformation_same _ _) hreq
  · exact master_same_negotiationOk (master_onDataIdentityAddressInformation_same _ _ _ _) hreq
  · exact master_same_negotiationOk (master_onDataKeypressNotification_same _ _) hreq
  · exact master_same_negotiationOk (master_onDataPairingFailed_same _ _) hreq
  · exact master_same_negotiationOk (master_sendPairingFailed_same _ _) hreq

end SmpMasterConnection

/-! ## Basic facts about the operations of the initiator -/

namespace SmpMasterConnection

theorem master_pairingFailed_log (s : MasterState) (reason : Nat) (h : s.sendDisabled = false)
    (hl : s.encryptionProcessWithLtk = false) :
    (pairingFailed s reason false).log = s.log ++ localFailure s.hasOutgoingFailedMsg reason := by
  cases hf : s.hasOutgoingFailedMsg <;>
    simp [pairingFailed, timeoutClearFn, sendDataFn, emit, act, localFailure, bufferFrom, h, hf, hl,
      SMP_PAIRING_FAILED]

theorem master_pairingFailed_log_any (s : MasterState) (reason : Nat) (h : s.sendDisabled = false) :
    (pairingFailed s reason false).log
      = s.log ++ initiatorLocalFailure s.hasOutgoingFailedMsg s.encryptionProcessWithLtk reason := by
  cases hf : s.hasOutgoingFailedMsg <;> cases hl : s.encryptionProcessWithLtk <;>
    simp [pairingFailed, timeoutClearFn, sendDataFn, emit, act, initiatorLocalFailure, bufferFrom, h, hf, hl,
      SMP_PAIRING_FAILED]

theorem master_pairingFailed_state (s : MasterState) (reason : Nat) (remote : Bool) :
    (pairingFailed s reason remote).state = STATE_IDLE := by
  unfold pairingFailed
  dsimp only [emit, act]
  split <;> split <;> rfl

end SmpMasterConnection

/-! ## Key size (claim C8) -/

/-- C8, amended: (1) a responder that accepts a Pairing Request fails a seven-byte request
whose key size is below 7 or above 16 with InvalidParameters (the Pairing Failed PDU, left
out only while an earlier one still awaits its sent-acknowledgement, and the pairing-fail
event), returns to Idle and does not touch `pairingFeatures`; (2) so does an initiator
that waits for the Pairing Response with a seven-byte response, except that it emits no
pairing-fail event while the outcome of a start-encryption command issued with a stored
key is outstanding (`initiatorLocalFailure`).  Consequently, for every
PDU, every listener answer and every user feature object, (3, 4) a step of the responder
leaves `pairingFeatures` alone or sets it to a record with `maxKeySize` in 7..16, (5) the
Pairing Request the initiator builds carries a key size in 7..16, and (6) a step of the
initiator keeps that property and leaves `pairingFeatures` alone or sets it to a record
with `maxKeySize` in 7..16. -/
theorem key_size_invariant (c : Crypto) (k : Link) :
    (∀ (i : Inputs) (data : List Nat) (s : SlaveState),
      SmpSlaveConnection.acceptsPairingRequest s → s.sendDisabled = false →
      byteAt data 0 = SMP_PAIRING_REQUEST → data.length = 7 → (byteAt data 4 < 7 ∨ 16 < byteAt data 4) →
      (SmpSlaveConnection.receive c k i data s).2
          = localFailure s.hasOutgoingFailedMsg SmpErrors.INVALID_PARAMETERS
        ∧ (SmpSlaveConnection.receive c k i data s).1.state = STATE_IDLE
        ∧ (SmpSlaveConnection.receive c k i data s).1.pairingFeatures = s.pairingFeatures)
    ∧ (∀ (i : Inputs) (data : List Nat) (s : MasterState),
      SmpMasterConnection.acceptsPairingResponse s → s.sendDisabled = false →
      s.pairingRequestData.isSome = true →
      byteAt data 0 = SMP_PAIRING_RESPONSE → data.length = 7 → (byteAt data 4 < 7 ∨ 16 < byteAt data 4) →
      (SmpMasterConnection.receive c k i data s).2
          = initiatorLocalFailure s.hasOutgoingFailedMsg s.encryptionProcessWithLtk
              SmpErrors.INVALID_PARAMETERS
        ∧ (SmpMasterConnection.receive c k i data s).1.state = STATE_IDLE
        ∧ (SmpMasterConnection.receive c k i data s).1.pairingFeatures = s.pairingFeatures)
    ∧ (∀ (i : Inputs) (data : List Nat) (s : SlaveState),
      keepsOrNegotiates s.pairingFeatures (SmpSlaveConnection.receive c k i data s).1.pairingFeatures)
    ∧ (∀ (i : Inputs) (req : PairingFeatures) (userHandledRequest : Bool) (thisRunCounter : Nat)
        (rsp : Option UserFeatures) (s : SlaveState), keySizeInRange req →
      keepsOrNegotiates s.pairingFeatures
        (SmpSlaveConnection.cont i req userHandledRequest thisRunCounter rsp s).pairingFeatures)
    ∧ (∀ (req : Option UserFeatures) (s : MasterState),
      requestKeySizeInRange (SmpMasterConnection.startPairingRequest req s).pairingRequestData
        ∧ (SmpMasterConnection.startPairingRequest req s).pairingFeatures = s.pairingFeatures)
    ∧ (∀ (i : Inputs) (data : List Nat) (s : MasterState),
      requestKeySizeInRange s.pairingRequestData →
      requestKeySizeInRange (SmpMasterConnection.receive c k i data s).1.pairingRequestData
        ∧ keepsOrNegotiates s.pairingFeatures (SmpMasterConnection.receive c k i data s).1.pairingFeatures) := by
  refine ⟨?_, ?_, ?_, ?_, ?_, ?_⟩
  · intro i data s hstate hsend hop hlen hkey
    have hne : data.length ≠ 0 := by omega
    have hnt : s.state ≠ STATE_TIMEDOUT := by
      rcases hstate with h | ⟨h1, h2⟩
      · rw [h]; decide
      · rw [h1]; decide
    have hguard : (s.state != STATE_IDLE
        && !(s.state == STATE_W4_PACKET && s.packetWaitOpcode == some SMP_PAIRING_REQUEST)) = false := by
      rcases hstate with h | ⟨h1, h2⟩
      · simp [h]
      · simp [h1, h2]
    have hk : ((parsePairingReqRsp data).maxKeySize < 7 || (parsePairingReqRsp data).maxKeySize > 16) = true := by
      simp [parsePairingReqRsp]; omega
    have hstep : SmpSlaveConnection.onData c k i data { s with log := [] }
        = SmpSlaveConnection.pairingFailed { s with log := [] } SmpErrors.INVALID_PARAMETERS := by
      unfold SmpSlaveConnection.onData SmpSlaveConnection.onDataPairingRequest
      rw [if_neg (by simp [hne, hnt]), if_neg (by simp [hop, SMP_PAIRING_REQUEST])]
      simp only [hop, beq_self_eq_true, if_true]
      rw [if_neg (by simpa using hguard), if_neg (by simp [hlen]), if_pos (by simpa using hk)]
    simp only [SmpSlaveConnection.receive, hstep]
    refine ⟨?_, ?_, ?_⟩
    · rw [SmpSlaveConnection.slave_pairingFailed_log { s with log := [] } _ hsend]; simp
    · exact SmpSlaveConnection.slave_pairingFailed_state _ _
    · exact SmpSlaveConnection.slave_pairingFailed_pairingFeatures _ _
  · intro i data s hstate hsend hreq hop hlen hkey
    obtain ⟨hs1, hs2⟩ := hstate
    have hne : data.length ≠ 0 := by omega
    have hnt : s.state ≠ STATE_TIMEDOUT := by rw [hs1]; decide
    obtain ⟨d, hd⟩ := Option.isSome_iff_exists.mp hreq
    have hk : ((parsePairingReqRsp data).maxKeySize < 7 || (parsePairingReqRsp data).maxKeySize > 16) = true := by
      simp [parsePairingReqRsp]; omega
    have hstep : SmpMasterConnection.onData c k i data { s with log := [] }
        = SmpMasterConnection.pairingFailed { s with log := [], pairingResponseData := some data }
            SmpErrors.INVALID_PARAMETERS false := by
      unfold SmpMasterConnection.onData SmpMasterConnection.onDataPairingResponse
      rw [if_neg (by simp [hne, hnt]), if_neg (by simp [hop, SMP_PAIRING_RESPONSE])]
      simp only [hop]
      rw [if_neg (by decide), if_pos (by decide),
        if_neg (by simp [SmpMasterConnection.notWaitingFor, hs1, hs2]), if_neg (by simp [hlen])]
      unfold SmpMasterConnection.onPairingResponse
      simp only [hd]
      rw [if_pos (by simpa using hk)]
    simp only [SmpMasterConnection.receive, hstep]
    refine ⟨?_, ?_, ?_⟩
    · rw [SmpMasterConnection.master_pairingFailed_log_any
        { s with log := [], pairingResponseData := some data } _ hsend]
      simp
    · exact SmpMasterConnection.master_pairingFailed_state _ _ _
    · exact (SmpMasterConnection.master_pairingFailed_same _ _ _).1
  · intro i data s
    exact SmpSlaveConnection.slave_onData_pairingFeatures c k i data { s with log := [] }
  · intro i req uh trc rsp s hreq
    exact SmpSlaveConnection.slave_cont_pairingFeatures i req uh trc rsp s hreq.1 hreq.2
  · intro req s
    exact ⟨(SmpMasterConnection.master_startPairingRequest_negotiation req s).2,
      (SmpMasterConnection.master_startPairingRequest_negotiation req s).1⟩
  · intro i data s hreq
    exact SmpMasterConnection.master_onData_negotiation c k i data { s with log := [] } hreq

/-- Witness of `key_size_invariant`: a responder and an initiator fail a request and a
response with key size 6 and 17, an initiator with the outcome of a start-encryption
command with a stored key outstanding fails a response with key size 17 without the
pairing-fail event, and an initiator that receives a response with key size 10 to its
request with key size 16 negotiates key size 10. -/
theorem key_size_invariant_witness :
    (SmpSlaveConnection.acceptsPairingRequest (SmpSlaveConnection.init none)
      ∧ (SmpSlaveConnection.receive sampleCrypto sampleLink sampleInputs [1, 3, 0, 1, 6, 0, 0]
          (SmpSlaveConnection.init none)).2
        = [Action.sendData [5, 10] (some Callback.failedMsgSent) none, Action.emit (Event.pairingFail 10 false)])
    ∧ (SmpMasterConnection.acceptsPairingResponse sampleMasterAwaitingResponse
      ∧ (SmpMasterConnection.receive sampleCrypto sampleLink sampleInputs [2, 3, 0, 1, 17, 0, 0]
          sampleMasterAwaitingResponse).2
        = [Action.sendData [5, 10] (some Callback.failedMsgSent) none, Action.emit (Event.pairingFail 10 false)])
    ∧ (SmpMasterConnection.acceptsPairingResponse sampleMasterAwaitingResponseOutstanding
      ∧ sampleMasterAwaitingResponseOutstanding.encryptionProcessWithLtk = true
      ∧ (SmpMasterConnection.receive sampleCrypto sampleLink sampleInputs [2, 3, 0, 1, 17, 0, 0]
          sampleMasterAwaitingResponseOutstanding).2
        = [Action.sendData [5, 10] (some Callback.failedMsgSent) none])
    ∧ (requestKeySizeInRange sampleMasterAwaitingResponse.pairingRequestData
      ∧ keepsOrNegotiates sampleMasterAwaitingResponse.pairingFeatures
          (SmpMasterConnection.receive sampleCrypto sampleLink sampleInputs [2, 3, 0, 1, 10, 0, 0]
            sampleMasterAwaitingResponse).1.pairingFeatures
      ∧ ((SmpMasterConnection.receive sampleCrypto sampleLink sampleInputs [2, 3, 0, 1, 10, 0, 0]
            sampleMasterAwaitingResponse).1.pairingFeatures.map (fun pf => pf.maxKeySize)) = some 10) := by
  have h := key_size_invariant sampleCrypto sampleLink
  have hreq : requestKeySizeInRange sampleMasterAwaitingResponse.pairingRequestData := by
    intro d hd
    have hd' : d = [1, 3, 0, 9, 16, 3, 3] := by
      have : sampleMasterAwaitingResponse.pairingRequestData = some [1, 3, 0, 9, 16, 3, 3] := by decide
      rw [this] at hd
      exact (Option.some.inj hd).symm
    subst hd'
    decide
  refine ⟨⟨Or.inl rfl, ?_⟩, ⟨⟨by decide, by decide⟩, ?_⟩, ⟨⟨by decide, by decide⟩, by decide, ?_⟩, hreq, ?_,
    by decide⟩
  · exact (h.1 sampleInputs [1, 3, 0, 1, 6, 0, 0] (SmpSlaveConnection.init none) (Or.inl rfl) rfl rfl rfl
      (Or.inl (by decide))).1
  · exact (h.2.1 sampleInputs [2, 3, 0, 1, 17, 0, 0] sampleMasterAwaitingResponse ⟨by decide, by decide⟩
      (by decide) (by decide) rfl rfl (Or.inr (by decide))).1
  · exact (h.2.1 sampleInputs [2, 3, 0, 1, 17, 0, 0] sampleMasterAwaitingResponseOutstanding
      ⟨by decide, by decide⟩ (by decide) (by decide) rfl rfl (Or.inr (by decide))).1
  · exact (h.2.2.2.2.2 sampleInputs [2, 3, 0, 1, 10, 0, 0] sampleMasterAwaitingResponse hreq).2

/-! ## Passkey rounds of the initiator (claim C10) -/

/-- The expression of the source, `((userPasskey >> passkeyBitCounter) & 1) | 0x80`, is the
value claim C10 names. -/
theorem passkeyBit_eq_roundValue (passkey i : Nat) :
    passkeyBit passkey i = passkeyRoundValue passkey i := by
  unfold passkeyBit passkeyRoundValue Nat.testBit
  rw [Nat.and_comm 1, Nat.and_one_is_mod]
  rcases Nat.mod_two_eq_zero_or_one (passkey >>> i) with h | h <;> simp [h]

namespace SmpMasterConnection

theorem master_onData_pairingConfirm (c : Crypto) (k : Link) (i : Inputs) (v : List Nat) (s : MasterState)
    (h : s.state ≠ STATE_TIMEDOUT) :
    onData c k i (SMP_PAIRING_CONFIRM :: v) s = onDataPairingConfirm (SMP_PAIRING_CONFIRM :: v) s := by
  rw [onData, if_neg (by simp [h])]
  show ite _ _ _ = _
  have hop : byteAt (SMP_PAIRING_CONFIRM :: v) 0 = 3 := rfl
  rw [hop, if_neg (by decide), if_neg (by decide), if_neg (by decide), if_neg (by decide), if_pos (by decide)]

theorem master_onData_pairingRandom (c : Crypto) (k : Link) (i : Inputs) (v : List Nat) (s : MasterState)
    (h : s.state ≠ STATE_TIMEDOUT) :
    onData c k i (SMP_PAIRING_RANDOM :: v) s = onDataPairingRandom c k i (SMP_PAIRING_RANDOM :: v) s := by
  rw [onData, if_neg (by simp [h])]
  show ite _ _ _ = _
  have hop : byteAt (SMP_PAIRING_RANDOM :: v) 0 = 4 := rfl
  rw [hop, if_neg (by decide), if_neg (by decide), if_neg (by decide), if_neg (by decide), if_neg (by decide),
    if_pos (by decide)]

theorem master_sendPacket_eq (s : MasterState) (data : List Nat) (next : Option Nat)
    (ht : s.state ≠ STATE_TIMEDOUT) (h : s.sendDisabled = false) :
    sendPacket s data next
      = { s with timeoutPending := true, state := STATE_W4_PACKET_ENQUEUED, packetWaitOpcode := next,
                 log := s.log ++ [Action.sendData data (some (Callback.packetSent s.runCounter none)) none] } := by
  simp [sendPacket, restartTimeout, timeoutClearFn, sendDataFn, act, ht, h]

theorem master_acknowledgeLast_eq (s : MasterState) (l : List Action) (data : List Nat)
    (hlog : s.log = l ++ [Action.sendData data (some (Callback.packetSent s.runCounter none)) none]) :
    acknowledgeLast s = { s with state := STATE_W4_PACKET } := by
  simp [acknowledgeLast, lastSentCallback, hlog, onCallback]

end SmpMasterConnection

namespace SmpMasterConnection

theorem master_passkeyRound_confirm (c : Crypto) (k : Link) (i : Inputs) (s0 : MasterState) (pk j : Nat)
    (na : List Nat) (t : MasterState) (l : List Action) (a : Action) (v : List Nat)
    (ht : InPasskeyRound s0 pk j na t)
    (ha : a = Action.sendData (SMP_PAIRING_CONFIRM :: v) (some (Callback.packetSent s0.runCounter none)) none)
    (hlog : t.log = l ++ [a])
    (rspConfirm : List Nat) (hl : rspConfirm.length = 16) :
    acknowledgeLast (onData c k i (SMP_PAIRING_CONFIRM :: rspConfirm) (acknowledgeLast t))
      = { t with state := STATE_W4_PACKET, timeoutPending := true, packetWaitOpcode := some SMP_PAIRING_RANDOM,
                 rspConfirmValue := some rspConfirm,
                 log := l ++ [a, randomPdu s0.runCounter na] } := by
  obtain ⟨h1, h2, h3, h4, h5, h6, h7, h8, h9, h10, h11, h12, h13, h14⟩ := ht
  have e1 : acknowledgeLast t = { t with state := STATE_W4_PACKET } :=
    master_acknowledgeLast_eq t l (SMP_PAIRING_CONFIRM :: v) (by rw [hlog, ha, h6])
  rw [e1, master_onData_pairingConfirm _ _ _ _ _ (by simp [STATE_W4_PACKET, STATE_TIMEDOUT])]
  have e2 : onDataPairingConfirm (SMP_PAIRING_CONFIRM :: rspConfirm) { t with state := STATE_W4_PACKET }
      = { t with state := STATE_W4_PACKET_ENQUEUED, timeoutPending := true,
                 packetWaitOpcode := some SMP_PAIRING_RANDOM, rspConfirmValue := some rspConfirm,
                 log := l ++ [a, randomPdu s0.runCounter na] } := by
    unfold onDataPairingConfirm
    rw [if_neg (by simp [notWaitingFor, h2]), if_neg (by simp [hl])]
    simp only [h4, List.drop_succ_cons, List.drop_zero]
    rw [master_sendPacket_eq _ _ _ (by simp [STATE_W4_PACKET, STATE_TIMEDOUT]) (by simpa using h7)]
    simp [hlog, randomPdu, bufferFrom, SMP_PAIRING_RANDOM, h6]
  rw [e2]
  rw [master_acknowledgeLast_eq _ (l ++ [a]) (SMP_PAIRING_RANDOM :: na) (by simp [randomPdu, h6])]

end SmpMasterConnection

namespace SmpMasterConnection

theorem master_sendDHKeyCheck_log (c : Crypto) (k : Link) (s0 : MasterState) (pk : Nat) (na nb : List Nat)
    (u : MasterState)
    (h1 : u.peerPublicKey = s0.peerPublicKey) (h2 : u.pairingFeatures = s0.pairingFeatures)
    (h3 : u.pairingRequestData = s0.pairingRequestData) (h4 : u.pairingResponseData = s0.pairingResponseData)
    (h5 : u.initRandomValue = some na) (h6 : u.rspRandomValue = some nb) (h7 : u.userPasskey = some pk)
    (h8 : u.hasOutgoingFailedMsg = s0.hasOutgoingFailedMsg) (h9 : u.runCounter = s0.runCounter)
    (h10 : u.sendDisabled = false) (h11 : u.encryptionProcessWithLtk = false)
    (h12 : u.state ≠ STATE_TIMEDOUT)
    (hp : s0.peerPublicKey.isSome = true) (hf : s0.pairingFeatures.isSome = true) :
    (sendDHKeyCheck c k u).log = u.log ++ dhKeyCheckStep c k s0 pk na nb := by
  obtain ⟨ppk, hppk⟩ := Option.isSome_iff_exists.mp hp
  obtain ⟨pf, hpf⟩ := Option.isSome_iff_exists.mp hf
  unfold sendDHKeyCheck dhKeyCheckStep
  rw [h1, h2, h3, h4, h5, h6, h7, hppk, hpf]
  cases hq : s0.pairingRequestData <;> cases hr : s0.pairingResponseData <;> simp only [Option.getD_some]
  · rfl
  · rfl
  · rfl
  · cases hg : generateLtkEaEb c ppk k.ia k.iat k.ra k.rat na nb pk pf.maxKeySize (slice _ 1 4) (slice _ 1 4)
    · simp only
      rw [master_pairingFailed_log _ _ h10 h11, h8]
    · simp only
      rw [master_sendPacket_eq _ _ _ (by simpa using h12) (by simpa using h10)]
      simp [bufferFrom, SMP_DHKEY_CHECK, h9]

theorem master_sendDHKeyCheck_counter (c : Crypto) (k : Link) (u : MasterState) :
    (sendDHKeyCheck c k u).passkeyBitCounter = u.passkeyBitCounter := by
  unfold sendDHKeyCheck
  split
  · split
    · unfold pairingFailed
      dsimp only [timeoutClearFn, emit, act, sendDataFn]
      repeat' split
      all_goals rfl
    · unfold sendPacket
      dsimp only [restartTimeout, timeoutClearFn, sendDataFn, act]
      repeat' split
      all_goals rfl
  · rfl

end SmpMasterConnection

namespace SmpMasterConnection

/-- One verified round: from the hand-over of the Pairing Confirm of bit `j` to the
hand-over of the Pairing Confirm of bit `j + 1`, or, after bit 19, to the DHKey Check step. -/
theorem master_passkeyRound_step (c : Crypto) (k : Link) (i : Inputs) (s0 : MasterState)
    (pf : PairingFeatures) (m : Nat) (ppk : List Nat × List Nat) (pk j : Nat) (na : List Nat)
    (r : PasskeyRound) (t : MasterState) (l : List Action)
    (hpf : s0.pairingFeatures = some pf) (hsc : pf.sc = true)
    (hm : s0.associationModel = some m) (hm1 : m ≠ ASSOCIATION_MODEL_JUST_WORKS)
    (hm2 : m ≠ ASSOCIATION_MODEL_NUMERIC_COMPARISON)
    (hppk : s0.peerPublicKey = some ppk) (hltk : s0.encryptionProcessWithLtk = false)
    (ht : InPasskeyRound s0 pk j na t)
    (hlog : t.log = l ++ [confirmPdu c ppk.1 pk s0.runCounter j na])
    (hv : r.rspConfirm = Toolbox.f4 c ppk.1 c.myEcdhPubKeyX r.rspRandom (passkeyRoundValue pk j))
    (hl1 : r.rspConfirm.length = 16) (hl2 : r.rspRandom.length = 16) :
    (j + 1 < 20 →
      InPasskeyRound s0 pk (j + 1) r.nextRandom (passkeyRound c k i r t)
      ∧ (passkeyRound c k i r t).log
          = l ++ [confirmPdu c ppk.1 pk s0.runCounter j na, randomPdu s0.runCounter na]
              ++ [confirmPdu c ppk.1 pk s0.runCounter (j + 1) r.nextRandom])
    ∧ (¬ j + 1 < 20 →
      (passkeyRound c k i r t).log
          = l ++ [confirmPdu c ppk.1 pk s0.runCounter j na, randomPdu s0.runCounter na]
              ++ dhKeyCheckStep c k s0 pk na r.rspRandom
      ∧ (passkeyRound c k i r t).passkeyBitCounter = some (j + 1)) := by
  have hround := master_passkeyRound_confirm c k i s0 pk j na t l _ _ ht rfl hlog r.rspConfirm hl1
  obtain ⟨h1, h2, h3, h4, h5, h6, h7, h8, h9, h10, h11, h12, h13, h14⟩ := ht
  have heq : timingSafeEqual r.rspConfirm
      (Toolbox.f4 c ppk.1 c.myEcdhPubKeyX r.rspRandom (passkeyBit pk j)) = true := by
    simp [timingSafeEqual, hv, passkeyBit_eq_roundValue]
  unfold passkeyRound
  dsimp only
  rw [hround, master_onData_pairingRandom _ _ _ _ _ (by simp [STATE_W4_PACKET, STATE_TIMEDOUT])]
  unfold onDataPairingRandom
  rw [if_neg (by simp [notWaitingFor]), if_neg (by simp [hl2])]
  unfold onPairingRandom
  simp only [h8, hpf, hsc, h10, hppk, h9, hm, h5, h3, List.drop_succ_cons, List.drop_zero, Option.getD_some,
    if_true]
  have hu : (some m != some ASSOCIATION_MODEL_JUST_WORKS && some m != some ASSOCIATION_MODEL_NUMERIC_COMPARISON) = true := by
    simp [hm1, hm2]
  simp only [hu, if_true, heq, Bool.not_true, Bool.false_eq_true, if_false]
  rw [if_neg (by simpa using hm1), if_neg (by simpa using hm2)]
  constructor
  · intro hj
    rw [if_pos hj]
    unfold sendConfirm
    simp only [h8, hpf, hsc, h10, hppk, h5, Option.getD_some, Bool.not_true, Bool.false_eq_true, if_false]
    rw [master_sendPacket_eq _ _ _ (by simp [STATE_W4_PACKET, STATE_TIMEDOUT]) (by simpa using h7)]
    refine ⟨?_, ?_⟩
    · constructor <;> simp [h5, h6, h7, hpf, hm, hppk, h11, h12, h13, h14]
    · simp [confirmPdu, bufferFrom, SMP_PAIRING_CONFIRM, h6, passkeyBit_eq_roundValue]
  · intro hj
    rw [if_neg hj]
    refine ⟨?_, ?_⟩
    · rw [master_sendDHKeyCheck_log c k s0 pk na r.rspRandom]
      · simp [confirmPdu]
      all_goals simp [h4, h5, h6, h7, hpf, hm, hppk, h11, h12, h13, h14, hltk, STATE_W4_PACKET, STATE_TIMEDOUT]
    · rw [master_sendDHKeyCheck_counter]

end SmpMasterConnection

namespace SmpMasterConnection

theorem master_passkeyRounds_log (c : Crypto) (k : Link) (i : Inputs) (s0 : MasterState)
    (pf : PairingFeatures) (m : Nat) (ppk : List Nat × List Nat) (pk : Nat)
    (hpf : s0.pairingFeatures = some pf) (hsc : pf.sc = true)
    (hm : s0.associationModel = some m) (hm1 : m ≠ ASSOCIATION_MODEL_JUST_WORKS)
    (hm2 : m ≠ ASSOCIATION_MODEL_NUMERIC_COMPARISON)
    (hppk : s0.peerPublicKey = some ppk) (hltk : s0.encryptionProcessWithLtk = false)
    (rounds : List PasskeyRound) :
    ∀ (j : Nat) (na : List Nat) (t : MasterState) (l : List Action),
      j + rounds.length ≤ 20 → InPasskeyRound s0 pk j na t →
      t.log = l ++ [confirmPdu c ppk.1 pk s0.runCounter j na] →
      roundsVerify c ppk.1 pk j rounds →
      (passkeyRounds c k i rounds t).log = l ++ passkeyTranscript c k s0 ppk.1 pk j na rounds
      ∧ (passkeyRounds c k i rounds t).passkeyBitCounter = some (j + rounds.length) := by
  induction rounds with
  | nil =>
    intro j na t l _ ht hlog _
    exact ⟨by simpa [passkeyRounds, passkeyTranscript] using hlog, by simpa [passkeyRounds] using ht.counter⟩
  | cons r rs ih =>
    intro j na t l hlen ht hlog hv
    obtain ⟨hv1, hl1, hl2, hrest⟩ := hv
    have hstep := master_passkeyRound_step c k i s0 pf m ppk pk j na r t l hpf hsc hm hm1 hm2 hppk hltk ht hlog
      hv1 hl1 hl2
    simp only [List.length_cons] at hlen
    by_cases hj : j + 1 < 20
    · obtain ⟨ht', hlog'⟩ := hstep.1 hj
      have h := ih (j + 1) r.nextRandom (passkeyRound c k i r t)
        (l ++ [confirmPdu c ppk.1 pk s0.runCounter j na, randomPdu s0.runCounter na]) (by omega) ht' hlog' hrest
      refine ⟨?_, ?_⟩
      · rw [passkeyRounds, h.1]
        simp [passkeyTranscript, hj]
      · rw [passkeyRounds, h.2]
        simp only [List.length_cons]
        congr 1
        omega
    · obtain ⟨hlog', hctr'⟩ := hstep.2 hj
      have hnil : rs = [] := List.length_eq_zero.mp (by omega)
      subst hnil
      refine ⟨?_, ?_⟩
      · rw [passkeyRounds, passkeyRounds, hlog']
        simp [passkeyTranscript, hj]
      · rw [passkeyRounds, passkeyRounds, hctr']
        simp

theorem sentOpcodes_append (a b : List Action) : sentOpcodes (a ++ b) = sentOpcodes a ++ sentOpcodes b := by
  induction a with
  | nil => rfl
  | cons x xs ih =>
    cases x <;> simp [sentOpcodes, ih]

theorem sentOpcodes_dhKeyCheckStep (c : Crypto) (k : Link) (s : MasterState) (pk : Nat) (na nb : List Nat) :
    sentOpcodes (dhKeyCheckStep c k s pk na nb) = [SMP_DHKEY_CHECK]
    ∨ sentOpcodes (dhKeyCheckStep c k s pk na nb) = [SMP_PAIRING_FAILED]
    ∨ sentOpcodes (dhKeyCheckStep c k s pk na nb) = [] := by
  unfold dhKeyCheckStep
  split
  · split
    · cases hf : s.hasOutgoingFailedMsg <;> simp [localFailure, sentOpcodes, byteAt]
    · simp [sentOpcodes, byteAt]
  · simp [sentOpcodes]

theorem sentOpcodes_passkeyTranscript (c : Crypto) (k : Link) (s : MasterState) (peerX : List Nat) (pk : Nat)
    (rounds : List PasskeyRound) :
    ∀ (j : Nat) (na : List Nat), j < 20 → j + rounds.length ≤ 20 →
      ∃ tail, sentOpcodes (passkeyTranscript c k s peerX pk j na rounds)
          = (List.replicate rounds.length [SMP_PAIRING_CONFIRM, SMP_PAIRING_RANDOM]).flatten ++ tail
        ∧ (j + rounds.length < 20 → tail = [SMP_PAIRING_CONFIRM])
        ∧ (j + rounds.length = 20 →
            tail = [SMP_DHKEY_CHECK] ∨ tail = [SMP_PAIRING_FAILED] ∨ tail = []) := by
  induction rounds with
  | nil =>
    intro j na hj20 hlen
    refine ⟨[SMP_PAIRING_CONFIRM], by simp [passkeyTranscript, confirmPdu, sentOpcodes, byteAt], fun _ => rfl, ?_⟩
    intro h
    simp only [List.length_nil] at h
    omega
  | cons r rs ih =>
    intro j na hj20 hlen
    simp only [List.length_cons] at hlen
    by_cases hj : j + 1 < 20
    · obtain ⟨tail, h1, h2, h3⟩ := ih (j + 1) r.nextRandom hj (by omega)
      refine ⟨tail, ?_, ?_, ?_⟩
      · simp [passkeyTranscript, hj, confirmPdu, randomPdu, sentOpcodes, byteAt, h1, List.replicate_succ]
      · intro h; exact h2 (by simp only [List.length_cons] at h; omega)
      · intro h; exact h3 (by simp only [List.length_cons] at h; omega)
    · have hnil : rs = [] := List.length_eq_zero.mp (by omega)
      subst hnil
      refine ⟨sentOpcodes (dhKeyCheckStep c k s pk na r.rspRandom), ?_, ?_, ?_⟩
      · simp [passkeyTranscript, hj, confirmPdu, randomPdu, sentOpcodes, byteAt]
      · intro h; simp at h; omega
      · intro _; exact sentOpcodes_dhKeyCheckStep c k s pk na r.rspRandom

end SmpMasterConnection

/-- C10: under Secure Connections with a Passkey Entry model, an initiator that knows the
passkey and sends its first Pairing Confirm goes through the rounds as follows, for every
number of rounds up to 20 in which the responder confirm verifies.  Its actions are, per
round with bit index `j` (from 0), the Pairing Confirm carrying
`f4(PKa.x, PKb.x, Na_j, 0x80 | bit j of the passkey)` (`confirmPdu`, with the last argument
written out as `passkeyRoundValue`: `0x81` when bit `j` of the passkey is set, `0x80`
otherwise) and the Pairing Random carrying `Na_j`; the bit index has increased by one per
verified round; before 20 rounds are complete the last action is the Pairing Confirm of
the round that has begun and no DHKey Check has been sent; after the round with bit index 19 exactly 20 Pairing Confirm PDUs
have been sent, and the DHKey Check step follows (the DHKey Check PDU when the ECDH
computation accepts the peer key). -/
theorem initiator_passkey_bit_iteration (c : Crypto) (k : Link) (i : Inputs) (s : MasterState)
    (pf : PairingFeatures) (m : Nat) (ppk : List Nat × List Nat) (pk : Nat) (na0 : List Nat)
    (rounds : List PasskeyRound)
    (hpf : s.pairingFeatures = some pf) (hsc : pf.sc = true)
    (hm : s.associationModel = some m) (hm1 : m ≠ ASSOCIATION_MODEL_JUST_WORKS)
    (hm2 : m ≠ ASSOCIATION_MODEL_NUMERIC_COMPARISON)
    (hppk : s.peerPublicKey = some ppk) (hpk : s.userPasskey = some pk)
    (hctr : s.passkeyBitCounter = some 0)
    (hstate : s.state ≠ STATE_TIMEDOUT) (hsend : s.sendDisabled = false)
    (hltk : s.encryptionProcessWithLtk = false)
    (hlen : rounds.length ≤ 20) (hv : roundsVerify c ppk.1 pk 0 rounds) :
    let final := SmpMasterConnection.passkeyRounds c k i rounds
      (SmpMasterConnection.sendConfirm c k { i with random16 := na0 } s)
    let transcript := passkeyTranscript c k s ppk.1 pk 0 na0 rounds
    final.log = s.log ++ transcript
    ∧ final.passkeyBitCounter = some rounds.length
    ∧ (rounds.length < 20 →
        sentOpcodes transcript
          = (List.replicate rounds.length [SMP_PAIRING_CONFIRM, SMP_PAIRING_RANDOM]).flatten
            ++ [SMP_PAIRING_CONFIRM])
    ∧ (rounds.length = 20 →
        ∃ tail, sentOpcodes transcript
            = (List.replicate 20 [SMP_PAIRING_CONFIRM, SMP_PAIRING_RANDOM]).flatten ++ tail
          ∧ (tail = [SMP_DHKEY_CHECK] ∨ tail = [SMP_PAIRING_FAILED] ∨ tail = []))
    ∧ (∀ na nb : List Nat, s.pairingRequestData.isSome = true → s.pairingResponseData.isSome = true →
        (c.computeSecret ([0x04] ++ (slice ppk.1 0 32).reverse ++ (slice ppk.2 0 32).reverse)).isSome = true →
        ∃ ea, dhKeyCheckStep c k s pk na nb
          = [Action.sendData (SMP_DHKEY_CHECK :: ea) (some (Callback.packetSent s.runCounter none)) none]) := by
  intro final transcript
  have hstart : SmpMasterConnection.sendConfirm c k { i with random16 := na0 } s
      = { s with initRandomValue := some na0, timeoutPending := true, state := STATE_W4_PACKET_ENQUEUED,
                 packetWaitOpcode := some SMP_PAIRING_CONFIRM,
                 log := s.log ++ [confirmPdu c ppk.1 pk s.runCounter 0 na0] } := by
    unfold SmpMasterConnection.sendConfirm
    simp only [hpf, hsc, hppk, hpk, hctr, Option.getD_some, Bool.not_true, Bool.false_eq_true, if_false]
    rw [SmpMasterConnection.master_sendPacket_eq _ _ _ (by simpa using hstate) (by simpa using hsend)]
    simp [confirmPdu, bufferFrom, SMP_PAIRING_CONFIRM, passkeyBit_eq_roundValue]
  have hin : SmpMasterConnection.InPasskeyRound s pk 0 na0
      (SmpMasterConnection.sendConfirm c k { i with random16 := na0 } s) := by
    rw [hstart]
    constructor <;> simp [hpk, hctr, hsend]
  have hrun := SmpMasterConnection.master_passkeyRounds_log c k i s pf m ppk pk hpf hsc hm hm1 hm2 hppk hltk
    rounds 0 na0 _ s.log (by omega) hin (by rw [hstart]) (by simpa using hv)
  obtain ⟨tail, ht1, ht2, ht3⟩ := SmpMasterConnection.sentOpcodes_passkeyTranscript c k s ppk.1 pk rounds 0 na0
    (by omega) (by omega)
  refine ⟨hrun.1, by simpa using hrun.2, ?_, ?_, ?_⟩
  · intro h
    rw [ht1, ht2 (by omega)]
  · intro h
    refine ⟨tail, ?_, ht3 (by omega)⟩
    rw [ht1, h]
  · intro na nb hq hr hsec
    obtain ⟨q, hq⟩ := Option.isSome_iff_exists.mp hq
    obtain ⟨r, hr⟩ := Option.isSome_iff_exists.mp hr
    obtain ⟨w, hw⟩ := Option.isSome_iff_exists.mp hsec
    simp only [dhKeyCheckStep, hppk, hpf, hq, hr, generateLtkEaEb, hw]
    exact ⟨_, rfl⟩

set_option maxRecDepth 100000 in
/-- Witness of `initiator_passkey_bit_iteration`: twenty verified rounds with passkey 123456. -/
theorem initiator_passkey_bit_iteration_witness :
    sampleRounds.length ≤ 20
    ∧ roundsVerify sampleCryptoEcdh (List.replicate 32 4) 123456 0 sampleRounds
    ∧ (SmpMasterConnection.passkeyRounds sampleCryptoEcdh sampleLink sampleInputs sampleRounds
        (SmpMasterConnection.sendConfirm sampleCryptoEcdh sampleLink
          { sampleInputs with random16 := List.replicate 16 99 } sampleMasterWithPasskey)).passkeyBitCounter
      = some 20
    ∧ sentOpcodes (SmpMasterConnection.passkeyRounds sampleCryptoEcdh sampleLink sampleInputs sampleRounds
        (SmpMasterConnection.sendConfirm sampleCryptoEcdh sampleLink
          { sampleInputs with random16 := List.replicate 16 99 } sampleMasterWithPasskey)).log
      = (List.replicate 20 [SMP_PAIRING_CONFIRM, SMP_PAIRING_RANDOM]).flatten ++ [SMP_DHKEY_CHECK] := by
  have hv : roundsVerify sampleCryptoEcdh (List.replicate 32 4) 123456 0 sampleRounds := by
    simp only [sampleRounds, List.range, List.range.loop, List.map, roundsVerify, true_and, and_true]
    repeat' constructor
  have h := initiator_passkey_bit_iteration sampleCryptoEcdh sampleLink sampleInputs sampleMasterWithPasskey
    _ ASSOCIATION_MODEL_PASSKEY_ENTRY_BOTH_INPUTS (List.replicate 32 4, List.replicate 32 5) 123456
    (List.replicate 16 99) sampleRounds rfl (by decide) rfl (by decide) (by decide) rfl rfl rfl (by decide) rfl rfl
    (by decide) hv
  exact ⟨by decide, hv, h.2.1, by decide⟩

/-- C1, as stated, fails in two situations.  A bonded, unencrypted responder without
listener whose earlier Pairing Failed PDU is still queued fails a JustWorks Pairing Request
with AuthenticationRequirements without sending a Pairing Failed PDU: the event is its only
action.  And with a listener installed that has not called back, neither a Pairing Failed
nor the Pairing Response is sent: the session waits in the state W4_USER_FEATURES. -/
theorem responder_downgrade_rejection_fails :
    (sampleSlaveFailedUnsent.state = STATE_IDLE ∧ sampleSlaveFailedUnsent.hasOutgoingFailedMsg = true
      ∧ sampleSlaveFailedUnsent.isBonded = true ∧ sampleSlaveFailedUnsent.isEncrypted = false
      ∧ (SmpSlaveConnection.receive sampleCrypto sampleLink sampleInputs [1, 3, 0, 1, 16, 0, 0]
          sampleSlaveFailedUnsent).2 = [Action.emit (Event.pairingFail 3 false)]
      ∧ (SmpSlaveConnection.receive sampleCrypto sampleLink sampleInputs [1, 3, 0, 1, 16, 0, 0]
          sampleSlaveFailedUnsent).1.associationModel = some ASSOCIATION_MODEL_JUST_WORKS)
    ∧ ((SmpSlaveConnection.receive sampleCrypto sampleLink sampleInputsDeferring [1, 3, 0, 1, 16, 0, 0]
          (SmpSlaveConnection.init (some sampleLtk))).2
        = [Action.emit (Event.pairingRequest (parsePairingReqRsp [1, 3, 0, 1, 16, 0, 0]) 1)]
      ∧ (SmpSlaveConnection.receive sampleCrypto sampleLink sampleInputsDeferring [1, 3, 0, 1, 16, 0, 0]
          (SmpSlaveConnection.init (some sampleLtk))).1.state = STATE_W4_USER_FEATURES) := by
  decide

/-- C8, as stated, fails in three situations.  A responder in the middle of a pairing
ignores a Pairing Request with key size 6: no action, and it does not return to Idle.  A
responder whose earlier Pairing Failed PDU is still queued fails such a request without
sending a Pairing Failed PDU.  An idle initiator ignores a Pairing Response with key size
17. -/
theorem key_size_answer_fails :
    (sampleSlavePairing.state = STATE_W4_PACKET_ENQUEUED
      ∧ SmpSlaveConnection.receive sampleCrypto sampleLink sampleInputs [1, 3, 0, 1, 6, 0, 0] sampleSlavePairing
        = (sampleSlavePairing, []))
    ∧ (SmpSlaveConnection.receive sampleCrypto sampleLink sampleInputs [1, 3, 0, 1, 6, 0, 0]
        sampleSlaveFailedUnsent).2 = [Action.emit (Event.pairingFail 10 false)]
    ∧ SmpMasterConnection.receive sampleCrypto sampleLink sampleInputs [2, 3, 0, 1, 17, 0, 0]
        (SmpMasterConnection.init none) = (SmpMasterConnection.init none, []) := by
  decide

/-! ## Passkey rounds of the responder (claim C11) -/

namespace SmpSlaveConnection

theorem slave_onData_pairingConfirm (c : Crypto) (k : Link) (i : Inputs) (v : List Nat) (s : SlaveState)
    (h : s.state ≠ STATE_TIMEDOUT) :
    onData c k i (SMP_PAIRING_CONFIRM :: v) s = onDataPairingConfirm c k i (SMP_PAIRING_CONFIRM :: v) s := by
  rw [onData, if_neg (by simp [h])]
  show ite _ _ _ = _
  have hop : byteAt (SMP_PAIRING_CONFIRM :: v) 0 = 3 := rfl
  rw [hop, if_neg (by decide), if_neg (by decide), if_neg (by decide), if_pos (by decide)]

theorem slave_onData_pairingRandom (c : Crypto) (k : Link) (i : Inputs) (v : List Nat) (s : SlaveState)
    (h : s.state ≠ STATE_TIMEDOUT) :
    onData c k i (SMP_PAIRING_RANDOM :: v) s = onDataPairingRandom c k (SMP_PAIRING_RANDOM :: v) s := by
  rw [onData, if_neg (by simp [h])]
  show ite _ _ _ = _
  have hop : byteAt (SMP_PAIRING_RANDOM :: v) 0 = 4 := rfl
  rw [hop, if_neg (by decide), if_neg (by decide), if_neg (by decide), if_neg (by decide), if_pos (by decide)]

theorem slave_onData_dhKeyCheck (c : Crypto) (k : Link) (i : Inputs) (v : List Nat) (s : SlaveState)
    (h : s.state ≠ STATE_TIMEDOUT) :
    onData c k i (SMP_DHKEY_CHECK :: v) s = onDataDHKeyCheck c k (SMP_DHKEY_CHECK :: v) s := by
  rw [onData, if_neg (by simp [h])]
  show ite _ _ _ = _
  have hop : byteAt (SMP_DHKEY_CHECK :: v) 0 = 13 := rfl
  rw [hop, if_neg (by decide), if_neg (by decide), if_neg (by decide), if_neg (by decide), if_neg (by decide),
    if_pos (by decide)]

end SmpSlaveConnection

/-- C11 (what the code does instead): under Secure Connections with a Passkey Entry model,
when the responder waits for the Pairing Random of the round with bit index `j` and
receives a 17-byte Pairing Random whose nonce makes the stored initiator confirm equal
`f4(PKa.x, PKb.x, Na, 0x80 | bit j of the passkey)`, the handler ends in an exception
(`Buffer.concat([SMP_PAIRING_RANDOM])` is called on a list that holds a number): no Pairing
Random is sent, the bit index stays `j`, and the session keeps waiting for Pairing Random. -/
theorem responder_passkey_random_throws (c : Crypto) (k : Link) (i : Inputs) (s : SlaveState)
    (pf : PairingFeatures) (m : Nat) (ppk : List Nat × List Nat) (pk j : Nat) (na nb : List Nat)
    (hstate : s.state = STATE_W4_PACKET) (hwait : s.packetWaitOpcode = some SMP_PAIRING_RANDOM)
    (hpf : s.pairingFeatures = some pf) (hsc : pf.sc = true)
    (hm : s.associationModel = some m) (hm1 : m ≠ ASSOCIATION_MODEL_JUST_WORKS)
    (hm2 : m ≠ ASSOCIATION_MODEL_NUMERIC_COMPARISON)
    (hppk : s.peerPublicKey = some ppk) (hpk : s.userPasskey = some pk)
    (hctr : s.passkeyBitCounter = some j) (hnb : s.rspRandomValue = some nb) (hna : na.length = 16)
    (hconfirm : s.initConfirmValue = some (Toolbox.f4 c ppk.1 c.myEcdhPubKeyX na (passkeyBit pk j))) :
    (SmpSlaveConnection.receive c k i (SMP_PAIRING_RANDOM :: na) s).2 = [Action.throwError]
    ∧ (SmpSlaveConnection.receive c k i (SMP_PAIRING_RANDOM :: na) s).1.passkeyBitCounter = some j
    ∧ (SmpSlaveConnection.receive c k i (SMP_PAIRING_RANDOM :: na) s).1.state = STATE_W4_PACKET
    ∧ (SmpSlaveConnection.receive c k i (SMP_PAIRING_RANDOM :: na) s).1.packetWaitOpcode
        = some SMP_PAIRING_RANDOM := by
  have hd := SmpSlaveConnection.slave_onData_pairingRandom c k i na { s with log := [] }
    (by simp [hstate, STATE_W4_PACKET, STATE_TIMEDOUT])
  simp only [SmpSlaveConnection.receive, hd]
  simp [SmpSlaveConnection.onDataPairingRandom, SmpSlaveConnection.notWaitingFor, hstate, hwait, hna, hpf,
    hsc, hnb, hconfirm, hm, hm1, hm2, hppk, hpk, hctr, SmpSlaveConnection.timingSafeEqual,
    SmpSlaveConnection.act]

/-- Witness of `responder_passkey_random_throws`: the responder of a run with passkey 123456
that has reached the first Pairing Random. -/
theorem responder_passkey_random_throws_witness :
    (SmpSlaveConnection.receive sampleCryptoEcdh sampleLink sampleInputsKeyboard
        (SMP_PAIRING_RANDOM :: sampleInitiatorNonce) sampleSlaveAwaitingRandom).2 = [Action.throwError]
    ∧ (SmpSlaveConnection.receive sampleCryptoEcdh sampleLink sampleInputsKeyboard
        (SMP_PAIRING_RANDOM :: sampleInitiatorNonce) sampleSlaveAwaitingRandom).1.passkeyBitCounter = some 0
    ∧ (SmpSlaveConnection.receive sampleCryptoEcdh sampleLink sampleInputsKeyboard
        (SMP_PAIRING_RANDOM :: sampleInitiatorNonce) sampleSlaveAwaitingRandom).1.state = STATE_W4_PACKET
    ∧ (SmpSlaveConnection.receive sampleCryptoEcdh sampleLink sampleInputsKeyboard
        (SMP_PAIRING_RANDOM :: sampleInitiatorNonce) sampleSlaveAwaitingRandom).1.packetWaitOpcode
        = some SMP_PAIRING_RANDOM :=
  responder_passkey_random_throws sampleCryptoEcdh sampleLink sampleInputsKeyboard sampleSlaveAwaitingRandom
    _ ASSOCIATION_MODEL_PASSKEY_ENTRY_BOTH_INPUTS (List.replicate 32 4, List.replicate 32 5) 123456 0
    sampleInitiatorNonce (List.replicate 16 7) (by decide) (by decide) rfl (by decide) (by decide) (by decide)
    (by decide) (by decide) (by decide) (by decide) (by decide) (by decide) (by decide)

/-! ## AES-CMAC (claim C12) -/

set_option maxRecDepth 100000 in
theorem shift_byte : ∀ b, b < 256 → ∀ cy, cy < 2 →
    ((b <<< 1) ||| cy) % 256 = (2 * b + cy) % 256 ∧ b >>> 7 = b / 128 := by
  decide

theorem bytesToNat_lt (l : List Nat) (h : ∀ x ∈ l, x < 256) : Rfc4493.bytesToNat l < 256 ^ l.length := by
  induction l with
  | nil => simp [Rfc4493.bytesToNat]
  | cons b bs ih =>
    have hb : b < 256 := h b (by simp)
    have ih' := ih (fun x hx => h x (by simp [hx]))
    simp only [Rfc4493.bytesToNat, List.length_cons, pow_succ]
    nlinarith

theorem natToBytes_bytesToNat (l : List Nat) (h : ∀ x ∈ l, x < 256) (n : Nat)
    (hn : n % 256 ^ l.length = Rfc4493.bytesToNat l) : Rfc4493.natToBytes l.length n = l := by
  induction l generalizing n with
  | nil => rfl
  | cons b bs ih =>
    have hb : b < 256 := h b (by simp)
    have hbs := bytesToNat_lt bs (fun x hx => h x (by simp [hx]))
    simp only [List.length_cons, Rfc4493.bytesToNat, pow_succ] at hn
    rw [Nat.mod_mul] at hn
    have hpos : 0 < 256 ^ bs.length := by positivity
    have hlt : n % 256 ^ bs.length < 256 ^ bs.length := Nat.mod_lt _ hpos
    have h1 : n / 256 ^ bs.length % 256 = b := by
      have := congrArg (fun v => v / 256 ^ bs.length) hn
      simp only at this
      rw [Nat.add_mul_div_left _ _ hpos, Nat.div_eq_of_lt hlt, Nat.zero_add, Nat.mul_comm b,
        Nat.mul_add_div hpos, Nat.div_eq_of_lt hbs, Nat.add_zero] at this
      exact this
    have h2 : n % 256 ^ bs.length = Rfc4493.bytesToNat bs := by
      rw [h1] at hn
      have : 256 ^ bs.length * b = b * 256 ^ bs.length := Nat.mul_comm _ _
      omega
    simp only [List.length_cons, Rfc4493.natToBytes, h1, ih (fun x hx => h x (by simp [hx])) n h2]

theorem leftShift128_spec (v : List Nat) (hv : ∀ x ∈ v, x < 256) :
    (leftShift128 v).2.length = v.length ∧ (∀ x ∈ (leftShift128 v).2, x < 256) ∧ (leftShift128 v).1 < 2
    ∧ (leftShift128 v).1 * 256 ^ v.length + Rfc4493.bytesToNat (leftShift128 v).2
        = 2 * Rfc4493.bytesToNat v := by
  induction v with
  | nil => simp [leftShift128, Rfc4493.bytesToNat]
  | cons b bs ih =>
    have hb : b < 256 := hv b (by simp)
    obtain ⟨h1, h2, h3, h4⟩ := ih (fun x hx => hv x (by simp [hx]))
    have hstep : leftShift128 (b :: bs) = leftShiftStep b (leftShift128 bs) := rfl
    obtain ⟨hs1, hs2⟩ := shift_byte b hb (leftShift128 bs).1 h3
    rw [hstep]
    simp only [leftShiftStep, List.length_cons, h1, List.mem_cons, Rfc4493.bytesToNat, hs1, hs2, pow_succ]
    refine ⟨trivial, ?_, by omega, ?_⟩
    · rintro x (rfl | hx)
      · exact Nat.mod_lt _ (by decide)
      · exact h2 x hx
    · generalize 256 ^ bs.length = p at h4 ⊢
      generalize Rfc4493.bytesToNat (leftShift128 bs).2 = q at h4 ⊢
      generalize (leftShift128 bs).1 = cy at h3 h4 ⊢
      have hq : b / 128 * 256 + (2 * b + cy) % 256 = 2 * b + cy := by omega
      calc b / 128 * (p * 256) + ((2 * b + cy) % 256 * p + q)
          = (b / 128 * 256 + (2 * b + cy) % 256) * p + q := by ring
        _ = (2 * b + cy) * p + q := by rw [hq]
        _ = 2 * (b * p) + (cy * p + q) := by ring
        _ = 2 * (b * p + Rfc4493.bytesToNat bs) := by rw [h4]; ring

theorem xor_constRb (l : List Nat) (h : l.length = 16) : xor l Rfc4493.constRb = xorLastByte l := by
  apply List.ext_getElem
  · simp [xor, xorLastByte, Rfc4493.constRb, h]
  · intro n h1 h2
    have hn : n < 16 := by simpa [xor, Rfc4493.constRb, h] using h1
    simp only [xor, xorLastByte, Rfc4493.constRb, List.getElem_zipWith, List.getElem_set, byteAt]
    by_cases h15 : n = 15
    · subst h15
      simp [List.getD_eq_getElem?_getD, List.getElem?_eq_getElem, h]
    · have h0 : (List.replicate 15 0 ++ [135])[n] = 0 := by
        interval_cases n <;> first | rfl | omega
      rw [h0]
      simp [Ne.symm h15]

theorem isBlock_doubleSubkey (l : List Nat) (h : IsBlock l) :
    doubleSubkey l = Rfc4493.double l ∧ IsBlock (doubleSubkey l) := by
  obtain ⟨hlen, hbytes⟩ := h
  obtain ⟨h1, h2, h3, h4⟩ := leftShift128_spec l hbytes
  have hlt := bytesToNat_lt (leftShift128 l).2 h2
  rw [h1, hlen] at hlt
  rw [hlen] at h4 h1
  have hp : (256 : Nat) ^ 16 = 340282366920938463463374607431768211456 := by norm_num
  rw [hp] at h4 hlt
  have hshift : Rfc4493.shiftLeft1 l = (leftShift128 l).2 := by
    unfold Rfc4493.shiftLeft1
    have := natToBytes_bytesToNat (leftShift128 l).2 h2 (Rfc4493.bytesToNat l * 2 % 2 ^ 128)
      (by rw [h1, hp]; norm_num; omega)
    rw [h1] at this
    exact this
  have hmsb : Rfc4493.msb l = (leftShift128 l).1 := by
    unfold Rfc4493.msb
    norm_num
    omega
  constructor
  · unfold doubleSubkey Rfc4493.double
    rw [hmsb, hshift]
    by_cases hc : (leftShift128 l).1 = 0
    · simp [hc]
    · simp [hc, xor_constRb _ h1]
  · unfold doubleSubkey
    by_cases hc : (leftShift128 l).1 = 0
    · simp only [hc, ne_eq, not_true_eq_false, if_false]
      exact ⟨h1, h2⟩
    · simp only [hc, ne_eq, not_false_eq_true, if_true, xorLastByte]
      refine ⟨by simp [h1], ?_⟩
      intro x hx
      rcases List.mem_or_eq_of_mem_set hx with hx | rfl
      · exact h2 x hx
      · have hb : byteAt (leftShift128 l).2 15 < 256 := by
          unfold byteAt
          rw [List.getD_eq_getElem?_getD, List.getElem?_eq_getElem (by omega)]
          exact h2 _ (List.getElem_mem _)
        exact Nat.xor_lt_two_pow (n := 8) hb (by decide)

theorem slice_eq_block (m : List Nat) (j : Nat) :
    slice m (16 * j) (16 * j + 16) = Rfc4493.block m (j + 1) := by
  simp [slice, Rfc4493.block, List.take_drop]

theorem cmacLoop_eq_foldl (aes : List Nat → List Nat) (m : List Nat) (count : Nat) :
    ∀ (j : Nat) (x : List Nat),
      cmacLoop aes m count x (16 * j)
        = ((List.range' j count).foldl (fun x i => aes (xor x (Rfc4493.block m (i + 1)))) x,
            16 * (j + count)) := by
  induction count with
  | zero => intro j x; simp [cmacLoop]
  | succ count ih =>
    intro j x
    have h := ih (j + 1) (aes (xor x (Rfc4493.block m (j + 1))))
    rw [cmacLoop, slice_eq_block, show 16 * j + 16 = 16 * (j + 1) by ring, h, List.range'_succ]
    simp only [List.foldl_cons, Prod.mk.injEq, true_and]
    ring

theorem xor_comm (a b : List Nat) : xor a b = xor b a := by
  unfold xor
  rw [List.zipWith_comm]
  congr 1
  funext x y
  exact Nat.xor_comm y x

theorem xor_assoc (a b c : List Nat) : xor (xor a b) c = xor a (xor b c) := by
  induction a generalizing b c with
  | nil => simp [xor]
  | cons x xs ih =>
    cases b with
    | nil => simp [xor]
    | cons y ys =>
      cases c with
      | nil => simp [xor]
      | cons z zs =>
        have := ih ys zs
        simp only [xor, List.zipWith_cons_cons, List.cons.injEq] at this ⊢
        exact ⟨Nat.xor_assoc x y z, this⟩

theorem last_block_full (m : List Nat) (h0 : m.length ≠ 0) (h : m.length % 16 = 0) :
    copyInto (m.drop (16 * ((m.length + 15) / 16 - 1))) (bufferAlloc 16) 0
      = Rfc4493.block m ((m.length + 15) / 16) := by
  have hlen : (m.drop (16 * ((m.length + 15) / 16 - 1))).length = 16 := by
    rw [List.length_drop]; omega
  simp only [copyInto, bufferAlloc, List.take_zero, List.nil_append, List.length_replicate, Nat.sub_zero,
    Nat.zero_add, hlen, List.drop_replicate, Nat.sub_self, List.replicate_zero, List.append_nil,
    Rfc4493.block]

theorem last_block_padded (m : List Nat) (h : m.length = 0 ∨ m.length % 16 ≠ 0) :
    (copyInto (m.drop (16 * ((m.length + 15) / 16 - 1))) (bufferAlloc 16) 0).set (m.length % 16) 0x80
      = Rfc4493.padding
          (Rfc4493.block m (if (m.length + 15) / 16 = 0 then 1 else (m.length + 15) / 16)) := by
  have hblock : Rfc4493.block m (if (m.length + 15) / 16 = 0 then 1 else (m.length + 15) / 16)
      = m.drop (16 * ((m.length + 15) / 16 - 1)) := by
    unfold Rfc4493.block
    split
    · next h0 =>
      have : m.length = 0 := by omega
      have hm : m = [] := List.length_eq_zero.mp this
      subst hm
      simp
    · apply List.take_of_length_le
      rw [List.length_drop]; omega
  have hlen : (m.drop (16 * ((m.length + 15) / 16 - 1))).length = m.length % 16 := by
    rw [List.length_drop]; omega
  rw [hblock]
  generalize m.drop (16 * ((m.length + 15) / 16 - 1)) = rem at hlen ⊢
  have hlt : m.length % 16 < 16 := Nat.mod_lt _ (by decide)
  generalize m.length % 16 = t at hlen hlt ⊢
  subst hlen
  simp only [copyInto, bufferAlloc, List.take_zero, List.nil_append, List.length_replicate, Nat.sub_zero,
    Nat.zero_add, List.drop_replicate, Rfc4493.padding]
  rw [List.take_of_length_le (by omega)]
  rw [List.set_append_right _ _ (by omega)]
  simp only [Nat.sub_self, List.append_assoc, List.singleton_append]
  congr 1
  obtain ⟨d, hd⟩ : ∃ d, 16 - rem.length = d + 1 := ⟨15 - rem.length, by omega⟩
  rw [hd, show 15 - rem.length = d by omega]
  simp [List.replicate_succ]

theorem xor_rotate (x k p : List Nat) : xor (xor x k) p = xor (xor p k) x := by
  rw [xor_comm (xor x k) p, xor_comm x k, xor_assoc]

/-- C12: for every key and every message (of any length, the empty message included),
`AESCMAC(key, message)` is the value of the algorithm AES-CMAC of RFC 4493, with AES-128
under the key taken as a given function that maps blocks (16 bytes) to blocks: the subkeys
are derived from the encrypted zero block by doubling with the constant `0x87`, `K1` is
used for a non-empty message whose length is a multiple of 16, and otherwise the last block
is padded with `10*` and `K2` is used. -/
theorem AESCMAC_refines_rfc4493 (c : Crypto) (key message : List Nat)
    (haes : ∀ b, IsBlock b → IsBlock (c.aes128 key b)) :
    AESCMAC c key message = Rfc4493.aesCmac (c.aes128 key) message := by
  have hz : IsBlock (bufferAlloc 16) := ⟨by simp [bufferAlloc], by simp [bufferAlloc]⟩
  obtain ⟨hk1, hb1⟩ := isBlock_doubleSubkey _ (haes _ hz)
  obtain ⟨hk2, -⟩ := isBlock_doubleSubkey _ hb1
  have hzero : Rfc4493.constZero = bufferAlloc 16 := rfl
  have hloop := cmacLoop_eq_foldl (c.aes128 key) message ((message.length + 15) / 16 - 1) 0 (bufferAlloc 16)
  simp only [Nat.mul_zero, Nat.zero_add] at hloop
  have hn' : ∀ n : Nat, (if n = 0 then 1 else n) - 1 = n - 1 := by intro n; split <;> omega
  unfold AESCMAC Rfc4493.aesCmac Rfc4493.generateSubkey
  simp only [Nat.shiftRight_eq_div_pow, hzero, ← hk1, ← hk2, show (2 : Nat) ^ 4 = 16 by norm_num, hloop, hn',
    List.range_eq_range']
  by_cases hflag : message.length = 0 ∨ message.length % 16 ≠ 0
  · have hf1 : (!(message.length == 0 || message.length % 16 != 0)) = false := by
      rcases hflag with h | h <;> simp [h]
    have hf2 : ((message.length + 15) / 16 != 0 && message.length % 16 == 0) = false := by
      rcases hflag with h | h <;> simp [h]
    simp only [hf1, hf2, Bool.false_eq_true, if_false]
    rw [last_block_padded message hflag, xor_rotate]
  · push_neg at hflag
    obtain ⟨h0, h16⟩ := hflag
    have hn : (message.length + 15) / 16 ≠ 0 := by omega
    have hf1 : (!(message.length == 0 || message.length % 16 != 0)) = true := by simp [h0, h16]
    have hf2 : ((message.length + 15) / 16 != 0 && message.length % 16 == 0) = true := by simp [hn, h16]
    simp only [hf1, hf2, if_true, if_neg hn]
    rw [last_block_full message h0 h16, xor_rotate]

/-- Witness of `AESCMAC_refines_rfc4493`: the sample cipher maps blocks to blocks; a
message of 20 bytes. -/
theorem AESCMAC_refines_rfc4493_witness :
    (∀ b, IsBlock b → IsBlock (sampleCrypto.aes128 (List.replicate 16 1) b))
    ∧ AESCMAC sampleCrypto (List.replicate 16 1) (List.range 20)
      = Rfc4493.aesCmac (sampleCrypto.aes128 (List.replicate 16 1)) (List.range 20) :=
  ⟨fun _ h => h,
    AESCMAC_refines_rfc4493 sampleCrypto (List.replicate 16 1) (List.range 20) (fun _ h => h)⟩

/-- The subkeys of the example of RFC 4493 (section 4): from
`AES-128(K, 0) = 7df76b0c 1ab899b3 3e42f047 b91b546f` the definition of this file and the
function of the source both give `K1 = fbeed618 35713366 7c85e08f 7236a8de` and
`K2 = f7ddac30 6ae266cc f90bc11e e46d513b`. -/
theorem rfc4493_subkey_example :
    Rfc4493.double [0x7d, 0xf7, 0x6b, 0x0c, 0x1a, 0xb8, 0x99, 0xb3, 0x3e, 0x42, 0xf0, 0x47, 0xb9, 0x1b, 0x54, 0x6f]
      = [0xfb, 0xee, 0xd6, 0x18, 0x35, 0x71, 0x33, 0x66, 0x7c, 0x85, 0xe0, 0x8f, 0x72, 0x36, 0xa8, 0xde]
    ∧ Rfc4493.double [0xfb, 0xee, 0xd6, 0x18, 0x35, 0x71, 0x33, 0x66, 0x7c, 0x85, 0xe0, 0x8f, 0x72, 0x36, 0xa8, 0xde]
      = [0xf7, 0xdd, 0xac, 0x30, 0x6a, 0xe2, 0x66, 0xcc, 0xf9, 0x0b, 0xc1, 0x1e, 0xe4, 0x6d, 0x51, 0x3b]
    ∧ doubleSubkey [0x7d, 0xf7, 0x6b, 0x0c, 0x1a, 0xb8, 0x99, 0xb3, 0x3e, 0x42, 0xf0, 0x47, 0xb9, 0x1b, 0x54, 0x6f]
      = [0xfb, 0xee, 0xd6, 0x18, 0x35, 0x71, 0x33, 0x66, 0x7c, 0x85, 0xe0, 0x8f, 0x72, 0x36, 0xa8, 0xde]
    ∧ doubleSubkey [0xfb, 0xee, 0xd6, 0x18, 0x35, 0x71, 0x33, 0x66, 0x7c, 0x85, 0xe0, 0x8f, 0x72, 0x36, 0xa8, 0xde]
      = [0xf7, 0xdd, 0xac, 0x30, 0x6a, 0xe2, 0x66, 0xcc, 0xf9, 0x0b, 0xc1, 0x1e, 0xe4, 0x6d, 0x51, 0x3b] := by
  decide

/-! ## Legacy short-term key (claim C13) -/

theorem padKey_eq (key : List Nat) (h : key.length ≤ 16) :
    padKey key = key ++ List.replicate (16 - key.length) 0 := by
  simp only [padKey, copyInto, bufferAlloc, List.take_zero, List.nil_append, List.length_replicate,
    Nat.sub_zero, Nat.zero_add, List.drop_replicate, List.take_of_length_le h]

theorem length_slice_le (l : List Nat) (n : Nat) : (slice l 0 n).length ≤ n := by
  simp [slice]

/-- C13: in a legacy pairing in which initiator and responder hold the same passkey, the
same nonces `Mrand` and `Srand` and the same negotiated key size (at most 16), the key the
initiator passes to the start-encryption command equals the key the responder returns to a
Long-Term-Key-Request: the first `maxKeySize` bytes of `s1(TK, Srand, Mrand)` followed by
zero bytes up to 16 bytes, where `s1(k, r1, r2) = e(k, r2[0..8) ++ r1[0..8))`.  The
initiator issues start-encryption with `rand` eight zero bytes and `ediv` 0, and in state
`STATE_W4_LTK_REQUEST` the responder takes the request as the one of the pairing (and moves
to `STATE_W4_ENCRYPTION_STARTED`) exactly for this `rand` and `ediv`. -/
theorem legacy_stk_symmetry (c : Crypto) (m : MasterState) (s : SlaveState) (pfm pfs : PairingFeatures)
    (pk : Nat) (mrand srand : List Nat)
    (hpfm : m.pairingFeatures = some pfm) (hpfs : s.pairingFeatures = some pfs)
    (hscm : pfm.sc = false) (hscs : pfs.sc = false)
    (hsize : pfs.maxKeySize = pfm.maxKeySize) (hmax : pfm.maxKeySize ≤ 16)
    (hpkm : m.userPasskey = some pk) (hpks : s.userPasskey = some pk)
    (hmi : m.initRandomValue = some mrand) (hmr : m.rspRandomValue = some srand)
    (hsi : s.initRandomValue = some mrand) (hsr : s.rspRandomValue = some srand)
    (hstate : s.state = STATE_W4_LTK_REQUEST) :
    ∃ stk key : List Nat,
      key = slice (Toolbox.s1 c (passkeyToTk pk) srand mrand) 0 pfm.maxKeySize
      ∧ stk = key ++ List.replicate (16 - key.length) 0
      ∧ Toolbox.s1 c (passkeyToTk pk) srand mrand
          = Toolbox.e c (passkeyToTk pk) (slice mrand 0 8 ++ slice srand 0 8)
      ∧ (SmpMasterConnection.startEncryptionAfterPairing c m).log
          = m.log ++ [Action.startEncryption (bufferAlloc 8) 0 stk EncryptionStart.afterPairing]
      ∧ (SmpSlaveConnection.onLtkRequest c (bufferAlloc 8) 0 s).log
          = s.log ++ [Action.ltkReply (some stk) LtkReplyDone.afterPairing]
      ∧ ∀ randNb ediv,
          (SmpSlaveConnection.onLtkRequest c randNb ediv s).state = STATE_W4_ENCRYPTION_STARTED
            ↔ (randNb = bufferAlloc 8 ∧ ediv = 0) := by
  refine ⟨_, _, rfl, rfl, rfl, ?_, ?_, ?_⟩
  · rw [← padKey_eq _ (le_trans (length_slice_le _ _) hmax)]
    simp [SmpMasterConnection.startEncryptionAfterPairing, hpfm, hscm, hpkm, hmi, hmr,
      SmpMasterConnection.act]
  · rw [← padKey_eq _ (le_trans (length_slice_le _ _) hmax)]
    simp [SmpSlaveConnection.onLtkRequest, hstate, hpfs, hscs, hpks, hsi, hsr, hsize,
      SmpSlaveConnection.act]
  · intro randNb ediv
    unfold SmpSlaveConnection.onLtkRequest
    by_cases h : randNb = bufferAlloc 8 ∧ ediv = 0
    · obtain ⟨rfl, rfl⟩ := h
      simp [hstate, hpfs, hscs, hsi, hsr, SmpSlaveConnection.act]
    · have hc : (s.state == STATE_W4_LTK_REQUEST && bufferAlloc 8 == randNb && ediv == 0) = false := by
        rw [Bool.eq_false_iff]
        intro hc
        simp only [Bool.and_eq_true, beq_iff_eq] at hc
        exact h ⟨hc.1.2.symm, hc.2⟩
      rw [if_neg (by simp [hc])]
      simp only [h, iff_false]
      have hcs : (s.state == STATE_W4_PACKET && s.packetWaitOpcode == some SMP_PAIRING_REQUEST) = false := by
        simp [hstate, STATE_W4_LTK_REQUEST, STATE_W4_PACKET]
      simp only [hcs, Bool.false_eq_true, if_false]
      cases hl : s.availableLtk with
      | none => simp [SmpSlaveConnection.act, hstate, STATE_W4_LTK_REQUEST, STATE_W4_ENCRYPTION_STARTED]
      | some ltk =>
        simp only []
        split <;> simp [SmpSlaveConnection.act, hstate, STATE_W4_LTK_REQUEST, STATE_W4_ENCRYPTION_STARTED]

/-- Witness of `legacy_stk_symmetry`: the two sample sessions of a legacy pairing with key
size 10; the key both use ends in six zero bytes. -/
theorem legacy_stk_symmetry_witness :
    sampleLegacyFeatures.sc = false ∧ sampleLegacyFeatures.maxKeySize = 10
    ∧ sampleSlaveLegacy.state = STATE_W4_LTK_REQUEST
    ∧ ∃ stk key : List Nat,
      key = slice (Toolbox.s1 sampleCrypto (passkeyToTk 0) (List.replicate 16 7) (List.replicate 16 99)) 0
        sampleLegacyFeatures.maxKeySize
      ∧ stk = key ++ List.replicate (16 - key.length) 0
      ∧ Toolbox.s1 sampleCrypto (passkeyToTk 0) (List.replicate 16 7) (List.replicate 16 99)
          = Toolbox.e sampleCrypto (passkeyToTk 0) (slice (List.replicate 16 99) 0 8 ++ slice (List.replicate 16 7) 0 8)
      ∧ (SmpMasterConnection.startEncryptionAfterPairing sampleCrypto sampleMasterLegacy).log
          = sampleMasterLegacy.log ++ [Action.startEncryption (bufferAlloc 8) 0 stk EncryptionStart.afterPairing]
      ∧ (SmpSlaveConnection.onLtkRequest sampleCrypto (bufferAlloc 8) 0 sampleSlaveLegacy).log
          = sampleSlaveLegacy.log ++ [Action.ltkReply (some stk) LtkReplyDone.afterPairing]
      ∧ ∀ randNb ediv,
          (SmpSlaveConnection.onLtkRequest sampleCrypto randNb ediv sampleSlaveLegacy).state
              = STATE_W4_ENCRYPTION_STARTED
            ↔ (randNb = bufferAlloc 8 ∧ ediv = 0) :=
  ⟨by decide, by decide, rfl,
    legacy_stk_symmetry sampleCrypto sampleMasterLegacy sampleSlaveLegacy sampleLegacyFeatures
      sampleLegacyFeatures 0 (List.replicate 16 99) (List.replicate 16 7) rfl rfl (by decide) (by decide) rfl
      (by decide) rfl rfl rfl rfl rfl rfl rfl⟩

/-! ## Secure-Connections key symmetry (claim C14) -/

theorem AESCMAC_congr (ca cb : Crypto) (h : ca.aes128 = cb.aes128) (key message : List Nat) :
    AESCMAC ca key message = AESCMAC cb key message := by
  simp only [AESCMAC, h]

theorem AESCMAC_length (c : Crypto) (h : ∀ key b, (c.aes128 key b).length = 16) (key message : List Nat) :
    (AESCMAC c key message).length = 16 := by
  simp only [AESCMAC, h]

theorem generateLtkEaEb_congr (ca cb : Crypto) (haes : ca.aes128 = cb.aes128)
    (pka pkb : List Nat × List Nat) (w : List Nat)
    (hsa : ca.computeSecret ([0x04] ++ (slice pkb.1 0 32).reverse ++ (slice pkb.2 0 32).reverse) = some w)
    (hsb : cb.computeSecret ([0x04] ++ (slice pka.1 0 32).reverse ++ (slice pka.2 0 32).reverse) = some w)
    (ia : List Nat) (iat : Nat) (ra : List Nat) (rat : Nat) (na nb : List Nat) (passkey size : Nat)
    (ioA ioB : List Nat) :
    generateLtkEaEb ca pkb ia iat ra rat na nb passkey size ioA ioB
      = generateLtkEaEb cb pka ia iat ra rat na nb passkey size ioA ioB
    ∧ ∃ r, generateLtkEaEb ca pkb ia iat ra rat na nb passkey size ioA ioB = some r
      ∧ r.ltk = slice (Toolbox.f5 ca w.reverse na nb (ia ++ bufferFrom [iat]) (ra ++ bufferFrom [rat])).2 0 size := by
  simp only [generateLtkEaEb, hsa, hsb, Toolbox.f5, Toolbox.f6, AESCMAC_congr ca cb haes]
  exact ⟨trivial, _, rfl, rfl⟩

/-- C14: let initiator and responder use the same AES-128, let their ECDH computations on
the key of the other side yield the same shared secret `w`, and let them hold the same
nonces, passkey value, Pairing Request and Pairing Response, key size and (mirrored)
addresses.  Then `generateLtkEaEb` returns the same `ltk`, `Ea` and `Eb` on both sides, the
`ltk` being the first `maxKeySize` bytes of the long-term key of `f5`.  The initiator sends
this `Ea` in its DHKey Check and keeps this `Eb` as `expectedEb`; the responder that waits
for the DHKey Check accepts exactly this `Ea` (any other 16 bytes fail with
DHKeyCheckFailed), answers with the DHKey Check carrying this `Eb`, and keeps the same
`ltk`. -/
theorem sc_key_symmetry (ca cb : Crypto) (k : Link) (i : Inputs) (m : MasterState) (s : SlaveState)
    (pfm pfs : PairingFeatures) (pka pkb : List Nat × List Nat) (w na nb preq pres : List Nat)
    (passkey : Nat)
    (haes : ca.aes128 = cb.aes128) (hblock : ∀ key b, (ca.aes128 key b).length = 16)
    (hsa : ca.computeSecret ([0x04] ++ (slice pkb.1 0 32).reverse ++ (slice pkb.2 0 32).reverse) = some w)
    (hsb : cb.computeSecret ([0x04] ++ (slice pka.1 0 32).reverse ++ (slice pka.2 0 32).reverse) = some w)
    (hmk : m.peerPublicKey = some pkb) (hmf : m.pairingFeatures = some pfm)
    (hmq : m.pairingRequestData = some preq) (hmr : m.pairingResponseData = some pres)
    (hma : m.initRandomValue = some na) (hmb : m.rspRandomValue = some nb)
    (hmp : m.userPasskey = some passkey)
    (hmt : m.state ≠ STATE_TIMEDOUT) (hmd : m.sendDisabled = false)
    (hsk : s.peerPublicKey = some pka) (hsf : s.pairingFeatures = some pfs)
    (hsq : s.pairingRequestData = some preq) (hsr : s.pairingResponseData = some pres)
    (hsa' : s.initRandomValue = some na) (hsb' : s.rspRandomValue = some nb)
    (hsp : s.userPasskey = some passkey) (hsize : pfs.maxKeySize = pfm.maxKeySize)
    (hss : s.state = STATE_W4_PACKET) (hsw : s.packetWaitOpcode = some SMP_DHKEY_CHECK)
    (hsn : s.associationModel ≠ some ASSOCIATION_MODEL_NUMERIC_COMPARISON ∨ s.numericComparisonOk = true)
    (hsd : s.sendDisabled = false) :
    ∃ r : LtkEaEb,
      generateLtkEaEb ca pkb k.ia k.iat k.ra k.rat na nb passkey pfm.maxKeySize (slice preq 1 4) (slice pres 1 4)
        = some r
      ∧ generateLtkEaEb cb pka k.ia k.iat k.ra k.rat na nb passkey pfs.maxKeySize (slice preq 1 4) (slice pres 1 4)
        = some r
      ∧ r.ltk = slice (Toolbox.f5 ca w.reverse na nb (k.ia ++ bufferFrom [k.iat]) (k.ra ++ bufferFrom [k.rat])).2
          0 pfm.maxKeySize
      ∧ (SmpMasterConnection.sendDHKeyCheck ca k m).log
          = m.log ++ [Action.sendData (SMP_DHKEY_CHECK :: r.Ea) (some (Callback.packetSent m.runCounter none)) none]
      ∧ (SmpMasterConnection.sendDHKeyCheck ca k m).expectedEb = some r.Eb
      ∧ (SmpMasterConnection.sendDHKeyCheck ca k m).generatedLtk = some r.ltk
      ∧ (SmpSlaveConnection.receive cb k i (SMP_DHKEY_CHECK :: r.Ea) s).2
          = [Action.sendData (SMP_DHKEY_CHECK :: r.Eb)
              (some (Callback.packetSent s.runCounter (some PacketCallback.toW4LtkRequest))) none]
      ∧ (SmpSlaveConnection.receive cb k i (SMP_DHKEY_CHECK :: r.Ea) s).1.generatedLtk = some r.ltk
      ∧ ∀ v : List Nat, v.length = 16 → v ≠ r.Ea →
          (SmpSlaveConnection.receive cb k i (SMP_DHKEY_CHECK :: v) s).2
            = localFailure s.hasOutgoingFailedMsg SmpErrors.DHKEY_CHECK_FAILED := by
  obtain ⟨heq, r, hr, hltk⟩ := generateLtkEaEb_congr ca cb haes pka pkb w hsa hsb k.ia k.iat k.ra k.rat na nb
    passkey pfm.maxKeySize (slice preq 1 4) (slice pres 1 4)
  have hea : r.Ea.length = 16 := by
    have := hr
    simp only [generateLtkEaEb, hsa, Option.some.injEq] at this
    rw [← this]
    simp [Toolbox.f6, AESCMAC_length ca hblock]
  have hst : s.state ≠ STATE_TIMEDOUT := by simp [hss, STATE_W4_PACKET, STATE_TIMEDOUT]
  have hrecv : ∀ v : List Nat, v.length = 16 →
      SmpSlaveConnection.onData cb k i (SMP_DHKEY_CHECK :: v) { s with log := [] }
        = if v = r.Ea then
            SmpSlaveConnection.sendPacket { s with log := [], peerDHKeyCheck := some v, generatedLtk := some r.ltk }
              (bufferFrom [SMP_DHKEY_CHECK] ++ r.Eb) none (some PacketCallback.toW4LtkRequest)
          else SmpSlaveConnection.pairingFailed { s with log := [], peerDHKeyCheck := some v }
              SmpErrors.DHKEY_CHECK_FAILED := by
    intro v hv
    rw [SmpSlaveConnection.slave_onData_dhKeyCheck cb k i v _ (by simpa using hst)]
    have hn : (s.associationModel != some ASSOCIATION_MODEL_NUMERIC_COMPARISON || s.numericComparisonOk) = true := by
      rcases hsn with h | h <;> simp [h]
    simp only [SmpSlaveConnection.onDataDHKeyCheck, SmpSlaveConnection.notWaitingFor, hss, hsw, hv,
      List.length_cons, hn, SmpSlaveConnection.afterNumericComparisonOkAndDHKeyCheck, hsk, hsa', hsb', hsf,
      hsq, hsr, hsp, Option.getD_some, hsize, ← heq, hr, SmpSlaveConnection.timingSafeEqual, List.drop_one,
      List.tail_cons, bne_self_eq_false, Bool.or_self, Bool.false_eq_true, if_false, Nat.reduceAdd,
      if_true]
    by_cases hve : v = r.Ea
    · simp [hve]
    · have : (r.Ea == v) = false := by simpa using (fun h => hve h.symm)
      simp [hve, this]
  refine ⟨r, hr, by rw [hsize, ← heq, hr], hltk, ?_, ?_, ?_, ?_, ?_, ?_⟩
  · simp only [SmpMasterConnection.sendDHKeyCheck, hmk, hma, hmb, hmf, hmq, hmr, hmp, Option.getD_some, hr]
    rw [SmpMasterConnection.master_sendPacket_eq _ _ _ (by simpa using hmt) (by simpa using hmd)]
    simp [bufferFrom, SMP_DHKEY_CHECK]
  · simp only [SmpMasterConnection.sendDHKeyCheck, hmk, hma, hmb, hmf, hmq, hmr, hmp, Option.getD_some, hr]
    rw [SmpMasterConnection.master_sendPacket_eq _ _ _ (by simpa using hmt) (by simpa using hmd)]
  · simp only [SmpMasterConnection.sendDHKeyCheck, hmk, hma, hmb, hmf, hmq, hmr, hmp, Option.getD_some, hr]
    rw [SmpMasterConnection.master_sendPacket_eq _ _ _ (by simpa using hmt) (by simpa using hmd)]
  · simp only [SmpSlaveConnection.receive, hrecv r.Ea hea, if_true]
    rw [SmpSlaveConnection.slave_sendPacket_log _ _ _ _ (by simpa using hst) (by simpa using hsd)]
    simp [bufferFrom, SMP_DHKEY_CHECK]
  · simp only [SmpSlaveConnection.receive, hrecv r.Ea hea, if_true]
    cases hd : s.sendDisabled <;>
      simp [SmpSlaveConnection.sendPacket, SmpSlaveConnection.restartTimeout, SmpSlaveConnection.timeoutClearFn,
        SmpSlaveConnection.sendDataFn, SmpSlaveConnection.act, hst, hd]
  · intro v hv hne
    simp only [SmpSlaveConnection.receive, hrecv v hv, if_neg hne]
    rw [SmpSlaveConnection.slave_pairingFailed_log _ _ (by simpa using hsd)]
    simp

/-- Witness of `sc_key_symmetry`: the two sample sessions of a Secure-Connections pairing;
the two toolboxes differ in their key pairs and agree on the shared secret. -/
theorem sc_key_symmetry_witness :
    sampleCryptoInitiator.myEcdhPubKeyX ≠ sampleCryptoResponder.myEcdhPubKeyX
    ∧ sampleSlaveSc.state = STATE_W4_PACKET
    ∧ ∃ r : LtkEaEb,
      generateLtkEaEb sampleCryptoInitiator (List.replicate 32 4, List.replicate 32 5) sampleLink.ia
          sampleLink.iat sampleLink.ra sampleLink.rat (List.replicate 16 99) (List.replicate 16 7) 0
          sampleScFeatures.maxKeySize (slice sampleScRequest 1 4) (slice sampleScResponse 1 4) = some r
      ∧ generateLtkEaEb sampleCryptoResponder (List.replicate 32 1, List.replicate 32 2) sampleLink.ia
          sampleLink.iat sampleLink.ra sampleLink.rat (List.replicate 16 99) (List.replicate 16 7) 0
          sampleScFeatures.maxKeySize (slice sampleScRequest 1 4) (slice sampleScResponse 1 4) = some r
      ∧ r.ltk = slice (Toolbox.f5 sampleCryptoInitiator (List.replicate 32 3).reverse (List.replicate 16 99)
            (List.replicate 16 7) (sampleLink.ia ++ bufferFrom [sampleLink.iat])
            (sampleLink.ra ++ bufferFrom [sampleLink.rat])).2 0 sampleScFeatures.maxKeySize
      ∧ (SmpMasterConnection.sendDHKeyCheck sampleCryptoInitiator sampleLink sampleMasterSc).log
          = sampleMasterSc.log
            ++ [Action.sendData (SMP_DHKEY_CHECK :: r.Ea) (some (Callback.packetSent sampleMasterSc.runCounter none))
                  none]
      ∧ (SmpMasterConnection.sendDHKeyCheck sampleCryptoInitiator sampleLink sampleMasterSc).expectedEb = some r.Eb
      ∧ (SmpMasterConnection.sendDHKeyCheck sampleCryptoInitiator sampleLink sampleMasterSc).generatedLtk
          = some r.ltk
      ∧ (SmpSlaveConnection.receive sampleCryptoResponder sampleLink sampleInputs (SMP_DHKEY_CHECK :: r.Ea)
            sampleSlaveSc).2
          = [Action.sendData (SMP_DHKEY_CHECK :: r.Eb)
              (some (Callback.packetSent sampleSlaveSc.runCounter (some PacketCallback.toW4LtkRequest))) none]
      ∧ (SmpSlaveConnection.receive sampleCryptoResponder sampleLink sampleInputs (SMP_DHKEY_CHECK :: r.Ea)
            sampleSlaveSc).1.generatedLtk = some r.ltk
      ∧ ∀ v : List Nat, v.length = 16 → v ≠ r.Ea →
          (SmpSlaveConnection.receive sampleCryptoResponder sampleLink sampleInputs (SMP_DHKEY_CHECK :: v)
              sampleSlaveSc).2
            = localFailure sampleSlaveSc.hasOutgoingFailedMsg SmpErrors.DHKEY_CHECK_FAILED :=
  ⟨by decide, rfl,
    sc_key_symmetry sampleCryptoInitiator sampleCryptoResponder sampleLink sampleInputs sampleMasterSc
      sampleSlaveSc sampleScFeatures sampleScFeatures (List.replicate 32 1, List.replicate 32 2)
      (List.replicate 32 4, List.replicate 32 5) (List.replicate 32 3) (List.replicate 16 99)
      (List.replicate 16 7) sampleScRequest sampleScResponse 0 rfl
      (fun _ _ => by simp [sampleCryptoInitiator, sampleBlockCipher]) rfl rfl rfl rfl rfl rfl rfl rfl rfl
      (by decide) rfl rfl rfl rfl rfl rfl rfl rfl rfl rfl rfl (Or.inr rfl) rfl⟩

/-! ## Legacy confirm function (claim C15) -/

/-- C15: for a 16-byte `r`, 7-byte `preq` and `pres`, 6-byte `ia` and `ra` and one-byte
`iat` and `rat`, `Toolbox.c1(k, r, pres, preq, iat, ia, rat, ra)` is
`e(k, e(k, r XOR p1) XOR p2)` with `p1 = [iat, rat] ++ preq ++ pres` and
`p2 = ra ++ ia ++ [0, 0, 0, 0]`, both 16 bytes long, where
`e(key, data) = reverse(AES128(reverse(key), reverse(data)))` and the XOR of two 16-byte
buffers is the 16-byte buffer of the bytewise XOR. -/
theorem c1_formula (c : Crypto) (k r pres preq ia ra : List Nat) (iat rat : Nat)
    (hr : r.length = 16) (hq : preq.length = 7) (hp : pres.length = 7) (hia : ia.length = 6)
    (hra : ra.length = 6) (hiat : iat < 256) (hrat : rat < 256) :
    Toolbox.c1 c k r pres preq iat ia rat ra
      = Toolbox.e c k (xor (Toolbox.e c k (xor r ([iat, rat] ++ preq ++ pres))) (ra ++ ia ++ [0, 0, 0, 0]))
    ∧ ([iat, rat] ++ preq ++ pres).length = 16
    ∧ (ra ++ ia ++ [0, 0, 0, 0]).length = 16
    ∧ (xor r ([iat, rat] ++ preq ++ pres)).length = 16
    ∧ (∀ key data, Toolbox.e c key data = (c.aes128 key.reverse data.reverse).reverse)
    ∧ (∀ a b : List Nat, a.length = 16 → b.length = 16 →
        (xor a b).length = 16 ∧ ∀ n, n < 16 → (xor a b).getD n 0 = a.getD n 0 ^^^ b.getD n 0) := by
  refine ⟨?_, by simp [hq, hp], by simp [hia, hra], by simp [xor, hr, hq, hp], fun _ _ => rfl, ?_⟩
  · simp [Toolbox.c1, bufferFrom, bufferAlloc, Nat.mod_eq_of_lt hiat, Nat.mod_eq_of_lt hrat]
  · intro a b ha hb
    refine ⟨by simp [xor, ha, hb], ?_⟩
    intro n hn
    have h1 : n < (xor a b).length := by simp [xor, ha, hb, hn]
    rw [List.getD_eq_getElem _ _ h1, List.getD_eq_getElem _ _ (by omega), List.getD_eq_getElem _ _ (by omega)]
    simp [xor]

/-- Witness of `c1_formula`: the values of the sample legacy pairing. -/
theorem c1_formula_witness :
    (List.replicate 16 99).length = 16 ∧ sampleLegacyRequest.length = 7 ∧ sampleLegacyResponse.length = 7
    ∧ sampleLink.ia.length = 6 ∧ sampleLink.ra.length = 6 ∧ sampleLink.iat < 256 ∧ sampleLink.rat < 256
    ∧ Toolbox.c1 sampleCrypto (passkeyToTk 0) (List.replicate 16 99) sampleLegacyResponse sampleLegacyRequest
        sampleLink.iat sampleLink.ia sampleLink.rat sampleLink.ra
      = Toolbox.e sampleCrypto (passkeyToTk 0)
          (xor (Toolbox.e sampleCrypto (passkeyToTk 0)
              (xor (List.replicate 16 99) ([sampleLink.iat, sampleLink.rat] ++ sampleLegacyRequest ++ sampleLegacyResponse)))
            (sampleLink.ra ++ sampleLink.ia ++ [0, 0, 0, 0])) :=
  ⟨by decide, by decide, by decide, by decide, by decide, by decide, by decide,
    (c1_formula sampleCrypto (passkeyToTk 0) (List.replicate 16 99) sampleLegacyResponse sampleLegacyRequest
      sampleLink.ia sampleLink.ra sampleLink.iat sampleLink.rat (by decide) (by decide) (by decide) (by decide)
      (by decide) (by decide) (by decide)).1⟩

/-! ## Legacy confirm round trip (claim C16) -/

namespace SmpSlaveConnection

theorem slave_sendPacket_eq (s : SlaveState) (data : List Nat) (next : Option Nat)
    (ht : s.state ≠ STATE_TIMEDOUT) (h : s.sendDisabled = false) :
    sendPacket s data next none
      = { s with timeoutPending := true, state := STATE_W4_PACKET_ENQUEUED, packetWaitOpcode := next,
                 log := s.log ++ [Action.sendData data (some (Callback.packetSent s.runCounter none)) none] } := by
  simp [sendPacket, restartTimeout, timeoutClearFn, sendDataFn, act, ht, h]

theorem slave_sendPacket_callback_eq (s : SlaveState) (data : List Nat) (next : Option Nat)
    (cb : PacketCallback) (ht : s.state ≠ STATE_TIMEDOUT) (h : s.sendDisabled = false) :
    sendPacket s data next (some cb)
      = { s with timeoutPending := true, state := STATE_W4_PACKET_ENQUEUED,
                 log := s.log ++ [Action.sendData data (some (Callback.packetSent s.runCounter (some cb))) none] } := by
  simp [sendPacket, restartTimeout, timeoutClearFn, sendDataFn, act, ht, h]

theorem slave_acknowledgeLast_eq (s : SlaveState) (l : List Action) (data : List Nat)
    (hlog : s.log = l ++ [Action.sendData data (some (Callback.packetSent s.runCounter none)) none]) :
    acknowledgeLast s = { s with state := STATE_W4_PACKET } := by
  simp [acknowledgeLast, lastSentCallback, hlog, onCallback]

theorem slave_acknowledgeLast_callback_eq (s : SlaveState) (l : List Action) (data : List Nat)
    (hlog : s.log = l ++ [Action.sendData data
      (some (Callback.packetSent s.runCounter (some PacketCallback.toW4LtkRequest))) none]) :
    acknowledgeLast s = { s with state := STATE_W4_LTK_REQUEST } := by
  simp [acknowledgeLast, lastSentCallback, hlog, onCallback]

end SmpSlaveConnection

theorem lastSentData_append (l : List Action) (data : List Nat) (a b : Option Callback) :
    lastSentData (l ++ [Action.sendData data a b]) = data := by
  simp [lastSentData]

theorem length_c1 (c : Crypto) (hblock : ∀ key b, (c.aes128 key b).length = 16)
    (k r pres preq : List Nat) (iat : Nat) (ia : List Nat) (rat : Nat) (ra : List Nat) :
    (Toolbox.c1 c k r pres preq iat ia rat ra).length = 16 := by
  simp [Toolbox.c1, Toolbox.e, hblock]

/-- C16: in a legacy pairing, let an initiator and a responder hold the same passkey, the
same Pairing Request and Pairing Response and mirrored addresses (the same `Link`), and let
them exchange confirms and nonces.  Then the initiator sends the confirm
`c1(TK, Mrand, ...)` and later discloses `Mrand`; the responder sends the confirm
`c1(TK, Srand, ...)`, recomputes the confirm of the initiator from the disclosed `Mrand`,
finds it equal to the confirm it received and discloses `Srand`; the initiator recomputes
the confirm of the responder from `Srand`, finds it equal to the confirm it received and
starts encryption.  Neither side sends Pairing Failed or reports a failure: the actions of
the two sessions are exactly these PDUs and the start-encryption command. -/
theorem legacy_confirm_round_trip (c : Crypto) (k : Link) (im is : Inputs) (m : MasterState)
    (s : SlaveState) (pfm pfs : PairingFeatures) (preq pres : List Nat) (pk : Nat)
    (hblock : ∀ key b, (c.aes128 key b).length = 16)
    (hmrand : im.random16.length = 16) (hsrand : is.random16.length = 16)
    (hmf : m.pairingFeatures = some pfm) (hmsc : pfm.sc = false)
    (hmq : m.pairingRequestData = some preq) (hmr : m.pairingResponseData = some pres)
    (hmp : m.userPasskey = some pk) (hmt : m.state ≠ STATE_TIMEDOUT) (hmd : m.sendDisabled = false)
    (hsf : s.pairingFeatures = some pfs) (hssc : pfs.sc = false)
    (hsq : s.pairingRequestData = some preq) (hsr : s.pairingResponseData = some pres)
    (hsp : s.userPasskey = some pk) (hss : s.state = STATE_W4_PACKET)
    (hsw : s.packetWaitOpcode = some SMP_PAIRING_CONFIRM) (hsd : s.sendDisabled = false) :
    (confirmExchange c k im is m s).1.log
        = m.log ++
          [Action.sendData
              (SMP_PAIRING_CONFIRM :: Toolbox.c1 c (passkeyToTk pk) im.random16 pres preq k.iat k.ia k.rat k.ra)
              (some (Callback.packetSent m.runCounter none)) none,
           Action.sendData (SMP_PAIRING_RANDOM :: im.random16) (some (Callback.packetSent m.runCounter none)) none,
           Action.startEncryption (bufferAlloc 8) 0
              (padKey (slice (Toolbox.s1 c (passkeyToTk pk) is.random16 im.random16) 0 pfm.maxKeySize))
              EncryptionStart.afterPairing]
    ∧ (confirmExchange c k im is m s).2.log
        = s.log ++
          [Action.sendData
              (SMP_PAIRING_CONFIRM :: Toolbox.c1 c (passkeyToTk pk) is.random16 pres preq k.iat k.ia k.rat k.ra)
              (some (Callback.packetSent s.runCounter none)) none,
           Action.sendData (SMP_PAIRING_RANDOM :: is.random16)
              (some (Callback.packetSent s.runCounter (some PacketCallback.toW4LtkRequest))) none]
    ∧ (confirmExchange c k im is m s).1.state = STATE_W4_ENCRYPTION_STARTED
    ∧ (confirmExchange c k im is m s).2.state = STATE_W4_LTK_REQUEST
    ∧ (confirmExchange c k im is m s).2.initConfirmValue
        = some (Toolbox.c1 c (passkeyToTk pk) im.random16 pres preq k.iat k.ia k.rat k.ra)
    ∧ (confirmExchange c k im is m s).2.initRandomValue = some im.random16
    ∧ (confirmExchange c k im is m s).1.rspConfirmValue
        = some (Toolbox.c1 c (passkeyToTk pk) is.random16 pres preq k.iat k.ia k.rat k.ra)
    ∧ (confirmExchange c k im is m s).1.rspRandomValue = some is.random16 := by
  have hc1 := length_c1 c hblock
  have hst : s.state ≠ STATE_TIMEDOUT := by simp [hss, STATE_W4_PACKET, STATE_TIMEDOUT]
  -- the initiator sends its confirm
  have e1 : SmpMasterConnection.sendConfirm c k im m
      = { m with initRandomValue := some im.random16, timeoutPending := true,
                 state := STATE_W4_PACKET_ENQUEUED, packetWaitOpcode := some SMP_PAIRING_CONFIRM,
                 log := m.log ++ [Action.sendData
                   (SMP_PAIRING_CONFIRM :: Toolbox.c1 c (passkeyToTk pk) im.random16 pres preq k.iat k.ia k.rat k.ra)
                   (some (Callback.packetSent m.runCounter none)) none] } := by
    unfold SmpMasterConnection.sendConfirm
    simp only [hmf, hmsc, hmq, hmr, hmp, Option.getD_some, Bool.not_false, if_true]
    rw [SmpMasterConnection.master_sendPacket_eq _ _ _ (by simpa using hmt) (by simpa using hmd)]
    simp [bufferFrom, SMP_PAIRING_CONFIRM]
  -- the responder receives it and sends its own
  have e2 : ∀ s1 : SlaveState, s1 = s →
      SmpSlaveConnection.onData c k is
        (SMP_PAIRING_CONFIRM :: Toolbox.c1 c (passkeyToTk pk) im.random16 pres preq k.iat k.ia k.rat k.ra) s1
      = { s with initConfirmValue := some (Toolbox.c1 c (passkeyToTk pk) im.random16 pres preq k.iat k.ia k.rat k.ra),
                 rspRandomValue := some is.random16, timeoutPending := true,
                 state := STATE_W4_PACKET_ENQUEUED, packetWaitOpcode := some SMP_PAIRING_RANDOM,
                 log := s.log ++ [Action.sendData
                   (SMP_PAIRING_CONFIRM :: Toolbox.c1 c (passkeyToTk pk) is.random16 pres preq k.iat k.ia k.rat k.ra)
                   (some (Callback.packetSent s.runCounter none)) none] } := by
    rintro s1 rfl
    rw [SmpSlaveConnection.slave_onData_pairingConfirm _ _ _ _ _ hst]
    unfold SmpSlaveConnection.onDataPairingConfirm
    rw [if_neg (by simp [SmpSlaveConnection.notWaitingFor, hss, hsw]), if_neg (by simp [hc1])]
    simp only [hsp, Option.isSome_some, if_true, SmpSlaveConnection.afterInitsConfirmAndPasskey, hsf, hssc,
      hsq, hsr, Option.getD_some, Bool.not_false, List.drop_succ_cons, List.drop_zero]
    rw [SmpSlaveConnection.slave_sendPacket_eq _ _ _ (by simpa using hst) (by simpa using hsd)]
    simp [bufferFrom, SMP_PAIRING_CONFIRM]
  unfold confirmExchange
  simp only [e1, lastSentData_append]
  rw [SmpMasterConnection.master_acknowledgeLast_eq _ m.log _ rfl]
  simp only [e2 s rfl, lastSentData_append]
  rw [SmpSlaveConnection.slave_acknowledgeLast_eq _ s.log _ rfl]
  -- the initiator receives the confirm of the responder and discloses its nonce
  rw [SmpMasterConnection.master_onData_pairingConfirm _ _ _ _ _ (by simp [STATE_W4_PACKET, STATE_TIMEDOUT])]
  unfold SmpMasterConnection.onDataPairingConfirm
  rw [if_neg (by simp [SmpMasterConnection.notWaitingFor]), if_neg (by simp [hc1])]
  simp only [List.drop_succ_cons, List.drop_zero]
  rw [SmpMasterConnection.master_sendPacket_eq _ _ _ (by simp [STATE_W4_PACKET, STATE_TIMEDOUT])
    (by simpa using hmd)]
  simp only [lastSentData_append]
  rw [SmpMasterConnection.master_acknowledgeLast_eq _ _ _ rfl]
  -- the responder checks the confirm of the initiator and discloses its nonce
  rw [show bufferFrom [SMP_PAIRING_RANDOM] ++ im.random16 = SMP_PAIRING_RANDOM :: im.random16 from rfl]
  rw [SmpSlaveConnection.slave_onData_pairingRandom _ _ _ _ _ (by simp [STATE_W4_PACKET, STATE_TIMEDOUT])]
  unfold SmpSlaveConnection.onDataPairingRandom
  rw [if_neg (by simp [SmpSlaveConnection.notWaitingFor]), if_neg (by simp [hmrand])]
  simp only [hsf, hssc, hsq, hsr, hsp, Option.getD_some, Bool.not_false, if_true, List.drop_succ_cons,
    List.drop_zero, SmpSlaveConnection.timingSafeEqual, beq_self_eq_true, Bool.not_true, Bool.false_eq_true,
    if_false]
  rw [SmpSlaveConnection.slave_sendPacket_callback_eq _ _ _ _ (by simp [STATE_W4_PACKET, STATE_TIMEDOUT])
    (by simpa using hsd)]
  simp only [lastSentData_append]
  rw [SmpSlaveConnection.slave_acknowledgeLast_callback_eq _ _ _ rfl]
  -- the initiator checks the confirm of the responder and starts encryption
  rw [show bufferFrom [SMP_PAIRING_RANDOM] ++ is.random16 = SMP_PAIRING_RANDOM :: is.random16 from rfl]
  rw [SmpMasterConnection.master_onData_pairingRandom _ _ _ _ _ (by simp [STATE_W4_PACKET, STATE_TIMEDOUT])]
  unfold SmpMasterConnection.onDataPairingRandom
  rw [if_neg (by simp [SmpMasterConnection.notWaitingFor]), if_neg (by simp [hsrand])]
  simp [SmpMasterConnection.onPairingRandom, hmf, hmsc, hmq, hmr, hmp, SmpMasterConnection.timingSafeEqual,
    SmpMasterConnection.startEncryptionAfterPairing, SmpMasterConnection.act, bufferFrom, SMP_PAIRING_RANDOM]

/-- Witness of `legacy_confirm_round_trip`: the two sample sessions of a legacy pairing;
neither log of the exchange holds an event. -/
theorem legacy_confirm_round_trip_witness :
    sampleSlaveLegacyAwaitingConfirm.state = STATE_W4_PACKET
    ∧ sampleLegacyFeatures.sc = false
    ∧ (confirmExchange sampleCryptoInitiator sampleLink sampleInputs sampleInputsResponder
        sampleMasterLegacyAfterResponse sampleSlaveLegacyAwaitingConfirm).1.state = STATE_W4_ENCRYPTION_STARTED
    ∧ (confirmExchange sampleCryptoInitiator sampleLink sampleInputs sampleInputsResponder
        sampleMasterLegacyAfterResponse sampleSlaveLegacyAwaitingConfirm).2.state = STATE_W4_LTK_REQUEST
    ∧ (confirmExchange sampleCryptoInitiator sampleLink sampleInputs sampleInputsResponder
        sampleMasterLegacyAfterResponse sampleSlaveLegacyAwaitingConfirm).2.initConfirmValue
        = some (Toolbox.c1 sampleCryptoInitiator (passkeyToTk 0) sampleInputs.random16 sampleLegacyResponse
            sampleLegacyRequest sampleLink.iat sampleLink.ia sampleLink.rat sampleLink.ra) :=
  have h := legacy_confirm_round_trip sampleCryptoInitiator sampleLink sampleInputs sampleInputsResponder
    sampleMasterLegacyAfterResponse sampleSlaveLegacyAwaitingConfirm sampleLegacyFeatures sampleLegacyFeatures
    sampleLegacyRequest sampleLegacyResponse 0
    (fun _ _ => by simp [sampleCryptoInitiator, sampleBlockCipher]) (by decide) (by decide) rfl (by decide)
    rfl rfl rfl (by decide) rfl rfl (by decide) rfl rfl rfl rfl rfl rfl
  ⟨rfl, by decide, h.2.2.1, h.2.2.2.1, h.2.2.2.2.1⟩

/-! ## Numeric comparison value (claim C17) -/

theorem digitChar_digit : ∀ x, x < 10 → (Nat.digitChar x).isDigit = true ∧ (Nat.digitChar x).toNat - 48 = x := by
  decide

theorem decimalDigits_length (d n : Nat) : (decimalDigits d n).length = d := by
  induction d generalizing n with
  | zero => rfl
  | succ d ih => simp [decimalDigits, ih]

theorem decimalDigits_isDigit (d n : Nat) : ∀ ch ∈ decimalDigits d n, ch.isDigit = true := by
  induction d generalizing n with
  | zero => simp [decimalDigits]
  | succ d ih =>
    intro ch hch
    simp only [decimalDigits, List.mem_append, List.mem_singleton] at hch
    rcases hch with h | rfl
    · exact ih _ _ h
    · exact (digitChar_digit _ (Nat.mod_lt _ (by decide))).1

theorem decimalValue_append (s : List Char) (ch : Char) :
    decimalValue (s ++ [ch]) = 10 * decimalValue s + (ch.toNat - 48) := by
  simp [decimalValue]

theorem decimalValue_decimalDigits (d n : Nat) : decimalValue (decimalDigits d n) = n % 10 ^ d := by
  induction d generalizing n with
  | zero => simp [decimalDigits, decimalValue, Nat.mod_one]
  | succ d ih =>
    rw [decimalDigits, decimalValue_append, ih, (digitChar_digit _ (Nat.mod_lt _ (by decide))).2, pow_succ,
      Nat.mul_comm (10 ^ d) 10, Nat.mod_mul]
    omega

theorem decimalDigits_zero (e : Nat) : decimalDigits e 0 = List.replicate e '0' := by
  induction e with
  | zero => rfl
  | succ e ih =>
    have h0 : Nat.digitChar 0 = '0' := rfl
    simp [decimalDigits, ih, List.replicate_succ', h0]

theorem decimalDigits_pad (d e n : Nat) (h : n < 10 ^ d) :
    decimalDigits (e + d) n = List.replicate e '0' ++ decimalDigits d n := by
  induction d generalizing n with
  | zero =>
    have : n = 0 := by simpa using h
    subst this
    simp [decimalDigits, decimalDigits_zero]
  | succ d ih =>
    have h' : n / 10 < 10 ^ d := by
      rw [pow_succ] at h
      exact Nat.div_lt_of_lt_mul (by rw [Nat.mul_comm]; exact h)
    rw [← Nat.add_assoc, decimalDigits, ih _ h', decimalDigits, List.append_assoc]

theorem toDigitsCore_eq (fuel : Nat) : ∀ (n : Nat) (ds : List Char), n < fuel →
    ∃ d, 1 ≤ d ∧ n < 10 ^ d ∧ (d = 1 ∨ 10 ^ (d - 1) ≤ n)
      ∧ Nat.toDigitsCore 10 fuel n ds = decimalDigits d n ++ ds := by
  induction fuel with
  | zero => intro n ds h; omega
  | succ fuel ih =>
    intro n ds h
    rw [Nat.toDigitsCore]
    by_cases h0 : n / 10 = 0
    · refine ⟨1, le_refl _, by omega, Or.inl rfl, ?_⟩
      simp [h0, decimalDigits]
    · obtain ⟨d, hd1, hd2, hd3, hd4⟩ := ih (n / 10) (Nat.digitChar (n % 10) :: ds) (by omega)
      refine ⟨d + 1, by omega, ?_, Or.inr ?_, ?_⟩
      · rw [pow_succ]; omega
      · simp only [Nat.add_sub_cancel]
        rcases hd3 with rfl | hd3
        · simp; omega
        · obtain ⟨d', rfl⟩ : ∃ d', d = d' + 1 := ⟨d - 1, by omega⟩
          simp only [Nat.add_sub_cancel] at hd3
          rw [pow_succ]; omega
      · simp only [h0, if_false, hd4, decimalDigits, List.append_assoc, List.singleton_append]

theorem lastSixDigits_eq (n : Nat) (h : n < 1000000) : lastSixDigits n = decimalDigits 6 n := by
  obtain ⟨d, hd1, hd2, hd3, hd4⟩ := toDigitsCore_eq (n + 1) n [] (by omega)
  have hd6 : d ≤ 6 := by
    rcases hd3 with rfl | hd3
    · omega
    · by_contra hc
      have : 10 ^ 6 ≤ 10 ^ (d - 1) := Nat.pow_le_pow_right (by decide) (by omega)
      omega
  have hlen := decimalDigits_length d n
  unfold lastSixDigits
  simp only [Nat.toDigits, hd4, List.append_nil]
  obtain ⟨e, he⟩ : ∃ e, 6 = e + d := ⟨6 - d, by omega⟩
  rw [he, decimalDigits_pad d e n hd2]
  have he4 : e ≤ 5 := by omega
  have h5 : (['0', '0', '0', '0', '0'] : List Char) = List.replicate (5 - e) '0' ++ List.replicate e '0' := by
    interval_cases e <;> rfl
  rw [h5, List.append_assoc]
  have hl : (List.replicate (5 - e) '0' ++ (List.replicate e '0' ++ decimalDigits d n)).length - (e + d)
      = (List.replicate (5 - e) '0').length := by
    simp [hlen]
  rw [hl, List.drop_left]

theorem bytesToNat_append (a b : List Nat) :
    Rfc4493.bytesToNat (a ++ b) = Rfc4493.bytesToNat a * 256 ^ b.length + Rfc4493.bytesToNat b := by
  induction a with
  | nil => simp [Rfc4493.bytesToNat]
  | cons x xs ih =>
    show Rfc4493.bytesToNat (x :: (xs ++ b)) = _
    simp only [Rfc4493.bytesToNat, ih, List.length_append, pow_add]
    ring

theorem readUInt32BE_eq (l : List Nat) (hlen : l.length = 16) :
    readUInt32BE l 12 = Rfc4493.bytesToNat (l.drop 12) := by
  have hd : (l.drop 12).length = 4 := by simp [hlen]
  have hget : ∀ j, byteAt l (12 + j) = (l.drop 12).getD j 0 := by
    intro j
    simp [byteAt, List.getD_eq_getElem?_getD, List.getElem?_drop]
  have h0 := hget 0
  have h1 := hget 1
  have h2 := hget 2
  have h3 := hget 3
  simp only [Nat.add_zero, Nat.reduceAdd] at h0 h1 h2 h3
  unfold readUInt32BE
  simp only [Nat.reduceAdd, h0, h1, h2, h3]
  generalize l.drop 12 = t at hd
  rcases t with _ | ⟨a, _ | ⟨b, _ | ⟨c, _ | ⟨d, _ | ⟨e, t⟩⟩⟩⟩⟩ <;> simp at hd
  simp only [Rfc4493.bytesToNat, List.length_cons, List.length_nil, List.getD_cons_zero, List.getD_cons_succ]
  norm_num
  omega

theorem readUInt32BE_low_bits (l : List Nat) (h : IsBlock l) :
    readUInt32BE l 12 = Rfc4493.bytesToNat l % 2 ^ 32 := by
  obtain ⟨hlen, hbytes⟩ := h
  have hsplit : l = l.take 12 ++ l.drop 12 := (List.take_append_drop 12 l).symm
  have hd : (l.drop 12).length = 4 := by simp [hlen]
  have hb : ∀ x ∈ l.drop 12, x < 256 := fun x hx => hbytes x (List.mem_of_mem_drop hx)
  have hlt := bytesToNat_lt _ hb
  rw [readUInt32BE_eq l hlen]
  conv_rhs => rw [hsplit, bytesToNat_append, hd]
  rw [hd] at hlt
  norm_num at hlt ⊢
  omega

/-- The value of `g2`: the 32 least significant bits of `AESCMAC` keyed by `X` over
`U || V || Y`, each buffer written most significant byte first. -/
theorem g2_low_bits (c : Crypto) (hblock : ∀ key b, IsBlock (c.aes128 key b)) (u v x y : List Nat) :
    Toolbox.g2 c u v x y
      = Rfc4493.bytesToNat (AESCMAC c x.reverse (u.reverse ++ v.reverse ++ y.reverse)) % 2 ^ 32 := by
  unfold Toolbox.g2
  rw [readUInt32BE_low_bits _ (by simp only [AESCMAC]; exact hblock _ _)]
  simp [List.reverse_append, List.append_assoc]

/-- C17: under Numeric Comparison, let initiator and responder use the same AES-128 (which
returns blocks), hold each other's public key and the same nonces `Na` and `Nb`.  When the
initiator receives the Pairing Random of the responder (whose confirm verifies) and the
responder receives the Pairing Random of the initiator, both report with the
passkey-exchange event the same string: the last six characters of `"00000"` followed by
the decimal numeral of `g2(PKa.x, PKb.x, Na, Nb) mod 1000000`.  This `g2` is the 32 least
significant bits of `AESCMAC` keyed by `Na` over `PKa.x || PKb.x || Nb` (most significant
byte first); the value is below 1000000, and the string consists of exactly six decimal
digits that denote the value. -/
theorem numeric_comparison_value (ca cb : Crypto) (k : Link) (i : Inputs) (m : MasterState)
    (s : SlaveState) (pfm pfs : PairingFeatures) (pka pkb : List Nat × List Nat) (na nb : List Nat)
    (haes : ca.aes128 = cb.aes128) (hblock : ∀ key b, IsBlock (ca.aes128 key b))
    (hpka : pka.1 = ca.myEcdhPubKeyX) (hpkb : pkb.1 = cb.myEcdhPubKeyX)
    (hna : na.length = 16) (hnb : nb.length = 16)
    (hms : m.state = STATE_W4_PACKET) (hmw : m.packetWaitOpcode = some SMP_PAIRING_RANDOM)
    (hmf : m.pairingFeatures = some pfm) (hmsc : pfm.sc = true)
    (hmm : m.associationModel = some ASSOCIATION_MODEL_NUMERIC_COMPARISON)
    (hmk : m.peerPublicKey = some pkb) (hma : m.initRandomValue = some na)
    (hmc : m.rspConfirmValue = some (Toolbox.f4 ca pkb.1 ca.myEcdhPubKeyX nb 0))
    (hss : s.state = STATE_W4_PACKET) (hsw : s.packetWaitOpcode = some SMP_PAIRING_RANDOM)
    (hsf : s.pairingFeatures = some pfs) (hssc : pfs.sc = true)
    (hsm : s.associationModel = some ASSOCIATION_MODEL_NUMERIC_COMPARISON)
    (hsk : s.peerPublicKey = some pka) (hsb : s.rspRandomValue = some nb)
    (hsd : s.sendDisabled = false) :
    (SmpMasterConnection.receive ca k i (SMP_PAIRING_RANDOM :: nb) m).2
        = [Action.emit (Event.passkeyExchange ASSOCIATION_MODEL_NUMERIC_COMPARISON
            (some (lastSixDigits (Toolbox.g2 ca ca.myEcdhPubKeyX cb.myEcdhPubKeyX na nb % 1000000)))
            m.runCounter)]
    ∧ (SmpSlaveConnection.receive cb k i (SMP_PAIRING_RANDOM :: na) s).2
        = [Action.sendData (SMP_PAIRING_RANDOM :: nb) (some (Callback.packetSent s.runCounter none)) none,
           Action.emit (Event.passkeyExchange ASSOCIATION_MODEL_NUMERIC_COMPARISON
            (some (lastSixDigits (Toolbox.g2 ca ca.myEcdhPubKeyX cb.myEcdhPubKeyX na nb % 1000000)))
            s.runCounter)]
    ∧ Toolbox.g2 ca ca.myEcdhPubKeyX cb.myEcdhPubKeyX na nb
        = Rfc4493.bytesToNat (AESCMAC ca na.reverse
            (ca.myEcdhPubKeyX.reverse ++ cb.myEcdhPubKeyX.reverse ++ nb.reverse)) % 2 ^ 32
    ∧ Toolbox.g2 ca ca.myEcdhPubKeyX cb.myEcdhPubKeyX na nb % 1000000 < 1000000
    ∧ (lastSixDigits (Toolbox.g2 ca ca.myEcdhPubKeyX cb.myEcdhPubKeyX na nb % 1000000)).length = 6
    ∧ (∀ ch ∈ lastSixDigits (Toolbox.g2 ca ca.myEcdhPubKeyX cb.myEcdhPubKeyX na nb % 1000000),
        ch.isDigit = true)
    ∧ decimalValue (lastSixDigits (Toolbox.g2 ca ca.myEcdhPubKeyX cb.myEcdhPubKeyX na nb % 1000000))
        = Toolbox.g2 ca ca.myEcdhPubKeyX cb.myEcdhPubKeyX na nb % 1000000 := by
  have hv : Toolbox.g2 ca ca.myEcdhPubKeyX cb.myEcdhPubKeyX na nb % 1000000 < 1000000 :=
    Nat.mod_lt _ (by decide)
  have hg : Toolbox.g2 cb ca.myEcdhPubKeyX cb.myEcdhPubKeyX na nb
      = Toolbox.g2 ca ca.myEcdhPubKeyX cb.myEcdhPubKeyX na nb := by
    simp only [Toolbox.g2, AESCMAC_congr ca cb haes]
  refine ⟨?_, ?_, g2_low_bits ca hblock _ _ _ _, hv, ?_, ?_, ?_⟩
  · have hmt : m.state ≠ STATE_TIMEDOUT := by simp [hms, STATE_W4_PACKET, STATE_TIMEDOUT]
    simp only [SmpMasterConnection.receive]
    rw [SmpMasterConnection.master_onData_pairingRandom _ _ _ _ _ (by simpa using hmt)]
    unfold SmpMasterConnection.onDataPairingRandom
    rw [if_neg (by simp [SmpMasterConnection.notWaitingFor, hms, hmw]), if_neg (by simp [hnb])]
    simp [SmpMasterConnection.onPairingRandom, hmf, hmsc, hmm, hmk, hma, hmc, hpkb,
      SmpMasterConnection.timingSafeEqual, SmpMasterConnection.emit, SmpMasterConnection.act,
      ASSOCIATION_MODEL_NUMERIC_COMPARISON, ASSOCIATION_MODEL_JUST_WORKS]
  · have hst : s.state ≠ STATE_TIMEDOUT := by simp [hss, STATE_W4_PACKET, STATE_TIMEDOUT]
    simp only [SmpSlaveConnection.receive]
    rw [SmpSlaveConnection.slave_onData_pairingRandom _ _ _ _ _ (by simpa using hst)]
    unfold SmpSlaveConnection.onDataPairingRandom
    rw [if_neg (by simp [SmpSlaveConnection.notWaitingFor, hss, hsw]), if_neg (by simp [hna])]
    simp only [hsf, hssc, hsm, hsb, Bool.not_true, Bool.false_eq_true, if_false, beq_self_eq_true,
      Bool.or_true, if_true, List.drop_succ_cons, List.drop_zero]
    rw [SmpSlaveConnection.slave_sendPacket_eq _ _ _ (by simpa using hst) (by simpa using hsd)]
    simp [hsm, hsk, hpka, hg, SmpSlaveConnection.emit, SmpSlaveConnection.act, bufferFrom, SMP_PAIRING_RANDOM]
  · rw [lastSixDigits_eq _ hv, decimalDigits_length]
  · rw [lastSixDigits_eq _ hv]
    exact decimalDigits_isDigit _ _
  · rw [lastSixDigits_eq _ hv, decimalValue_decimalDigits]
    exact Nat.mod_eq_of_lt hv

/-- Witness of `numeric_comparison_value`: the sample initiator, which waits for the
Pairing Random of the responder and holds its confirm, and the sample responder, which
waits for the Pairing Random of the initiator. -/
theorem numeric_comparison_value_witness :
    sampleCryptoInitiator.aes128 = sampleCryptoResponder.aes128
    ∧ (SmpMasterConnection.receive sampleCryptoInitiator sampleLink sampleInputs
        (SMP_PAIRING_RANDOM :: List.replicate 16 7) sampleMasterAwaitingNonce).2
        = [Action.emit (Event.passkeyExchange ASSOCIATION_MODEL_NUMERIC_COMPARISON
            (some (lastSixDigits (Toolbox.g2 sampleCryptoInitiator sampleCryptoInitiator.myEcdhPubKeyX
              sampleCryptoResponder.myEcdhPubKeyX (List.replicate 16 99) (List.replicate 16 7) % 1000000)))
            sampleMasterAwaitingNonce.runCounter)]
    ∧ (SmpSlaveConnection.receive sampleCryptoResponder sampleLink sampleInputs
        (SMP_PAIRING_RANDOM :: List.replicate 16 99) sampleSlaveAwaitingNonce).2
        = [Action.sendData (SMP_PAIRING_RANDOM :: List.replicate 16 7)
            (some (Callback.packetSent sampleSlaveAwaitingNonce.runCounter none)) none,
           Action.emit (Event.passkeyExchange ASSOCIATION_MODEL_NUMERIC_COMPARISON
            (some (lastSixDigits (Toolbox.g2 sampleCryptoInitiator sampleCryptoInitiator.myEcdhPubKeyX
              sampleCryptoResponder.myEcdhPubKeyX (List.replicate 16 99) (List.replicate 16 7) % 1000000)))
            sampleSlaveAwaitingNonce.runCounter)] :=
  have h := numeric_comparison_value sampleCryptoInitiator sampleCryptoResponder sampleLink sampleInputs
    sampleMasterAwaitingNonce sampleSlaveAwaitingNonce sampleScFeatures sampleScFeatures
    (List.replicate 32 1, List.replicate 32 2) (List.replicate 32 4, List.replicate 32 5)
    (List.replicate 16 99) (List.replicate 16 7) rfl
    (fun _ _ => ⟨by simp [sampleCryptoInitiator, sampleBlockCipher], by
      intro x hx
      simp only [sampleCryptoInitiator, sampleBlockCipher, List.mem_map] at hx
      obtain ⟨n, -, rfl⟩ := hx
      exact Nat.mod_lt _ (by decide)⟩)
    rfl rfl (by decide) (by decide) rfl rfl rfl (by decide) rfl rfl rfl rfl rfl rfl rfl (by decide) rfl rfl
    rfl rfl
  ⟨rfl, h.1, h.2.1⟩

/-! ## PDUs after the timeout (claim C18) -/

/-- C18: once a session (initiator or responder) is in state `STATE_TIMEDOUT`, delivering
any byte sequence as a received PDU leaves the whole session unchanged and causes no action
at all: no PDU is sent and no event is emitted. -/
theorem pdu_after_timeout_ignored (c : Crypto) (k : Link) (i : Inputs) (data : List Nat)
    (m : MasterState) (s : SlaveState) (hm : m.state = STATE_TIMEDOUT) (hs : s.state = STATE_TIMEDOUT) :
    SmpMasterConnection.onData c k i data m = m
    ∧ SmpMasterConnection.receive c k i data m = (m, [])
    ∧ SmpSlaveConnection.onData c k i data s = s
    ∧ SmpSlaveConnection.receive c k i data s = (s, []) := by
  refine ⟨?_, ?_, ?_, ?_⟩
  · rw [SmpMasterConnection.onData, if_pos (by simp [hm])]
  · simp only [SmpMasterConnection.receive]
    rw [SmpMasterConnection.onData, if_pos (by simp [hm])]
    simp
  · rw [SmpSlaveConnection.onData, if_pos (by simp [hs])]
  · simp only [SmpSlaveConnection.receive]
    rw [SmpSlaveConnection.onData, if_pos (by simp [hs])]
    simp

/-- Witness of `pdu_after_timeout_ignored`: the two sample sessions whose timer has
expired receive a Pairing Failed PDU. -/
theorem pdu_after_timeout_ignored_witness :
    sampleMasterTimedOut.state = STATE_TIMEDOUT ∧ sampleSlaveTimedOut.state = STATE_TIMEDOUT
    ∧ SmpMasterConnection.receive sampleCrypto sampleLink sampleInputs [5, 8] sampleMasterTimedOut
        = (sampleMasterTimedOut, [])
    ∧ SmpSlaveConnection.receive sampleCrypto sampleLink sampleInputs [5, 8] sampleSlaveTimedOut
        = (sampleSlaveTimedOut, []) :=
  have h := pdu_after_timeout_ignored sampleCrypto sampleLink sampleInputs [5, 8] sampleMasterTimedOut
    sampleSlaveTimedOut (by decide) (by decide)
  ⟨by decide, by decide, h.2.1, h.2.2.2⟩

/-! ## The initiator after the timeout (claim C20) -/

/-- C20 fails for the completion of an encryption started with a stored key on a Security
Request: the sample initiator is in `STATE_TIMEDOUT` with its timer not armed, and the
start-encryption command it issued with the stored key is still outstanding.  When the
controller reports that command as refused (status `HCI_PIN_OR_KEY_MISSING`), the closure
calls `askStartPairing`, which arms the timer and leaves `STATE_TIMEDOUT`: without a
listener of the pairing-request event the session ends in `STATE_IDLE` (and reports
`pairingFail`), with a listener it waits in `STATE_W4_USER_FEATURES` with the timer armed.
The same happens for status 0 with encryption reported off. -/
theorem initiator_timeout_not_absorbing :
    sampleMasterTimedOutEncrypting.state = STATE_TIMEDOUT
    ∧ sampleMasterTimedOutEncrypting.timeoutPending = false
    ∧ Action.startEncryption sampleLtk.rand sampleLtk.ediv (padKey sampleLtk.ltk)
        (EncryptionStart.withAvailableLtk true 1 false false false) ∈ sampleMasterTimedOutEncrypting.log
    ∧ (SmpMasterConnection.onEncryptionStarted sampleLink sampleInputs
        (EncryptionStart.withAvailableLtk true 1 false false false) Errors.HCI_PIN_OR_KEY_MISSING false
        sampleMasterTimedOutEncrypting).state = STATE_IDLE
    ∧ (SmpMasterConnection.onEncryptionStarted sampleLink sampleInputsDeferring
        (EncryptionStart.withAvailableLtk true 1 false false false) Errors.HCI_PIN_OR_KEY_MISSING false
        sampleMasterTimedOutEncrypting).state = STATE_W4_USER_FEATURES
    ∧ (SmpMasterConnection.onEncryptionStarted sampleLink sampleInputsDeferring
        (EncryptionStart.withAvailableLtk true 1 false false false) Errors.HCI_PIN_OR_KEY_MISSING false
        sampleMasterTimedOutEncrypting).timeoutPending = true
    ∧ (SmpMasterConnection.onEncryptionStarted sampleLink sampleInputsDeferring
        (EncryptionStart.withAvailableLtk true 1 false false false) 0 false
        sampleMasterTimedOutEncrypting).state = STATE_W4_USER_FEATURES := by
  decide

/-! ## The responder after the timeout (claim C19) -/

theorem sentPdus_append (a b : List Action) : sentPdus (a ++ b) = sentPdus a ++ sentPdus b := by
  induction a with
  | nil => rfl
  | cons x xs ih => cases x <;> simp [sentPdus, ih]

theorem idle_ne_timedout : STATE_IDLE ≠ STATE_TIMEDOUT := by decide

theorem enqueued_ne_timedout : STATE_W4_PACKET_ENQUEUED ≠ STATE_TIMEDOUT := by decide

theorem w4Packet_ne_timedout : STATE_W4_PACKET ≠ STATE_TIMEDOUT := by decide

theorem userFeatures_ne_timedout : STATE_W4_USER_FEATURES ≠ STATE_TIMEDOUT := by decide

theorem userPasskey_ne_timedout : STATE_W4_USER_PASSKEY ≠ STATE_TIMEDOUT := by decide

theorem userComparison_ne_timedout : STATE_W4_USER_NUMERIC_COMPARISON ≠ STATE_TIMEDOUT := by decide

theorem ltkRequest_ne_timedout : STATE_W4_LTK_REQUEST ≠ STATE_TIMEDOUT := by decide

theorem encryptionStarted_ne_timedout : STATE_W4_ENCRYPTION_STARTED ≠ STATE_TIMEDOUT := by decide

theorem lastAck_ne_timedout : STATE_W4_LAST_ACK ≠ STATE_TIMEDOUT := by decide

namespace SmpSlaveConnection

/-- A session that agrees with an invariant one on sending and log, has no smaller run
counter and is in `STATE_TIMEDOUT` only if the other is. -/
theorem inv_of_fields (s s' : SlaveState) (h : Inv s) (hd : s'.sendDisabled = s.sendDisabled)
    (hr : s.runCounter ≤ s'.runCounter) (hl : s'.log = s.log)
    (hs : s'.state = STATE_TIMEDOUT → s.state = STATE_TIMEDOUT) : Inv s' := by
  obtain ⟨h1, h2⟩ := h
  refine ⟨?_, ?_⟩
  · intro a ha n hn
    rw [hl] at ha
    obtain ⟨h3, h4⟩ := h1 a ha n hn
    refine ⟨by omega, ?_⟩
    intro hd'
    rw [hd] at hd'
    have := h4 hd'
    omega
  · intro hst
    rw [hd]
    exact h2 (hs hst)

theorem inv_act (s : SlaveState) (a : Action) (h : Inv s) (ha : callbackCounters a = []) : Inv (act s a) := by
  obtain ⟨h1, h2⟩ := h
  refine ⟨?_, h2⟩
  intro b hb n hn
  simp only [act, List.mem_append, List.mem_singleton] at hb
  rcases hb with hb | rfl
  · exact h1 b hb n hn
  · rw [ha] at hn
    simp at hn

theorem inv_emit (s : SlaveState) (e : Event) (h : Inv s) : Inv (emit s e) :=
  inv_act s _ h rfl

theorem inv_sendDataFn (s : SlaveState) (data : List Nat) (cb1 cb2 : Option Callback) (h : Inv s)
    (hc : ∀ n ∈ callbackCounters (Action.sendData data cb1 cb2), n ≤ s.runCounter) :
    Inv (sendDataFn s data cb1 cb2) := by
  unfold sendDataFn
  by_cases hd : s.sendDisabled = true
  · rw [if_pos hd]; exact h
  · rw [if_neg hd]
    obtain ⟨h1, h2⟩ := h
    refine ⟨?_, h2⟩
    intro b hb n hn
    simp only [act, List.mem_append, List.mem_singleton] at hb
    rcases hb with hb | rfl
    · exact h1 b hb n hn
    · exact ⟨hc n hn, fun hd' => absurd hd' hd⟩

/-- An update that sets the state to a value other than `STATE_TIMEDOUT`, keeps sending and
log and does not lower the run counter. -/
theorem inv_leave (s s' : SlaveState) (h : Inv s) (hd : s'.sendDisabled = s.sendDisabled)
    (hr : s.runCounter ≤ s'.runCounter) (hl : s'.log = s.log) (hs : s'.state ≠ STATE_TIMEDOUT) : Inv s' :=
  inv_of_fields s s' h hd hr hl (fun hc => absurd hc hs)

/-- An update that keeps state, sending, run counter and log. -/
theorem inv_same (s s' : SlaveState) (h : Inv s) (hst : s'.state = s.state)
    (hd : s'.sendDisabled = s.sendDisabled) (hr : s'.runCounter = s.runCounter) (hl : s'.log = s.log) :
    Inv s' :=
  inv_of_fields s s' h hd (by omega) hl (fun hc => by rw [← hst]; exact hc)

theorem inv_pairingFailed (s : SlaveState) (reason : Nat) (h : Inv s) : Inv (pairingFailed s reason) := by
  unfold pairingFailed
  apply inv_emit
  have h2 : Inv (if (!(timeoutClearFn s).hasOutgoingFailedMsg) = true then
      sendDataFn { timeoutClearFn s with hasOutgoingFailedMsg := true } (bufferFrom [SMP_PAIRING_FAILED, reason])
        (some Callback.failedMsgSent) none
    else timeoutClearFn s) := by
    split
    · exact inv_sendDataFn _ _ _ _ h (by simp [callbackCounters, Callback.counter])
    · exact h
  exact inv_leave _ _ h2 rfl (Nat.le_succ _) rfl idle_ne_timedout

theorem inv_sendPacket (s : SlaveState) (data : List Nat) (next : Option Nat) (cb : Option PacketCallback)
    (h : Inv s) : Inv (sendPacket s data next cb) := by
  unfold sendPacket
  split
  · exact h
  · apply inv_sendDataFn
    · split
      · exact inv_leave s _ h rfl (le_refl _) rfl enqueued_ne_timedout
      · exact inv_leave s _ h rfl (le_refl _) rfl enqueued_ne_timedout
    · intro n hn
      simp only [callbackCounters, Option.toList, List.append_nil, List.filterMap_cons, Callback.counter,
        List.filterMap_nil, List.mem_singleton] at hn
      subst hn
      split <;> exact le_refl _

theorem inv_pairingDone (s : SlaveState) (h : Inv s) : Inv (pairingDone s) := by
  unfold pairingDone
  lift_lets
  extract_lets s0 s1
  have h1 : Inv s1 := inv_leave s _ h rfl (Nat.le_succ _) rfl idle_ne_timedout
  clear_value s1
  split
  · exact inv_act _ _ h1 rfl
  · lift_lets
    extract_lets sc res s2 s3 s4 s5
    apply inv_emit
    have h2 : Inv s2 := by
      simp only [s2]
      split
      · split
        · exact inv_act _ _ h1 rfl
        · exact h1
      · exact h1
    clear_value s2
    have h4 : Inv s4 := by
      simp only [s4]
      split
      · exact inv_act _ _ (inv_same _ _ (inv_act _ (Action.storeKeys res) h2 rfl) rfl rfl rfl rfl) rfl
      · exact h2
    clear_value s4
    simp only [s5]
    split
    · exact inv_same _ _ h4 rfl rfl rfl rfl
    · exact h4


theorem inv_cont (i : Inputs) (req : PairingFeatures) (u : Bool) (n : Nat) (rsp : Option UserFeatures)
    (s : SlaveState) (h : Inv s) : Inv (cont i req u n rsp s) := by
  unfold cont
  dsimp only
  repeat' first
    | (with_reducible refine inv_pairingFailed _ _ ?_)
    | (with_reducible refine inv_sendPacket _ _ _ _ ?_)
    | (with_reducible refine inv_emit _ _ ?_)
    | (with_reducible refine inv_act _ _ ?_ ?_)
    | split
    | rfl
    | exact h

theorem inv_onPairingRequest (i : Inputs) (req : PairingFeatures) (s : SlaveState) (h : Inv s) :
    Inv (onPairingRequest i req s) := by
  have h2 : Inv { s with initIoCap := some req.ioCap, runCounter := s.runCounter + 1, state := STATE_W4_USER_FEATURES } :=
    inv_leave s _ h rfl (Nat.le_succ _) rfl userFeatures_ne_timedout
  unfold onPairingRequest
  dsimp only
  split
  · exact inv_cont _ _ _ _ _ _ h2
  · exact inv_emit _ _ h2
  · exact inv_cont _ _ _ _ _ _ (inv_emit _ _ h2)

theorem inv_afterInitsConfirmAndPasskey (c : Crypto) (k : Link) (i : Inputs) (s : SlaveState) (h : Inv s) :
    Inv (afterInitsConfirmAndPasskey c k i s) := by
  unfold afterInitsConfirmAndPasskey
  dsimp only
  repeat' first
    | (with_reducible refine inv_pairingFailed _ _ ?_)
    | (with_reducible refine inv_sendPacket _ _ _ _ ?_)
    | (with_reducible refine inv_emit _ _ ?_)
    | (with_reducible refine inv_act _ _ ?_ ?_)
    | split
    | rfl
    | exact h

theorem inv_afterNumericComparisonOkAndDHKeyCheck (c : Crypto) (k : Link) (s : SlaveState) (h : Inv s) :
    Inv (afterNumericComparisonOkAndDHKeyCheck c k s) := by
  unfold afterNumericComparisonOkAndDHKeyCheck
  repeat' first
    | (with_reducible refine inv_pairingFailed _ _ ?_)
    | (with_reducible refine inv_sendPacket _ _ _ _ ?_)
    | (with_reducible refine inv_emit _ _ ?_)
    | (with_reducible refine inv_act _ _ ?_ ?_)
    | split
    | rfl
    | exact h

theorem inv_onDataPairingRequest (i : Inputs) (data : List Nat) (s : SlaveState) (h : Inv s) :
    Inv (onDataPairingRequest i data s) := by
  unfold onDataPairingRequest
  dsimp only
  repeat' first
    | (with_reducible refine inv_pairingFailed _ _ ?_)
    | (with_reducible refine inv_onPairingRequest _ _ _ ?_)
    | split
    | exact h

theorem inv_onDataPairingConfirm (c : Crypto) (k : Link) (i : Inputs) (data : List Nat) (s : SlaveState)
    (h : Inv s) : Inv (onDataPairingConfirm c k i data s) := by
  unfold onDataPairingConfirm
  dsimp only
  repeat' first
    | (with_reducible refine inv_pairingFailed _ _ ?_)
    | (with_reducible refine inv_afterInitsConfirmAndPasskey _ _ _ _ ?_)
    | split
    | exact h
    | exact inv_leave s _ h rfl (le_refl _) rfl userPasskey_ne_timedout

theorem inv_onDataPairingPublicKey (c : Crypto) (k : Link) (i : Inputs) (data : List Nat) (s : SlaveState)
    (h : Inv s) : Inv (onDataPairingPublicKey c k i data s) := by
  unfold onDataPairingPublicKey
  dsimp only
  repeat' first
    | (with_reducible refine inv_pairingFailed _ _ ?_)
    | (with_reducible refine inv_onDataPairingConfirm _ _ _ _ _ ?_)
    | (with_reducible refine inv_sendPacket _ _ _ _ ?_)
    | split
    | exact h
    | exact inv_sendDataFn _ _ _ _ h (by simp [callbackCounters])

theorem inv_onDataPairingRandom (c : Crypto) (k : Link) (data : List Nat) (s : SlaveState)
    (h : Inv s) : Inv (onDataPairingRandom c k data s) := by
  unfold onDataPairingRandom
  dsimp only
  repeat' first
    | (with_reducible refine inv_pairingFailed _ _ ?_)
    | (with_reducible refine inv_sendPacket _ _ _ _ ?_)
    | (with_reducible refine inv_emit _ _ ?_)
    | (with_reducible refine inv_act _ _ ?_ ?_)
    | split
    | rfl
    | exact h


theorem inv_onDataDHKeyCheck (c : Crypto) (k : Link) (data : List Nat) (s : SlaveState)
    (h : Inv s) : Inv (onDataDHKeyCheck c k data s) := by
  unfold onDataDHKeyCheck
  dsimp only
  repeat' first
    | (with_reducible refine inv_pairingFailed _ _ ?_)
    | (with_reducible refine inv_afterNumericComparisonOkAndDHKeyCheck _ _ _ ?_)
    | split
    | exact h
    | exact inv_leave s _ h rfl (le_refl _) rfl userComparison_ne_timedout

theorem inv_onDataEncryptionInformation (data : List Nat) (s : SlaveState) (h : Inv s) :
    Inv (onDataEncryptionInformation data s) := by
  unfold onDataEncryptionInformation
  repeat' first
    | (with_reducible refine inv_pairingFailed _ _ ?_)
    | split
    | exact h

theorem inv_onDataMasterIdentification (data : List Nat) (s : SlaveState) (h : Inv s) :
    Inv (onDataMasterIdentification data s) := by
  unfold onDataMasterIdentification
  dsimp only
  repeat' first
    | (with_reducible refine inv_pairingFailed _ _ ?_)
    | (with_reducible refine inv_pairingDone _ ?_)
    | (with_reducible refine inv_act _ _ ?_ ?_)
    | split
    | rfl
    | exact h

theorem inv_onDataIdentityInformation (data : List Nat) (s : SlaveState) (h : Inv s) :
    Inv (onDataIdentityInformation data s) := by
  unfold onDataIdentityInformation
  repeat' first
    | (with_reducible refine inv_pairingFailed _ _ ?_)
    | split
    | exact h

theorem inv_onDataIdentityAddressInformation (data : List Nat) (s : SlaveState) (h : Inv s) :
    Inv (onDataIdentityAddressInformation data s) := by
  unfold onDataIdentityAddressInformation
  dsimp only
  repeat' first
    | (with_reducible refine inv_pairingFailed _ _ ?_)
    | (with_reducible refine inv_pairingDone _ ?_)
    | split
    | exact h

theorem inv_onDataKeypressNotification (data : List Nat) (s : SlaveState) (h : Inv s) :
    Inv (onDataKeypressNotification data s) := by
  unfold onDataKeypressNotification
  repeat' first
    | (with_reducible refine inv_pairingFailed _ _ ?_)
    | (with_reducible refine inv_emit _ _ ?_)
    | (with_reducible refine inv_act _ _ ?_ ?_)
    | split
    | rfl
    | exact h

theorem inv_onDataPairingFailed (data : List Nat) (s : SlaveState) (h : Inv s) :
    Inv (onDataPairingFailed data s) := by
  unfold onDataPairingFailed
  dsimp only
  split
  · exact h
  · exact inv_emit _ _ (inv_leave s _ h rfl (Nat.le_succ _) rfl idle_ne_timedout)

theorem inv_onData (c : Crypto) (k : Link) (i : Inputs) (data : List Nat) (s : SlaveState) (h : Inv s) :
    Inv (onData c k i data s) := by
  apply slave_onData_cases Inv
  · exact h
  · exact inv_onDataPairingRequest _ _ _ h
  · exact inv_onDataPairingPublicKey _ _ _ _ _ h
  · exact inv_onDataPairingConfirm _ _ _ _ _ h
  · exact inv_onDataPairingRandom _ _ _ _ h
  · exact inv_onDataDHKeyCheck _ _ _ _ h
  · exact inv_onDataEncryptionInformation _ _ h
  · exact inv_onDataMasterIdentification _ _ h
  · exact inv_onDataIdentityInformation _ _ h
  · exact inv_onDataIdentityAddressInformation _ _ h
  · exact inv_onDataKeypressNotification _ _ h
  · exact inv_onDataPairingFailed _ _ h
  · exact inv_pairingFailed _ _ h

theorem inv_onCallback (cb : Callback) (s : SlaveState) (h : Inv s) : Inv (onCallback cb s) := by
  unfold onCallback
  repeat' first
    | (with_reducible refine inv_pairingDone _ ?_)
    | split
    | exact h
    | exact inv_leave s _ h rfl (le_refl _) rfl ltkRequest_ne_timedout
    | exact inv_leave s _ h rfl (le_refl _) rfl w4Packet_ne_timedout

theorem inv_passkeyCallback (c : Crypto) (k : Link) (i : Inputs) (ignore : Bool) (n : Nat)
    (r : Option Int) (s : SlaveState) (h : Inv s) : Inv (passkeyCallback c k i ignore n r s) := by
  unfold passkeyCallback
  dsimp only
  repeat' first
    | (with_reducible refine inv_afterInitsConfirmAndPasskey _ _ _ _ ?_)
    | (with_reducible refine inv_act _ _ ?_ ?_)
    | split
    | rfl
    | exact h

theorem inv_numericComparisonCallback (c : Crypto) (k : Link) (n : Nat) (s : SlaveState) (h : Inv s) :
    Inv (numericComparisonCallback c k n s) := by
  unfold numericComparisonCallback
  dsimp only
  repeat' first
    | (with_reducible refine inv_afterNumericComparisonOkAndDHKeyCheck _ _ _ ?_)
    | split
    | exact h

theorem inv_onLtkRequest (c : Crypto) (randNb : List Nat) (ediv : Nat) (s : SlaveState) (h : Inv s) :
    Inv (onLtkRequest c randNb ediv s) := by
  have h2 : Inv { s with state := STATE_W4_ENCRYPTION_STARTED } :=
    inv_leave s _ h rfl (le_refl _) rfl encryptionStarted_ne_timedout
  unfold onLtkRequest
  dsimp only
  repeat' first
    | (with_reducible refine inv_act _ _ ?_ ?_)
    | split
    | rfl
    | exact h
    | exact h2

theorem inv_encryptedAfterPairing (pf : PairingFeatures) (s : SlaveState) (h : Inv s) :
    Inv (encryptedAfterPairing pf s) := by
  unfold encryptedAfterPairing
  exact inv_emit _ _ h

theorem inv_sendAll (ps : List (List Nat)) (s : SlaveState) (h : Inv s) :
    Inv (ps.foldl (fun s p => sendDataFn (restartTimeout s) p none none) s) := by
  induction ps generalizing s with
  | nil => exact h
  | cons p ps ih =>
    exact ih _ (inv_sendDataFn _ _ _ _ h (by simp [callbackCounters]))

theorem inv_onLtkReplyDoneAfterPairing (k : Link) (i : Inputs) (s : SlaveState) (h : Inv s) :
    Inv (onLtkReplyDoneAfterPairing k i s) := by
  unfold onLtkReplyDoneAfterPairing
  split
  · split
    · exact inv_act _ _ h rfl
    · exact inv_act _ _ h rfl
  · split
    · lift_lets
      intro rb rl re r s1 packets s2 nxt s3 trc s4
      have h1 : Inv s1 := by
        simp only [s1, r]
        split
        · exact h
        · exact h
      have h2 : Inv s2 := inv_sendAll _ _ h1
      have h3 : Inv s3 := inv_leave s2 _ h2 rfl (le_refl _) rfl lastAck_ne_timedout
      have h4 : Inv s4 := inv_encryptedAfterPairing _ _ h2
      have ht : trc = s3.runCounter := rfl
      clear_value s4 trc s3 s2
      split
      · split
        · exact inv_encryptedAfterPairing _ _ (inv_sendPacket _ _ _ _ h2)
        · exact inv_encryptedAfterPairing _ _ (inv_leave s2 _ h2 rfl (le_refl _) rfl w4Packet_ne_timedout)
      · split
        · refine inv_encryptedAfterPairing _ _ (inv_sendDataFn _ _ _ _ h3 ?_)
          intro n hn
          simp only [callbackCounters, Option.toList, List.nil_append, List.filterMap_cons, Callback.counter,
            List.filterMap_nil, List.mem_singleton] at hn
          subst hn
          rw [ht]
          exact le_refl _
        · split
          · exact inv_pairingDone _ h4
          · exact h4
    · exact inv_encryptedAfterPairing _ _ h

theorem inv_onLtkReplyDone (k : Link) (i : Inputs) (d : LtkReplyDone) (s : SlaveState) (h : Inv s) :
    Inv (onLtkReplyDone k i d s) := by
  unfold onLtkReplyDone
  split
  · exact inv_onLtkReplyDoneAfterPairing _ _ _ h
  · dsimp only
    apply inv_emit
    split
    · exact inv_leave s _ h rfl (le_refl _) rfl idle_ne_timedout
    · exact h
  · dsimp only
    apply inv_emit
    split
    · exact inv_leave s _ h rfl (le_refl _) rfl idle_ne_timedout
    · exact h

theorem inv_setAvailableLtk (ltk rand : List Nat) (ediv : Nat) (mitm sc : Bool) (s : SlaveState) (h : Inv s) :
    Inv (setAvailableLtk ltk rand ediv mitm sc s) := by
  unfold setAvailableLtk
  repeat' first
    | (with_reducible refine inv_act _ _ ?_ ?_)
    | split
    | rfl
    | exact h

theorem inv_sendSecurityRequest (bond mitm keypress : Bool) (s : SlaveState) (h : Inv s) :
    Inv (sendSecurityRequest bond mitm keypress s) := by
  unfold sendSecurityRequest
  dsimp only
  split
  · exact inv_sendDataFn _ _ _ _ (inv_leave s _ h rfl (le_refl _) rfl w4Packet_ne_timedout)
      (by simp [callbackCounters])
  · exact h

theorem inv_sendPairingFailed (reason : Nat) (s : SlaveState) (h : Inv s) :
    Inv (sendPairingFailed reason s) := by
  unfold sendPairingFailed
  split
  · exact inv_pairingFailed _ _ h
  · exact h

theorem inv_sendKeypressNotification (t : Option Int) (s : SlaveState) (h : Inv s) :
    Inv (sendKeypressNotification t s) := by
  unfold sendKeypressNotification
  repeat' first
    | (with_reducible refine inv_act _ _ ?_ ?_)
    | split
    | rfl
    | exact h
    | exact inv_sendDataFn _ _ _ _ h (by simp [callbackCounters])

theorem inv_onTimeout (i : Inputs) (s : SlaveState) (h : Inv s) : Inv (onTimeout i s) := by
  have h2 : Inv { s with timeoutPending := false, runCounter := s.runCounter + 1, state := STATE_TIMEDOUT, sendDisabled := true } := by
    obtain ⟨h1, _⟩ := h
    refine ⟨?_, fun _ => rfl⟩
    intro a ha n hn
    have := (h1 a ha n hn).1
    exact ⟨Nat.le_succ_of_le this, fun _ => Nat.lt_succ_of_le this⟩
  unfold onTimeout
  dsimp only
  split
  · exact h
  · split
    · exact inv_emit _ _ h2
    · exact inv_act _ _ h2 rfl

theorem inv_init (stored : Option AvailableLtk) : Inv (init stored) := by
  refine ⟨?_, ?_⟩
  · intro a ha
    simp [init] at ha
  · intro hst
    exact absurd hst idle_ne_timedout

theorem inv_step (c : Crypto) (k : Link) (i : Inputs) (e : SlaveInput) (s : SlaveState) (h : Inv s) :
    Inv (step c k i e s) := by
  cases e with
  | data d => exact inv_onData _ _ _ _ _ h
  | ltkRequest randNb ediv => exact inv_onLtkRequest _ _ _ _ h
  | ltkReplyDone d => exact inv_onLtkReplyDone _ _ _ _ h
  | setAvailableLtk ltk rand ediv mitm sc => exact inv_setAvailableLtk _ _ _ _ _ _ h
  | sendSecurityRequest bond mitm keypress => exact inv_sendSecurityRequest _ _ _ _ h
  | sendPairingFailed reason => exact inv_sendPairingFailed _ _ h
  | sendKeypressNotification t => exact inv_sendKeypressNotification _ _ h
  | pairingRequestCallback req n rsp => exact inv_cont _ _ _ _ _ _ h
  | passkeyCallback ignore n r => exact inv_passkeyCallback _ _ _ _ _ _ _ h
  | numericComparisonCallback n => exact inv_numericComparisonCallback _ _ _ _ h
  | acknowledge cb => exact inv_onCallback _ _ h
  | timeout => exact inv_onTimeout _ _ h

theorem inv_of_reachable (c : Crypto) (k : Link) (s : SlaveState) (h : Reachable c k s) : Inv s := by
  induction h with
  | init stored => exact inv_init stored
  | step i e s _ _ ih => exact inv_step _ _ _ _ _ ih

end SmpSlaveConnection

theorem sentPdus_act (log : List Action) (a : Action) (h : ∀ d x y, a ≠ Action.sendData d x y) :
    sentPdus (log ++ [a]) = sentPdus log := by
  rw [sentPdus_append]
  cases a with
  | sendData d x y => exact absurd rfl (h d x y)
  | _ => simp [sentPdus]

/-- A Responder Session that has arisen from the constructor by steps and is in
`STATE_TIMEDOUT` stays there under every step of the step relation but one, and the step
hands no PDU to the transport: a received PDU, a Long-Term-Key-Request, a call of
`setAvailableLtk`, `sendSecurityRequest`, `sendPairingFailed` or
`sendKeypressNotification`, the callback of a pairing-request or passkey-exchange event,
the acknowledgement of a packet handed to the transport, the expiry of the timer, and the
closure handed over with a key reply unless it captured `clearState = true`. -/
theorem timed_out_responder_other_steps (c : Crypto) (k : Link) (i : Inputs) (e : SlaveInput)
    (s : SlaveState)
    (hr : SmpSlaveConnection.Reachable c k s) (ht : s.state = STATE_TIMEDOUT)
    (he : SmpSlaveConnection.enabled e s)
    (hk : ∀ ltk, e ≠ SlaveInput.ltkReplyDone (LtkReplyDone.withStoredKey ltk true))
    (hk' : e ≠ SlaveInput.ltkReplyDone (LtkReplyDone.refused true)) :
    (SmpSlaveConnection.step c k i e s).state = STATE_TIMEDOUT
    ∧ sentPdus (SmpSlaveConnection.step c k i e s).log = sentPdus s.log := by
  obtain ⟨hfresh, hdis⟩ := SmpSlaveConnection.inv_of_reachable c k s hr
  have hd : s.sendDisabled = true := hdis ht
  have hstale : ∀ cb n, Callback.counter cb = some n →
      (∃ data other, Action.sendData data (some cb) other ∈ s.log ∨ Action.sendData data other (some cb) ∈ s.log) →
      (s.runCounter != n) = true := by
    intro cb n hn ⟨data, other, hmem⟩
    have hlt : n < s.runCounter := by
      rcases hmem with hmem | hmem
      · refine (hfresh _ hmem n ?_).2 hd
        simp [callbackCounters, hn]
      · refine (hfresh _ hmem n ?_).2 hd
        cases other <;> simp [callbackCounters, hn]
    simp
    omega
  cases e with
  | data d =>
    simp only [SmpSlaveConnection.step]
    rw [SmpSlaveConnection.onData, if_pos (by simp [ht])]
    exact ⟨ht, rfl⟩
  | ltkRequest randNb ediv =>
    simp only [SmpSlaveConnection.step, SmpSlaveConnection.onLtkRequest, ht]
    rw [if_neg (by simp [STATE_TIMEDOUT, STATE_W4_LTK_REQUEST])]
    simp only [show (STATE_TIMEDOUT == STATE_W4_PACKET) = false from rfl, Bool.false_and, Bool.false_eq_true,
      if_false]
    cases hav : s.availableLtk with
    | none => exact ⟨ht, sentPdus_act _ _ (by simp)⟩
    | some ltk =>
      dsimp only
      split
      · exact ⟨ht, sentPdus_act _ _ (by simp)⟩
      · exact ⟨ht, sentPdus_act _ _ (by simp)⟩
  | ltkReplyDone d =>
    simp only [SmpSlaveConnection.step]
    cases d with
    | afterPairing =>
      simp only [SmpSlaveConnection.onLtkReplyDone, SmpSlaveConnection.onLtkReplyDoneAfterPairing]
      have h7 : (s.state == STATE_W4_ENCRYPTION_STARTED) = false := by rw [ht]; decide
      cases hpf : s.pairingFeatures with
      | none =>
        simp only [h7, Bool.false_eq_true, if_false]
        exact ⟨ht, sentPdus_act _ _ (by simp)⟩
      | some pf =>
        simp only [h7, Bool.false_eq_true, if_false]
        exact ⟨ht, sentPdus_act _ _ (by simp)⟩
    | withStoredKey ltk clearState =>
      cases clearState with
      | true => exact absurd rfl (hk ltk)
      | false =>
        simp only [SmpSlaveConnection.onLtkReplyDone, Bool.false_eq_true, if_false]
        exact ⟨ht, sentPdus_act _ _ (by simp)⟩
    | refused clearState =>
      cases clearState with
      | true => exact absurd rfl hk'
      | false =>
        simp only [SmpSlaveConnection.onLtkReplyDone, Bool.false_eq_true, if_false]
        exact ⟨ht, sentPdus_act _ _ (by simp)⟩
  | setAvailableLtk ltk rand ediv mitm sc =>
    simp only [SmpSlaveConnection.step, SmpSlaveConnection.setAvailableLtk]
    split
    · exact ⟨ht, sentPdus_act _ _ (by simp)⟩
    · split
      · exact ⟨ht, sentPdus_act _ _ (by simp)⟩
      · split
        · exact ⟨ht, sentPdus_act _ _ (by simp)⟩
        · exact ⟨ht, rfl⟩
  | sendSecurityRequest bond mitm keypress =>
    simp only [SmpSlaveConnection.step, SmpSlaveConnection.sendSecurityRequest]
    rw [if_neg (by simp [ht, STATE_TIMEDOUT, STATE_IDLE])]
    exact ⟨ht, rfl⟩
  | sendPairingFailed reason =>
    simp only [SmpSlaveConnection.step, SmpSlaveConnection.sendPairingFailed]
    rw [if_neg (by simp [ht])]
    exact ⟨ht, rfl⟩
  | sendKeypressNotification t =>
    simp only [SmpSlaveConnection.step, SmpSlaveConnection.sendKeypressNotification]
    cases t with
    | none => exact ⟨ht, sentPdus_act _ _ (by simp)⟩
    | some v =>
      dsimp only
      split
      · exact ⟨ht, sentPdus_act _ _ (by simp)⟩
      · cases hpf : s.pairingFeatures with
        | none => exact ⟨ht, sentPdus_act _ _ (by simp)⟩
        | some pf =>
          dsimp only
          split
          · exact ⟨ht, rfl⟩
          · split
            · exact ⟨ht, rfl⟩
            · rw [if_pos (by simp [ht, STATE_TIMEDOUT, STATE_W4_PACKET, STATE_W4_PACKET_ENQUEUED,
                STATE_W4_USER_PASSKEY])]
              exact ⟨ht, rfl⟩
  | pairingRequestCallback req n rsp =>
    simp only [SmpSlaveConnection.step, SmpSlaveConnection.cont]
    rw [if_pos (by simp [ht, STATE_TIMEDOUT, STATE_W4_USER_FEATURES])]
    exact ⟨ht, rfl⟩
  | passkeyCallback ignore n r =>
    simp only [SmpSlaveConnection.step, SmpSlaveConnection.passkeyCallback]
    split
    · exact ⟨ht, rfl⟩
    · cases r with
      | none => exact ⟨ht, sentPdus_act _ _ (by simp)⟩
      | some v =>
        dsimp only
        split
        · exact ⟨ht, sentPdus_act _ _ (by simp)⟩
        · split
          · exact ⟨ht, rfl⟩
          · split
            · rw [if_neg (by simp [ht, STATE_TIMEDOUT, STATE_W4_USER_PASSKEY])]
              exact ⟨ht, rfl⟩
            · exact ⟨ht, rfl⟩
  | numericComparisonCallback n =>
    simp only [SmpSlaveConnection.step, SmpSlaveConnection.numericComparisonCallback]
    split
    · exact ⟨ht, rfl⟩
    · rw [if_neg (by simp [ht, STATE_TIMEDOUT, STATE_W4_USER_NUMERIC_COMPARISON])]
      exact ⟨ht, rfl⟩
  | acknowledge cb =>
    simp only [SmpSlaveConnection.step, SmpSlaveConnection.onCallback]
    cases cb with
    | failedMsgSent => exact ⟨ht, rfl⟩
    | packetSent n callback =>
      dsimp only
      rw [if_pos (hstale (Callback.packetSent n callback) n rfl he)]
      exact ⟨ht, rfl⟩
    | lastAck n =>
      dsimp only
      rw [if_pos (hstale (Callback.lastAck n) n rfl he)]
      exact ⟨ht, rfl⟩
  | timeout =>
    simp only [SmpSlaveConnection.step]
    unfold SmpSlaveConnection.onTimeout
    split
    · exact ⟨ht, rfl⟩
    · dsimp only
      split
      · exact ⟨rfl, sentPdus_act _ _ (by simp)⟩
      · exact ⟨rfl, sentPdus_act _ _ (by simp)⟩

/-- The responder that answered a Pairing Request and then timed out receives the
acknowledgement of its Pairing Response: a sample of `timed_out_responder_other_steps`. -/
theorem timed_out_responder_other_steps_witness :
    sampleSlaveTimedOutRun.state = STATE_TIMEDOUT
    ∧ sentPdus sampleSlaveTimedOutRun.log = [[2, 3, 0, 9, 16, 0, 0]]
    ∧ (SmpSlaveConnection.step sampleCrypto sampleLink sampleInputs
        (SlaveInput.acknowledge (Callback.packetSent 1 none)) sampleSlaveTimedOutRun).state = STATE_TIMEDOUT
    ∧ sentPdus (SmpSlaveConnection.step sampleCrypto sampleLink sampleInputs
        (SlaveInput.acknowledge (Callback.packetSent 1 none)) sampleSlaveTimedOutRun).log
        = sentPdus sampleSlaveTimedOutRun.log :=
  have h := timed_out_responder_other_steps sampleCrypto sampleLink sampleInputs
    (SlaveInput.acknowledge (Callback.packetSent 1 none)) sampleSlaveTimedOutRun
    (SmpSlaveConnection.Reachable.step _ _ _
      (SmpSlaveConnection.Reachable.step _ _ _ (SmpSlaveConnection.Reachable.init none) trivial)
      (by unfold SmpSlaveConnection.enabled; decide))
    (by decide) ⟨[2, 3, 0, 9, 16, 0, 0], none, Or.inl (by decide)⟩ (by intro ltk h; cases h)
    (by intro h; cases h)
  ⟨by decide, by decide, h.1, h.2⟩

/-- C19 fails in the step relation of the responder: `STATE_TIMEDOUT` is not absorbing.
The closure handed over with a key reply sets the state to `STATE_IDLE` whenever it captured
`clearState = true` (the reply was given while the responder waited for a Pairing Request
after a Security Request), whatever the state is by then, for either kind of reply.  The
sample responder arises from the constructor by steps: it sent a Security Request, refused
a Long-Term-Key-Request, received a Pairing Request, and its timer expired, so that it is
in `STATE_TIMEDOUT` with the closure of the refusal handed over.  The step of that closure
leaves it in `STATE_IDLE`, where the next Pairing Request is taken up again: the responder
goes to `STATE_W4_PACKET_ENQUEUED` and arms the timer. -/
theorem responder_timeout_not_absorbing :
    (∀ (k : Link) (i : Inputs) (s : SlaveState) (ltk : AvailableLtk),
      (SmpSlaveConnection.onLtkReplyDone k i (LtkReplyDone.refused true) s).state = STATE_IDLE
      ∧ (SmpSlaveConnection.onLtkReplyDone k i (LtkReplyDone.withStoredKey ltk true) s).state = STATE_IDLE)
    ∧ SmpSlaveConnection.Reachable sampleCrypto sampleLink sampleSlaveTimedOutAwaitingReply
    ∧ sampleSlaveTimedOutAwaitingReply.state = STATE_TIMEDOUT
    ∧ Action.ltkReply none (LtkReplyDone.refused true) ∈ sampleSlaveTimedOutAwaitingReply.log
    ∧ (SmpSlaveConnection.step sampleCrypto sampleLink sampleInputs
        (SlaveInput.ltkReplyDone (LtkReplyDone.refused true)) sampleSlaveTimedOutAwaitingReply).state
        = STATE_IDLE
    ∧ (SmpSlaveConnection.step sampleCrypto sampleLink sampleInputs (SlaveInput.data [1, 3, 0, 1, 16, 0, 0])
        (SmpSlaveConnection.step sampleCrypto sampleLink sampleInputs
          (SlaveInput.ltkReplyDone (LtkReplyDone.refused true)) sampleSlaveTimedOutAwaitingReply)).state
        = STATE_W4_PACKET_ENQUEUED
    ∧ (SmpSlaveConnection.step sampleCrypto sampleLink sampleInputs (SlaveInput.data [1, 3, 0, 1, 16, 0, 0])
        (SmpSlaveConnection.step sampleCrypto sampleLink sampleInputs
          (SlaveInput.ltkReplyDone (LtkReplyDone.refused true)) sampleSlaveTimedOutAwaitingReply)).timeoutPending
        = true :=
  ⟨fun _ _ _ _ => ⟨rfl, rfl⟩,
    SmpSlaveConnection.Reachable.step _ _ _
      (SmpSlaveConnection.Reachable.step _ _ _
        (SmpSlaveConnection.Reachable.step _ _ _
          (SmpSlaveConnection.Reachable.step _ _ _ (SmpSlaveConnection.Reachable.init none) trivial) trivial)
        trivial)
      (by unfold SmpSlaveConnection.enabled; decide),
    by decide, by decide, by decide, by decide, by decide⟩

/-! ## Reserved opcodes (claim C24) -/

/-- C24: in both sessions and in every state, a received PDU that is empty or whose first
byte is 0x00 or at least 0x0F leaves the whole session unchanged (state and every other
variable) and causes no action: no PDU is sent and no event is emitted. -/
theorem reserved_opcodes_ignored (c : Crypto) (k : Link) (i : Inputs) (data : List Nat)
    (m : MasterState) (s : SlaveState)
    (hdata : data = [] ∨ byteAt data 0 = 0x00 ∨ 0x0f ≤ byteAt data 0) :
    SmpMasterConnection.onData c k i data m = m
    ∧ SmpMasterConnection.receive c k i data m = (m, [])
    ∧ SmpSlaveConnection.onData c k i data s = s
    ∧ SmpSlaveConnection.receive c k i data s = (s, []) := by
  have hm : ∀ m : MasterState, SmpMasterConnection.onData c k i data m = m := by
    intro m
    rw [SmpMasterConnection.onData]
    by_cases h0 : (data.length == 0 || m.state == STATE_TIMEDOUT) = true
    · rw [if_pos h0]
    · rw [if_neg h0]
      have hne : data ≠ [] := by
        intro he
        simp [he] at h0
      rcases hdata with h | h | h
      · exact absurd h hne
      · show ite _ _ _ = _
        rw [if_pos (by simp [h])]
      · show ite _ _ _ = _
        rw [if_pos (by simp [h])]
  have hs : ∀ s : SlaveState, SmpSlaveConnection.onData c k i data s = s := by
    intro s
    rw [SmpSlaveConnection.onData]
    by_cases h0 : (data.length == 0 || s.state == STATE_TIMEDOUT) = true
    · rw [if_pos h0]
    · rw [if_neg h0]
      have hne : data ≠ [] := by
        intro he
        simp [he] at h0
      rcases hdata with h | h | h
      · exact absurd h hne
      · show ite _ _ _ = _
        rw [if_pos (by simp [h])]
      · show ite _ _ _ = _
        rw [if_pos (by simp [h])]
  refine ⟨hm m, ?_, hs s, ?_⟩
  · simp only [SmpMasterConnection.receive, hm]
    simp
  · simp only [SmpSlaveConnection.receive, hs]
    simp

/-- Witness of `reserved_opcodes_ignored`: the sessions that wait for the next PDU of a
pairing receive a PDU with the reserved opcode 0x0F. -/
theorem reserved_opcodes_ignored_witness :
    SmpMasterConnection.receive sampleCrypto sampleLink sampleInputs [0x0f, 1, 2] sampleMasterAwaitingResponse
      = (sampleMasterAwaitingResponse, [])
    ∧ SmpSlaveConnection.receive sampleCrypto sampleLink sampleInputs [0x0f, 1, 2] sampleSlavePairing
      = (sampleSlavePairing, []) :=
  have h := reserved_opcodes_ignored sampleCrypto sampleLink sampleInputs [0x0f, 1, 2]
    sampleMasterAwaitingResponse sampleSlavePairing (Or.inr (Or.inr (by decide)))
  ⟨h.2.1, h.2.2.2⟩

/-! ## The wire format of the pairing features (claim C27) -/

theorem intInRangeOr_le (v : JsVal) (lo hi : Int) (dflt b : Nat) (hd : dflt ≤ b) (hb : hi ≤ (b : Int)) :
    intInRangeOr v lo hi dflt ≤ b := by
  unfold intInRangeOr
  split
  · split
    · omega
    · exact hd
  · exact hd

theorem fixFeaturesFromUser_bounds (u : Option UserFeatures) :
    (fixFeaturesFromUser u).ioCap ≤ 4 ∧ (fixFeaturesFromUser u).bondingFlags ≤ 1
    ∧ (fixFeaturesFromUser u).maxKeySize ≤ 16 ∧ (fixFeaturesFromUser u).sc = true := by
  refine ⟨?_, ?_, ?_, rfl⟩
  · exact intInRangeOr_le _ _ _ _ _ (by decide) (by decide)
  · simp only [fixFeaturesFromUser]
    split <;> decide
  · exact intInRangeOr_le _ _ _ _ _ (by decide) (by decide)

theorem pairingFeatures_round_trip_of_bounds (opcode : Nat) (f : PairingFeatures) (hio : f.ioCap ≤ 4)
    (hbf : f.bondingFlags ≤ 1) (hk : f.maxKeySize ≤ 16) :
    buildPairingFeaturesPacket opcode f
      = [opcode % 256, f.ioCap, 0,
          f.bondingFlags ||| boolShl f.mitm 2 ||| boolShl f.sc 3 ||| boolShl f.keypress 4,
          f.maxKeySize,
          boolShl f.initKeyDistr.encKey 0 ||| boolShl f.initKeyDistr.idKey 1,
          boolShl f.rspKeyDistr.encKey 0 ||| boolShl f.rspKeyDistr.idKey 1]
    ∧ parsePairingReqRsp (buildPairingFeaturesPacket opcode f) = f := by
  obtain ⟨io, bf, mitm, sc, kp, mks, ⟨ie, ii⟩, ⟨re, ri⟩⟩ := f
  simp only at hio hbf hk
  have h1 : io % 256 = io := Nat.mod_eq_of_lt (by omega)
  have h2 : mks % 256 = mks := Nat.mod_eq_of_lt (by omega)
  have h3 : (bf ||| boolShl mitm 2 ||| boolShl sc 3 ||| boolShl kp 4) % 256
      = bf ||| boolShl mitm 2 ||| boolShl sc 3 ||| boolShl kp 4 := by
    interval_cases bf <;> cases mitm <;> cases sc <;> cases kp <;> rfl
  have h4 : ∀ a b : Bool, (boolShl a 0 ||| boolShl b 1) % 256 = boolShl a 0 ||| boolShl b 1 := by
    intro a b
    cases a <;> cases b <;> rfl
  have hpacket : buildPairingFeaturesPacket opcode
      { ioCap := io, bondingFlags := bf, mitm := mitm, sc := sc, keypress := kp, maxKeySize := mks,
        initKeyDistr := { encKey := ie, idKey := ii }, rspKeyDistr := { encKey := re, idKey := ri } }
      = [opcode % 256, io, 0, bf ||| boolShl mitm 2 ||| boolShl sc 3 ||| boolShl kp 4, mks,
          boolShl ie 0 ||| boolShl ii 1, boolShl re 0 ||| boolShl ri 1] := by
    simp only [buildPairingFeaturesPacket, bufferFrom, List.map, h1, h2, h3, h4, Nat.zero_mod]
  refine ⟨hpacket, ?_⟩
  rw [hpacket]
  simp only [parsePairingReqRsp, byteAt, List.getD_cons_succ, List.getD_cons_zero]
  have e1 : (if io ≤ IO_CAP_KEYBOARD_DISPLAY then io else IO_CAP_NO_INPUT_NO_OUTPUT) = io := by
    rw [if_pos (by simpa [IO_CAP_KEYBOARD_DISPLAY] using hio)]
  have e2 : (bf ||| boolShl mitm 2 ||| boolShl sc 3 ||| boolShl kp 4) &&& 3 = bf := by
    interval_cases bf <;> cases mitm <;> cases sc <;> cases kp <;> rfl
  have e3 : ((bf ||| boolShl mitm 2 ||| boolShl sc 3 ||| boolShl kp 4) &&& 4 != 0) = mitm := by
    interval_cases bf <;> cases mitm <;> cases sc <;> cases kp <;> rfl
  have e4 : ((bf ||| boolShl mitm 2 ||| boolShl sc 3 ||| boolShl kp 4) &&& 8 != 0) = sc := by
    interval_cases bf <;> cases mitm <;> cases sc <;> cases kp <;> rfl
  have e5 : ((bf ||| boolShl mitm 2 ||| boolShl sc 3 ||| boolShl kp 4) &&& 16 != 0) = kp := by
    interval_cases bf <;> cases mitm <;> cases sc <;> cases kp <;> rfl
  have e6 : ∀ a b : Bool, ((boolShl a 0 ||| boolShl b 1) &&& 1 != 0) = a := by
    intro a b
    cases a <;> cases b <;> rfl
  have e7 : ∀ a b : Bool, ((boolShl a 0 ||| boolShl b 1) &&& 2 != 0) = b := by
    intro a b
    cases a <;> cases b <;> rfl
  rw [e1, e2, e3, e4, e5, e6, e7, e6, e7]

/-- C27: for every opcode and every value the user passes, the features record `f` that
`fixFeaturesFromUser` returns is written by `buildPairingFeaturesPacket` as the seven bytes
opcode (as a byte), `ioCap`, 0, `authReq`, `maxKeySize`, initiator key bitmap and responder
key bitmap, with `authReq = bondingFlags | mitm<<2 | sc<<3 | keypress<<4` and each bitmap
`encKey | idKey<<1`, and `parsePairingReqRsp` reads that packet back as `f`. -/
theorem pairing_features_round_trip (opcode : Nat) (u : Option UserFeatures) :
    buildPairingFeaturesPacket opcode (fixFeaturesFromUser u)
      = [opcode % 256, (fixFeaturesFromUser u).ioCap, 0,
          (fixFeaturesFromUser u).bondingFlags ||| boolShl (fixFeaturesFromUser u).mitm 2
            ||| boolShl (fixFeaturesFromUser u).sc 3 ||| boolShl (fixFeaturesFromUser u).keypress 4,
          (fixFeaturesFromUser u).maxKeySize,
          boolShl (fixFeaturesFromUser u).initKeyDistr.encKey 0
            ||| boolShl (fixFeaturesFromUser u).initKeyDistr.idKey 1,
          boolShl (fixFeaturesFromUser u).rspKeyDistr.encKey 0
            ||| boolShl (fixFeaturesFromUser u).rspKeyDistr.idKey 1]
    ∧ parsePairingReqRsp (buildPairingFeaturesPacket opcode (fixFeaturesFromUser u)) = fixFeaturesFromUser u
    ∧ (buildPairingFeaturesPacket SMP_PAIRING_REQUEST (fixFeaturesFromUser u)).head? = some SMP_PAIRING_REQUEST
    ∧ (buildPairingFeaturesPacket SMP_PAIRING_RESPONSE (fixFeaturesFromUser u)).head? = some SMP_PAIRING_RESPONSE := by
  obtain ⟨h1, h2, h3, _⟩ := fixFeaturesFromUser_bounds u
  refine ⟨(pairingFeatures_round_trip_of_bounds opcode _ h1 h2 h3).1,
    (pairingFeatures_round_trip_of_bounds opcode _ h1 h2 h3).2, ?_, ?_⟩
  · rw [(pairingFeatures_round_trip_of_bounds _ _ h1 h2 h3).1]
    rfl
  · rw [(pairingFeatures_round_trip_of_bounds _ _ h1 h2 h3).1]
    rfl

/-! ## Key requests of the controller (claims C28 and C29) -/

theorem padKey_length (key : List Nat) : (padKey key).length = 16 := by
  simp only [padKey, copyInto, bufferAlloc, List.take_zero, List.nil_append, List.length_replicate,
    Nat.sub_zero, Nat.zero_add, List.drop_replicate, List.length_append, List.length_take]
  omega

theorem padKey_take (key : List Nat) : padKey key = key.take 16 ++ List.replicate (16 - key.length) 0 := by
  simp only [padKey, copyInto, bufferAlloc, List.take_zero, List.nil_append, List.length_replicate,
    Nat.sub_zero, Nat.zero_add, List.drop_replicate]

/-- C28: a responder in `STATE_W4_LTK_REQUEST` that holds the key material of its pairing
answers a Long-Term-Key-Request with `rand` eight zero bytes and `ediv` 0 within the
handler: its one action is the call of `ltkReplyCallback` with the key of the pairing (the
generated LTK when Secure Connections was negotiated, else the first `maxKeySize` bytes of
`s1(TK, Srand, Mrand)`), written into 16 zero bytes, and it goes to
`STATE_W4_ENCRYPTION_STARTED`; nothing else changes.  The stored key is not read: the
statement holds for every value of `availableLtk`. -/
theorem fresh_key_on_zero_tag (c : Crypto) (s : SlaveState) (pf : PairingFeatures) (randNb : List Nat)
    (ediv : Nat) (g srand mrand : List Nat)
    (hstate : s.state = STATE_W4_LTK_REQUEST) (hrand : randNb = bufferAlloc 8) (hediv : ediv = 0)
    (hpf : s.pairingFeatures = some pf)
    (hsc : pf.sc = true → s.generatedLtk = some g)
    (hlegacy : pf.sc = false → s.rspRandomValue = some srand ∧ s.initRandomValue = some mrand) :
    SmpSlaveConnection.onLtkRequest c randNb ediv s
      = { s with state := STATE_W4_ENCRYPTION_STARTED,
                 log := s.log ++ [Action.ltkReply
                   (some (padKey (freshKey c pf.sc pf.maxKeySize (s.userPasskey.getD 0) g srand mrand)))
                   LtkReplyDone.afterPairing] }
    ∧ (padKey (freshKey c pf.sc pf.maxKeySize (s.userPasskey.getD 0) g srand mrand)).length = 16
    ∧ padKey (freshKey c pf.sc pf.maxKeySize (s.userPasskey.getD 0) g srand mrand)
        = (freshKey c pf.sc pf.maxKeySize (s.userPasskey.getD 0) g srand mrand).take 16
          ++ List.replicate (16 - (freshKey c pf.sc pf.maxKeySize (s.userPasskey.getD 0) g srand mrand).length) 0 := by
  refine ⟨?_, padKey_length _, padKey_take _⟩
  subst hrand hediv
  unfold SmpSlaveConnection.onLtkRequest
  rw [if_pos (by simp [hstate])]
  simp only [hpf]
  cases hs : pf.sc with
  | true =>
    simp only [hsc hs, freshKey, if_true, SmpSlaveConnection.act]
  | false =>
    obtain ⟨h1, h2⟩ := hlegacy hs
    simp [h1, h2, freshKey, SmpSlaveConnection.act]

/-- Witness of `fresh_key_on_zero_tag`: the responder of the sample legacy pairing (key size
10) holds a stored key with an all-zero lookup tag; it replies with the key of the pairing,
ten bytes of `s1` followed by six zero bytes, not with the stored key. -/
theorem fresh_key_on_zero_tag_witness :
    sampleSlaveLegacyBonded.availableLtk = some sampleLtk
    ∧ sampleLtk.rand = bufferAlloc 8 ∧ sampleLtk.ediv = 0
    ∧ (SmpSlaveConnection.onLtkRequest sampleCrypto (bufferAlloc 8) 0 sampleSlaveLegacyBonded).log
        = [Action.ltkReply (some [99, 99, 99, 99, 99, 99, 99, 99, 7, 7, 0, 0, 0, 0, 0, 0])
            LtkReplyDone.afterPairing]
    ∧ padKey sampleLtk.ltk ≠ [99, 99, 99, 99, 99, 99, 99, 99, 7, 7, 0, 0, 0, 0, 0, 0]
    ∧ (SmpSlaveConnection.onLtkRequest sampleCrypto (bufferAlloc 8) 0 sampleSlaveLegacyBonded).state
        = STATE_W4_ENCRYPTION_STARTED :=
  have h := fresh_key_on_zero_tag sampleCrypto sampleSlaveLegacyBonded sampleLegacyFeatures (bufferAlloc 8) 0
    [] (List.replicate 16 7) (List.replicate 16 99) rfl rfl rfl rfl (by decide) (by decide)
  ⟨rfl, by decide, rfl, by rw [h.1]; decide, by decide, by rw [h.1]⟩

/-- C29: when the controller asks for a key and the responder is not in
`STATE_W4_LTK_REQUEST` with the zero lookup tag, the handler replies with the stored key
(written into 16 zero bytes) if a stored key exists whose `rand` and `ediv` are those of the
request, and with the refusal otherwise; it changes nothing else, except that it cancels the
timer when the responder waits for a Pairing Request after a Security Request.  The closure
passed with the refusal reports the encrypt event with status `HCI_PIN_OR_KEY_MISSING`, the
closure passed with the key marks the link encrypted and reports the encrypt event with
status 0; both leave the state as it is, except that they set it to `STATE_IDLE` when the
responder waited for the Pairing Request. -/
theorem stored_key_bypass (c : Crypto) (k : Link) (i : Inputs) (s : SlaveState) (randNb : List Nat) (ediv : Nat)
    (hnot : ¬(s.state = STATE_W4_LTK_REQUEST ∧ randNb = bufferAlloc 8 ∧ ediv = 0)) :
    SmpSlaveConnection.onLtkRequest c randNb ediv s
      = { s with timeoutPending := s.timeoutPending && !SmpSlaveConnection.awaitsPairingRequest s,
                 log := s.log ++ [storedKeyReply (SmpSlaveConnection.storedKeyFor s randNb ediv)
                   (SmpSlaveConnection.awaitsPairingRequest s)] }
    ∧ (∀ ltk, SmpSlaveConnection.storedKeyFor s randNb ediv = some ltk
        ↔ s.availableLtk = some ltk ∧ randNb = ltk.rand ∧ ediv = ltk.ediv)
    ∧ (∀ s' : SlaveState,
        SmpSlaveConnection.onLtkReplyDone k i (LtkReplyDone.refused (SmpSlaveConnection.awaitsPairingRequest s)) s'
          = { s' with state := if SmpSlaveConnection.awaitsPairingRequest s then STATE_IDLE else s'.state,
                      log := s'.log ++ [Action.emit (Event.encrypt Errors.HCI_PIN_OR_KEY_MISSING none)] })
    ∧ (∀ (s' : SlaveState) (ltk : AvailableLtk),
        SmpSlaveConnection.onLtkReplyDone k i
            (LtkReplyDone.withStoredKey ltk (SmpSlaveConnection.awaitsPairingRequest s)) s'
          = { s' with state := if SmpSlaveConnection.awaitsPairingRequest s then STATE_IDLE else s'.state,
                      isEncrypted := true,
                      currentEncryptionLevel := some { mitm := ltk.mitm, sc := ltk.mitm, keySize := none },
                      log := s'.log ++ [Action.emit (Event.encrypt 0
                        (some { mitm := ltk.mitm, sc := ltk.mitm, keySize := none }))] }) := by
  refine ⟨?_, ?_, ?_, ?_⟩
  · unfold SmpSlaveConnection.onLtkRequest
    rw [if_neg (by
      intro h
      apply hnot
      simp only [Bool.and_eq_true, beq_iff_eq] at h
      exact ⟨h.1.1, h.1.2.symm, h.2⟩)]
    simp only [SmpSlaveConnection.awaitsPairingRequest, SmpSlaveConnection.storedKeyFor]
    cases hc : (s.state == STATE_W4_PACKET && s.packetWaitOpcode == some SMP_PAIRING_REQUEST) <;>
      cases hav : s.availableLtk with
      | none => simp [SmpSlaveConnection.act, SmpSlaveConnection.timeoutClearFn, storedKeyReply, hav]
      | some ltk =>
        cases hm : (randNb == ltk.rand && ediv == ltk.ediv) <;>
          simp [SmpSlaveConnection.act, SmpSlaveConnection.timeoutClearFn, storedKeyReply, hav, hm,
            Option.filter]
  · intro ltk
    simp only [SmpSlaveConnection.storedKeyFor]
    cases hav : s.availableLtk with
    | none => simp [Option.filter]
    | some l =>
      by_cases hm : (randNb == l.rand && ediv == l.ediv) = true
      · simp only [Option.filter, hm, if_true, Option.some.injEq]
        simp only [Bool.and_eq_true, beq_iff_eq] at hm
        constructor
        · intro h
          subst h
          exact ⟨rfl, hm.1, hm.2⟩
        · intro h
          exact h.1
      · simp only [Option.filter, hm, Bool.false_eq_true, if_false, Option.some.injEq]
        constructor
        · intro h
          cases h
        · intro h
          exfalso
          apply hm
          simp only [Bool.and_eq_true, beq_iff_eq]
          rw [h.1]
          exact ⟨h.2.1, h.2.2⟩
  · intro s'
    cases hc : SmpSlaveConnection.awaitsPairingRequest s <;>
      simp [SmpSlaveConnection.onLtkReplyDone, SmpSlaveConnection.emit, SmpSlaveConnection.act]
  · intro s' ltk
    cases hc : SmpSlaveConnection.awaitsPairingRequest s <;>
      simp [SmpSlaveConnection.onLtkReplyDone, SmpSlaveConnection.emit, SmpSlaveConnection.act]

/-- Witness of `stored_key_bypass`: a bonded responder that has sent a Security Request is
asked for the key with the lookup tag of its stored key: it replies with the stored key and
cancels the timer, and is Idle once the controller reports the encryption. -/
theorem stored_key_bypass_witness :
    sampleSlaveAfterSecurityRequest.state = STATE_W4_PACKET
    ∧ sampleSlaveAfterSecurityRequest.timeoutPending = true
    ∧ SmpSlaveConnection.onLtkRequest sampleCrypto sampleLtk.rand sampleLtk.ediv sampleSlaveAfterSecurityRequest
        = { sampleSlaveAfterSecurityRequest with
            timeoutPending := false,
            log := sampleSlaveAfterSecurityRequest.log
              ++ [Action.ltkReply (some sampleLtk.ltk) (LtkReplyDone.withStoredKey sampleLtk true)] }
    ∧ (SmpSlaveConnection.onLtkReplyDone sampleLink sampleInputs (LtkReplyDone.withStoredKey sampleLtk true)
        (SmpSlaveConnection.onLtkRequest sampleCrypto sampleLtk.rand sampleLtk.ediv
          sampleSlaveAfterSecurityRequest)).state = STATE_IDLE :=
  have h := stored_key_bypass sampleCrypto sampleLink sampleInputs sampleSlaveAfterSecurityRequest
    sampleLtk.rand sampleLtk.ediv (by decide)
  ⟨by decide, by decide, by rw [h.1]; decide, by decide⟩

/-! ## Security Request on the initiator (claim C30) -/

theorem startedEncryptions_append (a b : List Action) :
    startedEncryptions (a ++ b) = startedEncryptions a ++ startedEncryptions b := by
  induction a with
  | nil => rfl
  | cons x xs ih => cases x <;> simp [startedEncryptions, ih]

namespace SmpMasterConnection

theorem master_sendDataFn_startedEncryptions (s : MasterState) (d : List Nat) (a b : Option Callback) :
    startedEncryptions (sendDataFn s d a b).log = startedEncryptions s.log := by
  unfold sendDataFn
  split
  · rfl
  · simp [act, startedEncryptions_append, startedEncryptions]

theorem master_pairingFailed_startedEncryptions (s : MasterState) (reason : Nat) (remote : Bool) :
    startedEncryptions (pairingFailed s reason remote).log = startedEncryptions s.log := by
  unfold pairingFailed
  dsimp only
  split <;> split <;>
    simp [emit, act, startedEncryptions_append, startedEncryptions, master_sendDataFn_startedEncryptions,
      timeoutClearFn]

theorem master_sendPacket_startedEncryptions (s : MasterState) (d : List Nat) (n : Option Nat) :
    startedEncryptions (sendPacket s d n).log = startedEncryptions s.log := by
  unfold sendPacket
  dsimp only
  split
  · rfl
  · rw [master_sendDataFn_startedEncryptions]
    rfl

theorem master_cont_startedEncryptions (n : Nat) (req : Option UserFeatures) (s : MasterState) :
    startedEncryptions (cont n req s).log = startedEncryptions s.log := by
  unfold cont
  split
  · rfl
  · unfold startPairingRequest
    dsimp only
    rw [master_sendPacket_startedEncryptions]

theorem master_askStartPairing_startedEncryptions (i : Inputs) (bondingFlags : Nat) (mitm sc keypress : Bool)
    (s : MasterState) :
    startedEncryptions (askStartPairing i bondingFlags mitm sc keypress s).log = startedEncryptions s.log := by
  unfold askStartPairing
  dsimp only
  split
  · simp [emit, act, startedEncryptions_append, startedEncryptions, restartTimeout, timeoutClearFn]
  · rw [master_cont_startedEncryptions]
    simp [emit, act, startedEncryptions_append, startedEncryptions, restartTimeout, timeoutClearFn]
  · split
    · split
      · rw [master_pairingFailed_startedEncryptions]
        rfl
      · rw [master_cont_startedEncryptions]
        rfl
    · rw [master_cont_startedEncryptions]
      rfl

end SmpMasterConnection

/-- C30: an Idle initiator that receives a 2-byte Security Request asking for `mitm` and
`sc` (bits 2 and 3 of its second byte).  If it has a stored key that is 16 bytes long, has
`mitm` at least the requested `mitm` and `sc` at least the requested `sc`, its only action
is the start-encryption command with the `rand`, `ediv` and key of the stored key (the key
written into 16 zero bytes, which leaves a 16-byte key as it is): no PDU is sent, and it
waits for the outcome in `STATE_W4_ENCRYPTION_STARTED`.  In every other case (no stored
key, or one that is not 16 bytes long or lacks a requested property) it goes on with
`askStartPairing`, the decision about a Pairing Request, and issues no start-encryption
command. -/
theorem security_request_in_idle (c : Crypto) (k : Link) (i : Inputs) (data : List Nat) (s : MasterState)
    (hstate : s.state = STATE_IDLE) (hop : byteAt data 0 = SMP_SECURITY_REQUEST) (hlen : data.length = 2) :
    (∀ ltk, SmpMasterConnection.usableStoredKey s ((byteAt data 1 &&& 4) != 0) ((byteAt data 1 &&& 8) != 0) = some ltk →
      SmpMasterConnection.onData c k i data s
        = { s with state := STATE_W4_ENCRYPTION_STARTED, encryptionProcessWithLtk := true,
                   log := s.log ++ [Action.startEncryption ltk.rand ltk.ediv (padKey ltk.ltk)
                     (EncryptionStart.withAvailableLtk true (byteAt data 1 &&& 3) ((byteAt data 1 &&& 4) != 0)
                       ((byteAt data 1 &&& 8) != 0) ((byteAt data 1 &&& 16) != 0))] }
      ∧ padKey ltk.ltk = ltk.ltk)
    ∧ (SmpMasterConnection.usableStoredKey s ((byteAt data 1 &&& 4) != 0) ((byteAt data 1 &&& 8) != 0) = none →
      SmpMasterConnection.onData c k i data s
        = SmpMasterConnection.askStartPairing i (byteAt data 1 &&& 3) ((byteAt data 1 &&& 4) != 0)
            ((byteAt data 1 &&& 8) != 0) ((byteAt data 1 &&& 16) != 0) s
      ∧ startedEncryptions (SmpMasterConnection.onData c k i data s).log = startedEncryptions s.log)
    ∧ (∀ ltk, SmpMasterConnection.usableStoredKey s ((byteAt data 1 &&& 4) != 0) ((byteAt data 1 &&& 8) != 0) = some ltk
        ↔ s.availableLtk = some ltk ∧ ltk.ltk.length = 16
          ∧ ((byteAt data 1 &&& 4) != 0 → ltk.mitm = true) ∧ ((byteAt data 1 &&& 8) != 0 → ltk.sc = true)) := by
  have hdispatch : SmpMasterConnection.onData c k i data s = SmpMasterConnection.onDataSecurityRequest i data s := by
    rw [SmpMasterConnection.onData, if_neg (by simp [hlen, hstate, STATE_IDLE, STATE_TIMEDOUT])]
    simp only [hop]
    rfl
  have hbody : SmpMasterConnection.onDataSecurityRequest i data s
      = match SmpMasterConnection.usableStoredKey s ((byteAt data 1 &&& 4) != 0) ((byteAt data 1 &&& 8) != 0) with
        | some _ => SmpMasterConnection.startEncryptWithAvailableLtk true (byteAt data 1 &&& 3)
            ((byteAt data 1 &&& 4) != 0) ((byteAt data 1 &&& 8) != 0) ((byteAt data 1 &&& 16) != 0) s
        | none => SmpMasterConnection.askStartPairing i (byteAt data 1 &&& 3) ((byteAt data 1 &&& 4) != 0)
            ((byteAt data 1 &&& 8) != 0) ((byteAt data 1 &&& 16) != 0) s := by
    unfold SmpMasterConnection.onDataSecurityRequest SmpMasterConnection.usableStoredKey
    rw [if_neg (by simp [hstate]), if_neg (by simp [hlen])]
    dsimp only
    cases hav : s.availableLtk with
    | none => rfl
    | some l =>
      dsimp only
      by_cases hu : (l.ltk.length == 16 && (l.mitm || !(byteAt data 1 &&& 4) != 0)
          && (l.sc || !(byteAt data 1 &&& 8) != 0)) = true
      · simp only [Option.filter, hu, if_true]
      · simp only [Option.filter, hu, Bool.false_eq_true, if_false]
  have hiff : ∀ ltk, SmpMasterConnection.usableStoredKey s ((byteAt data 1 &&& 4) != 0) ((byteAt data 1 &&& 8) != 0)
        = some ltk
      ↔ s.availableLtk = some ltk ∧ ltk.ltk.length = 16
        ∧ ((byteAt data 1 &&& 4) != 0 → ltk.mitm = true) ∧ ((byteAt data 1 &&& 8) != 0 → ltk.sc = true) := by
    intro ltk
    unfold SmpMasterConnection.usableStoredKey
    cases hav : s.availableLtk with
    | none => simp [Option.filter]
    | some l =>
      by_cases hu : (l.ltk.length == 16 && (l.mitm || !(byteAt data 1 &&& 4) != 0)
          && (l.sc || !(byteAt data 1 &&& 8) != 0)) = true
      · simp only [Option.filter, hu, if_true, Option.some.injEq]
        constructor
        · intro h
          subst h
          simp only [Bool.and_eq_true, beq_iff_eq, Bool.or_eq_true, Bool.not_eq_true'] at hu
          refine ⟨rfl, hu.1.1, ?_, ?_⟩
          · intro hm
            rcases hu.1.2 with h | h
            · exact h
            · rw [h] at hm; exact absurd hm (by decide)
          · intro hm
            rcases hu.2 with h | h
            · exact h
            · rw [h] at hm; exact absurd hm (by decide)
        · intro h
          exact h.1
      · simp only [Option.filter, hu, Bool.false_eq_true, if_false, Option.some.injEq]
        constructor
        · intro h
          cases h
        · intro h
          exfalso
          apply hu
          obtain ⟨h1, h2, h3, h4⟩ := h
          subst h1
          simp only [Bool.and_eq_true, beq_iff_eq, Bool.or_eq_true, Bool.not_eq_true']
          refine ⟨⟨h2, ?_⟩, ?_⟩
          · cases hb : ((byteAt data 1 &&& 4) != 0)
            · exact Or.inr rfl
            · exact Or.inl (h3 hb)
          · cases hb : ((byteAt data 1 &&& 8) != 0)
            · exact Or.inr rfl
            · exact Or.inl (h4 hb)
  refine ⟨?_, ?_, hiff⟩
  · intro ltk hu
    have hav := ((hiff ltk).1 hu)
    rw [hdispatch, hbody, hu]
    refine ⟨?_, ?_⟩
    · simp [SmpMasterConnection.startEncryptWithAvailableLtk, hav.1, SmpMasterConnection.act]
    · rw [padKey_eq _ (by omega)]
      simp [hav.2.1]
  · intro hu
    rw [hdispatch, hbody, hu]
    exact ⟨rfl, SmpMasterConnection.master_askStartPairing_startedEncryptions _ _ _ _ _ _⟩

/-- Witness of `security_request_in_idle`: an Idle initiator with the stored sample key
(without MITM protection) receives a Security Request that asks for no MITM protection
(it starts encryption with the stored key) and one that asks for it (it sends a Pairing
Request and issues no start-encryption command). -/
theorem security_request_in_idle_witness :
    (SmpMasterConnection.onData sampleCrypto sampleLink sampleInputs [0x0b, 0x01]
        (SmpMasterConnection.init (some sampleLtk))).log
      = [Action.startEncryption sampleLtk.rand sampleLtk.ediv sampleLtk.ltk
          (EncryptionStart.withAvailableLtk true 1 false false false)]
    ∧ startedEncryptions (SmpMasterConnection.onData sampleCrypto sampleLink sampleInputs [0x0b, 0x05]
        (SmpMasterConnection.init (some sampleLtk))).log = []
    ∧ sentOpcodes (SmpMasterConnection.onData sampleCrypto sampleLink sampleInputs [0x0b, 0x05]
        (SmpMasterConnection.init (some sampleLtk))).log = [SMP_PAIRING_REQUEST] :=
  have h1 := (security_request_in_idle sampleCrypto sampleLink sampleInputs [0x0b, 0x01]
    (SmpMasterConnection.init (some sampleLtk)) rfl rfl rfl).1 sampleLtk (by decide)
  have h2 := (security_request_in_idle sampleCrypto sampleLink sampleInputs [0x0b, 0x05]
    (SmpMasterConnection.init (some sampleLtk)) rfl rfl rfl).2.1 (by decide)
  ⟨by rw [h1.1]; decide, h2.2, by decide⟩

/-! ## Failure while the encryption is being started (claims C21 to C23) -/

/-- C21 fails while the outcome of a start-encryption command issued with a stored key is
outstanding: the code then does not recognise the wait for the command issued after the
pairing.  The sample initiator received a Security Request and issued the command with its
stored key, received Pairing Failed (back in Idle, `encryptionProcessWithLtk` still set),
paired on a call of `sendPairingRequest`, and waits in `STATE_W4_ENCRYPTION_STARTED` for
the outcome of the command issued after the pairing, the last action of its log.  A
Pairing Failed PDU received now sets the state to `STATE_IDLE` and records nothing (no
reason, no origin, no event); a call of the method `sendPairingFailed` is dropped, as it
is in every session with the flag set; and the completion of the command issued after the
pairing then finds none of the states it provides for: after the encrypt event it reaches
`assert(state == STATE_TIMEDOUT)` in `STATE_IDLE` and throws, and no pairing-fail event is
ever emitted. -/
theorem deferred_failure_not_recorded :
    sampleMasterEncryptingOutstanding.state = STATE_W4_ENCRYPTION_STARTED
    ∧ sampleMasterEncryptingOutstanding.log.head?
        = some (Action.startEncryption sampleLtk.rand sampleLtk.ediv (padKey sampleLtk.ltk)
            (EncryptionStart.withAvailableLtk true 1 false false false))
    ∧ sampleMasterEncryptingOutstanding.log.getLast?
        = some (Action.startEncryption (bufferAlloc 8) 0
            [7, 7, 7, 7, 7, 7, 7, 7, 55, 55, 55, 55, 55, 55, 55, 55] EncryptionStart.afterPairing)
    ∧ sampleMasterEncryptingOutstanding.encryptionProcessWithLtk = true
    ∧ sampleMasterEncryptingOutstanding.savedPairingFailedReason = none
    ∧ (SmpMasterConnection.onData sampleCrypto sampleLink sampleInputs [SMP_PAIRING_FAILED, 8]
        sampleMasterEncryptingOutstanding).state = STATE_IDLE
    ∧ (SmpMasterConnection.onData sampleCrypto sampleLink sampleInputs [SMP_PAIRING_FAILED, 8]
        sampleMasterEncryptingOutstanding).savedPairingFailedReason = none
    ∧ (SmpMasterConnection.onData sampleCrypto sampleLink sampleInputs [SMP_PAIRING_FAILED, 8]
        sampleMasterEncryptingOutstanding).log = sampleMasterEncryptingOutstanding.log
    ∧ (∀ (s : MasterState) (reason : Nat),
        SmpMasterConnection.this_sendPairingFailed reason { s with encryptionProcessWithLtk := true }
          = { s with encryptionProcessWithLtk := true })
    ∧ SmpMasterConnection.this_sendPairingFailed 8 sampleMasterEncryptingOutstanding
        = sampleMasterEncryptingOutstanding
    ∧ (SmpMasterConnection.onEncryptionStarted sampleLink sampleInputs EncryptionStart.afterPairing 0 true
        (SmpMasterConnection.onData sampleCrypto sampleLink sampleInputs [SMP_PAIRING_FAILED, 8]
          sampleMasterEncryptingOutstanding)).log
        = sampleMasterEncryptingOutstanding.log
          ++ [Action.emit (Event.encrypt 0 (some { mitm := false, sc := false, keySize := some 16 })),
              Action.throwError] :=
  ⟨by decide, by decide, by decide, by decide, by decide, by decide, by decide, by decide,
    fun s reason => by simp [SmpMasterConnection.this_sendPairingFailed],
    by decide, by decide⟩

/-- The deferral where it works: in `STATE_W4_ENCRYPTION_STARTED` with
`encryptionProcessWithLtk` not set (no start-encryption command issued with a stored key
is outstanding), a received 2-byte Pairing Failed PDU with reason `reason` only sets the
state to `STATE_CANCELLED_BY_PEER_AND_W4_ENCRYPTION_STARTED` and stores the reason, and a
call of the method `sendPairingFailed(reason)` only sets the state to
`STATE_CANCELLED_BY_LOCAL_AND_W4_ENCRYPTION_STARTED` and stores the reason: every other
variable and the list of actions stay as they are (no PDU, no event, not Idle).  In either
of the two states a further Pairing Failed PDU and a further call of `sendPairingFailed`
leave the whole session unchanged. -/
theorem failure_deferred_when_no_stored_key_command (c : Crypto) (k : Link) (i : Inputs) (s : MasterState)
    (reason : Nat)
    (hst : s.state = STATE_W4_ENCRYPTION_STARTED) (hflag : s.encryptionProcessWithLtk = false) :
    SmpMasterConnection.onData c k i [SMP_PAIRING_FAILED, reason] s
      = { s with state := STATE_CANCELLED_BY_PEER_AND_W4_ENCRYPTION_STARTED,
                 savedPairingFailedReason := some reason }
    ∧ SmpMasterConnection.this_sendPairingFailed reason s
      = { s with state := STATE_CANCELLED_BY_LOCAL_AND_W4_ENCRYPTION_STARTED,
                 savedPairingFailedReason := some reason }
    ∧ (∀ (s' : MasterState) (later : Nat),
        s'.state = STATE_CANCELLED_BY_PEER_AND_W4_ENCRYPTION_STARTED
          ∨ s'.state = STATE_CANCELLED_BY_LOCAL_AND_W4_ENCRYPTION_STARTED →
        SmpMasterConnection.onData c k i [SMP_PAIRING_FAILED, later] s' = s'
        ∧ SmpMasterConnection.this_sendPairingFailed later s' = s') := by
  have hdispatch : ∀ (s' : MasterState) (r : Nat), s'.state ≠ STATE_TIMEDOUT →
      SmpMasterConnection.onData c k i [SMP_PAIRING_FAILED, r] s' = SmpMasterConnection.onPairingFailed r s' := by
    intro s' r hne
    rw [SmpMasterConnection.onData, if_neg (by simp [hne])]
    rfl
  refine ⟨?_, ?_, ?_⟩
  · rw [hdispatch s reason (by rw [hst]; decide)]
    simp [SmpMasterConnection.onPairingFailed, hst, hflag]
  · unfold SmpMasterConnection.this_sendPairingFailed
    rw [if_pos (by simp [hst, hflag, STATE_W4_ENCRYPTION_STARTED, STATE_IDLE, STATE_TIMEDOUT])]
    unfold SmpMasterConnection.sendPairingFailed
    rw [if_neg (by simp [hst, STATE_W4_ENCRYPTION_STARTED, STATE_TIMEDOUT,
      STATE_CANCELLED_BY_PEER_AND_W4_ENCRYPTION_STARTED, STATE_CANCELLED_BY_LOCAL_AND_W4_ENCRYPTION_STARTED])]
    rw [if_pos (by simp [hst, hflag])]
  · intro s' later hs'
    have hne : s'.state ≠ STATE_TIMEDOUT := by
      rcases hs' with h | h <;> rw [h] <;> decide
    have hno7 : (s'.state == STATE_W4_ENCRYPTION_STARTED) = false := by
      rcases hs' with h | h <;> rw [h] <;> decide
    have h89 : (s'.state == STATE_CANCELLED_BY_PEER_AND_W4_ENCRYPTION_STARTED
        || s'.state == STATE_CANCELLED_BY_LOCAL_AND_W4_ENCRYPTION_STARTED) = true := by
      rcases hs' with h | h <;> rw [h] <;> decide
    refine ⟨?_, ?_⟩
    · rw [hdispatch s' later hne]
      unfold SmpMasterConnection.onPairingFailed
      rw [if_neg (by simp [hno7]), if_pos h89]
    · unfold SmpMasterConnection.this_sendPairingFailed
      split
      · unfold SmpMasterConnection.sendPairingFailed
        rw [if_pos (by
          simp only [Bool.or_eq_true] at h89 ⊢
          rcases h89 with h | h
          · exact Or.inl (Or.inr h)
          · exact Or.inr h)]
      · rfl

/-- The sample initiator that has paired without a stored key and waits for the outcome of
the start-encryption command receives Pairing Failed with reason 8: a sample of
`failure_deferred_when_no_stored_key_command`. -/
theorem failure_deferred_when_no_stored_key_command_witness :
    (sampleMasterEncrypting.state = STATE_W4_ENCRYPTION_STARTED
      ∧ sampleMasterEncrypting.encryptionProcessWithLtk = false)
    ∧ SmpMasterConnection.onData sampleCrypto sampleLink sampleInputs [SMP_PAIRING_FAILED, 8] sampleMasterEncrypting
      = { sampleMasterEncrypting with state := STATE_CANCELLED_BY_PEER_AND_W4_ENCRYPTION_STARTED,
                                      savedPairingFailedReason := some 8 }
    ∧ SmpMasterConnection.this_sendPairingFailed 9
        (SmpMasterConnection.onData sampleCrypto sampleLink sampleInputs [SMP_PAIRING_FAILED, 8]
          sampleMasterEncrypting)
      = SmpMasterConnection.onData sampleCrypto sampleLink sampleInputs [SMP_PAIRING_FAILED, 8]
          sampleMasterEncrypting :=
  have hw : sampleMasterEncrypting.state = STATE_W4_ENCRYPTION_STARTED
      ∧ sampleMasterEncrypting.encryptionProcessWithLtk = false := ⟨by decide, by decide⟩
  have h := failure_deferred_when_no_stored_key_command sampleCrypto sampleLink sampleInputs
    sampleMasterEncrypting 8 hw.1 hw.2
  ⟨hw, h.1, (h.2.2 _ 9 (Or.inl (by rw [h.1]))).2⟩

/-- Outside Idle, TimedOut, the wait for the start of the encryption and the state numbered
9, and while no encryption with a stored key is outstanding, the method `sendPairingFailed`
is `pairingFailed(reason)`: the timer is cancelled, the state is Idle, and (while sending is
possible) the actions are the Pairing Failed PDU, unless an earlier one still awaits its
sent-acknowledgement, and the pairing-fail event. -/
theorem local_abort_outside_encryption_wait (s : MasterState) (reason : Nat)
    (h0 : s.state ≠ STATE_IDLE) (h40 : s.state ≠ STATE_TIMEDOUT) (h7 : s.state ≠ STATE_W4_ENCRYPTION_STARTED)
    (h8 : s.state ≠ STATE_CANCELLED_BY_PEER_AND_W4_ENCRYPTION_STARTED)
    (h9 : s.state ≠ STATE_CANCELLED_BY_LOCAL_AND_W4_ENCRYPTION_STARTED)
    (hflag : s.encryptionProcessWithLtk = false) (hsend : s.sendDisabled = false) :
    SmpMasterConnection.this_sendPairingFailed reason s = SmpMasterConnection.pairingFailed s reason false
    ∧ (SmpMasterConnection.this_sendPairingFailed reason s).state = STATE_IDLE
    ∧ (SmpMasterConnection.this_sendPairingFailed reason s).timeoutPending = false
    ∧ (SmpMasterConnection.this_sendPairingFailed reason s).log
        = s.log ++ localFailure s.hasOutgoingFailedMsg reason := by
  have heq : SmpMasterConnection.this_sendPairingFailed reason s
      = SmpMasterConnection.pairingFailed s reason false := by
    unfold SmpMasterConnection.this_sendPairingFailed
    rw [if_pos (by simp [h0, h40, hflag])]
    unfold SmpMasterConnection.sendPairingFailed
    rw [if_neg (by simp [h40, h8, h9]), if_neg (by simp [h7])]
  refine ⟨heq, ?_, ?_, ?_⟩
  · rw [heq]
    exact SmpMasterConnection.master_pairingFailed_state _ _ _
  · rw [heq]
    cases hf : s.hasOutgoingFailedMsg <;>
      simp [SmpMasterConnection.pairingFailed, SmpMasterConnection.timeoutClearFn,
        SmpMasterConnection.sendDataFn, SmpMasterConnection.emit, SmpMasterConnection.act, hf, hsend, hflag]
  · rw [heq]
    exact SmpMasterConnection.master_pairingFailed_log _ _ hsend hflag

/-- C23 fails in the state the claim names: `STATE_W4_LAST_ACK` and
`STATE_CANCELLED_BY_LOCAL_AND_W4_ENCRYPTION_STARTED` are the same number, so that
`sendPairingFailed` returns without effect while the initiator waits for the
acknowledgement of its last key-distribution PDU.  The sample initiator has paired, the
encryption has started, it has sent Encryption Information and Master Identification, its
timer is armed and no encryption with a stored key is outstanding; the call of the method
`sendPairingFailed(8)` leaves the whole session unchanged: the timer stays armed, no
Pairing Failed PDU is sent, no event is emitted, the state is not Idle. -/
theorem local_abort_ignored_in_last_ack :
    sampleMasterAwaitingLastAck.state = STATE_W4_LAST_ACK
    ∧ STATE_W4_LAST_ACK = STATE_CANCELLED_BY_LOCAL_AND_W4_ENCRYPTION_STARTED
    ∧ sampleMasterAwaitingLastAck.encryptionProcessWithLtk = false
    ∧ sampleMasterAwaitingLastAck.hasOutgoingFailedMsg = false
    ∧ sampleMasterAwaitingLastAck.timeoutPending = true
    ∧ sentOpcodes sampleMasterAwaitingLastAck.log
        = [SMP_PAIRING_REQUEST, SMP_PAIRING_CONFIRM, SMP_PAIRING_RANDOM, SMP_ENCRYPTION_INFORMATION,
            SMP_MASTER_IDENTIFICATION]
    ∧ SmpMasterConnection.this_sendPairingFailed 8 sampleMasterAwaitingLastAck = sampleMasterAwaitingLastAck
    ∧ (SmpMasterConnection.this_sendPairingFailed 8 sampleMasterAwaitingLastAck).state ≠ STATE_IDLE := by
  decide

/-- C22 as stated fails on a link that was encrypted before: the sample initiator has
encrypted the link with its stored key, has paired anew, and holds the deferred failure of
the peer (reason 8).  When the controller reports that the encryption did not start (status
`HCI_PIN_OR_KEY_MISSING`), the closure disconnects and sets `STATE_TIMEDOUT`: its only
action is the disconnect, no pairing-fail event is emitted and the session is not Idle. -/
theorem deferred_failure_not_surfaced :
    SmpMasterConnection.deferredFailure sampleMasterDeferredOnEncryptedLink 8 true
    ∧ sampleMasterDeferredOnEncryptedLink.isEncrypted = true
    ∧ (SmpMasterConnection.onEncryptionStarted sampleLink sampleInputs EncryptionStart.afterPairing
        Errors.HCI_PIN_OR_KEY_MISSING false sampleMasterDeferredOnEncryptedLink).log
      = sampleMasterDeferredOnEncryptedLink.log ++ [Action.disconnect]
    ∧ (SmpMasterConnection.onEncryptionStarted sampleLink sampleInputs EncryptionStart.afterPairing
        Errors.HCI_PIN_OR_KEY_MISSING false sampleMasterDeferredOnEncryptedLink).state = STATE_TIMEDOUT
    ∧ STATE_TIMEDOUT ≠ STATE_IDLE := by
  refine ⟨⟨by decide, by decide, by decide⟩, by decide, by decide, by decide, by decide⟩

namespace SmpMasterConnection

theorem master_pairingFailed_report (s : MasterState) (reason : Nat) (remote : Bool)
    (h : s.sendDisabled = false) (hl : s.encryptionProcessWithLtk = false) :
    (pairingFailed s reason remote).log = s.log ++ failureReport s.hasOutgoingFailedMsg reason remote := by
  cases remote with
  | false => exact master_pairingFailed_log s reason h hl
  | true =>
    cases hf : s.hasOutgoingFailedMsg <;>
      simp [pairingFailed, timeoutClearFn, emit, act, failureReport, hf, hl]

theorem master_pairingFailed_timer (s : MasterState) (reason : Nat) (remote : Bool) :
    (pairingFailed s reason remote).timeoutPending = false := by
  unfold pairingFailed
  dsimp only [emit, act, sendDataFn, timeoutClearFn]
  split <;> split <;> (try split) <;> rfl

end SmpMasterConnection

/-- C22, amended: when the controller reports the outcome `(status, isOn)` of the
start-encryption command issued after a pairing while a deferred failure is recorded, and
it is not the case that the link was encrypted before and the outcome is no success, then
for every status the session becomes Idle with the timer cancelled, and its actions are: on
success the encrypt event, then the report of the recorded failure, which for a failure of
the peer is the pairing-fail event with the recorded reason and `true` (no PDU), and for a
local abort the Pairing Failed PDU with the recorded reason (left out while an earlier
Pairing Failed still awaits its sent-acknowledgement) followed by the pairing-fail event
with the recorded reason and `false`. -/
theorem deferred_failure_surfaced (k : Link) (i : Inputs) (s : MasterState) (reason : Nat) (remote : Bool)
    (pf : PairingFeatures) (status : Nat) (isOn : Bool)
    (hdef : SmpMasterConnection.deferredFailure s reason remote)
    (hpf : s.pairingFeatures = some pf) (hsend : s.sendDisabled = false)
    (hlink : s.isEncrypted = true → (status == 0 && isOn) = true) :
    (SmpMasterConnection.onEncryptionStarted k i EncryptionStart.afterPairing status isOn s).state = STATE_IDLE
    ∧ (SmpMasterConnection.onEncryptionStarted k i EncryptionStart.afterPairing status isOn s).timeoutPending
        = false
    ∧ (SmpMasterConnection.onEncryptionStarted k i EncryptionStart.afterPairing status isOn s).log
        = s.log
          ++ (if status == 0 && isOn then
                [Action.emit (Event.encrypt status
                  (some { mitm := pf.mitm, sc := pf.sc, keySize := some pf.maxKeySize }))]
              else [])
          ++ failureReport s.hasOutgoingFailedMsg reason remote := by
  obtain ⟨hst, hsaved, hflag⟩ := hdef
  have hfirst : (s.isEncrypted && !(status == 0 && isOn)) = false := by
    cases he : s.isEncrypted with
    | false => rfl
    | true => simp [hlink he]
  have hstep : SmpMasterConnection.onEncryptionStarted k i EncryptionStart.afterPairing status isOn s
      = SmpMasterConnection.pairingFailed
          (if (status == 0 && isOn) = true then
            SmpMasterConnection.emit
              { s with isEncrypted := true,
                       currentEncryptionLevel := some { mitm := pf.mitm, sc := pf.sc, keySize := some pf.maxKeySize } }
              (Event.encrypt status (some { mitm := pf.mitm, sc := pf.sc, keySize := some pf.maxKeySize }))
          else s) reason remote := by
    simp only [SmpMasterConnection.onEncryptionStarted, SmpMasterConnection.onEncryptionStartedAfterPairing,
      hfirst, hpf, Bool.false_eq_true, if_false]
    cases remote <;> cases hs : (status == 0 && isOn) <;>
      simp [hst, hsaved, deferredState, SmpMasterConnection.emit, SmpMasterConnection.act,
        STATE_W4_ENCRYPTION_STARTED, STATE_CANCELLED_BY_PEER_AND_W4_ENCRYPTION_STARTED,
        STATE_CANCELLED_BY_LOCAL_AND_W4_ENCRYPTION_STARTED]
  rw [hstep]
  refine ⟨SmpMasterConnection.master_pairingFailed_state _ _ _,
    SmpMasterConnection.master_pairingFailed_timer _ _ _, ?_⟩
  rw [SmpMasterConnection.master_pairingFailed_report _ _ _
    (by split <;> simp [SmpMasterConnection.emit, SmpMasterConnection.act, hsend])
    (by split <;> simp [SmpMasterConnection.emit, SmpMasterConnection.act, hflag])]
  cases hs : (status == 0 && isOn) <;>
    simp [SmpMasterConnection.emit, SmpMasterConnection.act]

/-- Witness of `deferred_failure_surfaced`: the sample initiator (link not encrypted before)
holds the deferred failure of the peer with reason 8; the controller reports that the
encryption did not start. -/
theorem deferred_failure_surfaced_witness :
    SmpMasterConnection.deferredFailure sampleMasterDeferred 8 true
    ∧ (SmpMasterConnection.onEncryptionStarted sampleLink sampleInputs EncryptionStart.afterPairing
        Errors.HCI_PIN_OR_KEY_MISSING false sampleMasterDeferred).state = STATE_IDLE
    ∧ (SmpMasterConnection.onEncryptionStarted sampleLink sampleInputs EncryptionStart.afterPairing
        Errors.HCI_PIN_OR_KEY_MISSING false sampleMasterDeferred).log
      = sampleMasterDeferred.log ++ [Action.emit (Event.pairingFail 8 true)] :=
  have hd : SmpMasterConnection.deferredFailure sampleMasterDeferred 8 true := ⟨by decide, by decide, by decide⟩
  have h := deferred_failure_surfaced sampleLink sampleInputs sampleMasterDeferred 8 true
    (sampleMasterDeferred.pairingFeatures.getD sampleLegacyFeatures) Errors.HCI_PIN_OR_KEY_MISSING false hd
    (by decide) (by decide) (by decide)
  ⟨hd, h.1, by rw [h.2.2]; decide⟩

/-! ## Pairing Failed after a failure (claim C26) -/

/-- C26 as stated fails in Idle: the sample responder and the sample initiator are Idle
because their pairing attempt has failed (the pairing-fail event with reason 8 is in their
logs); a second Pairing Failed PDU, with reason 9, makes each of them emit the pairing-fail
event again. -/
theorem second_pairing_failed_reported :
    sampleSlaveFailed.state = STATE_IDLE
    ∧ Action.emit (Event.pairingFail 8 true) ∈ sampleSlaveFailed.log
    ∧ (SmpSlaveConnection.receive sampleCrypto sampleLink sampleInputs [SMP_PAIRING_FAILED, 9]
        sampleSlaveFailed).2 = [Action.emit (Event.pairingFail 9 true)]
    ∧ sampleMasterFailed.state = STATE_IDLE
    ∧ Action.emit (Event.pairingFail 8 true) ∈ sampleMasterFailed.log
    ∧ (SmpMasterConnection.receive sampleCrypto sampleLink sampleInputs [SMP_PAIRING_FAILED, 9]
        sampleMasterFailed).2 = [Action.emit (Event.pairingFail 9 true)] := by
  decide

/-- C26, amended: a session in `STATE_TIMEDOUT` drops a received Pairing Failed PDU (the
session is unchanged and the step has no action).  An Idle session, whatever made it Idle,
reports a received 2-byte Pairing Failed: its one action is the pairing-fail event with the
reason of the PDU and `true`; it sends nothing and stays Idle (the timer is cancelled and a
new run counter is drawn).  For the initiator this is stated while no encryption with a
stored key is outstanding. -/
theorem pairing_failed_after_failure (c : Crypto) (k : Link) (i : Inputs) (m : MasterState) (s : SlaveState)
    (reason : Nat)
    (hm : m.state = STATE_IDLE ∨ m.state = STATE_TIMEDOUT) (hs : s.state = STATE_IDLE ∨ s.state = STATE_TIMEDOUT)
    (hflag : m.encryptionProcessWithLtk = false) :
    SmpSlaveConnection.receive c k i [SMP_PAIRING_FAILED, reason] s
      = (if s.state = STATE_TIMEDOUT then (s, [])
         else ({ s with timeoutPending := false, runCounter := s.runCounter + 1,
                        log := s.log ++ [Action.emit (Event.pairingFail reason true)] },
               [Action.emit (Event.pairingFail reason true)]))
    ∧ SmpMasterConnection.receive c k i [SMP_PAIRING_FAILED, reason] m
      = (if m.state = STATE_TIMEDOUT then (m, [])
         else ({ m with timeoutPending := false, runCounter := m.runCounter + 1,
                        log := m.log ++ [Action.emit (Event.pairingFail reason true)] },
               [Action.emit (Event.pairingFail reason true)])) := by
  refine ⟨?_, ?_⟩
  · rcases hs with h | h
    · rw [if_neg (by rw [h]; decide)]
      simp only [SmpSlaveConnection.receive]
      rw [SmpSlaveConnection.onData, if_neg (by simp [h, STATE_IDLE, STATE_TIMEDOUT])]
      show (_, _) = _
      simp [SmpSlaveConnection.onDataPairingFailed, SmpSlaveConnection.emit, SmpSlaveConnection.act,
        SmpSlaveConnection.timeoutClearFn, byteAt, h, SMP_PAIRING_FAILED, SMP_PAIRING_REQUEST,
        SMP_PAIRING_PUBLIC_KEY, SMP_PAIRING_CONFIRM, SMP_PAIRING_RANDOM, SMP_DHKEY_CHECK,
        SMP_ENCRYPTION_INFORMATION, SMP_MASTER_IDENTIFICATION, SMP_IDENTITY_INFORMATION,
        SMP_IDENTITY_ADDRESS_INFORMATION, SMP_KEYPRESS_NOTIFICATION]
    · rw [if_pos h]
      simp only [SmpSlaveConnection.receive]
      rw [SmpSlaveConnection.onData, if_pos (by simp [h])]
      simp
  · rcases hm with h | h
    · rw [if_neg (by rw [h]; decide)]
      simp only [SmpMasterConnection.receive]
      rw [SmpMasterConnection.onData, if_neg (by simp [h, STATE_IDLE, STATE_TIMEDOUT])]
      show (_, _) = _
      simp [SmpMasterConnection.onDataPairingFailed, SmpMasterConnection.onPairingFailed,
        SmpMasterConnection.pairingFailed, SmpMasterConnection.emit, SmpMasterConnection.act,
        SmpMasterConnection.timeoutClearFn, byteAt, h, hflag, SMP_PAIRING_FAILED, SMP_PAIRING_RESPONSE,
        SMP_SECURITY_REQUEST, STATE_IDLE, STATE_W4_ENCRYPTION_STARTED,
        STATE_CANCELLED_BY_PEER_AND_W4_ENCRYPTION_STARTED, STATE_CANCELLED_BY_LOCAL_AND_W4_ENCRYPTION_STARTED,
        SMP_PAIRING_PUBLIC_KEY, SMP_PAIRING_CONFIRM, SMP_PAIRING_RANDOM, SMP_DHKEY_CHECK,
        SMP_ENCRYPTION_INFORMATION, SMP_MASTER_IDENTIFICATION, SMP_IDENTITY_INFORMATION,
        SMP_IDENTITY_ADDRESS_INFORMATION, SMP_KEYPRESS_NOTIFICATION]
    · rw [if_pos h]
      simp only [SmpMasterConnection.receive]
      rw [SmpMasterConnection.onData, if_pos (by simp [h])]
      simp

/-- Witness of `pairing_failed_after_failure`: the responder that is Idle after a failed
attempt and the initiator whose timer has expired receive Pairing Failed with reason 9. -/
theorem pairing_failed_after_failure_witness :
    (SmpSlaveConnection.receive sampleCrypto sampleLink sampleInputs [SMP_PAIRING_FAILED, 9] sampleSlaveFailed).2
      = [Action.emit (Event.pairingFail 9 true)]
    ∧ SmpMasterConnection.receive sampleCrypto sampleLink sampleInputs [SMP_PAIRING_FAILED, 9] sampleMasterTimedOut
      = (sampleMasterTimedOut, []) :=
  have h := pairing_failed_after_failure sampleCrypto sampleLink sampleInputs sampleMasterTimedOut
    sampleSlaveFailed 9 (Or.inr (by decide)) (Or.inl (by decide)) (by decide)
  ⟨by rw [h.1]; decide, by rw [h.2]; decide⟩

/-! ## PDUs of a wrong length (claim C25) -/

namespace SmpSlaveConnection

theorem slave_acceptsOpcode_le (s : SlaveState) (v : Nat) (h : acceptsOpcode s v = true) : v ≤ 14 := by
  by_contra hgt
  have h' : acceptsOpcode s v = false := by
    unfold acceptsOpcode
    rw [if_neg (by simp [SMP_PAIRING_REQUEST]; omega), if_neg (by simp [SMP_KEYPRESS_NOTIFICATION]; omega),
      if_neg (by
        simp [SMP_PAIRING_PUBLIC_KEY, SMP_PAIRING_CONFIRM, SMP_PAIRING_RANDOM, SMP_DHKEY_CHECK,
          SMP_ENCRYPTION_INFORMATION, SMP_MASTER_IDENTIFICATION, SMP_IDENTITY_INFORMATION,
          SMP_IDENTITY_ADDRESS_INFORMATION]
        omega)]
  rw [h'] at h
  cases h

theorem slave_invalid_length (c : Crypto) (k : Link) (i : Inputs) (data : List Nat) (s : SlaveState)
    (v n : Nat) (hv : byteAt data 0 = v) (hacc : acceptsOpcode s v = true) (hl : wireLength v = some n)
    (hn : data.length ≠ n) :
    onData c k i data s = pairingFailed s SmpErrors.INVALID_PARAMETERS := by
  have h14 := slave_acceptsOpcode_le s v hacc
  have hne : data ≠ [] := by
    intro he
    subst he
    simp [byteAt] at hv
    subst hv
    simp [acceptsOpcode, SMP_PAIRING_REQUEST, SMP_KEYPRESS_NOTIFICATION, SMP_PAIRING_PUBLIC_KEY,
      SMP_PAIRING_CONFIRM, SMP_PAIRING_RANDOM, SMP_DHKEY_CHECK, SMP_ENCRYPTION_INFORMATION,
      SMP_MASTER_IDENTIFICATION, SMP_IDENTITY_INFORMATION, SMP_IDENTITY_ADDRESS_INFORMATION] at hacc
  have hnt : s.state ≠ STATE_TIMEDOUT := by
    intro ht
    interval_cases v <;>
      simp [acceptsOpcode, notWaitingFor, ht, STATE_TIMEDOUT, STATE_IDLE, STATE_W4_PACKET,
        STATE_W4_PACKET_ENQUEUED, SMP_PAIRING_REQUEST, SMP_KEYPRESS_NOTIFICATION, SMP_PAIRING_PUBLIC_KEY,
        SMP_PAIRING_CONFIRM, SMP_PAIRING_RANDOM, SMP_DHKEY_CHECK, SMP_ENCRYPTION_INFORMATION,
        SMP_MASTER_IDENTIFICATION, SMP_IDENTITY_INFORMATION, SMP_IDENTITY_ADDRESS_INFORMATION] at hacc
  rw [onData, if_neg (by simp [hne, hnt])]
  simp only [hv]
  interval_cases v
  all_goals
    simp [acceptsOpcode, SMP_PAIRING_REQUEST, SMP_KEYPRESS_NOTIFICATION, SMP_PAIRING_PUBLIC_KEY,
      SMP_PAIRING_CONFIRM, SMP_PAIRING_RANDOM, SMP_DHKEY_CHECK, SMP_ENCRYPTION_INFORMATION,
      SMP_MASTER_IDENTIFICATION, SMP_IDENTITY_INFORMATION, SMP_IDENTITY_ADDRESS_INFORMATION] at hacc
  all_goals
    simp [wireLength, SMP_PAIRING_REQUEST, SMP_PAIRING_RESPONSE, SMP_KEYPRESS_NOTIFICATION,
      SMP_PAIRING_PUBLIC_KEY, SMP_PAIRING_CONFIRM, SMP_PAIRING_RANDOM, SMP_DHKEY_CHECK,
      SMP_ENCRYPTION_INFORMATION, SMP_MASTER_IDENTIFICATION, SMP_IDENTITY_INFORMATION,
      SMP_IDENTITY_ADDRESS_INFORMATION, SMP_PAIRING_FAILED, SMP_SECURITY_REQUEST] at hl
    subst hl
  all_goals
    simp [SMP_PAIRING_REQUEST, SMP_KEYPRESS_NOTIFICATION, SMP_PAIRING_PUBLIC_KEY,
      SMP_PAIRING_CONFIRM, SMP_PAIRING_RANDOM, SMP_DHKEY_CHECK, SMP_ENCRYPTION_INFORMATION,
      SMP_MASTER_IDENTIFICATION, SMP_IDENTITY_INFORMATION, SMP_IDENTITY_ADDRESS_INFORMATION,
      SMP_PAIRING_FAILED, onDataPairingRequest, onDataPairingConfirm, onDataPairingPublicKey,
      onDataPairingRandom, onDataDHKeyCheck, onDataEncryptionInformation, onDataMasterIdentification,
      onDataIdentityInformation, onDataIdentityAddressInformation, onDataKeypressNotification, hacc, hn]
  all_goals
    intro h1 h2
    exfalso
    tauto

end SmpSlaveConnection

namespace SmpMasterConnection

theorem master_acceptsOpcode_le (s : MasterState) (v : Nat) (h : acceptsOpcode s v = true) : v ≤ 14 := by
  by_contra hgt
  have h' : acceptsOpcode s v = false := by
    unfold acceptsOpcode
    rw [if_neg (by simp [SMP_SECURITY_REQUEST]; omega), if_neg (by simp [SMP_KEYPRESS_NOTIFICATION]; omega),
      if_neg (by
        simp [SMP_PAIRING_RESPONSE, SMP_PAIRING_PUBLIC_KEY, SMP_PAIRING_CONFIRM, SMP_PAIRING_RANDOM,
          SMP_DHKEY_CHECK, SMP_ENCRYPTION_INFORMATION, SMP_MASTER_IDENTIFICATION, SMP_IDENTITY_INFORMATION,
          SMP_IDENTITY_ADDRESS_INFORMATION]
        omega)]
  rw [h'] at h
  cases h

theorem master_invalid_length (c : Crypto) (k : Link) (i : Inputs) (data : List Nat) (s : MasterState)
    (v n : Nat) (hv : byteAt data 0 = v) (hacc : acceptsOpcode s v = true) (hl : wireLength v = some n)
    (hn : data.length ≠ n) :
    onData c k i data s = pairingFailed s SmpErrors.INVALID_PARAMETERS false := by
  have h14 := master_acceptsOpcode_le s v hacc
  have hne : data ≠ [] := by
    intro he
    subst he
    simp [byteAt] at hv
    subst hv
    simp [acceptsOpcode, SMP_PAIRING_RESPONSE, SMP_SECURITY_REQUEST, SMP_KEYPRESS_NOTIFICATION,
      SMP_PAIRING_PUBLIC_KEY, SMP_PAIRING_CONFIRM, SMP_PAIRING_RANDOM, SMP_DHKEY_CHECK,
      SMP_ENCRYPTION_INFORMATION, SMP_MASTER_IDENTIFICATION, SMP_IDENTITY_INFORMATION,
      SMP_IDENTITY_ADDRESS_INFORMATION] at hacc
  have hnt : s.state ≠ STATE_TIMEDOUT := by
    intro ht
    interval_cases v <;>
      simp [acceptsOpcode, notWaitingFor, ht, STATE_TIMEDOUT, STATE_IDLE, STATE_W4_PACKET,
        STATE_W4_PACKET_ENQUEUED, SMP_PAIRING_RESPONSE, SMP_SECURITY_REQUEST, SMP_KEYPRESS_NOTIFICATION,
        SMP_PAIRING_PUBLIC_KEY, SMP_PAIRING_CONFIRM, SMP_PAIRING_RANDOM, SMP_DHKEY_CHECK,
        SMP_ENCRYPTION_INFORMATION, SMP_MASTER_IDENTIFICATION, SMP_IDENTITY_INFORMATION,
        SMP_IDENTITY_ADDRESS_INFORMATION] at hacc
  rw [onData, if_neg (by simp [hne, hnt])]
  simp only [hv]
  interval_cases v
  all_goals
    simp [acceptsOpcode, SMP_PAIRING_RESPONSE, SMP_SECURITY_REQUEST, SMP_KEYPRESS_NOTIFICATION,
      SMP_PAIRING_PUBLIC_KEY, SMP_PAIRING_CONFIRM, SMP_PAIRING_RANDOM, SMP_DHKEY_CHECK,
      SMP_ENCRYPTION_INFORMATION, SMP_MASTER_IDENTIFICATION, SMP_IDENTITY_INFORMATION,
      SMP_IDENTITY_ADDRESS_INFORMATION] at hacc
  all_goals
    simp [wireLength, SMP_PAIRING_REQUEST, SMP_PAIRING_RESPONSE, SMP_KEYPRESS_NOTIFICATION,
      SMP_PAIRING_PUBLIC_KEY, SMP_PAIRING_CONFIRM, SMP_PAIRING_RANDOM, SMP_DHKEY_CHECK,
      SMP_ENCRYPTION_INFORMATION, SMP_MASTER_IDENTIFICATION, SMP_IDENTITY_INFORMATION,
      SMP_IDENTITY_ADDRESS_INFORMATION, SMP_PAIRING_FAILED, SMP_SECURITY_REQUEST] at hl
    subst hl
  all_goals
    simp [SMP_PAIRING_RESPONSE, SMP_SECURITY_REQUEST, SMP_KEYPRESS_NOTIFICATION, SMP_PAIRING_PUBLIC_KEY,
      SMP_PAIRING_CONFIRM, SMP_PAIRING_RANDOM, SMP_DHKEY_CHECK, SMP_ENCRYPTION_INFORMATION,
      SMP_MASTER_IDENTIFICATION, SMP_IDENTITY_INFORMATION, SMP_IDENTITY_ADDRESS_INFORMATION,
      SMP_PAIRING_FAILED, onDataSecurityRequest, onDataPairingResponse, onDataPairingConfirm,
      onDataPairingPublicKey, onDataPairingRandom, onDataDHKeyCheck, onDataEncryptionInformation,
      onDataMasterIdentification, onDataIdentityInformation, onDataIdentityAddressInformation,
      onDataKeypressNotification, hacc, hn]
  all_goals
    intro h1
    exfalso
    tauto

end SmpMasterConnection

/-- C25 as stated fails: a PDU of a wrong length that arrives in a state in which the
session does not handle its opcode is ignored (an Idle responder and an Idle initiator
receive a 3-byte Pairing Confirm), a Pairing Failed PDU of a wrong length is ignored by
both sessions while they pair, and a PDU whose opcode the session has no case for is
answered with CommandNotSupported (0x07), not InvalidParameters (the responder receives a
1-byte Security Request). -/
theorem invalid_length_not_always_failed :
    SmpSlaveConnection.receive sampleCrypto sampleLink sampleInputs [SMP_PAIRING_CONFIRM, 0, 0]
        (SmpSlaveConnection.init none) = (SmpSlaveConnection.init none, [])
    ∧ SmpMasterConnection.receive sampleCrypto sampleLink sampleInputs [SMP_PAIRING_CONFIRM, 0, 0]
        (SmpMasterConnection.init none) = (SmpMasterConnection.init none, [])
    ∧ SmpSlaveConnection.receive sampleCrypto sampleLink sampleInputs [SMP_PAIRING_FAILED, 8, 8]
        sampleSlavePairing = (sampleSlavePairing, [])
    ∧ SmpMasterConnection.receive sampleCrypto sampleLink sampleInputs [SMP_PAIRING_FAILED, 8, 8]
        sampleMasterAwaitingResponse = (sampleMasterAwaitingResponse, [])
    ∧ (SmpSlaveConnection.receive sampleCrypto sampleLink sampleInputs [SMP_SECURITY_REQUEST]
        sampleSlavePairing).2
      = [Action.sendData [SMP_PAIRING_FAILED, SmpErrors.COMMAND_NOT_SUPPORTED] (some Callback.failedMsgSent) none,
         Action.emit (Event.pairingFail SmpErrors.COMMAND_NOT_SUPPORTED false)] := by
  decide

/-- C25, amended: in both sessions a received PDU whose opcode the session handles in its
present state (every opcode with a case in the data handler other than Pairing Failed, in a
state that passes the test that opens the case) and whose length differs from the length
the wire format defines for the opcode makes the session run `pairingFailed` with
InvalidParameters: it is Idle afterwards, and while it can send its actions are the Pairing
Failed PDU `[0x05, 0x0A]`, left out while an earlier Pairing Failed still awaits its
sent-acknowledgement, and the pairing-fail event with reason 0x0A and `false` (for the
initiator while no encryption with a stored key is outstanding).  A Pairing Failed PDU whose
length is not 2 is ignored by both sessions in every state. -/
theorem invalid_length_fails_pairing (c : Crypto) (k : Link) (i : Inputs) (dm ds : List Nat)
    (m : MasterState) (s : SlaveState) (nm ns : Nat)
    (hmacc : SmpMasterConnection.acceptsOpcode m (byteAt dm 0) = true)
    (hmlen : wireLength (byteAt dm 0) = some nm) (hmne : dm.length ≠ nm)
    (hsacc : SmpSlaveConnection.acceptsOpcode s (byteAt ds 0) = true)
    (hslen : wireLength (byteAt ds 0) = some ns) (hsne : ds.length ≠ ns) :
    SmpSlaveConnection.onData c k i ds s = SmpSlaveConnection.pairingFailed s SmpErrors.INVALID_PARAMETERS
    ∧ (SmpSlaveConnection.onData c k i ds s).state = STATE_IDLE
    ∧ (s.sendDisabled = false →
        (SmpSlaveConnection.onData c k i ds s).log
          = s.log ++ localFailure s.hasOutgoingFailedMsg SmpErrors.INVALID_PARAMETERS)
    ∧ SmpMasterConnection.onData c k i dm m
        = SmpMasterConnection.pairingFailed m SmpErrors.INVALID_PARAMETERS false
    ∧ (SmpMasterConnection.onData c k i dm m).state = STATE_IDLE
    ∧ (m.sendDisabled = false → m.encryptionProcessWithLtk = false →
        (SmpMasterConnection.onData c k i dm m).log
          = m.log ++ localFailure m.hasOutgoingFailedMsg SmpErrors.INVALID_PARAMETERS)
    ∧ (∀ (data : List Nat) (m' : MasterState) (s' : SlaveState),
        byteAt data 0 = SMP_PAIRING_FAILED → data.length ≠ 2 →
        SmpSlaveConnection.onData c k i data s' = s' ∧ SmpMasterConnection.onData c k i data m' = m') := by
  have hs := SmpSlaveConnection.slave_invalid_length c k i ds s _ ns rfl hsacc hslen hsne
  have hm := SmpMasterConnection.master_invalid_length c k i dm m _ nm rfl hmacc hmlen hmne
  refine ⟨hs, ?_, ?_, hm, ?_, ?_, ?_⟩
  · rw [hs]
    exact SmpSlaveConnection.slave_pairingFailed_state _ _
  · intro hd
    rw [hs]
    exact SmpSlaveConnection.slave_pairingFailed_log _ _ hd
  · rw [hm]
    exact SmpMasterConnection.master_pairingFailed_state _ _ _
  · intro hd hf
    rw [hm]
    exact SmpMasterConnection.master_pairingFailed_log _ _ hd hf
  · intro data m' s' hop hlen
    refine ⟨?_, ?_⟩
    · rw [SmpSlaveConnection.onData]
      by_cases h0 : (data.length == 0 || s'.state == STATE_TIMEDOUT) = true
      · rw [if_pos h0]
      · rw [if_neg h0]
        simp only [hop]
        simp [SMP_PAIRING_FAILED, SMP_PAIRING_REQUEST, SMP_KEYPRESS_NOTIFICATION, SMP_PAIRING_PUBLIC_KEY,
          SMP_PAIRING_CONFIRM, SMP_PAIRING_RANDOM, SMP_DHKEY_CHECK, SMP_ENCRYPTION_INFORMATION,
          SMP_MASTER_IDENTIFICATION, SMP_IDENTITY_INFORMATION, SMP_IDENTITY_ADDRESS_INFORMATION,
          SmpSlaveConnection.onDataPairingFailed, hlen]
    · rw [SmpMasterConnection.onData]
      by_cases h0 : (data.length == 0 || m'.state == STATE_TIMEDOUT) = true
      · rw [if_pos h0]
      · rw [if_neg h0]
        simp only [hop]
        simp [SMP_PAIRING_FAILED, SMP_PAIRING_RESPONSE, SMP_SECURITY_REQUEST, SMP_KEYPRESS_NOTIFICATION,
          SMP_PAIRING_PUBLIC_KEY, SMP_PAIRING_CONFIRM, SMP_PAIRING_RANDOM, SMP_DHKEY_CHECK,
          SMP_ENCRYPTION_INFORMATION, SMP_MASTER_IDENTIFICATION, SMP_IDENTITY_INFORMATION,
          SMP_IDENTITY_ADDRESS_INFORMATION, SmpMasterConnection.onDataPairingFailed, hlen]

/-- Witness of `invalid_length_fails_pairing`: the initiator that waits for the Pairing
Response receives a 6-byte Pairing Response, the responder that waits for the public key
receives a 3-byte Public Key PDU. -/
theorem invalid_length_fails_pairing_witness :
    (SmpMasterConnection.receive sampleCrypto sampleLink sampleInputs [SMP_PAIRING_RESPONSE, 3, 0, 1, 16, 0]
        sampleMasterAwaitingResponse).2
      = [Action.sendData [SMP_PAIRING_FAILED, SmpErrors.INVALID_PARAMETERS] (some Callback.failedMsgSent) none,
         Action.emit (Event.pairingFail SmpErrors.INVALID_PARAMETERS false)]
    ∧ (SmpSlaveConnection.onData sampleCrypto sampleLink sampleInputs [SMP_PAIRING_PUBLIC_KEY, 0, 0]
        (SmpSlaveConnection.acknowledgeLast sampleSlaveAwaitingKey)).log
      = (SmpSlaveConnection.acknowledgeLast sampleSlaveAwaitingKey).log
        ++ [Action.sendData [SMP_PAIRING_FAILED, SmpErrors.INVALID_PARAMETERS] (some Callback.failedMsgSent) none,
            Action.emit (Event.pairingFail SmpErrors.INVALID_PARAMETERS false)] :=
  have h := invalid_length_fails_pairing sampleCrypto sampleLink sampleInputs
    [SMP_PAIRING_RESPONSE, 3, 0, 1, 16, 0] [SMP_PAIRING_PUBLIC_KEY, 0, 0] sampleMasterAwaitingResponse
    (SmpSlaveConnection.acknowledgeLast sampleSlaveAwaitingKey) 7 65 (by decide) (by decide) (by decide)
    (by decide) (by decide) (by decide)
  ⟨by decide, by rw [h.2.2.1 (by decide)]; decide⟩

theorem slave_pairingDone_sentPdus (s : SlaveState) :
    sentPdus (SmpSlaveConnection.pairingDone s).log = sentPdus s.log := by
  unfold SmpSlaveConnection.pairingDone
  lift_lets
  extract_lets s0 s1
  have h1 : sentPdus s1.log = sentPdus s.log := rfl
  clear_value s1
  split
  · simp [SmpSlaveConnection.act, sentPdus_append, sentPdus, h1]
  · lift_lets
    extract_lets sc res s2 s3 s4 s5
    have h2 : sentPdus s2.log = sentPdus s.log := by
      simp only [s2]
      split
      · split
        · simp [SmpSlaveConnection.act, sentPdus_append, sentPdus, h1]
        · exact h1
      · exact h1
    clear_value s2
    have h4 : sentPdus s4.log = sentPdus s.log := by
      simp only [s4]
      split
      · simp [s3, SmpSlaveConnection.act, sentPdus_append, sentPdus, h2]
      · exact h2
    clear_value s4
    have h5 : sentPdus s5.log = sentPdus s.log := by
      simp only [s5]
      split
      · exact h4
      · exact h4
    clear_value s5
    simp [SmpSlaveConnection.emit, SmpSlaveConnection.act, sentPdus_append, sentPdus, h5]

theorem zeroKeyTail_length (r : List Nat) (m : Nat) : (zeroKeyTail r m).length = r.length := by
  simp [zeroKeyTail]

theorem byteAt_zeroKeyTail (r : List Nat) (m j : Nat) (h : m ≤ j) (hj : j < 16) :
    byteAt (zeroKeyTail r m) j = 0 := by
  unfold byteAt zeroKeyTail
  by_cases hl : j < r.length
  · rw [List.getD_eq_getElem _ _ (by simpa using hl)]
    simp [List.getElem_enum, h, hj]
  · rw [List.getD_eq_default _ _ (by simpa using hl)]

/-- C31: when the controller reports the encryption of a pairing as started while the
responder waits for it, the PDUs the responder hands to the transport in that step are
exactly Encryption Information (the fresh LTK) and Master Identification (EDIV and Rand)
if Secure Connections is off and the combined responder `encKey` bit is set, followed by
Identity Information (an all-zero IRK) and Identity Address Information (own address type
and address) if the combined responder `idKey` bit is set; and every byte of the
distributed LTK at an index from `maxKeySize` on is zero. -/
theorem responder_key_distribution_order (k : Link) (i : Inputs) (s : SlaveState) (pf : PairingFeatures)
    (hst : s.state = STATE_W4_ENCRYPTION_STARTED) (hpf : s.pairingFeatures = some pf)
    (hsend : s.sendDisabled = false) (hra : k.ra.length = 6) :
    sentPdus (SmpSlaveConnection.onLtkReplyDoneAfterPairing k i s).log
      = sentPdus s.log
        ++ (if !pf.sc && pf.rspKeyDistr.encKey then
              [[SMP_ENCRYPTION_INFORMATION] ++ slice (zeroKeyTail i.random26 pf.maxKeySize) 0 16,
               [SMP_MASTER_IDENTIFICATION] ++ (zeroKeyTail i.random26 pf.maxKeySize).drop 16]
            else [])
        ++ (if pf.rspKeyDistr.idKey then
              [[SMP_IDENTITY_INFORMATION] ++ List.replicate 16 0,
               [SMP_IDENTITY_ADDRESS_INFORMATION, k.rat % 256] ++ k.ra]
            else [])
    ∧ ∀ j, pf.maxKeySize ≤ j → byteAt (slice (zeroKeyTail i.random26 pf.maxKeySize) 0 16) j = 0 := by
  constructor
  · have hcopy : copyInto k.ra ([SMP_IDENTITY_ADDRESS_INFORMATION, k.rat % 256] ++ bufferAlloc 6) 2
        = [SMP_IDENTITY_ADDRESS_INFORMATION, k.rat % 256] ++ k.ra := by
      simp [copyInto, bufferAlloc, hra]
    have hne : STATE_W4_ENCRYPTION_STARTED ≠ STATE_TIMEDOUT := by decide
    unfold SmpSlaveConnection.onLtkReplyDoneAfterPairing
    simp only [hpf, hst, hcopy]
    rcases pf with ⟨io, bf, mitm, sc, kp, mks, ⟨ie, ii⟩, ⟨re, ri⟩⟩
    cases sc <;> cases ie <;> cases ii <;> cases re <;> cases ri <;>
      simp [SmpSlaveConnection.sendPacket, SmpSlaveConnection.sendDataFn, SmpSlaveConnection.restartTimeout,
        SmpSlaveConnection.timeoutClearFn, SmpSlaveConnection.encryptedAfterPairing, SmpSlaveConnection.emit,
        SmpSlaveConnection.act, hsend, sentPdus_append, sentPdus, hst, hne, bufferFrom, bufferAlloc,
        slave_pairingDone_sentPdus, SMP_ENCRYPTION_INFORMATION, SMP_MASTER_IDENTIFICATION,
        SMP_IDENTITY_INFORMATION, SMP_IDENTITY_ADDRESS_INFORMATION]
  · intro j hj
    unfold byteAt slice
    by_cases h16 : j < 16
    · have := byteAt_zeroKeyTail i.random26 pf.maxKeySize j hj h16
      unfold byteAt at this
      simp only [List.drop_zero]
      rw [List.getD_eq_getElem?_getD, List.getElem?_take, if_pos h16, ← List.getD_eq_getElem?_getD]
      exact this
    · rw [List.getD_eq_default]
      simp only [List.drop_zero, List.length_take]
      omega

/-- Witness of `responder_key_distribution_order`: the sample responder (legacy pairing,
key size 10, both responder key bits set) sends Encryption Information with a key whose
last six bytes are zero, Master Identification, Identity Information with the zero IRK, and
Identity Address Information with its own address, in this order. -/
theorem responder_key_distribution_order_witness :
    sampleSlaveEncryptionStarted.state = STATE_W4_ENCRYPTION_STARTED
    ∧ sampleSlaveEncryptionStarted.sendDisabled = false
    ∧ sentPdus (SmpSlaveConnection.onLtkReplyDoneAfterPairing sampleLink sampleInputs
        sampleSlaveEncryptionStarted).log
      = [[6, 9, 9, 9, 9, 9, 9, 9, 9, 9, 9, 0, 0, 0, 0, 0, 0], [7, 9, 9, 9, 9, 9, 9, 9, 9, 9, 9],
         [8, 0, 0, 0, 0, 0, 0, 0, 0, 0, 0, 0, 0, 0, 0, 0, 0], [9, 1, 6, 5, 4, 3, 2, 1]] :=
  have h := responder_key_distribution_order sampleLink sampleInputs sampleSlaveEncryptionStarted
    { sampleLegacyFeatures with rspKeyDistr := { encKey := true, idKey := true } }
    (by decide) (by decide) (by decide) (by decide)
  ⟨by decide, by decide, by rw [h.1]; decide⟩

theorem master_pairingDone_sentPdus (s : MasterState) :
    sentPdus (SmpMasterConnection.pairingDone s).log = sentPdus s.log := by
  unfold SmpMasterConnection.pairingDone
  lift_lets
  extract_lets s0 s1
  have h1 : sentPdus s1.log = sentPdus s.log := rfl
  clear_value s1
  split
  · simp [SmpMasterConnection.act, sentPdus_append, sentPdus, h1]
  · lift_lets
    extract_lets sc res s2 s3 s4 s5
    have h2 : sentPdus s2.log = sentPdus s.log := by
      simp only [s2]
      split
      · split
        · simp [SmpMasterConnection.act, sentPdus_append, sentPdus, h1]
        · exact h1
      · exact h1
    clear_value s2
    have h4 : sentPdus s4.log = sentPdus s.log := by
      simp only [s4]
      split
      · simp [s3, SmpMasterConnection.act, sentPdus_append, sentPdus, h2]
      · exact h2
    clear_value s4
    have h5 : sentPdus s5.log = sentPdus s.log := by
      simp only [s5]
      split
      · exact h4
      · exact h4
    clear_value s5
    simp [SmpMasterConnection.emit, SmpMasterConnection.act, sentPdus_append, sentPdus, h5]

theorem master_startDistributeOwnKeys_sentPdus (k : Link) (i : Inputs) (s : MasterState) (pf : PairingFeatures)
    (hpf : s.pairingFeatures = some pf) (hsend : s.sendDisabled = false) :
    sentPdus (SmpMasterConnection.startDistributeOwnKeys k i s).log
      = sentPdus s.log ++ SmpMasterConnection.ownKeyPdus k i pf := by
  unfold SmpMasterConnection.startDistributeOwnKeys SmpMasterConnection.ownKeyPdus
  simp only [hpf]
  rcases pf with ⟨io, bf, mitm, sc, kp, mks, ⟨ie, ii⟩, ⟨re, ri⟩⟩
  cases sc <;> cases ie <;> cases ii <;>
    simp [SmpMasterConnection.sendDataFn, SmpMasterConnection.restartTimeout,
      SmpMasterConnection.timeoutClearFn, SmpMasterConnection.act, hsend, sentPdus_append, sentPdus,
      bufferFrom, master_pairingDone_sentPdus, SMP_ENCRYPTION_INFORMATION, SMP_MASTER_IDENTIFICATION,
      SMP_IDENTITY_INFORMATION, SMP_IDENTITY_ADDRESS_INFORMATION]

/-- C32, as stated, fails: the sample initiator has paired with both encryption-key bits
set in the combined features; when the start-encryption command succeeds it sends no PDU
and waits for the Encryption Information of the responder, and it sends its own
Encryption Information and Master Identification only after the Master Identification of
the responder has arrived. -/
theorem initiator_keys_not_sent_first :
    sampleMasterEncryptingBothKeys.state = STATE_W4_ENCRYPTION_STARTED
    ∧ sampleMasterEncryptingBothKeys.pairingFeatures.map (fun pf => (pf.sc, pf.initKeyDistr, pf.rspKeyDistr))
        = some (false, { encKey := true, idKey := false }, { encKey := true, idKey := false })
    ∧ sentPdus (SmpMasterConnection.onEncryptionStarted sampleLink sampleInputs EncryptionStart.afterPairing 0 true
        sampleMasterEncryptingBothKeys).log = sentPdus sampleMasterEncryptingBothKeys.log
    ∧ (SmpMasterConnection.onEncryptionStarted sampleLink sampleInputs EncryptionStart.afterPairing 0 true
        sampleMasterEncryptingBothKeys).state = STATE_W4_PACKET
    ∧ (SmpMasterConnection.onEncryptionStarted sampleLink sampleInputs EncryptionStart.afterPairing 0 true
        sampleMasterEncryptingBothKeys).packetWaitOpcode = some SMP_ENCRYPTION_INFORMATION
    ∧ sentPdus (SmpMasterConnection.onData sampleCrypto sampleLink sampleInputs
        ([SMP_MASTER_IDENTIFICATION] ++ List.replicate 10 4)
        (SmpMasterConnection.onData sampleCrypto sampleLink sampleInputs
          ([SMP_ENCRYPTION_INFORMATION] ++ List.replicate 16 3)
          (SmpMasterConnection.onEncryptionStarted sampleLink sampleInputs EncryptionStart.afterPairing 0 true
            sampleMasterEncryptingBothKeys))).log
      = sentPdus sampleMasterEncryptingBothKeys.log
        ++ [[6, 9, 9, 9, 9, 9, 9, 9, 9, 9, 9, 9, 9, 9, 9, 9, 9], [7, 9, 9, 9, 9, 9, 9, 9, 9, 9, 9]] := by
  decide

theorem master_onData_encryptionInformation (c : Crypto) (k : Link) (i : Inputs) (v : List Nat)
    (s : MasterState) (h : s.state ≠ STATE_TIMEDOUT) :
    SmpMasterConnection.onData c k i (SMP_ENCRYPTION_INFORMATION :: v) s
      = SmpMasterConnection.onDataEncryptionInformation (SMP_ENCRYPTION_INFORMATION :: v) s := by
  rw [SmpMasterConnection.onData, if_neg (by simp [h])]
  show ite _ _ _ = _
  have hop : byteAt (SMP_ENCRYPTION_INFORMATION :: v) 0 = 6 := rfl
  rw [hop, if_neg (by decide), if_neg (by decide), if_neg (by decide), if_neg (by decide), if_neg (by decide),
    if_neg (by decide), if_neg (by decide), if_pos (by decide)]

theorem master_onData_masterIdentification (c : Crypto) (k : Link) (i : Inputs) (v : List Nat)
    (s : MasterState) (h : s.state ≠ STATE_TIMEDOUT) :
    SmpMasterConnection.onData c k i (SMP_MASTER_IDENTIFICATION :: v) s
      = SmpMasterConnection.onDataMasterIdentification k i (SMP_MASTER_IDENTIFICATION :: v) s := by
  rw [SmpMasterConnection.onData, if_neg (by simp [h])]
  show ite _ _ _ = _
  have hop : byteAt (SMP_MASTER_IDENTIFICATION :: v) 0 = 7 := rfl
  rw [hop, if_neg (by decide), if_neg (by decide), if_neg (by decide), if_neg (by decide), if_neg (by decide),
    if_neg (by decide), if_neg (by decide), if_neg (by decide), if_pos (by decide)]

theorem master_onData_identityInformation (c : Crypto) (k : Link) (i : Inputs) (v : List Nat)
    (s : MasterState) (h : s.state ≠ STATE_TIMEDOUT) :
    SmpMasterConnection.onData c k i (SMP_IDENTITY_INFORMATION :: v) s
      = SmpMasterConnection.onDataIdentityInformation (SMP_IDENTITY_INFORMATION :: v) s := by
  rw [SmpMasterConnection.onData, if_neg (by simp [h])]
  show ite _ _ _ = _
  have hop : byteAt (SMP_IDENTITY_INFORMATION :: v) 0 = 8 := rfl
  rw [hop, if_neg (by decide), if_neg (by decide), if_neg (by decide), if_neg (by decide), if_neg (by decide),
    if_neg (by decide), if_neg (by decide), if_neg (by decide), if_neg (by decide), if_pos (by decide)]

theorem master_onData_identityAddressInformation (c : Crypto) (k : Link) (i : Inputs) (v : List Nat)
    (s : MasterState) (h : s.state ≠ STATE_TIMEDOUT) :
    SmpMasterConnection.onData c k i (SMP_IDENTITY_ADDRESS_INFORMATION :: v) s
      = SmpMasterConnection.onDataIdentityAddressInformation k i (SMP_IDENTITY_ADDRESS_INFORMATION :: v) s := by
  rw [SmpMasterConnection.onData, if_neg (by simp [h])]
  show ite _ _ _ = _
  have hop : byteAt (SMP_IDENTITY_ADDRESS_INFORMATION :: v) 0 = 9 := rfl
  rw [hop, if_neg (by decide), if_neg (by decide), if_neg (by decide), if_neg (by decide), if_neg (by decide),
    if_neg (by decide), if_neg (by decide), if_neg (by decide), if_neg (by decide), if_neg (by decide),
    if_pos (by decide)]

/-- C32, amended: when the start-encryption command issued after a pairing succeeds, the
initiator first waits for the key PDUs of the responder if the combined features promise
any (Encryption Information if Secure Connections is off and the responder `encKey` bit is
set, else Identity Information if the responder `idKey` bit is set) and sends nothing;
while responder key PDUs are outstanding each one received only moves the wait to the
next; the initiator sends its own key PDUs, as the combined initiator bits select them,
when the last promised responder PDU has arrived, or at once when none is promised. -/
theorem initiator_key_distribution_order (c : Crypto) (k : Link) (i : Inputs) (s : MasterState)
    (pf : PairingFeatures) (hpf : s.pairingFeatures = some pf) (hsend : s.sendDisabled = false) :
    (s.state = STATE_W4_ENCRYPTION_STARTED →
      if !pf.sc && pf.rspKeyDistr.encKey then
        SmpMasterConnection.awaitsResponderKey s
          (SmpMasterConnection.onEncryptionStarted k i EncryptionStart.afterPairing 0 true s)
          SMP_ENCRYPTION_INFORMATION
      else if pf.rspKeyDistr.idKey then
        SmpMasterConnection.awaitsResponderKey s
          (SmpMasterConnection.onEncryptionStarted k i EncryptionStart.afterPairing 0 true s)
          SMP_IDENTITY_INFORMATION
      else
        sentPdus (SmpMasterConnection.onEncryptionStarted k i EncryptionStart.afterPairing 0 true s).log
          = sentPdus s.log ++ SmpMasterConnection.ownKeyPdus k i pf)
    ∧ (∀ v : List Nat, s.state = STATE_W4_PACKET → s.packetWaitOpcode = some SMP_ENCRYPTION_INFORMATION →
        v.length = 16 →
        SmpMasterConnection.awaitsResponderKey s (SmpMasterConnection.onData c k i (SMP_ENCRYPTION_INFORMATION :: v) s)
          SMP_MASTER_IDENTIFICATION)
    ∧ (∀ v : List Nat, s.state = STATE_W4_PACKET → s.packetWaitOpcode = some SMP_MASTER_IDENTIFICATION →
        v.length = 10 →
        if pf.rspKeyDistr.idKey then
          SmpMasterConnection.awaitsResponderKey s
            (SmpMasterConnection.onData c k i (SMP_MASTER_IDENTIFICATION :: v) s) SMP_IDENTITY_INFORMATION
        else
          sentPdus (SmpMasterConnection.onData c k i (SMP_MASTER_IDENTIFICATION :: v) s).log
            = sentPdus s.log ++ SmpMasterConnection.ownKeyPdus k i pf)
    ∧ (∀ v : List Nat, s.state = STATE_W4_PACKET → s.packetWaitOpcode = some SMP_IDENTITY_INFORMATION →
        v.length = 16 →
        SmpMasterConnection.awaitsResponderKey s (SmpMasterConnection.onData c k i (SMP_IDENTITY_INFORMATION :: v) s)
          SMP_IDENTITY_ADDRESS_INFORMATION)
    ∧ (∀ v : List Nat, s.state = STATE_W4_PACKET → s.packetWaitOpcode = some SMP_IDENTITY_ADDRESS_INFORMATION →
        v.length = 7 →
        sentPdus (SmpMasterConnection.onData c k i (SMP_IDENTITY_ADDRESS_INFORMATION :: v) s).log
          = sentPdus s.log ++ SmpMasterConnection.ownKeyPdus k i pf) := by
  have hne : STATE_W4_PACKET ≠ STATE_TIMEDOUT := by decide
  refine ⟨?_, ?_, ?_, ?_, ?_⟩
  · intro hst
    simp only [SmpMasterConnection.onEncryptionStarted, SmpMasterConnection.onEncryptionStartedAfterPairing, hpf]
    by_cases h1 : (!pf.sc && pf.rspKeyDistr.encKey) = true
    · simp [h1, hst, SmpMasterConnection.awaitsResponderKey, SmpMasterConnection.emit, SmpMasterConnection.act,
        sentPdus_append, sentPdus, hpf]
    · by_cases h2 : pf.rspKeyDistr.idKey = true
      · simp [h1, h2, hst, SmpMasterConnection.awaitsResponderKey, SmpMasterConnection.emit,
          SmpMasterConnection.act, sentPdus_append, sentPdus, hpf]
      · rw [if_neg h1, if_neg h2]
        simp only [Bool.and_self, Bool.not_true, Bool.and_false, Bool.false_eq_true, ↓reduceIte,
          SmpMasterConnection.emit, SmpMasterConnection.act, hst, beq_self_eq_true, h1, h2]
        refine (master_startDistributeOwnKeys_sentPdus k i _ pf ?_ ?_).trans ?_
        · rfl
        · exact hsend
        · simp [sentPdus_append, sentPdus]
  · intro v hst hw hv
    rw [master_onData_encryptionInformation c k i v s (by rw [hst]; exact hne)]
    simp [SmpMasterConnection.onDataEncryptionInformation, SmpMasterConnection.notWaitingFor, hst, hw, hv,
      SmpMasterConnection.awaitsResponderKey]
  · intro v hst hw hv
    rw [master_onData_masterIdentification c k i v s (by rw [hst]; exact hne)]
    by_cases h2 : pf.rspKeyDistr.idKey = true
    · rw [if_pos h2]
      simp [SmpMasterConnection.onDataMasterIdentification, SmpMasterConnection.notWaitingFor, hst, hw, hv,
        SmpMasterConnection.awaitsResponderKey, hpf, h2]
    · rw [if_neg h2]
      simp only [SmpMasterConnection.onDataMasterIdentification, SmpMasterConnection.notWaitingFor, hst, hw, hv,
        hpf, h2, List.length_cons]
      simp only [bne_self_eq_false, Bool.or_self, Bool.false_eq_true, ↓reduceIte]
      exact master_startDistributeOwnKeys_sentPdus k i _ pf rfl hsend
  · intro v hst hw hv
    rw [master_onData_identityInformation c k i v s (by rw [hst]; exact hne)]
    simp [SmpMasterConnection.onDataIdentityInformation, SmpMasterConnection.notWaitingFor, hst, hw, hv,
      SmpMasterConnection.awaitsResponderKey]
  · intro v hst hw hv
    rw [master_onData_identityAddressInformation c k i v s (by rw [hst]; exact hne)]
    simp only [SmpMasterConnection.onDataIdentityAddressInformation, SmpMasterConnection.notWaitingFor, hst, hw,
      hv, List.length_cons]
    simp only [bne_self_eq_false, Bool.or_self, Bool.false_eq_true, ↓reduceIte]
    exact master_startDistributeOwnKeys_sentPdus k i _ pf hpf hsend

/-- Witness of `initiator_key_distribution_order`: the sample initiator, whose combined
features promise the encryption key of the responder, sends nothing when the
start-encryption command succeeds and waits for Encryption Information. -/
theorem initiator_key_distribution_order_witness :
    sampleMasterEncryptingBothKeys.sendDisabled = false
    ∧ sampleMasterEncryptingBothKeys.state = STATE_W4_ENCRYPTION_STARTED
    ∧ SmpMasterConnection.awaitsResponderKey sampleMasterEncryptingBothKeys
        (SmpMasterConnection.onEncryptionStarted sampleLink sampleInputs EncryptionStart.afterPairing 0 true
          sampleMasterEncryptingBothKeys) SMP_ENCRYPTION_INFORMATION := by
  have h := (initiator_key_distribution_order sampleCrypto sampleLink sampleInputs sampleMasterEncryptingBothKeys
    { ioCap := 3, bondingFlags := 1, mitm := false, sc := false, keypress := false, maxKeySize := 16,
      initKeyDistr := { encKey := true, idKey := false }, rspKeyDistr := { encKey := true, idKey := false } }
    (by decide) (by decide)).1 (by decide)
  rw [if_pos (by decide)] at h
  exact ⟨by decide, by decide, h⟩

/-- The range test of `sendKeypressNotification` in both sessions: a value that is not an
integer, is negative or exceeds 5 makes the method throw, and nothing is sent. -/
theorem keypress_notification_range_test (m : MasterState) (s : SlaveState) (notificationType : Option Int)
    (h : ∀ v, notificationType = some v → v < 0 ∨ 5 < v) :
    SmpMasterConnection.sendKeypressNotification notificationType m = SmpMasterConnection.act m Action.throwError
    ∧ SmpSlaveConnection.sendKeypressNotification notificationType s
        = SmpSlaveConnection.act s Action.throwError := by
  cases notificationType with
  | none => exact ⟨rfl, rfl⟩
  | some v =>
    have hv := h v rfl
    have hd : (decide (v < 0) || decide (v > 5)) = true := by
      rcases hv with hv | hv <;> simp [hv]
    simp only [SmpMasterConnection.sendKeypressNotification, SmpSlaveConnection.sendKeypressNotification, hd,
      if_true, and_self]

/-- C33 fails in the code: the range test of `sendKeypressNotification` is
`notificationType > 5`, so that the value 5, which is not between 0 and 4, is accepted.
On the sample sessions, whose user is asked for the passkey with keypress notifications
negotiated, the call with 5 throws nothing and sends the PDU `[0x0e, 5]`, in the initiator
and in the responder. -/
theorem keypress_notification_five_accepted :
    (SmpMasterConnection.sendKeypressNotification (some 5) sampleMasterEnteringPasskey).log
      = sampleMasterEnteringPasskey.log ++ [Action.sendData [SMP_KEYPRESS_NOTIFICATION, 5] none none]
    ∧ (SmpSlaveConnection.sendKeypressNotification (some 5) sampleSlaveEnteringPasskey).log
      = sampleSlaveEnteringPasskey.log ++ [Action.sendData [SMP_KEYPRESS_NOTIFICATION, 5] none none]
    ∧ Action.throwError ∉ (SmpMasterConnection.sendKeypressNotification (some 5) sampleMasterEnteringPasskey).log
    ∧ Action.throwError ∉ (SmpSlaveConnection.sendKeypressNotification (some 5) sampleSlaveEnteringPasskey).log := by
  decide

/-- No call of `addFlags` changes `hasFlags`, and on a builder whose `hasFlags` is false a
call fails only for lack of room: with at most 28 bytes of data it appends the three bytes
of the flags item. -/
theorem addFlags_keeps_hasFlags (flags : List String) (b b' : AdvertisingDataBuilder)
    (h : AdvertisingDataBuilder.addFlags flags b = Except.ok b') :
    b'.hasFlags = false
    ∧ b'.data = b.data ++ [2, 1, AdvertisingDataBuilder.flagsByte flags % 256]
    ∧ ∀ flags2, b'.data.length ≤ 28 →
        AdvertisingDataBuilder.addFlags flags2 b'
          = Except.ok { b' with data := b'.data ++ [2, 1, AdvertisingDataBuilder.flagsByte flags2 % 256] } := by
  unfold AdvertisingDataBuilder.addFlags at h
  dsimp only at h
  by_cases hf : b.hasFlags = true
  · simp [hf] at h
  · rw [if_neg hf] at h
    unfold AdvertisingDataBuilder.addData at h
    split at h
    · simp at h
    · injection h with h
      subst h
      have hf' : b.hasFlags = false := by simpa using hf
      refine ⟨hf', by simp [bufferFrom], ?_⟩
      intro flags2 hlen
      have hlen' : b.data.length + 3 ≤ 28 := by simpa [bufferFrom] using hlen
      unfold AdvertisingDataBuilder.addFlags AdvertisingDataBuilder.addData
      dsimp only
      rw [if_neg (by simp [hf'])]
      rw [if_neg (by simp [bufferFrom]; omega)]
      simp [bufferFrom]

/-- C34 fails in the code: `addFlags` tests `hasFlags` but nothing ever sets it.  On a
fresh builder a call of `addFlags` succeeds, and a second call on the same builder succeeds
as well: it raises no error and appends a second flags item, so that the built data
changes from `[2, 1, 2]` to `[2, 1, 2, 2, 1, 4]`. -/
theorem addFlags_twice_succeeds :
    AdvertisingDataBuilder.addFlags ["leGeneralDiscoverableMode"] AdvertisingDataBuilder.init
      = Except.ok { data := [2, 1, 2], hasFlags := false }
    ∧ AdvertisingDataBuilder.addFlags ["brEdrNotSupported"] { data := [2, 1, 2], hasFlags := false }
      = Except.ok { data := [2, 1, 2, 2, 1, 4], hasFlags := false }
    ∧ AdvertisingDataBuilder.build { data := [2, 1, 2], hasFlags := false } = [2, 1, 2]
    ∧ AdvertisingDataBuilder.build { data := [2, 1, 2, 2, 1, 4], hasFlags := false } = [2, 1, 2, 2, 1, 4] := by
  decide

/-- C35 fails in the code: the encrypt event after a pairing carries
`mitm: pairingFeatures.mitm`, the combined MITM flag, whatever the association model,
while `pairingDone` reports `pairingFeatures.mitm && associationModel != JUST_WORKS`.  In
the sample sessions MITM protection was asked for but Just Works was used: the step in
which the encryption is reported emits the encrypt event with `mitm` true and then the
pairing-complete event with `mitm` false, in the initiator and in the responder, and
`currentEncryptionLevel.mitm` stays true. -/
theorem encrypt_mitm_differs_from_pairing_complete :
    sampleMasterEncryptingMitm.associationModel = some ASSOCIATION_MODEL_JUST_WORKS
    ∧ (SmpMasterConnection.onEncryptionStarted sampleLink sampleInputs EncryptionStart.afterPairing 0 true
        sampleMasterEncryptingMitm).log
      = sampleMasterEncryptingMitm.log
        ++ [Action.emit (Event.encrypt 0 (some { mitm := true, sc := false, keySize := some 16 })),
            Action.emit (Event.pairingComplete
              { sc := false, mitm := false, bond := false, rspRand := none, rspEdiv := none, rspLtk := none,
                initRand := none, initEdiv := none, initLtk := none, irk := none, identityAddress := none })]
    ∧ (SmpMasterConnection.onEncryptionStarted sampleLink sampleInputs EncryptionStart.afterPairing 0 true
        sampleMasterEncryptingMitm).currentEncryptionLevel
      = some { mitm := true, sc := false, keySize := some 16 }
    ∧ sampleSlaveEncryptingMitm.associationModel = some ASSOCIATION_MODEL_JUST_WORKS
    ∧ (SmpSlaveConnection.onLtkReplyDone sampleLink sampleInputs LtkReplyDone.afterPairing
        sampleSlaveEncryptingMitm).log
      = sampleSlaveEncryptingMitm.log
        ++ [Action.emit (Event.encrypt 0 (some { mitm := true, sc := false, keySize := some 16 })),
            Action.emit (Event.pairingComplete
              { sc := false, mitm := false, bond := false, rspRand := none, rspEdiv := none, rspLtk := none,
                initRand := none, initEdiv := none, initLtk := none, irk := none, identityAddress := none })]
    ∧ (SmpSlaveConnection.onLtkReplyDone sampleLink sampleInputs LtkReplyDone.afterPairing
        sampleSlaveEncryptingMitm).currentEncryptionLevel
      = some { mitm := true, sc := false, keySize := some 16 } := by
  decide

/-- C36 fails in the code: with the stored key `sampleLtk` (16 bytes, `mitm` false, `sc`
true) both sessions reach an encrypted link from the constructor.  The responder reports
`sc: ltk.mitm`, here false where the stored `sc` flag is true, and both sessions read the
key size as the property `length` of the stored-key object, which it does not have, so
that `keySize` is `undefined` where the stored key has 16 bytes. -/
theorem stored_key_encrypt_level_wrong :
    sampleLtk.sc = true ∧ sampleLtk.ltk.length = 16
    ∧ (SmpSlaveConnection.onLtkRequest sampleCrypto sampleLtk.rand sampleLtk.ediv
        (SmpSlaveConnection.init (some sampleLtk))).log
      = [Action.ltkReply (some sampleLtk.ltk) (LtkReplyDone.withStoredKey sampleLtk false)]
    ∧ (SmpSlaveConnection.onLtkReplyDone sampleLink sampleInputs (LtkReplyDone.withStoredKey sampleLtk false)
        (SmpSlaveConnection.onLtkRequest sampleCrypto sampleLtk.rand sampleLtk.ediv
          (SmpSlaveConnection.init (some sampleLtk)))).log
      = [Action.ltkReply (some sampleLtk.ltk) (LtkReplyDone.withStoredKey sampleLtk false),
         Action.emit (Event.encrypt 0 (some { mitm := false, sc := false, keySize := none }))]
    ∧ (SmpMasterConnection.startEncryption (SmpMasterConnection.init (some sampleLtk))).log
      = [Action.startEncryption sampleLtk.rand sampleLtk.ediv sampleLtk.ltk
          (EncryptionStart.withAvailableLtk false 0 false false false)]
    ∧ (SmpMasterConnection.onEncryptionStarted sampleLink sampleInputs
        (EncryptionStart.withAvailableLtk false 0 false false false) 0 true
        (SmpMasterConnection.startEncryption (SmpMasterConnection.init (some sampleLtk)))).log
      = [Action.startEncryption sampleLtk.rand sampleLtk.ediv sampleLtk.ltk
          (EncryptionStart.withAvailableLtk false 0 false false false),
         Action.emit (Event.encrypt 0 (some { mitm := false, sc := true, keySize := none }))] := by
  decide

theorem master_pairingFailed_associationModel (s : MasterState) (reason : Nat) (remote : Bool) :
    (SmpMasterConnection.pairingFailed s reason remote).associationModel = s.associationModel := by
  unfold SmpMasterConnection.pairingFailed SmpMasterConnection.sendDataFn SmpMasterConnection.emit
    SmpMasterConnection.act SmpMasterConnection.timeoutClearFn
  dsimp only
  repeat' split
  all_goals rfl

theorem master_sendPacket_associationModel (s : MasterState) (data : List Nat) (next : Option Nat) :
    (SmpMasterConnection.sendPacket s data next).associationModel = s.associationModel := by
  unfold SmpMasterConnection.sendPacket SmpMasterConnection.sendDataFn SmpMasterConnection.act
    SmpMasterConnection.restartTimeout SmpMasterConnection.timeoutClearFn
  dsimp only
  repeat' split
  all_goals rfl

theorem master_sendConfirm_associationModel (c : Crypto) (k : Link) (i : Inputs) (s : MasterState) :
    (SmpMasterConnection.sendConfirm c k i s).associationModel = s.associationModel := by
  unfold SmpMasterConnection.sendConfirm
  dsimp only
  repeat' split
  all_goals first | rfl | exact master_sendPacket_associationModel _ _ _

theorem master_startPasskeyExchange_associationModel (c : Crypto) (k : Link) (i : Inputs) (s : MasterState) :
    (SmpMasterConnection.startPasskeyExchange c k i s).associationModel = s.associationModel := by
  unfold SmpMasterConnection.startPasskeyExchange
  dsimp only
  repeat' split
  all_goals first | rfl | exact master_sendConfirm_associationModel _ _ _ _

/-- What `cont` leaves in the three variables of the negotiation once it has passed its
guard. -/
theorem slave_cont_negotiation (i : Inputs) (req : PairingFeatures) (userHandledRequest : Bool) (n : Nat)
    (u : Option UserFeatures) (s : SlaveState) (hs : s.state = STATE_W4_USER_FEATURES)
    (hn : s.runCounter = n) :
    (SmpSlaveConnection.cont i req userHandledRequest n u s).pairingResponseData
      = some (buildPairingFeaturesPacket SMP_PAIRING_RESPONSE (bitwiseAndKeys (fixFeaturesFromUser u) req))
    ∧ (SmpSlaveConnection.cont i req userHandledRequest n u s).pairingFeatures
      = some (combineAuthReq (bitwiseAndKeys (fixFeaturesFromUser u) req) req)
    ∧ (SmpSlaveConnection.cont i req userHandledRequest n u s).associationModel
      = some (getAssociationModel req.ioCap (fixFeaturesFromUser u).ioCap
          (combineAuthReq (bitwiseAndKeys (fixFeaturesFromUser u) req) req).sc
          (combineAuthReq (bitwiseAndKeys (fixFeaturesFromUser u) req) req).mitm) := by
  unfold SmpSlaveConnection.cont
  rw [if_neg (by simp [hs, hn])]
  dsimp only
  unfold SmpSlaveConnection.pairingFailed SmpSlaveConnection.sendPacket SmpSlaveConnection.sendDataFn
    SmpSlaveConnection.emit SmpSlaveConnection.act SmpSlaveConnection.restartTimeout
    SmpSlaveConnection.timeoutClearFn
  dsimp only
  repeat' split
  all_goals exact ⟨rfl, rfl, rfl⟩

/-- What `onPairingResponse` leaves in the two variables of the negotiation when the key
size of the response is in 7..16. -/
theorem master_onPairingResponse_result (c : Crypto) (k : Link) (i : Inputs) (s : MasterState)
    (D R : List Nat) (hD : s.pairingRequestData = some D) (hR : s.pairingResponseData = some R)
    (h7 : 7 ≤ (parsePairingReqRsp R).maxKeySize) (h16 : (parsePairingReqRsp R).maxKeySize ≤ 16) :
    (SmpMasterConnection.onPairingResponse c k i s).pairingFeatures
      = some (combineAuthReq (bitwiseAndKeys (parsePairingReqRsp R) (parsePairingReqRsp D))
          (parsePairingReqRsp D))
    ∧ (SmpMasterConnection.onPairingResponse c k i s).associationModel
      = some (getAssociationModel (parsePairingReqRsp D).ioCap (parsePairingReqRsp R).ioCap
          (combineAuthReq (bitwiseAndKeys (parsePairingReqRsp R) (parsePairingReqRsp D))
            (parsePairingReqRsp D)).sc
          (combineAuthReq (bitwiseAndKeys (parsePairingReqRsp R) (parsePairingReqRsp D))
            (parsePairingReqRsp D)).mitm) := by
  unfold SmpMasterConnection.onPairingResponse
  simp only [hD, hR]
  rw [if_neg (by simp; omega)]
  split
  · exact ⟨(SmpMasterConnection.master_pairingFailed_same _ _ _).1, master_pairingFailed_associationModel _ _ _⟩
  · split
    · exact ⟨(SmpMasterConnection.master_sendPacket_same _ _ _).1, master_sendPacket_associationModel _ _ _⟩
    · exact ⟨(SmpMasterConnection.master_startPasskeyExchange_same _ _ _ _).1, master_startPasskeyExchange_associationModel _ _ _ _⟩

theorem bitwiseAndKeys_idem (rsp req : PairingFeatures) :
    bitwiseAndKeys (bitwiseAndKeys rsp req) req = bitwiseAndKeys rsp req := by
  simp [bitwiseAndKeys, Bool.and_assoc]

/-- C37: for every Pairing Request `D` and every user value `u`, the features and the
association model the responder keeps when its continuation `cont` has combined `u` with
the parsed request are those the initiator keeps after it has received, while waiting for
the Pairing Response to its request `D`, the Pairing Response PDU the responder built. -/
theorem both_roles_negotiate_same (c : Crypto) (k : Link) (is im : Inputs) (D : List Nat)
    (u : Option UserFeatures) (userHandledRequest : Bool) (n : Nat) (s : SlaveState) (m : MasterState)
    (hs : s.state = STATE_W4_USER_FEATURES) (hn : s.runCounter = n)
    (hm : SmpMasterConnection.acceptsPairingResponse m) (hreq : m.pairingRequestData = some D) :
    ∃ response pf am,
      (SmpSlaveConnection.cont is (parsePairingReqRsp D) userHandledRequest n u s).pairingResponseData
        = some response
      ∧ (SmpSlaveConnection.cont is (parsePairingReqRsp D) userHandledRequest n u s).pairingFeatures = some pf
      ∧ (SmpSlaveConnection.cont is (parsePairingReqRsp D) userHandledRequest n u s).associationModel = some am
      ∧ (SmpMasterConnection.onData c k im response m).pairingFeatures = some pf
      ∧ (SmpMasterConnection.onData c k im response m).associationModel = some am := by
  obtain ⟨h1, h2, h3⟩ := slave_cont_negotiation is (parsePairingReqRsp D) userHandledRequest n u s hs hn
  refine ⟨_, _, _, h1, h2, h3, ?_⟩
  obtain ⟨b1, b2, b3, _⟩ := fixFeaturesFromUser_bounds u
  obtain ⟨k1, k2⟩ := fixFeaturesFromUser_maxKeySize u
  have hrt := pairingFeatures_round_trip_of_bounds SMP_PAIRING_RESPONSE
    (bitwiseAndKeys (fixFeaturesFromUser u) (parsePairingReqRsp D)) b1 b2 b3
  have hresp : buildPairingFeaturesPacket SMP_PAIRING_RESPONSE
      (bitwiseAndKeys (fixFeaturesFromUser u) (parsePairingReqRsp D))
      = SMP_PAIRING_RESPONSE :: (buildPairingFeaturesPacket SMP_PAIRING_RESPONSE
          (bitwiseAndKeys (fixFeaturesFromUser u) (parsePairingReqRsp D))).tail := by
    rw [hrt.1]; rfl
  have hlen : (buildPairingFeaturesPacket SMP_PAIRING_RESPONSE
      (bitwiseAndKeys (fixFeaturesFromUser u) (parsePairingReqRsp D))).length = 7 := by
    rw [hrt.1]; rfl
  have hne : m.state ≠ STATE_TIMEDOUT := by rw [hm.1]; decide
  have hdisp : SmpMasterConnection.onData c k im (buildPairingFeaturesPacket SMP_PAIRING_RESPONSE
      (bitwiseAndKeys (fixFeaturesFromUser u) (parsePairingReqRsp D))) m
      = SmpMasterConnection.onPairingResponse c k im
          { m with pairingResponseData := some (buildPairingFeaturesPacket SMP_PAIRING_RESPONSE
              (bitwiseAndKeys (fixFeaturesFromUser u) (parsePairingReqRsp D))) } := by
    rw [SmpMasterConnection.onData, if_neg (by simp [hne, hlen])]
    show ite _ _ _ = _
    have hop : byteAt (buildPairingFeaturesPacket SMP_PAIRING_RESPONSE
        (bitwiseAndKeys (fixFeaturesFromUser u) (parsePairingReqRsp D))) 0 = 2 := by
      rw [hrt.1]; rfl
    rw [hop, if_neg (by decide), if_neg (by decide), if_pos (by decide)]
    unfold SmpMasterConnection.onDataPairingResponse
    rw [if_neg (by simp [SmpMasterConnection.notWaitingFor, hm.1, hm.2]), if_neg (by simp [hlen])]
  rw [hdisp]
  have hres := master_onPairingResponse_result c k im
    { m with pairingResponseData := some (buildPairingFeaturesPacket SMP_PAIRING_RESPONSE
        (bitwiseAndKeys (fixFeaturesFromUser u) (parsePairingReqRsp D))) }
    D _ hreq rfl (by rw [hrt.2]; exact k1) (by rw [hrt.2]; exact k2)
  rw [hrt.2, bitwiseAndKeys_idem] at hres
  exact hres

/-- Witness of `both_roles_negotiate_same`: the sample initiator has sent
`sampleBondingRequest` and waits for the response; the listener of the sample responder
answers that request with the features of a Keyboard-Only device. -/
theorem both_roles_negotiate_same_witness :
    sampleSlaveAskingUser.state = STATE_W4_USER_FEATURES ∧ sampleSlaveAskingUser.runCounter = 1
    ∧ SmpMasterConnection.acceptsPairingResponse sampleMasterAwaitingResponse
    ∧ sampleMasterAwaitingResponse.pairingRequestData = some sampleBondingRequest
    ∧ ∃ response pf am,
      (SmpSlaveConnection.cont sampleInputsDeferring (parsePairingReqRsp sampleBondingRequest) true 1
        (some sampleUserKeypress) sampleSlaveAskingUser).pairingResponseData = some response
      ∧ (SmpSlaveConnection.cont sampleInputsDeferring (parsePairingReqRsp sampleBondingRequest) true 1
        (some sampleUserKeypress) sampleSlaveAskingUser).pairingFeatures = some pf
      ∧ (SmpSlaveConnection.cont sampleInputsDeferring (parsePairingReqRsp sampleBondingRequest) true 1
        (some sampleUserKeypress) sampleSlaveAskingUser).associationModel = some am
      ∧ (SmpMasterConnection.onData sampleCrypto sampleLink sampleInputs response
          sampleMasterAwaitingResponse).pairingFeatures = some pf
      ∧ (SmpMasterConnection.onData sampleCrypto sampleLink sampleInputs response
          sampleMasterAwaitingResponse).associationModel = some am :=
  ⟨by decide, by decide, ⟨by decide, by decide⟩, by decide,
    both_roles_negotiate_same sampleCrypto sampleLink sampleInputsDeferring sampleInputs sampleBondingRequest
      (some sampleUserKeypress) true 1 sampleSlaveAskingUser sampleMasterAwaitingResponse (by decide) (by decide)
      ⟨by decide, by decide⟩ (by decide)⟩

/-! ## The public-key step of the responder (claim C39) -/

theorem slave_onData_pairingPublicKey (c : Crypto) (k : Link) (i : Inputs) (v : List Nat) (s : SlaveState)
    (h : s.state ≠ STATE_TIMEDOUT) :
    SmpSlaveConnection.onData c k i (SMP_PAIRING_PUBLIC_KEY :: v) s
      = SmpSlaveConnection.onDataPairingPublicKey c k i (SMP_PAIRING_PUBLIC_KEY :: v) s := by
  rw [SmpSlaveConnection.onData, if_neg (by simp [h])]
  show ite _ _ _ = _
  have hop : byteAt (SMP_PAIRING_PUBLIC_KEY :: v) 0 = 12 := rfl
  rw [hop, if_neg (by decide), if_neg (by decide), if_pos (by decide)]

/-- C39: a responder that waits for the Pairing Public Key and can send receives a 65-byte
Pairing Public Key PDU.  It keeps the peer key and hands its own public key PDU
`[0x0C] ++ X ++ Y` to the transport; under Just Works and Numeric Comparison that PDU is
followed by Pairing Confirm with `f4(PKb.x, PKa.x, Nb, 0)` for the fresh nonce `Nb`, and
the responder next expects Pairing Random; under the other models the responder next
expects Pairing Confirm.  These are the only actions of the step (no Pairing Failed is
sent, no event emitted), and the state is `STATE_W4_PACKET_ENQUEUED`, not Idle. -/
theorem responder_public_key_step (c : Crypto) (k : Link) (i : Inputs) (v : List Nat) (s : SlaveState)
    (hst : s.state = STATE_W4_PACKET) (hw : s.packetWaitOpcode = some SMP_PAIRING_PUBLIC_KEY)
    (hv : v.length = 64) (hsend : s.sendDisabled = false)
    (hx : c.myEcdhPubKeyX.length = 32) (hy : c.myEcdhPubKeyY.length = 32) :
    (SmpSlaveConnection.onData c k i (SMP_PAIRING_PUBLIC_KEY :: v) s).state = STATE_W4_PACKET_ENQUEUED
    ∧ (SmpSlaveConnection.onData c k i (SMP_PAIRING_PUBLIC_KEY :: v) s).peerPublicKey
        = some (v.take 32, v.drop 32)
    ∧ if s.associationModel = some ASSOCIATION_MODEL_JUST_WORKS
          ∨ s.associationModel = some ASSOCIATION_MODEL_NUMERIC_COMPARISON then
        (SmpSlaveConnection.onData c k i (SMP_PAIRING_PUBLIC_KEY :: v) s).log
          = s.log ++ [Action.sendData ([SMP_PAIRING_PUBLIC_KEY] ++ c.myEcdhPubKeyX ++ c.myEcdhPubKeyY) none none,
              Action.sendData ([SMP_PAIRING_CONFIRM] ++ Toolbox.f4 c c.myEcdhPubKeyX (v.take 32) i.random16 0)
                (some (Callback.packetSent s.runCounter none)) none]
        ∧ (SmpSlaveConnection.onData c k i (SMP_PAIRING_PUBLIC_KEY :: v) s).rspRandomValue = some i.random16
        ∧ (SmpSlaveConnection.onData c k i (SMP_PAIRING_PUBLIC_KEY :: v) s).packetWaitOpcode
            = some SMP_PAIRING_RANDOM
      else
        (SmpSlaveConnection.onData c k i (SMP_PAIRING_PUBLIC_KEY :: v) s).log
          = s.log ++ [Action.sendData ([SMP_PAIRING_PUBLIC_KEY] ++ c.myEcdhPubKeyX ++ c.myEcdhPubKeyY)
              (some (Callback.packetSent s.runCounter none)) none]
        ∧ (SmpSlaveConnection.onData c k i (SMP_PAIRING_PUBLIC_KEY :: v) s).packetWaitOpcode
            = some SMP_PAIRING_CONFIRM := by
  have hne : s.state ≠ STATE_TIMEDOUT := by rw [hst]; decide
  have hpub : copyInto c.myEcdhPubKeyY (copyInto c.myEcdhPubKeyX ([SMP_PAIRING_PUBLIC_KEY] ++ bufferAlloc 64) 1) 33
      = [SMP_PAIRING_PUBLIC_KEY] ++ c.myEcdhPubKeyX ++ c.myEcdhPubKeyY := by
    have t1 : List.take 64 c.myEcdhPubKeyX = c.myEcdhPubKeyX := List.take_of_length_le (by omega)
    have t2 : List.take 32 c.myEcdhPubKeyY = c.myEcdhPubKeyY := List.take_of_length_le (by omega)
    simp [copyInto, bufferAlloc, hx, hy, t1, t2]
  have hk1 : slice (SMP_PAIRING_PUBLIC_KEY :: v) 1 33 = v.take 32 := by
    simp [slice]
  have hk2 : slice (SMP_PAIRING_PUBLIC_KEY :: v) 33 65 = v.drop 32 := by
    have t3 : List.take 64 v = v := List.take_of_length_le (by omega)
    simp [slice, t3]
  rw [slave_onData_pairingPublicKey c k i v s hne]
  unfold SmpSlaveConnection.onDataPairingPublicKey
  rw [if_neg (by simp [SmpSlaveConnection.notWaitingFor, hst, hw]), if_neg (by simp [hv])]
  simp only [hpub, hk1, hk2]
  by_cases hm : s.associationModel = some ASSOCIATION_MODEL_JUST_WORKS
      ∨ s.associationModel = some ASSOCIATION_MODEL_NUMERIC_COMPARISON
  · rw [if_pos hm]
    have hm' : (s.associationModel == some ASSOCIATION_MODEL_JUST_WORKS
        || s.associationModel == some ASSOCIATION_MODEL_NUMERIC_COMPARISON) = true := by
      rcases hm with hm | hm <;> simp [hm]
    simp [hm', SmpSlaveConnection.sendPacket, SmpSlaveConnection.sendDataFn, SmpSlaveConnection.act,
      SmpSlaveConnection.restartTimeout, SmpSlaveConnection.timeoutClearFn, hsend, hst,
      SmpSlaveConnection.onDataPairingConfirm, SmpSlaveConnection.notWaitingFor, bufferFrom,
      STATE_W4_PACKET, STATE_TIMEDOUT, STATE_W4_PACKET_ENQUEUED, SMP_PAIRING_CONFIRM]
  · rw [if_neg hm]
    have hm' : (s.associationModel == some ASSOCIATION_MODEL_JUST_WORKS
        || s.associationModel == some ASSOCIATION_MODEL_NUMERIC_COMPARISON) = false := by
      simpa using hm
    simp [hm', SmpSlaveConnection.sendPacket, SmpSlaveConnection.sendDataFn, SmpSlaveConnection.act,
      SmpSlaveConnection.restartTimeout, SmpSlaveConnection.timeoutClearFn, hsend, hst,
      SmpSlaveConnection.onDataPairingConfirm, SmpSlaveConnection.notWaitingFor,
      STATE_W4_PACKET, STATE_TIMEDOUT, STATE_W4_PACKET_ENQUEUED]

/-- Witness of `responder_public_key_step`: the sample responder has answered a
Secure-Connections Pairing Request without MITM protection (Just Works), its Pairing
Response is reported as sent, and the public key of the initiator arrives: it sends its
public key and its confirm and next expects Pairing Random. -/
theorem responder_public_key_step_witness :
    (SmpSlaveConnection.acknowledgeLast sampleSlaveAwaitingKey).state = STATE_W4_PACKET
    ∧ (SmpSlaveConnection.acknowledgeLast sampleSlaveAwaitingKey).packetWaitOpcode = some SMP_PAIRING_PUBLIC_KEY
    ∧ (SmpSlaveConnection.acknowledgeLast sampleSlaveAwaitingKey).associationModel
        = some ASSOCIATION_MODEL_JUST_WORKS
    ∧ (SmpSlaveConnection.onData sampleCrypto sampleLink sampleInputs
        (SMP_PAIRING_PUBLIC_KEY :: (List.replicate 32 4 ++ List.replicate 32 5))
        (SmpSlaveConnection.acknowledgeLast sampleSlaveAwaitingKey)).state = STATE_W4_PACKET_ENQUEUED
    ∧ (SmpSlaveConnection.onData sampleCrypto sampleLink sampleInputs
        (SMP_PAIRING_PUBLIC_KEY :: (List.replicate 32 4 ++ List.replicate 32 5))
        (SmpSlaveConnection.acknowledgeLast sampleSlaveAwaitingKey)).packetWaitOpcode
        = some SMP_PAIRING_RANDOM := by
  have h := responder_public_key_step sampleCrypto sampleLink sampleInputs
    (List.replicate 32 4 ++ List.replicate 32 5) (SmpSlaveConnection.acknowledgeLast sampleSlaveAwaitingKey)
    (by decide) (by decide) (by decide) (by decide) (by decide) (by decide)
  rw [if_pos (Or.inl (by decide))] at h
  exact ⟨by decide, by decide, by decide, h.1, h.2.2.2.2⟩

/-- C40 fails in the code: `add` never links the new node behind the old last one
(`next` stays `null` in every node), so that after an eviction `first` is the node added
last.  In a cache of capacity 2 the calls `add a`, `add b`, `add c` evict `a`; the cache
then holds `b` and `c`, and the call `add d` evicts `c`, the entry added last, emits the
remove event with `c`, and keeps `b`, the entry added earliest among those present. -/
theorem duplicateCache_evicts_newest :
    (DuplicateCache.addAll 2 [("a", 1), ("b", 2), ("c", 3)]).map DuplicateCache.keys = some ["c", "b"]
    ∧ (DuplicateCache.addAll 2 [("a", 1), ("b", 2), ("c", 3)]).map (fun d => d.removeEvents) = some ["a"]
    ∧ (DuplicateCache.addAll 2 [("a", 1), ("b", 2), ("c", 3)]).map (fun d => d.capacity) = some 0
    ∧ (DuplicateCache.addAll 2 [("a", 1), ("b", 2), ("c", 3), ("d", 4)]).map DuplicateCache.keys
        = some ["d", "b"]
    ∧ (DuplicateCache.addAll 2 [("a", 1), ("b", 2), ("c", 3), ("d", 4)]).map (fun d => d.removeEvents)
        = some ["a", "c"]
    ∧ (DuplicateCache.addAll 2 [("a", 1), ("b", 2), ("c", 3), ("d", 4)]).map
        (fun d => (d.isDuplicate "b", d.isDuplicate "c")) = some (true, false) := by
  decide

/-! ## Numeric comparison gates the DHKey Check: the responder (claim C38) -/

theorem dhKeyChecks_append (a b : List Action) : dhKeyChecks (a ++ b) = dhKeyChecks a ++ dhKeyChecks b := by
  simp [dhKeyChecks, sentPdus_append]

theorem dhKeyChecks_other (log : List Action) (a : Action)
    (h : ∀ d x y, a = Action.sendData d x y → d.head? ≠ some SMP_DHKEY_CHECK) :
    dhKeyChecks (log ++ [a]) = dhKeyChecks log := by
  rw [dhKeyChecks_append]
  cases a with
  | sendData d x y =>
    have := h d x y rfl
    simp [dhKeyChecks, sentPdus, this]
  | _ => simp [dhKeyChecks, sentPdus]

namespace SmpSlaveConnection

theorem dh_act (b : List (List Nat)) (s : SlaveState) (a : Action) (h : dhKeyChecks s.log = b)
    (ha : ∀ d x y, a = Action.sendData d x y → d.head? ≠ some SMP_DHKEY_CHECK) :
    dhKeyChecks (act s a).log = b := by
  rw [← h]
  exact dhKeyChecks_other _ _ ha

theorem dh_emit (b : List (List Nat)) (s : SlaveState) (e : Event) (h : dhKeyChecks s.log = b) :
    dhKeyChecks (emit s e).log = b :=
  dh_act b s _ h (by intro d x y hh; cases hh)

theorem dh_throw (b : List (List Nat)) (s : SlaveState) (h : dhKeyChecks s.log = b) :
    dhKeyChecks (act s Action.throwError).log = b :=
  dh_act b s _ h (by intro d x y hh; cases hh)

theorem dh_sendDataFn (b : List (List Nat)) (s : SlaveState) (data : List Nat) (cb1 cb2 : Option Callback)
    (h : dhKeyChecks s.log = b) (hd : data.head? ≠ some SMP_DHKEY_CHECK) :
    dhKeyChecks (sendDataFn s data cb1 cb2).log = b := by
  unfold sendDataFn
  split
  · exact h
  · exact dh_act b s _ h (by intro d x y hh; cases hh; exact hd)

theorem dh_pairingFailed (b : List (List Nat)) (s : SlaveState) (reason : Nat) (h : dhKeyChecks s.log = b) :
    dhKeyChecks (pairingFailed s reason).log = b := by
  unfold pairingFailed
  apply dh_emit
  dsimp only
  split
  · exact dh_sendDataFn b _ _ _ _ h (by simp [bufferFrom, SMP_PAIRING_FAILED, SMP_DHKEY_CHECK])
  · exact h

theorem dh_sendPacket (b : List (List Nat)) (s : SlaveState) (data : List Nat) (next : Option Nat)
    (cb : Option PacketCallback) (h : dhKeyChecks s.log = b) (hd : data.head? ≠ some SMP_DHKEY_CHECK) :
    dhKeyChecks (sendPacket s data next cb).log = b := by
  unfold sendPacket
  split
  · exact h
  · apply dh_sendDataFn _ _ _ _ _ _ hd
    split <;> exact h

theorem dh_pairingDone (b : List (List Nat)) (s : SlaveState) (h : dhKeyChecks s.log = b) :
    dhKeyChecks (pairingDone s).log = b := by
  rw [← h]
  have := slave_pairingDone_sentPdus s
  simp only [dhKeyChecks, this]

theorem dh_cont (b : List (List Nat)) (i : Inputs) (req : PairingFeatures) (u : Bool) (n : Nat)
    (rsp : Option UserFeatures) (s : SlaveState) (h : dhKeyChecks s.log = b) :
    dhKeyChecks (cont i req u n rsp s).log = b := by
  unfold cont
  dsimp only
  repeat' first
    | (with_reducible refine dh_pairingFailed _ _ _ ?_)
    | (with_reducible refine dh_sendPacket _ _ _ _ _ ?_ ?_)
    | (with_reducible refine dh_emit _ _ _ ?_)
    | (with_reducible refine dh_throw _ _ ?_)
    | split
    | rfl
    | exact h
    | (simp [buildPairingFeaturesPacket, bufferFrom, SMP_PAIRING_RESPONSE, SMP_DHKEY_CHECK])

end SmpSlaveConnection
namespace SmpSlaveConnection

theorem dh_onPairingRequest (b : List (List Nat)) (i : Inputs) (req : PairingFeatures) (s : SlaveState)
    (h : dhKeyChecks s.log = b) : dhKeyChecks (onPairingRequest i req s).log = b := by
  unfold onPairingRequest
  try dsimp only
  repeat' first
    | (with_reducible refine dh_cont _ _ _ _ _ _ _ ?_)
    | (with_reducible refine dh_pairingFailed _ _ _ ?_)
    | (with_reducible refine dh_pairingDone _ _ ?_)
    | (with_reducible refine dh_sendPacket _ _ _ _ _ ?_ ?_)
    | (with_reducible refine dh_sendDataFn _ _ _ _ _ ?_ ?_)
    | (with_reducible refine dh_emit _ _ _ ?_)
    | (with_reducible refine dh_throw _ _ ?_)
    | (with_reducible refine dh_act _ _ _ ?_ ?_)
    | split
    | rfl
    | exact h

theorem dh_afterInitsConfirmAndPasskey (b : List (List Nat)) (c : Crypto) (k : Link) (i : Inputs) (s : SlaveState)
    (h : dhKeyChecks s.log = b) : dhKeyChecks (afterInitsConfirmAndPasskey c k i s).log = b := by
  unfold afterInitsConfirmAndPasskey
  try dsimp only
  repeat' first
    | (with_reducible refine dh_pairingFailed _ _ _ ?_)
    | (with_reducible refine dh_pairingDone _ _ ?_)
    | (with_reducible refine dh_sendPacket _ _ _ _ _ ?_ ?_)
    | (with_reducible refine dh_sendDataFn _ _ _ _ _ ?_ ?_)
    | (with_reducible refine dh_emit _ _ _ ?_)
    | (with_reducible refine dh_throw _ _ ?_)
    | (with_reducible refine dh_act _ _ _ ?_ ?_)
    | split
    | rfl
    | exact h
    | (simp [buildPairingFeaturesPacket, bufferFrom, copyInto, bufferAlloc, SMP_PAIRING_RESPONSE, SMP_DHKEY_CHECK, SMP_PAIRING_CONFIRM, SMP_PAIRING_RANDOM, SMP_PAIRING_PUBLIC_KEY, SMP_SECURITY_REQUEST, SMP_KEYPRESS_NOTIFICATION, SMP_PAIRING_FAILED])

theorem dh_onDataPairingRequest (b : List (List Nat)) (i : Inputs) (data : List Nat) (s : SlaveState)
    (h : dhKeyChecks s.log = b) : dhKeyChecks (onDataPairingRequest i data s).log = b := by
  unfold onDataPairingRequest
  try dsimp only
  repeat' first
    | (with_reducible refine dh_onPairingRequest _ _ _ _ ?_)
    | (with_reducible refine dh_pairingFailed _ _ _ ?_)
    | (with_reducible refine dh_pairingDone _ _ ?_)
    | (with_reducible refine dh_sendPacket _ _ _ _ _ ?_ ?_)
    | (with_reducible refine dh_sendDataFn _ _ _ _ _ ?_ ?_)
    | (with_reducible refine dh_emit _ _ _ ?_)
    | (with_reducible refine dh_throw _ _ ?_)
    | (with_reducible refine dh_act _ _ _ ?_ ?_)
    | split
    | rfl
    | exact h

theorem dh_onDataPairingConfirm (b : List (List Nat)) (c : Crypto) (k : Link) (i : Inputs) (data : List Nat) (s : SlaveState)
    (h : dhKeyChecks s.log = b) : dhKeyChecks (onDataPairingConfirm c k i data s).log = b := by
  unfold onDataPairingConfirm
  try dsimp only
  repeat' first
    | (with_reducible refine dh_afterInitsConfirmAndPasskey _ _ _ _ _ ?_)
    | (with_reducible refine dh_pairingFailed _ _ _ ?_)
    | (with_reducible refine dh_pairingDone _ _ ?_)
    | (with_reducible refine dh_sendPacket _ _ _ _ _ ?_ ?_)
    | (with_reducible refine dh_sendDataFn _ _ _ _ _ ?_ ?_)
    | (with_reducible refine dh_emit _ _ _ ?_)
    | (with_reducible refine dh_throw _ _ ?_)
    | (with_reducible refine dh_act _ _ _ ?_ ?_)
    | split
    | rfl
    | exact h

theorem dh_onDataPairingPublicKey (b : List (List Nat)) (c : Crypto) (k : Link) (i : Inputs) (data : List Nat) (s : SlaveState)
    (h : dhKeyChecks s.log = b) : dhKeyChecks (onDataPairingPublicKey c k i data s).log = b := by
  unfold onDataPairingPublicKey
  try dsimp only
  repeat' first
    | (with_reducible refine dh_onDataPairingConfirm _ _ _ _ _ _ ?_)
    | (with_reducible refine dh_pairingFailed _ _ _ ?_)
    | (with_reducible refine dh_pairingDone _ _ ?_)
    | (with_reducible refine dh_sendPacket _ _ _ _ _ ?_ ?_)
    | (with_reducible refine dh_sendDataFn _ _ _ _ _ ?_ ?_)
    | (with_reducible refine dh_emit _ _ _ ?_)
    | (with_reducible refine dh_throw _ _ ?_)
    | (with_reducible refine dh_act _ _ _ ?_ ?_)
    | split
    | rfl
    | exact h
    | (simp [buildPairingFeaturesPacket, bufferFrom, copyInto, bufferAlloc, SMP_PAIRING_RESPONSE, SMP_DHKEY_CHECK, SMP_PAIRING_CONFIRM, SMP_PAIRING_RANDOM, SMP_PAIRING_PUBLIC_KEY, SMP_SECURITY_REQUEST, SMP_KEYPRESS_NOTIFICATION, SMP_PAIRING_FAILED])

theorem dh_onDataPairingRandom (b : List (List Nat)) (c : Crypto) (k : Link) (data : List Nat) (s : SlaveState)
    (h : dhKeyChecks s.log = b) : dhKeyChecks (onDataPairingRandom c k data s).log = b := by
  unfold onDataPairingRandom
  try dsimp only
  repeat' first
    | (with_reducible refine dh_pairingFailed _ _ _ ?_)
    | (with_reducible refine dh_pairingDone _ _ ?_)
    | (with_reducible refine dh_sendPacket _ _ _ _ _ ?_ ?_)
    | (with_reducible refine dh_sendDataFn _ _ _ _ _ ?_ ?_)
    | (with_reducible refine dh_emit _ _ _ ?_)
    | (with_reducible refine dh_throw _ _ ?_)
    | (with_reducible refine dh_act _ _ _ ?_ ?_)
    | split
    | rfl
    | exact h
    | (simp [buildPairingFeaturesPacket, bufferFrom, copyInto, bufferAlloc, SMP_PAIRING_RESPONSE, SMP_DHKEY_CHECK, SMP_PAIRING_CONFIRM, SMP_PAIRING_RANDOM, SMP_PAIRING_PUBLIC_KEY, SMP_SECURITY_REQUEST, SMP_KEYPRESS_NOTIFICATION, SMP_PAIRING_FAILED])

theorem dh_onDataEncryptionInformation (b : List (List Nat)) (data : List Nat) (s : SlaveState)
    (h : dhKeyChecks s.log = b) : dhKeyChecks (onDataEncryptionInformation data s).log = b := by
  unfold onDataEncryptionInformation
  try dsimp only
  repeat' first
    | (with_reducible refine dh_pairingFailed _ _ _ ?_)
    | (with_reducible refine dh_pairingDone _ _ ?_)
    | (with_reducible refine dh_sendPacket _ _ _ _ _ ?_ ?_)
    | (with_reducible refine dh_sendDataFn _ _ _ _ _ ?_ ?_)
    | (with_reducible refine dh_emit _ _ _ ?_)
    | (with_reducible refine dh_throw _ _ ?_)
    | (with_reducible refine dh_act _ _ _ ?_ ?_)
    | split
    | rfl
    | exact h

theorem dh_onDataMasterIdentification (b : List (List Nat)) (data : List Nat) (s : SlaveState)
    (h : dhKeyChecks s.log = b) : dhKeyChecks (onDataMasterIdentification data s).log = b := by
  unfold onDataMasterIdentification
  try dsimp only
  repeat' first
    | (with_reducible refine dh_pairingFailed _ _ _ ?_)
    | (with_reducible refine dh_pairingDone _ _ ?_)
    | (with_reducible refine dh_sendPacket _ _ _ _ _ ?_ ?_)
    | (with_reducible refine dh_sendDataFn _ _ _ _ _ ?_ ?_)
    | (with_reducible refine dh_emit _ _ _ ?_)
    | (with_reducible refine dh_throw _ _ ?_)
    | (with_reducible refine dh_act _ _ _ ?_ ?_)
    | split
    | rfl
    | exact h

theorem dh_onDataIdentityInformation (b : List (List Nat)) (data : List Nat) (s : SlaveState)
    (h : dhKeyChecks s.log = b) : dhKeyChecks (onDataIdentityInformation data s).log = b := by
  unfold onDataIdentityInformation
  try dsimp only
  repeat' first
    | (with_reducible refine dh_pairingFailed _ _ _ ?_)
    | (with_reducible refine dh_pairingDone _ _ ?_)
    | (with_reducible refine dh_sendPacket _ _ _ _ _ ?_ ?_)
    | (with_reducible refine dh_sendDataFn _ _ _ _ _ ?_ ?_)
    | (with_reducible refine dh_emit _ _ _ ?_)
    | (with_reducible refine dh_throw _ _ ?_)
    | (with_reducible refine dh_act _ _ _ ?_ ?_)
    | split
    | rfl
    | exact h

theorem dh_onDataIdentityAddressInformation (b : List (List Nat)) (data : List Nat) (s : SlaveState)
    (h : dhKeyChecks s.log = b) : dhKeyChecks (onDataIdentityAddressInformation data s).log = b := by
  unfold onDataIdentityAddressInformation
  try dsimp only
  repeat' first
    | (with_reducible refine dh_pairingFailed _ _ _ ?_)
    | (with_reducible refine dh_pairingDone _ _ ?_)
    | (with_reducible refine dh_sendPacket _ _ _ _ _ ?_ ?_)
    | (with_reducible refine dh_sendDataFn _ _ _ _ _ ?_ ?_)
    | (with_reducible refine dh_emit _ _ _ ?_)
    | (with_reducible refine dh_throw _ _ ?_)
    | (with_reducible refine dh_act _ _ _ ?_ ?_)
    | split
    | rfl
    | exact h

theorem dh_onDataKeypressNotification (b : List (List Nat)) (data : List Nat) (s : SlaveState)
    (h : dhKeyChecks s.log = b) : dhKeyChecks (onDataKeypressNotification data s).log = b := by
  unfold onDataKeypressNotification
  try dsimp only
  repeat' first
    | (with_reducible refine dh_pairingFailed _ _ _ ?_)
    | (with_reducible refine dh_pairingDone _ _ ?_)
    | (with_reducible refine dh_sendPacket _ _ _ _ _ ?_ ?_)
    | (with_reducible refine dh_sendDataFn _ _ _ _ _ ?_ ?_)
    | (with_reducible refine dh_emit _ _ _ ?_)
    | (with_reducible refine dh_throw _ _ ?_)
    | (with_reducible refine dh_act _ _ _ ?_ ?_)
    | split
    | rfl
    | exact h

theorem dh_onDataPairingFailed (b : List (List Nat)) (data : List Nat) (s : SlaveState)
    (h : dhKeyChecks s.log = b) : dhKeyChecks (onDataPairingFailed data s).log = b := by
  unfold onDataPairingFailed
  try dsimp only
  repeat' first
    | (with_reducible refine dh_pairingFailed _ _ _ ?_)
    | (with_reducible refine dh_pairingDone _ _ ?_)
    | (with_reducible refine dh_sendPacket _ _ _ _ _ ?_ ?_)
    | (with_reducible refine dh_sendDataFn _ _ _ _ _ ?_ ?_)
    | (with_reducible refine dh_emit _ _ _ ?_)
    | (with_reducible refine dh_throw _ _ ?_)
    | (with_reducible refine dh_act _ _ _ ?_ ?_)
    | split
    | rfl
    | exact h

theorem dh_onCallback (b : List (List Nat)) (cb : Callback) (s : SlaveState)
    (h : dhKeyChecks s.log = b) : dhKeyChecks (onCallback cb s).log = b := by
  unfold onCallback
  try dsimp only
  repeat' first
    | (with_reducible refine dh_pairingFailed _ _ _ ?_)
    | (with_reducible refine dh_pairingDone _ _ ?_)
    | (with_reducible refine dh_sendPacket _ _ _ _ _ ?_ ?_)
    | (with_reducible refine dh_sendDataFn _ _ _ _ _ ?_ ?_)
    | (with_reducible refine dh_emit _ _ _ ?_)
    | (with_reducible refine dh_throw _ _ ?_)
    | (with_reducible refine dh_act _ _ _ ?_ ?_)
    | split
    | rfl
    | exact h

theorem dh_passkeyCallback (b : List (List Nat)) (c : Crypto) (k : Link) (i : Inputs) (ignore : Bool) (n : Nat) (r : Option Int) (s : SlaveState)
    (h : dhKeyChecks s.log = b) : dhKeyChecks (passkeyCallback c k i ignore n r s).log = b := by
  unfold passkeyCallback
  try dsimp only
  repeat' first
    | (with_reducible refine dh_afterInitsConfirmAndPasskey _ _ _ _ _ ?_)
    | (with_reducible refine dh_pairingFailed _ _ _ ?_)
    | (with_reducible refine dh_pairingDone _ _ ?_)
    | (with_reducible refine dh_sendPacket _ _ _ _ _ ?_ ?_)
    | (with_reducible refine dh_sendDataFn _ _ _ _ _ ?_ ?_)
    | (with_reducible refine dh_emit _ _ _ ?_)
    | (with_reducible refine dh_throw _ _ ?_)
    | (with_reducible refine dh_act _ _ _ ?_ ?_)
    | split
    | rfl
    | exact h

theorem dh_onLtkRequest (b : List (List Nat)) (c : Crypto) (randNb : List Nat) (ediv : Nat) (s : SlaveState)
    (h : dhKeyChecks s.log = b) : dhKeyChecks (onLtkRequest c randNb ediv s).log = b := by
  unfold onLtkRequest
  try dsimp only
  repeat' first
    | (with_reducible refine dh_pairingFailed _ _ _ ?_)
    | (with_reducible refine dh_pairingDone _ _ ?_)
    | (with_reducible refine dh_sendPacket _ _ _ _ _ ?_ ?_)
    | (with_reducible refine dh_sendDataFn _ _ _ _ _ ?_ ?_)
    | (with_reducible refine dh_emit _ _ _ ?_)
    | (with_reducible refine dh_throw _ _ ?_)
    | (with_reducible refine dh_act _ _ _ ?_ ?_)
    | (intro d x y hh; cases hh)
    | split
    | rfl
    | exact h

theorem dh_encryptedAfterPairing (b : List (List Nat)) (pf : PairingFeatures) (s : SlaveState)
    (h : dhKeyChecks s.log = b) : dhKeyChecks (encryptedAfterPairing pf s).log = b := by
  unfold encryptedAfterPairing
  try dsimp only
  repeat' first
    | (with_reducible refine dh_pairingFailed _ _ _ ?_)
    | (with_reducible refine dh_pairingDone _ _ ?_)
    | (with_reducible refine dh_sendPacket _ _ _ _ _ ?_ ?_)
    | (with_reducible refine dh_sendDataFn _ _ _ _ _ ?_ ?_)
    | (with_reducible refine dh_emit _ _ _ ?_)
    | (with_reducible refine dh_throw _ _ ?_)
    | (with_reducible refine dh_act _ _ _ ?_ ?_)
    | split
    | rfl
    | exact h

theorem dh_setAvailableLtk (b : List (List Nat)) (ltk rand : List Nat) (ediv : Nat) (mitm sc : Bool) (s : SlaveState)
    (h : dhKeyChecks s.log = b) : dhKeyChecks (setAvailableLtk ltk rand ediv mitm sc s).log = b := by
  unfold setAvailableLtk
  try dsimp only
  repeat' first
    | (with_reducible refine dh_pairingFailed _ _ _ ?_)
    | (with_reducible refine dh_pairingDone _ _ ?_)
    | (with_reducible refine dh_sendPacket _ _ _ _ _ ?_ ?_)
    | (with_reducible refine dh_sendDataFn _ _ _ _ _ ?_ ?_)
    | (with_reducible refine dh_emit _ _ _ ?_)
    | (with_reducible refine dh_throw _ _ ?_)
    | (with_reducible refine dh_act _ _ _ ?_ ?_)
    | split
    | rfl
    | exact h

theorem dh_sendSecurityRequest (b : List (List Nat)) (bond mitm keypress : Bool) (s : SlaveState)
    (h : dhKeyChecks s.log = b) : dhKeyChecks (sendSecurityRequest bond mitm keypress s).log = b := by
  unfold sendSecurityRequest
  try dsimp only
  repeat' first
    | (with_reducible refine dh_pairingFailed _ _ _ ?_)
    | (with_reducible refine dh_pairingDone _ _ ?_)
    | (with_reducible refine dh_sendPacket _ _ _ _ _ ?_ ?_)
    | (with_reducible refine dh_sendDataFn _ _ _ _ _ ?_ ?_)
    | (with_reducible refine dh_emit _ _ _ ?_)
    | (with_reducible refine dh_throw _ _ ?_)
    | (with_reducible refine dh_act _ _ _ ?_ ?_)
    | split
    | rfl
    | exact h
    | (simp [buildPairingFeaturesPacket, bufferFrom, copyInto, bufferAlloc, SMP_PAIRING_RESPONSE, SMP_DHKEY_CHECK, SMP_PAIRING_CONFIRM, SMP_PAIRING_RANDOM, SMP_PAIRING_PUBLIC_KEY, SMP_SECURITY_REQUEST, SMP_KEYPRESS_NOTIFICATION, SMP_PAIRING_FAILED])

theorem dh_sendPairingFailed (b : List (List Nat)) (reason : Nat) (s : SlaveState)
    (h : dhKeyChecks s.log = b) : dhKeyChecks (sendPairingFailed reason s).log = b := by
  unfold sendPairingFailed
  try dsimp only
  repeat' first
    | (with_reducible refine dh_pairingFailed _ _ _ ?_)
    | (with_reducible refine dh_pairingDone _ _ ?_)
    | (with_reducible refine dh_sendPacket _ _ _ _ _ ?_ ?_)
    | (with_reducible refine dh_sendDataFn _ _ _ _ _ ?_ ?_)
    | (with_reducible refine dh_emit _ _ _ ?_)
    | (with_reducible refine dh_throw _ _ ?_)
    | (with_reducible refine dh_act _ _ _ ?_ ?_)
    | split
    | rfl
    | exact h

theorem dh_sendKeypressNotification (b : List (List Nat)) (t : Option Int) (s : SlaveState)
    (h : dhKeyChecks s.log = b) : dhKeyChecks (sendKeypressNotification t s).log = b := by
  unfold sendKeypressNotification
  try dsimp only
  repeat' first
    | (with_reducible refine dh_pairingFailed _ _ _ ?_)
    | (with_reducible refine dh_pairingDone _ _ ?_)
    | (with_reducible refine dh_sendPacket _ _ _ _ _ ?_ ?_)
    | (with_reducible refine dh_sendDataFn _ _ _ _ _ ?_ ?_)
    | (with_reducible refine dh_emit _ _ _ ?_)
    | (with_reducible refine dh_throw _ _ ?_)
    | (with_reducible refine dh_act _ _ _ ?_ ?_)
    | split
    | rfl
    | exact h
    | (simp [buildPairingFeaturesPacket, bufferFrom, copyInto, bufferAlloc, SMP_PAIRING_RESPONSE, SMP_DHKEY_CHECK, SMP_PAIRING_CONFIRM, SMP_PAIRING_RANDOM, SMP_PAIRING_PUBLIC_KEY, SMP_SECURITY_REQUEST, SMP_KEYPRESS_NOTIFICATION, SMP_PAIRING_FAILED])

theorem dh_onTimeout (b : List (List Nat)) (i : Inputs) (s : SlaveState)
    (h : dhKeyChecks s.log = b) : dhKeyChecks (onTimeout i s).log = b := by
  unfold onTimeout
  try dsimp only
  repeat' first
    | (with_reducible refine dh_pairingFailed _ _ _ ?_)
    | (with_reducible refine dh_pairingDone _ _ ?_)
    | (with_reducible refine dh_sendPacket _ _ _ _ _ ?_ ?_)
    | (with_reducible refine dh_sendDataFn _ _ _ _ _ ?_ ?_)
    | (with_reducible refine dh_emit _ _ _ ?_)
    | (with_reducible refine dh_throw _ _ ?_)
    | (with_reducible refine dh_act _ _ _ ?_ ?_)
    | (intro d x y hh; cases hh)
    | split
    | rfl
    | exact h

end SmpSlaveConnection
namespace SmpSlaveConnection

theorem dh_sendAll (b : List (List Nat)) (ps : List (List Nat)) (s : SlaveState) (h : dhKeyChecks s.log = b)
    (hp : ∀ p ∈ ps, p.head? ≠ some SMP_DHKEY_CHECK) :
    dhKeyChecks (ps.foldl (fun s p => sendDataFn (restartTimeout s) p none none) s).log = b := by
  induction ps generalizing s with
  | nil => exact h
  | cons p ps ih =>
    exact ih _ (dh_sendDataFn _ _ _ _ _ h (hp p (List.mem_cons_self _ _)))
      (fun q hq => hp q (List.mem_cons_of_mem _ hq))

theorem dh_onLtkReplyDoneAfterPairing (b : List (List Nat)) (k : Link) (i : Inputs) (s : SlaveState)
    (h : dhKeyChecks s.log = b) : dhKeyChecks (onLtkReplyDoneAfterPairing k i s).log = b := by
  unfold onLtkReplyDoneAfterPairing
  split
  · split
    · exact dh_throw _ _ h
    · exact dh_throw _ _ h
  · split
    · lift_lets
      intro rb rl re r s1 packets s2 nxt s3 trc s4
      have hp : ∀ p ∈ packets, p.head? ≠ some SMP_DHKEY_CHECK := by
        intro p hp
        simp only [packets, r, List.mem_append] at hp
        rcases hp with hp | hp
        · split at hp
          · simp only [List.mem_cons, List.mem_singleton, List.not_mem_nil, or_false] at hp
            rcases hp with rfl | rfl <;>
              simp [bufferFrom, SMP_ENCRYPTION_INFORMATION, SMP_MASTER_IDENTIFICATION, SMP_DHKEY_CHECK]
          · simp at hp
        · split at hp
          · simp only [List.mem_cons, List.mem_singleton, List.not_mem_nil, or_false] at hp
            rcases hp with rfl | rfl <;>
              simp [copyInto, SMP_IDENTITY_INFORMATION, SMP_IDENTITY_ADDRESS_INFORMATION, SMP_DHKEY_CHECK]
          · simp at hp
      have h1 : dhKeyChecks s1.log = b := by
        simp only [s1, r]
        split
        · exact h
        · exact h
      have h2 : dhKeyChecks s2.log = b := dh_sendAll _ _ _ h1 (fun p hp' => hp p (List.mem_of_mem_dropLast hp'))
      have h3 : dhKeyChecks s3.log = b := h2
      have h4 : dhKeyChecks s4.log = b := dh_encryptedAfterPairing _ _ _ h2
      clear_value s4 trc s3 s2
      split
      · split
        · rename_i lastPacket hlast
          exact dh_encryptedAfterPairing _ _ _ (dh_sendPacket _ _ _ _ _ h2 (hp _ (List.mem_of_mem_getLast? hlast)))
        · exact dh_encryptedAfterPairing _ _ _ h2
      · split
        · rename_i lastPacket hlast
          exact dh_encryptedAfterPairing _ _ _ (dh_sendDataFn _ _ _ _ _ h3 (hp _ (List.mem_of_mem_getLast? hlast)))
        · split
          · exact dh_pairingDone _ _ h4
          · exact h4
    · exact dh_encryptedAfterPairing _ _ _ h

theorem dh_onLtkReplyDone (b : List (List Nat)) (k : Link) (i : Inputs) (d : LtkReplyDone) (s : SlaveState)
    (h : dhKeyChecks s.log = b) : dhKeyChecks (onLtkReplyDone k i d s).log = b := by
  unfold onLtkReplyDone
  split
  · exact dh_onLtkReplyDoneAfterPairing _ _ _ _ h
  · dsimp only
    apply dh_emit
    split <;> exact h
  · dsimp only
    apply dh_emit
    split <;> exact h

/-- The DHKey Check case of the data handler adds a DHKey Check PDU only when the
responder waits for that PDU and either the model is not Numeric Comparison or the user
has confirmed. -/
theorem dh_onDataDHKeyCheck (c : Crypto) (k : Link) (data : List Nat) (s : SlaveState) :
    dhKeyChecks (onDataDHKeyCheck c k data s).log = dhKeyChecks s.log
    ∨ (s.state = STATE_W4_PACKET ∧ s.packetWaitOpcode = some SMP_DHKEY_CHECK
        ∧ (s.associationModel = some ASSOCIATION_MODEL_NUMERIC_COMPARISON → s.numericComparisonOk = true)) := by
  unfold onDataDHKeyCheck
  split
  · exact Or.inl rfl
  · rename_i hw
    split
    · exact Or.inl (dh_pairingFailed _ _ _ rfl)
    · dsimp only
      split
      · rename_i hc
        right
        simp only [notWaitingFor, Bool.or_eq_true, bne_iff_ne, ne_eq, not_or, Decidable.not_not] at hw
        refine ⟨hw.1, hw.2, ?_⟩
        intro hm
        simpa [hm] using hc
      · exact Or.inl rfl

theorem dh_onData (c : Crypto) (k : Link) (i : Inputs) (data : List Nat) (s : SlaveState) :
    dhKeyChecks (onData c k i data s).log = dhKeyChecks s.log
    ∨ (s.state = STATE_W4_PACKET ∧ s.packetWaitOpcode = some SMP_DHKEY_CHECK
        ∧ (s.associationModel = some ASSOCIATION_MODEL_NUMERIC_COMPARISON → s.numericComparisonOk = true)) := by
  apply slave_onData_cases (fun s' => dhKeyChecks s'.log = dhKeyChecks s.log
    ∨ (s.state = STATE_W4_PACKET ∧ s.packetWaitOpcode = some SMP_DHKEY_CHECK
        ∧ (s.associationModel = some ASSOCIATION_MODEL_NUMERIC_COMPARISON → s.numericComparisonOk = true)))
  · exact Or.inl rfl
  · exact Or.inl (dh_onDataPairingRequest _ _ _ _ rfl)
  · exact Or.inl (dh_onDataPairingPublicKey _ _ _ _ _ _ rfl)
  · exact Or.inl (dh_onDataPairingConfirm _ _ _ _ _ _ rfl)
  · exact Or.inl (dh_onDataPairingRandom _ _ _ _ _ rfl)
  · exact dh_onDataDHKeyCheck _ _ _ _
  · exact Or.inl (dh_onDataEncryptionInformation _ _ _ rfl)
  · exact Or.inl (dh_onDataMasterIdentification _ _ _ rfl)
  · exact Or.inl (dh_onDataIdentityInformation _ _ _ rfl)
  · exact Or.inl (dh_onDataIdentityAddressInformation _ _ _ rfl)
  · exact Or.inl (dh_onDataKeypressNotification _ _ _ rfl)
  · exact Or.inl (dh_onDataPairingFailed _ _ _ rfl)
  · exact Or.inl (dh_pairingFailed _ _ _ rfl)

/-- A step of the responder adds a DHKey Check PDU only if it is the confirmation callback
of the current run, or the receipt of the DHKey Check of the initiator in a session that
waits for it and, under Numeric Comparison, holds the confirmation of the user. -/
theorem dh_step (c : Crypto) (k : Link) (i : Inputs) (e : SlaveInput) (s : SlaveState) :
    dhKeyChecks (step c k i e s).log = dhKeyChecks s.log
    ∨ e = SlaveInput.numericComparisonCallback s.runCounter
    ∨ (s.state = STATE_W4_PACKET ∧ s.packetWaitOpcode = some SMP_DHKEY_CHECK
        ∧ (s.associationModel = some ASSOCIATION_MODEL_NUMERIC_COMPARISON → s.numericComparisonOk = true)) := by
  cases e with
  | data d =>
    rcases dh_onData c k i d s with h | h
    · exact Or.inl h
    · exact Or.inr (Or.inr h)
  | ltkRequest randNb ediv => exact Or.inl (dh_onLtkRequest _ _ _ _ _ rfl)
  | ltkReplyDone d => exact Or.inl (dh_onLtkReplyDone _ _ _ _ _ rfl)
  | setAvailableLtk ltk rand ediv mitm sc => exact Or.inl (dh_setAvailableLtk _ _ _ _ _ _ _ rfl)
  | sendSecurityRequest bond mitm keypress => exact Or.inl (dh_sendSecurityRequest _ _ _ _ _ rfl)
  | sendPairingFailed reason => exact Or.inl (dh_sendPairingFailed _ _ _ rfl)
  | sendKeypressNotification t => exact Or.inl (dh_sendKeypressNotification _ _ _ rfl)
  | pairingRequestCallback req n rsp => exact Or.inl (dh_cont _ _ _ _ _ _ _ rfl)
  | passkeyCallback ignore n r => exact Or.inl (dh_passkeyCallback _ _ _ _ _ _ _ _ rfl)
  | numericComparisonCallback n =>
    by_cases hn : n = s.runCounter
    · exact Or.inr (Or.inl (by rw [hn]))
    · left
      simp only [step, numericComparisonCallback]
      rw [if_pos (by simpa using fun h => hn h.symm)]
  | acknowledge cb => exact Or.inl (dh_onCallback _ _ _ rfl)
  | timeout => exact Or.inl (dh_onTimeout _ _ _ rfl)

end SmpSlaveConnection
theorem counter_mem_callbackCounters (a : Action) (n : Nat) (cb : Option PacketCallback)
    (h : Callback.packetSent n cb ∈ callbacksOf a) : n ∈ callbackCounters a := by
  cases a with
  | sendData d x y =>
    simp only [callbackCounters, List.mem_filterMap]
    exact ⟨_, h, rfl⟩
  | _ => simp [callbacksOf] at h

/-- No closure in the log has captured a run counter above the current one. -/
theorem noPacketSent_succ (state : Nat) (sendDisabled : Bool) (runCounter : Nat) (log : List Action)
    (h : CountersFresh state sendDisabled runCounter log) (cb : Option PacketCallback) :
    NoPacketSent log (runCounter + 1) cb := by
  intro a ha hmem
  have := (h.1 a ha _ (counter_mem_callbackCounters a _ cb hmem)).1
  omega

theorem noPacketSent_append (log : List Action) (n : Nat) (cb : Option PacketCallback) (a : Action)
    (h : NoPacketSent log n cb) (ha : Callback.packetSent n cb ∉ callbacksOf a) :
    NoPacketSent (log ++ [a]) n cb := by
  intro x hx
  simp only [List.mem_append, List.mem_singleton] at hx
  rcases hx with hx | rfl
  · exact h x hx
  · exact ha

namespace SmpSlaveConnection

/-- A session that agrees with a gated one on sending, run counter, log and negotiation,
whose flag is set only if the other's is, and whose state and awaited PDU open no way to
the DHKey Check, the feature question or the key request that the other does not have. -/
theorem gate_frame (g : Option Nat) (s s' : SlaveState) (h : Gate g s)
    (hd : s'.sendDisabled = s.sendDisabled) (hr : s'.runCounter = s.runCounter) (hl : s'.log = s.log)
    (ha : s'.associationModel = s.associationModel) (hp : s'.pairingFeatures = s.pairingFeatures)
    (hok : s'.numericComparisonOk = true → s.numericComparisonOk = true)
    (hw : s'.numericComparisonOk = true → s'.packetWaitOpcode = some SMP_DHKEY_CHECK →
      s.packetWaitOpcode = some SMP_DHKEY_CHECK ∧ (s'.state ≠ STATE_W4_PACKET ∨ s'.state = s.state))
    (hf : s'.state = STATE_W4_USER_FEATURES → s.state = STATE_W4_USER_FEATURES)
    (hk : s'.state = STATE_W4_LTK_REQUEST → s.state = STATE_W4_LTK_REQUEST)
    (ht : s'.state = STATE_TIMEDOUT → s.state = STATE_TIMEDOUT) : Gate g s' := by
  obtain ⟨hinv, hQ, hR, hF, hW⟩ := h
  refine ⟨inv_of_fields s s' hinv hd (by omega) hl ht, ?_, ?_, ?_, ?_⟩
  · intro ho
    rcases hQ (hok ho) with h1 | h1
    · left; rw [hr]; exact h1
    · right
      intro hw'
      obtain ⟨h3, h4⟩ := hw ho hw'
      have h2 := h1 h3
      rw [hr, hl]
      refine ⟨?_, h2.2⟩
      rcases h4 with h4 | h4
      · exact h4
      · rw [h4]; exact h2.1
  · rw [ha, hp, hr, hl]; exact hR
  · intro hs
    rw [hr, hl]
    exact hF (hf hs)
  · intro hs hc
    rw [hr]
    rw [ha, hp] at hc
    exact hW (hk hs) hc

/-- An update that sets the state to a value from which no PDU is taken and keeps the
awaited PDU. -/
theorem gate_leave (g : Option Nat) (s s' : SlaveState) (h : Gate g s)
    (hd : s'.sendDisabled = s.sendDisabled) (hr : s'.runCounter = s.runCounter) (hl : s'.log = s.log)
    (ha : s'.associationModel = s.associationModel) (hp : s'.pairingFeatures = s.pairingFeatures)
    (hok : s'.numericComparisonOk = s.numericComparisonOk) (hw : s'.packetWaitOpcode = s.packetWaitOpcode)
    (h1 : s'.state ≠ STATE_W4_PACKET) (h2 : s'.state ≠ STATE_W4_USER_FEATURES)
    (h3 : s'.state ≠ STATE_W4_LTK_REQUEST) (h4 : s'.state ≠ STATE_TIMEDOUT) : Gate g s' :=
  gate_frame g s s' h hd hr hl ha hp (fun x => by rw [← hok]; exact x)
    (fun _ x => ⟨by rw [← hw]; exact x, Or.inl h1⟩)
    (fun x => absurd x h2) (fun x => absurd x h3) (fun x => absurd x h4)

/-- An update that sets the awaited PDU to one other than the DHKey Check, or resets the
confirmation flag. -/
theorem gate_wait (g : Option Nat) (s s' : SlaveState) (h : Gate g s)
    (hd : s'.sendDisabled = s.sendDisabled) (hr : s'.runCounter = s.runCounter) (hl : s'.log = s.log)
    (ha : s'.associationModel = s.associationModel) (hp : s'.pairingFeatures = s.pairingFeatures)
    (hok : s'.numericComparisonOk = true → s.numericComparisonOk = true)
    (hw : s'.packetWaitOpcode ≠ some SMP_DHKEY_CHECK ∨ s'.numericComparisonOk = false)
    (hf : s'.state = STATE_W4_USER_FEATURES → s.state = STATE_W4_USER_FEATURES)
    (hk : s'.state = STATE_W4_LTK_REQUEST → s.state = STATE_W4_LTK_REQUEST)
    (ht : s'.state = STATE_TIMEDOUT → s.state = STATE_TIMEDOUT) : Gate g s' :=
  gate_frame g s s' h hd hr hl ha hp hok
    (fun x y => by
      rcases hw with hw | hw
      · exact absurd y hw
      · rw [hw] at x; exact absurd x (by decide))
    hf hk ht

theorem gate_act (g : Option Nat) (s : SlaveState) (a : Action) (h : Gate g s) (ha : callbacksOf a = []) :
    Gate g (act s a) := by
  obtain ⟨hinv, hQ, hR, hF, hW⟩ := h
  have hc : callbackCounters a = [] := by
    cases a <;> simp_all [callbacksOf, callbackCounters]
  have hn : ∀ n cb, Callback.packetSent n cb ∉ callbacksOf a := by
    intro n cb; rw [ha]; simp
  refine ⟨inv_act s a hinv hc, ?_, ?_, ?_, ?_⟩
  · intro ho
    rcases hQ ho with h1 | h1
    · exact Or.inl h1
    · exact Or.inr (fun hw => ⟨(h1 hw).1, noPacketSent_append _ _ _ _ (h1 hw).2 (hn _ _)⟩)
  · intro hc'
    rcases hR hc' with h1 | h1
    · exact Or.inl h1
    · exact Or.inr (noPacketSent_append _ _ _ _ h1 (hn _ _))
  · intro hs
    exact ⟨noPacketSent_append _ _ _ _ (hF hs).1 (hn _ _), noPacketSent_append _ _ _ _ (hF hs).2 (hn _ _)⟩
  · exact hW

theorem gate_emit (g : Option Nat) (s : SlaveState) (e : Event) (h : Gate g s) : Gate g (emit s e) :=
  gate_act g s _ h rfl

/-- A PDU handed over without a closure of `sendPacket`. -/
theorem gate_sendDataFn (g : Option Nat) (s : SlaveState) (data : List Nat) (cb1 cb2 : Option Callback)
    (h : Gate g s)
    (hc : ∀ cb ∈ callbacksOf (Action.sendData data cb1 cb2),
      (∀ n x, cb ≠ Callback.packetSent n x) ∧ ∀ n, Callback.counter cb = some n → n ≤ s.runCounter) :
    Gate g (sendDataFn s data cb1 cb2) := by
  have hi : Inv (sendDataFn s data cb1 cb2) := by
    refine inv_sendDataFn _ _ _ _ h.1 ?_
    intro n hn
    simp only [callbackCounters, List.mem_filterMap] at hn
    obtain ⟨cb, hcb, hn⟩ := hn
    exact (hc cb hcb).2 n hn
  unfold sendDataFn at hi ⊢
  by_cases hd : s.sendDisabled = true
  · rw [if_pos hd]; exact h
  · rw [if_neg hd] at hi ⊢
    obtain ⟨_, hQ, hR, hF, hW⟩ := h
    have hn : ∀ n cb, Callback.packetSent n cb ∉ callbacksOf (Action.sendData data cb1 cb2) :=
      fun n x hm => (hc _ hm).1 n x rfl
    refine ⟨hi, ?_, ?_, ?_, ?_⟩
    · intro ho
      rcases hQ ho with h1 | h1
      · exact Or.inl h1
      · exact Or.inr (fun hw => ⟨(h1 hw).1, noPacketSent_append _ _ _ _ (h1 hw).2 (hn _ _)⟩)
    · intro hc'
      rcases hR hc' with h1 | h1
      · exact Or.inl h1
      · exact Or.inr (noPacketSent_append _ _ _ _ h1 (hn _ _))
    · intro hs
      exact ⟨noPacketSent_append _ _ _ _ (hF hs).1 (hn _ _), noPacketSent_append _ _ _ _ (hF hs).2 (hn _ _)⟩
    · exact hW

/-- A session whose run counter has just been drawn anew and that takes no PDU and no key
request: nothing in its log belongs to the new run. -/
theorem gate_fresh (g : Option Nat) (s' : SlaveState) (n : Nat) (hi : Inv s')
    (hlog : ∀ a ∈ s'.log, ∀ m ∈ callbackCounters a, m ≤ n) (hr : s'.runCounter = n + 1)
    (h1 : s'.state ≠ STATE_W4_PACKET) (h3 : s'.state ≠ STATE_W4_LTK_REQUEST) : Gate g s' := by
  have hn : ∀ cb, NoPacketSent s'.log s'.runCounter cb := by
    intro cb a ha hmem
    have := hlog a ha _ (counter_mem_callbackCounters a _ cb hmem)
    omega
  exact ⟨hi, fun _ => Or.inr (fun _ => ⟨h1, hn _⟩), fun _ => Or.inr (hn _), fun _ => ⟨hn _, hn _⟩,
    fun hs => absurd hs h3⟩

theorem countersLe_append (n : Nat) (log : List Action) (x : Action) (hx : callbackCounters x = [])
    (hl : ∀ a ∈ log, ∀ m ∈ callbackCounters a, m ≤ n) : ∀ a ∈ log ++ [x], ∀ m ∈ callbackCounters a, m ≤ n := by
  intro a ha m hm
  simp only [List.mem_append, List.mem_singleton] at ha
  rcases ha with ha | rfl
  · exact hl a ha m hm
  · rw [hx] at hm; simp at hm

theorem countersLe_pairingFailed (s : SlaveState) (reason n : Nat)
    (h : ∀ a ∈ s.log, ∀ m ∈ callbackCounters a, m ≤ n) :
    ∀ a ∈ (pairingFailed s reason).log, ∀ m ∈ callbackCounters a, m ≤ n := by
  unfold pairingFailed emit act
  dsimp only
  refine countersLe_append _ _ _ ?_ ?_
  · rfl
  · split
    · unfold sendDataFn act
      split
      · exact h
      · exact countersLe_append _ _ _ (by rfl) h
    · exact h

theorem countersLe_pairingDone (s : SlaveState) (n : Nat)
    (h : ∀ a ∈ s.log, ∀ m ∈ callbackCounters a, m ≤ n) :
    ∀ a ∈ (pairingDone s).log, ∀ m ∈ callbackCounters a, m ≤ n := by
  have step : ∀ (log : List Action) (x : Action), callbackCounters x = [] →
      (∀ a ∈ log, ∀ m ∈ callbackCounters a, m ≤ n) → ∀ a ∈ log ++ [x], ∀ m ∈ callbackCounters a, m ≤ n := by
    intro log x hx hl a ha m hm
    simp only [List.mem_append, List.mem_singleton] at ha
    rcases ha with ha | rfl
    · exact hl a ha m hm
    · rw [hx] at hm; simp at hm
  unfold pairingDone
  lift_lets
  extract_lets s0 s1
  have h1 : ∀ a ∈ s1.log, ∀ m ∈ callbackCounters a, m ≤ n := h
  clear_value s1
  split
  · exact step _ _ rfl h1
  · lift_lets
    extract_lets sc res s2 s3 s4 s5
    have h2 : ∀ a ∈ s2.log, ∀ m ∈ callbackCounters a, m ≤ n := by
      simp only [s2]
      split
      · split
        · exact step _ _ rfl h1
        · exact h1
      · exact h1
    clear_value s2
    have h4 : ∀ a ∈ s4.log, ∀ m ∈ callbackCounters a, m ≤ n := by
      simp only [s4]
      split
      · exact step _ _ rfl (step _ _ rfl h2)
      · exact h2
    clear_value s4
    have h5 : ∀ a ∈ s5.log, ∀ m ∈ callbackCounters a, m ≤ n := by
      simp only [s5]
      split
      · exact h4
      · exact h4
    clear_value s5
    exact step _ _ rfl h5

theorem slave_pairingFailed_runCounter (s : SlaveState) (reason : Nat) :
    (pairingFailed s reason).runCounter = s.runCounter + 1 := by
  cases hf : s.hasOutgoingFailedMsg <;> cases hd : s.sendDisabled <;>
    simp [pairingFailed, timeoutClearFn, sendDataFn, emit, act, hf, hd]

theorem slave_pairingDone_runCounter (s : SlaveState) :
    (pairingDone s).runCounter = s.runCounter + 1 := by
  unfold pairingDone
  lift_lets
  extract_lets s0 s1
  have h1 : s1.runCounter = s.runCounter + 1 := rfl
  clear_value s1
  split
  · exact h1
  · lift_lets
    extract_lets sc res s2 s3 s4 s5
    have h2 : s2.runCounter = s.runCounter + 1 := by
      simp only [s2]
      repeat' split
      all_goals exact h1
    clear_value s2
    have h4 : s4.runCounter = s.runCounter + 1 := by
      simp only [s4]
      split
      · exact h2
      · exact h2
    clear_value s4
    have h5 : s5.runCounter = s.runCounter + 1 := by
      simp only [s5]
      split
      · exact h4
      · exact h4
    clear_value s5
    exact h5

theorem slave_pairingDone_state (s : SlaveState) : (pairingDone s).state = STATE_IDLE := by
  unfold pairingDone
  lift_lets
  extract_lets s0 s1
  have h1 : s1.state = STATE_IDLE := rfl
  clear_value s1
  split
  · exact h1
  · lift_lets
    extract_lets sc res s2 s3 s4 s5
    have h2 : s2.state = STATE_IDLE := by
      simp only [s2]
      repeat' split
      all_goals exact h1
    clear_value s2
    have h4 : s4.state = STATE_IDLE := by
      simp only [s4]
      split
      · exact h2
      · exact h2
    clear_value s4
    have h5 : s5.state = STATE_IDLE := by
      simp only [s5]
      split
      · exact h4
      · exact h4
    clear_value s5
    exact h5

theorem gate_pairingFailed (g : Option Nat) (s : SlaveState) (reason : Nat) (h : Gate g s) :
    Gate g (pairingFailed s reason) :=
  gate_fresh g _ s.runCounter (inv_pairingFailed s reason h.1)
    (countersLe_pairingFailed s reason _ (fun a ha m hm => (h.1.1 a ha m hm).1))
    (slave_pairingFailed_runCounter s reason)
    (by rw [slave_pairingFailed_state]; decide) (by rw [slave_pairingFailed_state]; decide)

theorem gate_pairingDone (g : Option Nat) (s : SlaveState) (h : Gate g s) : Gate g (pairingDone s) :=
  gate_fresh g _ s.runCounter (inv_pairingDone s h.1)
    (countersLe_pairingDone s _ (fun a ha m hm => (h.1.1 a ha m hm).1))
    (slave_pairingDone_runCounter s)
    (by rw [slave_pairingDone_state]; decide) (by rw [slave_pairingDone_state]; decide)

theorem slave_sendPacket_disabled_eq (s : SlaveState) (data : List Nat) (next : Option Nat)
    (ht : s.state ≠ STATE_TIMEDOUT) (h : s.sendDisabled = true) :
    sendPacket s data next none
      = { s with timeoutPending := true, state := STATE_W4_PACKET_ENQUEUED, packetWaitOpcode := next } := by
  simp [sendPacket, restartTimeout, timeoutClearFn, sendDataFn, act, ht, h]

theorem slave_sendPacket_callback_disabled_eq (s : SlaveState) (data : List Nat) (next : Option Nat)
    (cb : PacketCallback) (ht : s.state ≠ STATE_TIMEDOUT) (h : s.sendDisabled = true) :
    sendPacket s data next (some cb) = { s with timeoutPending := true, state := STATE_W4_PACKET_ENQUEUED } := by
  simp [sendPacket, restartTimeout, timeoutClearFn, sendDataFn, act, ht, h]

/-- A PDU sent by `sendPacket` without callback: the awaited PDU is set anew.  When the
DHKey Check is awaited next, the confirmation flag has just been reset. -/
theorem gate_sendPacket_plain (g : Option Nat) (s : SlaveState) (data : List Nat) (next : Option Nat)
    (h : Gate g s) (hn : next ≠ some SMP_DHKEY_CHECK ∨ s.numericComparisonOk = false) :
    Gate g (sendPacket s data next none) := by
  have hi := inv_sendPacket s data next none h.1
  by_cases ht : s.state = STATE_TIMEDOUT
  · have : sendPacket s data next none = s := by simp [sendPacket, ht]
    rw [this]; exact h
  have hframe : Gate g { s with timeoutPending := true, state := STATE_W4_PACKET_ENQUEUED, packetWaitOpcode := next } :=
    gate_wait g s _ h rfl rfl rfl rfl rfl (fun x => x) hn (fun x => absurd x (by dsimp only; decide))
      (fun x => absurd x (by dsimp only; decide)) (fun x => absurd x (by dsimp only; decide))
  cases hd : s.sendDisabled
  · rw [slave_sendPacket_eq s data next ht hd] at hi ⊢
    obtain ⟨_, hQ, hR, hF, hW⟩ := hframe
    refine ⟨hi, ?_, ?_, ?_, ?_⟩
    · intro ho
      right
      intro hw
      rcases hn with hn | hn
      · exact absurd hw hn
      · exact absurd ho (by rw [hn]; decide)
    · intro hc
      rcases hR hc with h1 | h1
      · exact Or.inl h1
      · exact Or.inr (noPacketSent_append _ _ _ _ h1 (by simp [callbacksOf]))
    · intro hs
      exact absurd hs (by dsimp only; decide)
    · intro hs
      exact absurd hs (by dsimp only; decide)
  · rw [slave_sendPacket_disabled_eq s data next ht hd]
    exact hframe

/-- A PDU sent by `sendPacket` with the callback that leads to `STATE_W4_LTK_REQUEST`: under
Numeric Comparison the user has confirmed in this run. -/
theorem gate_sendPacket_callback (g : Option Nat) (s : SlaveState) (data : List Nat) (next : Option Nat)
    (cb : PacketCallback) (h : Gate g s)
    (hc : comparisonInUse s.associationModel s.pairingFeatures → g = some s.runCounter) :
    Gate g (sendPacket s data next (some cb)) := by
  have hi := inv_sendPacket s data next (some cb) h.1
  by_cases ht : s.state = STATE_TIMEDOUT
  · have : sendPacket s data next (some cb) = s := by simp [sendPacket, ht]
    rw [this]; exact h
  have hframe : Gate g { s with timeoutPending := true, state := STATE_W4_PACKET_ENQUEUED } :=
    gate_leave g s _ h rfl rfl rfl rfl rfl rfl rfl (by dsimp only; decide) (by dsimp only; decide) (by dsimp only; decide) (by dsimp only; decide)
  cases hd : s.sendDisabled
  · rw [slave_sendPacket_callback_eq s data next cb ht hd] at hi ⊢
    obtain ⟨_, hQ, hR, hF, hW⟩ := hframe
    refine ⟨hi, ?_, ?_, ?_, ?_⟩
    · intro ho
      rcases hQ ho with h1 | h1
      · exact Or.inl h1
      · exact Or.inr (fun hw => ⟨(h1 hw).1, noPacketSent_append _ _ _ _ (h1 hw).2 (by simp [callbacksOf])⟩)
    · intro hc'
      exact Or.inl (hc hc')
    · intro hs
      exact absurd hs (by dsimp only; decide)
    · intro hs
      exact absurd hs (by dsimp only; decide)
  · rw [slave_sendPacket_callback_disabled_eq s data next cb ht hd]
    exact hframe

end SmpSlaveConnection
namespace SmpSlaveConnection

theorem gate_afterInitsConfirmAndPasskey (g : Option Nat) (c : Crypto) (k : Link) (i : Inputs) (s : SlaveState)
    (h : Gate g s) : Gate g (afterInitsConfirmAndPasskey c k i s) := by
  unfold afterInitsConfirmAndPasskey
  try dsimp only
  repeat' first
    | (with_reducible refine gate_pairingFailed _ _ _ ?_)
    | (with_reducible refine gate_pairingDone _ _ ?_)
    | (with_reducible refine gate_sendPacket_plain _ _ _ _ ?_ ?_)
    | (with_reducible refine gate_emit _ _ _ ?_)
    | (with_reducible refine gate_act _ _ _ ?_ ?_)
    | (with_reducible refine gate_sendDataFn _ _ _ _ _ ?_ ?_)
    | split
    | rfl
    | exact h
    | exact Or.inl (by decide)

theorem gate_onDataPairingConfirm (g : Option Nat) (c : Crypto) (k : Link) (i : Inputs) (data : List Nat) (s : SlaveState)
    (h : Gate g s) : Gate g (onDataPairingConfirm c k i data s) := by
  unfold onDataPairingConfirm
  try dsimp only
  repeat' first
    | (with_reducible refine gate_afterInitsConfirmAndPasskey _ _ _ _ _ ?_)
    | (with_reducible refine gate_pairingFailed _ _ _ ?_)
    | (with_reducible refine gate_pairingDone _ _ ?_)
    | (with_reducible refine gate_sendPacket_plain _ _ _ _ ?_ ?_)
    | (with_reducible refine gate_emit _ _ _ ?_)
    | (with_reducible refine gate_act _ _ _ ?_ ?_)
    | (with_reducible refine gate_sendDataFn _ _ _ _ _ ?_ ?_)
    | split
    | rfl
    | exact h
    | exact Or.inl (by decide)
    | exact gate_sendDataFn _ _ _ _ _ h (by intro cb hcb; simp [callbacksOf] at hcb)
    | (intro cb hcb; simp [callbacksOf] at hcb)
    | exact gate_leave _ s _ h rfl rfl rfl rfl rfl rfl rfl (by first | decide | (dsimp only; decide) | (dsimp only [restartTimeout, timeoutClearFn]; decide)) (by first | decide | (dsimp only; decide) | (dsimp only [restartTimeout, timeoutClearFn]; decide)) (by first | decide | (dsimp only; decide) | (dsimp only [restartTimeout, timeoutClearFn]; decide)) (by first | decide | (dsimp only; decide) | (dsimp only [restartTimeout, timeoutClearFn]; decide))

theorem gate_onDataPairingPublicKey (g : Option Nat) (c : Crypto) (k : Link) (i : Inputs) (data : List Nat) (s : SlaveState)
    (h : Gate g s) : Gate g (onDataPairingPublicKey c k i data s) := by
  unfold onDataPairingPublicKey
  try dsimp only
  repeat' first
    | (with_reducible refine gate_onDataPairingConfirm _ _ _ _ _ _ ?_)
    | (with_reducible refine gate_pairingFailed _ _ _ ?_)
    | (with_reducible refine gate_pairingDone _ _ ?_)
    | (with_reducible refine gate_sendPacket_plain _ _ _ _ ?_ ?_)
    | (with_reducible refine gate_emit _ _ _ ?_)
    | (with_reducible refine gate_act _ _ _ ?_ ?_)
    | (with_reducible refine gate_sendDataFn _ _ _ _ _ ?_ ?_)
    | split
    | rfl
    | exact h
    | exact Or.inl (by decide)
    | exact gate_sendDataFn _ _ _ _ _ h (by intro cb hcb; simp [callbacksOf] at hcb)

theorem gate_onDataEncryptionInformation (g : Option Nat) (data : List Nat) (s : SlaveState)
    (h : Gate g s) : Gate g (onDataEncryptionInformation data s) := by
  unfold onDataEncryptionInformation
  try dsimp only
  repeat' first
    | (with_reducible refine gate_pairingFailed _ _ _ ?_)
    | (with_reducible refine gate_pairingDone _ _ ?_)
    | (with_reducible refine gate_sendPacket_plain _ _ _ _ ?_ ?_)
    | (with_reducible refine gate_emit _ _ _ ?_)
    | (with_reducible refine gate_act _ _ _ ?_ ?_)
    | (with_reducible refine gate_sendDataFn _ _ _ _ _ ?_ ?_)
    | split
    | rfl
    | exact h
    | exact Or.inl (by decide)
    | exact gate_sendDataFn _ _ _ _ _ h (by intro cb hcb; simp [callbacksOf] at hcb)
    | (intro cb hcb; simp [callbacksOf] at hcb)
    | exact gate_leave _ s _ h rfl rfl rfl rfl rfl rfl rfl (by first | decide | (dsimp only; decide) | (dsimp only [restartTimeout, timeoutClearFn]; decide)) (by first | decide | (dsimp only; decide) | (dsimp only [restartTimeout, timeoutClearFn]; decide)) (by first | decide | (dsimp only; decide) | (dsimp only [restartTimeout, timeoutClearFn]; decide)) (by first | decide | (dsimp only; decide) | (dsimp only [restartTimeout, timeoutClearFn]; decide))
    | exact gate_wait _ s _ h rfl rfl rfl rfl rfl (fun x => x) (Or.inl (by first | decide | (dsimp only; decide) | (dsimp only [restartTimeout, timeoutClearFn]; decide))) (fun x => x) (fun x => x) (fun x => x)

theorem gate_onDataMasterIdentification (g : Option Nat) (data : List Nat) (s : SlaveState)
    (h : Gate g s) : Gate g (onDataMasterIdentification data s) := by
  unfold onDataMasterIdentification
  try dsimp only
  repeat' first
    | (with_reducible refine gate_pairingFailed _ _ _ ?_)
    | (with_reducible refine gate_pairingDone _ _ ?_)
    | (with_reducible refine gate_sendPacket_plain _ _ _ _ ?_ ?_)
    | (with_reducible refine gate_emit _ _ _ ?_)
    | (with_reducible refine gate_act _ _ _ ?_ ?_)
    | (with_reducible refine gate_sendDataFn _ _ _ _ _ ?_ ?_)
    | split
    | rfl
    | exact h
    | exact Or.inl (by decide)
    | exact gate_sendDataFn _ _ _ _ _ h (by intro cb hcb; simp [callbacksOf] at hcb)
    | (intro cb hcb; simp [callbacksOf] at hcb)
    | exact gate_leave _ s _ h rfl rfl rfl rfl rfl rfl rfl (by first | decide | (dsimp only; decide) | (dsimp only [restartTimeout, timeoutClearFn]; decide)) (by first | decide | (dsimp only; decide) | (dsimp only [restartTimeout, timeoutClearFn]; decide)) (by first | decide | (dsimp only; decide) | (dsimp only [restartTimeout, timeoutClearFn]; decide)) (by first | decide | (dsimp only; decide) | (dsimp only [restartTimeout, timeoutClearFn]; decide))
    | exact gate_wait _ s _ h rfl rfl rfl rfl rfl (fun x => x) (Or.inl (by first | decide | (dsimp only; decide) | (dsimp only [restartTimeout, timeoutClearFn]; decide))) (fun x => x) (fun x => x) (fun x => x)

theorem gate_onDataIdentityInformation (g : Option Nat) (data : List Nat) (s : SlaveState)
    (h : Gate g s) : Gate g (onDataIdentityInformation data s) := by
  unfold onDataIdentityInformation
  try dsimp only
  repeat' first
    | (with_reducible refine gate_pairingFailed _ _ _ ?_)
    | (with_reducible refine gate_pairingDone _ _ ?_)
    | (with_reducible refine gate_sendPacket_plain _ _ _ _ ?_ ?_)
    | (with_reducible refine gate_emit _ _ _ ?_)
    | (with_reducible refine gate_act _ _ _ ?_ ?_)
    | (with_reducible refine gate_sendDataFn _ _ _ _ _ ?_ ?_)
    | split
    | rfl
    | exact h
    | exact Or.inl (by decide)
    | exact gate_sendDataFn _ _ _ _ _ h (by intro cb hcb; simp [callbacksOf] at hcb)
    | (intro cb hcb; simp [callbacksOf] at hcb)
    | exact gate_leave _ s _ h rfl rfl rfl rfl rfl rfl rfl (by first | decide | (dsimp only; decide) | (dsimp only [restartTimeout, timeoutClearFn]; decide)) (by first | decide | (dsimp only; decide) | (dsimp only [restartTimeout, timeoutClearFn]; decide)) (by first | decide | (dsimp only; decide) | (dsimp only [restartTimeout, timeoutClearFn]; decide)) (by first | decide | (dsimp only; decide) | (dsimp only [restartTimeout, timeoutClearFn]; decide))
    | exact gate_wait _ s _ h rfl rfl rfl rfl rfl (fun x => x) (Or.inl (by first | decide | (dsimp only; decide) | (dsimp only [restartTimeout, timeoutClearFn]; decide))) (fun x => x) (fun x => x) (fun x => x)

theorem gate_onDataIdentityAddressInformation (g : Option Nat) (data : List Nat) (s : SlaveState)
    (h : Gate g s) : Gate g (onDataIdentityAddressInformation data s) := by
  unfold onDataIdentityAddressInformation
  try dsimp only
  repeat' first
    | (with_reducible refine gate_pairingFailed _ _ _ ?_)
    | (with_reducible refine gate_pairingDone _ _ ?_)
    | (with_reducible refine gate_sendPacket_plain _ _ _ _ ?_ ?_)
    | (with_reducible refine gate_emit _ _ _ ?_)
    | (with_reducible refine gate_act _ _ _ ?_ ?_)
    | (with_reducible refine gate_sendDataFn _ _ _ _ _ ?_ ?_)
    | split
    | rfl
    | exact h

theorem gate_onDataKeypressNotification (g : Option Nat) (data : List Nat) (s : SlaveState)
    (h : Gate g s) : Gate g (onDataKeypressNotification data s) := by
  unfold onDataKeypressNotification
  try dsimp only
  repeat' first
    | (with_reducible refine gate_pairingFailed _ _ _ ?_)
    | (with_reducible refine gate_pairingDone _ _ ?_)
    | (with_reducible refine gate_sendPacket_plain _ _ _ _ ?_ ?_)
    | (with_reducible refine gate_emit _ _ _ ?_)
    | (with_reducible refine gate_act _ _ _ ?_ ?_)
    | (with_reducible refine gate_sendDataFn _ _ _ _ _ ?_ ?_)
    | split
    | rfl
    | exact h

theorem gate_passkeyCallback (g : Option Nat) (c : Crypto) (k : Link) (i : Inputs) (ignore : Bool) (n : Nat) (r : Option Int) (s : SlaveState)
    (h : Gate g s) : Gate g (passkeyCallback c k i ignore n r s) := by
  unfold passkeyCallback
  try dsimp only
  repeat' first
    | (with_reducible refine gate_afterInitsConfirmAndPasskey _ _ _ _ _ ?_)
    | (with_reducible refine gate_pairingFailed _ _ _ ?_)
    | (with_reducible refine gate_pairingDone _ _ ?_)
    | (with_reducible refine gate_sendPacket_plain _ _ _ _ ?_ ?_)
    | (with_reducible refine gate_emit _ _ _ ?_)
    | (with_reducible refine gate_act _ _ _ ?_ ?_)
    | (with_reducible refine gate_sendDataFn _ _ _ _ _ ?_ ?_)
    | split
    | rfl
    | exact h

theorem gate_onLtkRequest (g : Option Nat) (c : Crypto) (randNb : List Nat) (ediv : Nat) (s : SlaveState)
    (h : Gate g s) : Gate g (onLtkRequest c randNb ediv s) := by
  unfold onLtkRequest
  try dsimp only
  repeat' first
    | (with_reducible refine gate_pairingFailed _ _ _ ?_)
    | (with_reducible refine gate_pairingDone _ _ ?_)
    | (with_reducible refine gate_sendPacket_plain _ _ _ _ ?_ ?_)
    | (with_reducible refine gate_emit _ _ _ ?_)
    | (with_reducible refine gate_act _ _ _ ?_ ?_)
    | (with_reducible refine gate_sendDataFn _ _ _ _ _ ?_ ?_)
    | split
    | rfl
    | exact h
    | exact Or.inl (by decide)
    | exact gate_sendDataFn _ _ _ _ _ h (by intro cb hcb; simp [callbacksOf] at hcb)
    | (intro cb hcb; simp [callbacksOf] at hcb)
    | exact gate_leave _ s _ h rfl rfl rfl rfl rfl rfl rfl (by first | decide | (dsimp only; decide) | (dsimp only [restartTimeout, timeoutClearFn]; decide)) (by first | decide | (dsimp only; decide) | (dsimp only [restartTimeout, timeoutClearFn]; decide)) (by first | decide | (dsimp only; decide) | (dsimp only [restartTimeout, timeoutClearFn]; decide)) (by first | decide | (dsimp only; decide) | (dsimp only [restartTimeout, timeoutClearFn]; decide))

theorem gate_encryptedAfterPairing (g : Option Nat) (pf : PairingFeatures) (s : SlaveState)
    (h : Gate g s) : Gate g (encryptedAfterPairing pf s) := by
  unfold encryptedAfterPairing
  try dsimp only
  repeat' first
    | (with_reducible refine gate_pairingFailed _ _ _ ?_)
    | (with_reducible refine gate_pairingDone _ _ ?_)
    | (with_reducible refine gate_sendPacket_plain _ _ _ _ ?_ ?_)
    | (with_reducible refine gate_emit _ _ _ ?_)
    | (with_reducible refine gate_act _ _ _ ?_ ?_)
    | (with_reducible refine gate_sendDataFn _ _ _ _ _ ?_ ?_)
    | split
    | rfl
    | exact h

theorem gate_setAvailableLtk (g : Option Nat) (ltk rand : List Nat) (ediv : Nat) (mitm sc : Bool) (s : SlaveState)
    (h : Gate g s) : Gate g (setAvailableLtk ltk rand ediv mitm sc s) := by
  unfold setAvailableLtk
  try dsimp only
  repeat' first
    | (with_reducible refine gate_pairingFailed _ _ _ ?_)
    | (with_reducible refine gate_pairingDone _ _ ?_)
    | (with_reducible refine gate_sendPacket_plain _ _ _ _ ?_ ?_)
    | (with_reducible refine gate_emit _ _ _ ?_)
    | (with_reducible refine gate_act _ _ _ ?_ ?_)
    | (with_reducible refine gate_sendDataFn _ _ _ _ _ ?_ ?_)
    | split
    | rfl
    | exact h

theorem gate_sendSecurityRequest (g : Option Nat) (bond mitm keypress : Bool) (s : SlaveState)
    (h : Gate g s) : Gate g (sendSecurityRequest bond mitm keypress s) := by
  unfold sendSecurityRequest
  try dsimp only
  repeat' first
    | (with_reducible refine gate_pairingFailed _ _ _ ?_)
    | (with_reducible refine gate_pairingDone _ _ ?_)
    | (with_reducible refine gate_sendPacket_plain _ _ _ _ ?_ ?_)
    | (with_reducible refine gate_emit _ _ _ ?_)
    | (with_reducible refine gate_act _ _ _ ?_ ?_)
    | (with_reducible refine gate_sendDataFn _ _ _ _ _ ?_ ?_)
    | split
    | rfl
    | exact h
    | exact Or.inl (by decide)
    | exact gate_sendDataFn _ _ _ _ _ h (by intro cb hcb; simp [callbacksOf] at hcb)
    | (intro cb hcb; simp [callbacksOf] at hcb)
    | exact gate_leave _ s _ h rfl rfl rfl rfl rfl rfl rfl (by first | decide | (dsimp only; decide) | (dsimp only [restartTimeout, timeoutClearFn]; decide)) (by first | decide | (dsimp only; decide) | (dsimp only [restartTimeout, timeoutClearFn]; decide)) (by first | decide | (dsimp only; decide) | (dsimp only [restartTimeout, timeoutClearFn]; decide)) (by first | decide | (dsimp only; decide) | (dsimp only [restartTimeout, timeoutClearFn]; decide))
    | exact gate_wait _ s _ h rfl rfl rfl rfl rfl (fun x => x) (Or.inl (by first | decide | (dsimp only; decide) | (dsimp only [restartTimeout, timeoutClearFn]; decide))) (fun x => x) (fun x => x) (fun x => x)
    | exact gate_wait _ s _ h rfl rfl rfl rfl rfl (fun x => x) (Or.inl (by first | decide | (dsimp only; decide) | (dsimp only [restartTimeout, timeoutClearFn]; decide))) (fun x => absurd x (by first | decide | (dsimp only; decide) | (dsimp only [restartTimeout, timeoutClearFn]; decide))) (fun x => absurd x (by first | decide | (dsimp only; decide) | (dsimp only [restartTimeout, timeoutClearFn]; decide))) (fun x => absurd x (by first | decide | (dsimp only; decide) | (dsimp only [restartTimeout, timeoutClearFn]; decide)))

theorem gate_sendPairingFailed (g : Option Nat) (reason : Nat) (s : SlaveState)
    (h : Gate g s) : Gate g (sendPairingFailed reason s) := by
  unfold sendPairingFailed
  try dsimp only
  repeat' first
    | (with_reducible refine gate_pairingFailed _ _ _ ?_)
    | (with_reducible refine gate_pairingDone _ _ ?_)
    | (with_reducible refine gate_sendPacket_plain _ _ _ _ ?_ ?_)
    | (with_reducible refine gate_emit _ _ _ ?_)
    | (with_reducible refine gate_act _ _ _ ?_ ?_)
    | (with_reducible refine gate_sendDataFn _ _ _ _ _ ?_ ?_)
    | split
    | rfl
    | exact h

theorem gate_sendKeypressNotification (g : Option Nat) (t : Option Int) (s : SlaveState)
    (h : Gate g s) : Gate g (sendKeypressNotification t s) := by
  unfold sendKeypressNotification
  try dsimp only
  repeat' first
    | (with_reducible refine gate_pairingFailed _ _ _ ?_)
    | (with_reducible refine gate_pairingDone _ _ ?_)
    | (with_reducible refine gate_sendPacket_plain _ _ _ _ ?_ ?_)
    | (with_reducible refine gate_emit _ _ _ ?_)
    | (with_reducible refine gate_act _ _ _ ?_ ?_)
    | (with_reducible refine gate_sendDataFn _ _ _ _ _ ?_ ?_)
    | split
    | rfl
    | exact h
    | exact Or.inl (by decide)
    | exact gate_sendDataFn _ _ _ _ _ h (by intro cb hcb; simp [callbacksOf] at hcb)
    | (intro cb hcb; simp [callbacksOf] at hcb)

end SmpSlaveConnection
namespace SmpSlaveConnection

/-- An update of variables the gate does not read. -/
theorem gate_same (g : Option Nat) (s s' : SlaveState) (h : Gate g s)
    (hst : s'.state = s.state) (hw : s'.packetWaitOpcode = s.packetWaitOpcode)
    (hd : s'.sendDisabled = s.sendDisabled) (hr : s'.runCounter = s.runCounter) (hl : s'.log = s.log)
    (ha : s'.associationModel = s.associationModel) (hp : s'.pairingFeatures = s.pairingFeatures)
    (hok : s'.numericComparisonOk = s.numericComparisonOk) : Gate g s' :=
  gate_frame g s s' h hd hr hl ha hp (fun x => by rw [← hok]; exact x)
    (fun _ x => ⟨by rw [← hw]; exact x, Or.inr hst⟩)
    (fun x => by rw [← hst]; exact x) (fun x => by rw [← hst]; exact x) (fun x => by rw [← hst]; exact x)

/-- The DHKey Check of the responder is built and sent: under Numeric Comparison the caller
holds the confirmation of this run. -/
theorem gate_afterNumericComparisonOkAndDHKeyCheck (g : Option Nat) (c : Crypto) (k : Link) (s : SlaveState)
    (h : Gate g s) (hc : comparisonInUse s.associationModel s.pairingFeatures → g = some s.runCounter) :
    Gate g (afterNumericComparisonOkAndDHKeyCheck c k s) := by
  unfold afterNumericComparisonOkAndDHKeyCheck
  split
  · split
    · exact gate_pairingFailed _ _ _ h
    · split
      · exact gate_pairingFailed _ _ _ h
      · exact gate_sendPacket_callback _ _ _ _ _ (gate_same g s _ h rfl rfl rfl rfl rfl rfl rfl rfl) hc
  · exact gate_act _ _ _ h rfl

theorem gate_onDataDHKeyCheck (g : Option Nat) (c : Crypto) (k : Link) (data : List Nat) (s : SlaveState)
    (h : Gate g s) : Gate g (onDataDHKeyCheck c k data s) := by
  unfold onDataDHKeyCheck
  split
  · exact h
  · rename_i hw
    simp only [notWaitingFor, Bool.or_eq_true, bne_iff_ne, ne_eq, not_or, Decidable.not_not] at hw
    split
    · exact gate_pairingFailed _ _ _ h
    · dsimp only
      split
      · rename_i hcond
        refine gate_afterNumericComparisonOkAndDHKeyCheck _ _ _ _
          (gate_same g s _ h rfl rfl rfl rfl rfl rfl rfl rfl) ?_
        intro hcu
        have hm : s.associationModel = some ASSOCIATION_MODEL_NUMERIC_COMPARISON := hcu.1
        have hok : s.numericComparisonOk = true := by simpa [hm] using hcond
        rcases h.2.1 hok with h1 | h1
        · exact h1
        · exact absurd hw.1 (h1 hw.2).1
      · exact gate_leave g s _ h rfl rfl rfl rfl rfl rfl rfl (by dsimp only; decide) (by dsimp only; decide)
          (by dsimp only; decide) (by dsimp only; decide)

theorem gate_onDataPairingRandom (g : Option Nat) (c : Crypto) (k : Link) (data : List Nat) (s : SlaveState)
    (h : Gate g s) : Gate g (onDataPairingRandom c k data s) := by
  unfold onDataPairingRandom
  split
  · exact h
  · split
    · exact gate_pairingFailed _ _ _ h
    · dsimp only
      have h1 : Gate g { s with initRandomValue := some (data.drop 1) } :=
        gate_same g s _ h rfl rfl rfl rfl rfl rfl rfl rfl
      split
      · exact gate_act _ _ _ h1 rfl
      · rename_i pf hpf
        split
        · rename_i hsc
          split
          · split
            · exact gate_pairingFailed _ _ _ h1
            · split
              · exact gate_act _ _ _ h1 rfl
              · refine gate_sendPacket_callback _ _ _ _ _ h1 ?_
                rintro ⟨_, pf', hpf', hsc'⟩
                dsimp only at hpf'
                rw [hpf] at hpf'
                cases hpf'
                simp [hsc'] at hsc
          · exact gate_act _ _ _ h1 rfl
        · split
          · have h2 : Gate g { s with initRandomValue := some (data.drop 1), numericComparisonOk := false } :=
              gate_wait g s _ h rfl rfl rfl rfl rfl (fun x => absurd x (by dsimp only; decide)) (Or.inr rfl) (fun x => x) (fun x => x) (fun x => x)
            split
            · exact gate_act _ _ _ h2 rfl
            · have h3 := gate_sendPacket_plain g _ (bufferFrom [SMP_PAIRING_RANDOM] ++ (by assumption)) (some SMP_DHKEY_CHECK) h2 (Or.inr rfl)
              split
              · split
                · exact gate_act _ _ _ h3 rfl
                · exact gate_emit _ _ _ h3
              · exact h3
          · split
            · split
              · exact gate_pairingFailed _ _ _ h1
              · exact gate_act _ _ _ h1 rfl
            · exact gate_act _ _ _ h1 rfl

/-- The confirmation callback of the current run: its run is recorded as confirmed. -/
theorem gate_confirm (g : Option Nat) (s s' : SlaveState) (h : Gate g s)
    (hst : s'.state = s.state) (hd : s'.sendDisabled = s.sendDisabled) (hr : s'.runCounter = s.runCounter)
    (hl : s'.log = s.log) : Gate (some s.runCounter) s' := by
  obtain ⟨hinv, hQ, hR, hF, hW⟩ := h
  refine ⟨inv_of_fields s s' hinv hd (by omega) hl (fun x => by rw [← hst]; exact x), ?_, ?_, ?_, ?_⟩
  · intro _; left; rw [hr]
  · intro _; left; rw [hr]
  · intro hs
    rw [hr, hl]
    exact hF (by rw [← hst]; exact hs)
  · intro _ _; rw [hr]

theorem gate_numericComparisonCallback (g : Option Nat) (c : Crypto) (k : Link) (n : Nat) (s : SlaveState)
    (h : Gate g s) :
    Gate (if n = s.runCounter then some n else g) (numericComparisonCallback c k n s) := by
  unfold numericComparisonCallback
  by_cases hn : n = s.runCounter
  · rw [if_pos hn, if_neg (by simpa using hn.symm)]
    subst hn
    dsimp only
    have h1 : Gate (some s.runCounter) { s with numericComparisonOk := true } :=
      gate_confirm g s _ h rfl rfl rfl rfl
    split
    · exact gate_afterNumericComparisonOkAndDHKeyCheck _ _ _ _ h1 (fun _ => rfl)
    · exact h1
  · rw [if_neg hn, if_pos (by simpa using fun x => hn x.symm)]
    exact h

end SmpSlaveConnection
namespace SmpSlaveConnection

/-- The negotiation is set while the user is asked for the features: no PDU of this run has
been sent with a closure of `sendPacket`. -/
theorem gate_renegotiate (g : Option Nat) (s s' : SlaveState) (h : Gate g s)
    (hs : s.state = STATE_W4_USER_FEATURES) (hst : s'.state = s.state)
    (hw : s'.packetWaitOpcode = s.packetWaitOpcode) (hd : s'.sendDisabled = s.sendDisabled)
    (hr : s'.runCounter = s.runCounter) (hl : s'.log = s.log)
    (hok : s'.numericComparisonOk = s.numericComparisonOk) : Gate g s' := by
  obtain ⟨hinv, hQ, hR, hF, hW⟩ := h
  refine ⟨inv_of_fields s s' hinv hd (by omega) hl (fun x => by rw [← hst]; exact x), ?_, ?_, ?_, ?_⟩
  · rw [hok, hw, hst, hr, hl]; exact hQ
  · intro _
    right
    rw [hr, hl]
    exact (hF hs).2
  · intro _
    rw [hr, hl]
    exact hF hs
  · intro hs'
    rw [hst, hs] at hs'
    exact absurd hs' (by decide)

theorem gate_cont (g : Option Nat) (i : Inputs) (req : PairingFeatures) (u : Bool) (n : Nat)
    (rsp : Option UserFeatures) (s : SlaveState) (h : Gate g s) : Gate g (cont i req u n rsp s) := by
  unfold cont
  split
  · exact h
  · rename_i hc
    have hs : s.state = STATE_W4_USER_FEATURES := by
      simp only [Bool.or_eq_true, bne_iff_ne, ne_eq, not_or, Decidable.not_not] at hc
      exact hc.1
    dsimp only
    split
    · exact gate_pairingFailed _ _ _ (gate_renegotiate g s _ h hs rfl rfl rfl rfl rfl rfl)
    · have h2 := gate_renegotiate g s { s with pairingResponseData := some (buildPairingFeaturesPacket SMP_PAIRING_RESPONSE (bitwiseAndKeys (fixFeaturesFromUser rsp) req)), pairingFeatures := some (combineAuthReq (bitwiseAndKeys (fixFeaturesFromUser rsp) req) req), associationModel := some (getAssociationModel req.ioCap (bitwiseAndKeys (fixFeaturesFromUser rsp) req).ioCap (combineAuthReq (bitwiseAndKeys (fixFeaturesFromUser rsp) req) req).sc (combineAuthReq (bitwiseAndKeys (fixFeaturesFromUser rsp) req) req).mitm), userPasskey := initialPasskey (getAssociationModel req.ioCap (bitwiseAndKeys (fixFeaturesFromUser rsp) req).ioCap (combineAuthReq (bitwiseAndKeys (fixFeaturesFromUser rsp) req) req).sc (combineAuthReq (bitwiseAndKeys (fixFeaturesFromUser rsp) req) req).mitm) ASSOCIATION_MODEL_PASSKEY_ENTRY_INIT_INPUTS i.random4, rspLtk := none, rspEdivRand := none, initLtk := none, initEdivRand := none, initIrk := none, initIdentityAddressInformation := none, passkeyBitCounter := some 0 } h hs rfl rfl rfl rfl rfl rfl
      have h3 := gate_sendPacket_plain g _ (buildPairingFeaturesPacket SMP_PAIRING_RESPONSE (bitwiseAndKeys (fixFeaturesFromUser rsp) req)) (some (if (combineAuthReq (bitwiseAndKeys (fixFeaturesFromUser rsp) req) req).sc then SMP_PAIRING_PUBLIC_KEY else SMP_PAIRING_CONFIRM)) h2 (Or.inl (by split <;> decide))
      split
      · exact gate_emit _ _ _ h3
      · exact h3

theorem gate_onPairingRequest (g : Option Nat) (i : Inputs) (req : PairingFeatures) (s : SlaveState)
    (h : Gate g s) : Gate g (onPairingRequest i req s) := by
  have h2 : Gate g { s with initIoCap := some req.ioCap, runCounter := s.runCounter + 1, state := STATE_W4_USER_FEATURES } :=
    gate_fresh g _ s.runCounter (inv_leave s _ h.1 rfl (Nat.le_succ _) rfl userFeatures_ne_timedout)
      (fun a ha m hm => (h.1.1 a ha m hm).1) rfl (by dsimp only; decide) (by dsimp only; decide)
  unfold onPairingRequest
  dsimp only
  split
  · exact gate_cont _ _ _ _ _ _ _ h2
  · exact gate_emit _ _ _ h2
  · exact gate_cont _ _ _ _ _ _ _ (gate_emit _ _ _ h2)

theorem gate_onDataPairingRequest (g : Option Nat) (i : Inputs) (data : List Nat) (s : SlaveState)
    (h : Gate g s) : Gate g (onDataPairingRequest i data s) := by
  unfold onDataPairingRequest
  split
  · exact h
  · split
    · exact gate_pairingFailed _ _ _ h
    · dsimp only
      split
      · exact gate_pairingFailed _ _ _ h
      · exact gate_onPairingRequest _ _ _ _ (gate_same g s _ h rfl rfl rfl rfl rfl rfl rfl rfl)

theorem gate_onDataPairingFailed (g : Option Nat) (data : List Nat) (s : SlaveState) (h : Gate g s) :
    Gate g (onDataPairingFailed data s) := by
  unfold onDataPairingFailed
  dsimp only
  split
  · exact h
  · exact gate_emit _ _ _ (gate_fresh g _ s.runCounter (inv_leave s _ h.1 rfl (Nat.le_succ _) rfl idle_ne_timedout)
      (fun a ha m hm => (h.1.1 a ha m hm).1) rfl (by dsimp only [timeoutClearFn]; decide)
      (by dsimp only [timeoutClearFn]; decide))

theorem gate_onTimeout (g : Option Nat) (i : Inputs) (s : SlaveState) (h : Gate g s) :
    Gate g (onTimeout i s) := by
  have h2 : Gate g { s with timeoutPending := false, runCounter := s.runCounter + 1, state := STATE_TIMEDOUT, sendDisabled := true } := by
    refine gate_fresh g _ s.runCounter ?_ (fun a ha m hm => (h.1.1 a ha m hm).1) rfl (by dsimp only; decide)
      (by dsimp only; decide)
    refine ⟨?_, fun _ => rfl⟩
    intro a ha n hn
    have := (h.1.1 a ha n hn).1
    exact ⟨Nat.le_succ_of_le this, fun _ => Nat.lt_succ_of_le this⟩
  unfold onTimeout
  dsimp only
  split
  · exact h
  · split
    · exact gate_emit _ _ _ h2
    · exact gate_act _ _ _ h2 rfl

/-- The transport calls a closure it has received: the closure is in the log, so that a
state it leads to was opened by the PDU that carried it. -/
theorem gate_onCallback (g : Option Nat) (cb : Callback) (s : SlaveState) (h : Gate g s)
    (hen : enabled (SlaveInput.acknowledge cb) s) : Gate g (onCallback cb s) := by
  have hmem : ∃ a ∈ s.log, cb ∈ callbacksOf a := by
    obtain ⟨data, other, hm | hm⟩ := hen
    · exact ⟨_, hm, by simp [callbacksOf]⟩
    · exact ⟨_, hm, by simp [callbacksOf]⟩
  obtain ⟨a, ha, hcb⟩ := hmem
  unfold onCallback
  split
  · exact gate_same g s _ h rfl rfl rfl rfl rfl rfl rfl rfl
  · rename_i n x
    split
    · exact h
    · rename_i hn
      have hn' : n = s.runCounter := by
        simp only [bne_iff_ne, ne_eq, Decidable.not_not] at hn
        exact hn.symm
      subst hn'
      obtain ⟨hinv, hQ, hR, hF, hW⟩ := h
      split
      · refine ⟨inv_leave s _ hinv rfl (le_refl _) rfl ltkRequest_ne_timedout, ?_, ?_, ?_, ?_⟩
        · intro ho
          rcases hQ ho with h1 | h1
          · exact Or.inl h1
          · exact Or.inr (fun hw => ⟨by dsimp only; decide, (h1 hw).2⟩)
        · exact hR
        · intro hs
          exact absurd hs (by dsimp only; decide)
        · intro _ hc
          rcases hR hc with h1 | h1
          · exact h1
          · exact absurd hcb (h1 a ha)
      · refine ⟨inv_leave s _ hinv rfl (le_refl _) rfl w4Packet_ne_timedout, ?_, ?_, ?_, ?_⟩
        · intro ho
          rcases hQ ho with h1 | h1
          · exact Or.inl h1
          · exact Or.inr (fun hw => absurd hcb ((h1 hw).2 a ha))
        · exact hR
        · intro hs
          exact absurd hs (by dsimp only; decide)
        · intro hs
          exact absurd hs (by dsimp only; decide)
  · split
    · exact h
    · exact gate_pairingDone _ _ h

theorem gate_sendAll (g : Option Nat) (ps : List (List Nat)) (s : SlaveState) (h : Gate g s) :
    Gate g (ps.foldl (fun s p => sendDataFn (restartTimeout s) p none none) s) := by
  induction ps generalizing s with
  | nil => exact h
  | cons p ps ih =>
    exact ih _ (gate_sendDataFn _ _ _ _ _ (gate_same g s _ h rfl rfl rfl rfl rfl rfl rfl rfl)
      (by intro cb hcb; simp [callbacksOf] at hcb))

theorem gate_onLtkReplyDoneAfterPairing (g : Option Nat) (k : Link) (i : Inputs) (s : SlaveState)
    (h : Gate g s) : Gate g (onLtkReplyDoneAfterPairing k i s) := by
  unfold onLtkReplyDoneAfterPairing
  split
  · split
    · exact gate_act _ _ _ h rfl
    · exact gate_act _ _ _ (gate_same g s _ h rfl rfl rfl rfl rfl rfl rfl rfl) rfl
  · split
    · lift_lets
      intro rb rl re r s1 packets s2 nxt s3 trc s4
      have h1 : Gate g s1 := by
        simp only [s1, r]
        split
        · exact gate_same g s _ h rfl rfl rfl rfl rfl rfl rfl rfl
        · exact h
      have h2 : Gate g s2 := gate_sendAll _ _ _ h1
      have h3 : Gate g s3 := gate_leave g s2 _ h2 rfl rfl rfl rfl rfl rfl rfl (by dsimp only [s3]; decide)
        (by dsimp only [s3]; decide) (by dsimp only [s3]; decide) (by dsimp only [s3]; decide)
      have h4 : Gate g s4 := gate_encryptedAfterPairing _ _ _ h2
      have ht : trc = s3.runCounter := rfl
      have hnx : some nxt ≠ some SMP_DHKEY_CHECK := by
        simp only [nxt]
        split <;> decide
      clear_value s4 trc s3 s2 nxt
      split
      · split
        · exact gate_encryptedAfterPairing _ _ _ (gate_sendPacket_plain _ _ _ _ h2 (Or.inl hnx))
        · exact gate_encryptedAfterPairing _ _ _ (gate_wait g s2 _ h2 rfl rfl rfl rfl rfl (fun x => x) (Or.inl hnx)
            (fun x => absurd x (by dsimp only; decide)) (fun x => absurd x (by dsimp only; decide))
            (fun x => absurd x (by dsimp only; decide)))
      · split
        · refine gate_encryptedAfterPairing _ _ _ (gate_sendDataFn _ _ _ _ _
            (gate_same g s3 _ h3 rfl rfl rfl rfl rfl rfl rfl rfl) ?_)
          intro cb hcb
          simp only [callbacksOf, Option.toList, List.nil_append, List.mem_singleton] at hcb
          subst hcb
          refine ⟨fun n x => by simp, ?_⟩
          intro n hn
          simp only [Callback.counter, Option.some.injEq] at hn
          subst hn
          rw [ht]
          exact le_refl _
        · split
          · exact gate_pairingDone _ _ h4
          · exact h4
    · exact gate_encryptedAfterPairing _ _ _ h

theorem gate_onLtkReplyDone (g : Option Nat) (k : Link) (i : Inputs) (d : LtkReplyDone) (s : SlaveState)
    (h : Gate g s) : Gate g (onLtkReplyDone k i d s) := by
  unfold onLtkReplyDone
  split
  · exact gate_onLtkReplyDoneAfterPairing _ _ _ _ h
  · dsimp only
    apply gate_emit
    split
    · exact gate_leave g s _ h rfl rfl rfl rfl rfl rfl rfl (by dsimp only; decide) (by dsimp only; decide)
        (by dsimp only; decide) (by dsimp only; decide)
    · exact gate_same g s _ h rfl rfl rfl rfl rfl rfl rfl rfl
  · dsimp only
    apply gate_emit
    split
    · exact gate_leave g s _ h rfl rfl rfl rfl rfl rfl rfl (by dsimp only; decide) (by dsimp only; decide)
        (by dsimp only; decide) (by dsimp only; decide)
    · exact h

theorem gate_onData (g : Option Nat) (c : Crypto) (k : Link) (i : Inputs) (data : List Nat) (s : SlaveState)
    (h : Gate g s) : Gate g (onData c k i data s) := by
  apply slave_onData_cases (Gate g)
  · exact h
  · exact gate_onDataPairingRequest _ _ _ _ h
  · exact gate_onDataPairingPublicKey _ _ _ _ _ _ h
  · exact gate_onDataPairingConfirm _ _ _ _ _ _ h
  · exact gate_onDataPairingRandom _ _ _ _ _ h
  · exact gate_onDataDHKeyCheck _ _ _ _ _ h
  · exact gate_onDataEncryptionInformation _ _ _ h
  · exact gate_onDataMasterIdentification _ _ _ h
  · exact gate_onDataIdentityInformation _ _ _ h
  · exact gate_onDataIdentityAddressInformation _ _ _ h
  · exact gate_onDataKeypressNotification _ _ _ h
  · exact gate_onDataPairingFailed _ _ _ h
  · exact gate_pairingFailed _ _ _ h

/-- Every step that can be taken keeps the gate, with the confirmation recorded. -/
theorem gate_step (g : Option Nat) (c : Crypto) (k : Link) (i : Inputs) (e : SlaveInput) (s : SlaveState)
    (h : Gate g s) (hen : enabled e s) : Gate (confirmedAfter e s g) (step c k i e s) := by
  cases e with
  | data d => exact gate_onData _ _ _ _ _ _ h
  | ltkRequest randNb ediv => exact gate_onLtkRequest _ _ _ _ _ h
  | ltkReplyDone d => exact gate_onLtkReplyDone _ _ _ _ _ h
  | setAvailableLtk ltk rand ediv mitm sc => exact gate_setAvailableLtk _ _ _ _ _ _ _ h
  | sendSecurityRequest bond mitm keypress => exact gate_sendSecurityRequest _ _ _ _ _ h
  | sendPairingFailed reason => exact gate_sendPairingFailed _ _ _ h
  | sendKeypressNotification t => exact gate_sendKeypressNotification _ _ _ h
  | pairingRequestCallback req n rsp => exact gate_cont _ _ _ _ _ _ _ h
  | passkeyCallback ignore n r => exact gate_passkeyCallback _ _ _ _ _ _ _ _ h
  | numericComparisonCallback n => exact gate_numericComparisonCallback _ _ _ _ _ h
  | acknowledge cb => exact gate_onCallback _ _ _ h hen
  | timeout => exact gate_onTimeout _ _ _ h

theorem gate_init (stored : Option AvailableLtk) : Gate none (init stored) := by
  refine ⟨inv_init stored, ?_, ?_, ?_, ?_⟩
  · intro h; exact absurd h (by simp [init])
  · rintro ⟨h, _⟩; exact absurd h (by simp [init])
  · intro h; exact absurd h (by simp [init, STATE_IDLE, STATE_W4_USER_FEATURES])
  · intro h; exact absurd h (by simp [init, STATE_IDLE, STATE_W4_LTK_REQUEST])

theorem gate_of_reachable (c : Crypto) (k : Link) (s : SlaveState) (g : Option Nat)
    (h : ReachableConfirmed c k s g) : Gate g s := by
  induction h with
  | init stored => exact gate_init stored
  | step i e s g _ hen ih => exact gate_step _ _ _ _ _ _ ih hen

end SmpSlaveConnection

/-! ## Numeric Comparison is only chosen with Secure Connections (claim C38) -/

/-- Numeric Comparison is only chosen in a Secure-Connections pairing, for capabilities in
the range the parsers leave. -/
theorem getAssociationModel_numeric_sc (init rsp : Nat) (sc mitm : Bool) (hi : init ≤ 4) (hr : rsp ≤ 4)
    (h : getAssociationModel init rsp sc mitm = ASSOCIATION_MODEL_NUMERIC_COMPARISON) : sc = true := by
  interval_cases init <;> interval_cases rsp <;> cases sc <;> cases mitm <;> first | rfl | (revert h; decide)

theorem parsePairingReqRsp_ioCap_le (data : List Nat) : (parsePairingReqRsp data).ioCap ≤ 4 := by
  unfold parsePairingReqRsp
  dsimp only
  split
  · assumption
  · decide

theorem fixFeaturesFromUser_ioCap_le (rsp : Option UserFeatures) : (fixFeaturesFromUser rsp).ioCap ≤ 4 := by
  unfold fixFeaturesFromUser intInRangeOr
  dsimp only
  split
  · split
    · omega
    · decide
  · decide

namespace SmpSlaveConnection

theorem neg_same (s s' : SlaveState) (h : Negotiated s) (ha : s'.associationModel = s.associationModel)
    (hp : s'.pairingFeatures = s.pairingFeatures) (hl : s'.log = s.log) : Negotiated s' := by
  unfold Negotiated
  rw [ha, hp, hl]
  exact h

theorem neg_act (s : SlaveState) (a : Action) (h : Negotiated s)
    (ha : ∀ req n, a = Action.emit (Event.pairingRequest req n) → req.ioCap ≤ 4) : Negotiated (act s a) := by
  refine ⟨h.1, ?_⟩
  intro req n hm
  simp only [act, List.mem_append, List.mem_singleton] at hm
  rcases hm with hm | hm
  · exact h.2 req n hm
  · exact ha req n hm.symm

theorem neg_emit (s : SlaveState) (e : Event) (h : Negotiated s)
    (he : ∀ req n, e = Event.pairingRequest req n → req.ioCap ≤ 4) : Negotiated (emit s e) :=
  neg_act s _ h (fun req n hh => he req n (by cases hh; rfl))

theorem neg_sendDataFn (s : SlaveState) (data : List Nat) (cb1 cb2 : Option Callback) (h : Negotiated s) :
    Negotiated (sendDataFn s data cb1 cb2) := by
  unfold sendDataFn
  split
  · exact h
  · exact neg_act s _ h (by intro req n hh; cases hh)

theorem neg_pairingFailed (s : SlaveState) (reason : Nat) (h : Negotiated s) :
    Negotiated (pairingFailed s reason) := by
  unfold pairingFailed
  lift_lets
  extract_lets s1 s2
  have h2 : Negotiated s2 := by
    simp only [s2]
    split
    · exact neg_sendDataFn _ _ _ _ (neg_same s _ h rfl rfl rfl)
    · exact neg_same s _ h rfl rfl rfl
  clear_value s2
  exact neg_emit _ _ (neg_same s2 _ h2 rfl rfl rfl) (by intro req n hh; cases hh)

theorem neg_sendPacket (s : SlaveState) (data : List Nat) (next : Option Nat) (cb : Option PacketCallback)
    (h : Negotiated s) : Negotiated (sendPacket s data next cb) := by
  unfold sendPacket
  split
  · exact h
  · refine neg_sendDataFn _ _ _ _ ?_
    split
    · exact neg_same s _ h rfl rfl rfl
    · exact neg_same s _ h rfl rfl rfl

theorem neg_pairingDone (s : SlaveState) (h : Negotiated s) : Negotiated (pairingDone s) := by
  unfold pairingDone
  lift_lets
  extract_lets s0 s1
  have h1 : Negotiated s1 := neg_same s _ h rfl rfl rfl
  clear_value s1
  split
  · exact neg_act _ _ h1 (by intro req n hh; cases hh)
  · lift_lets
    extract_lets sc res s2 s3 s4 s5
    have h2 : Negotiated s2 := by
      simp only [s2]
      split
      · split
        · exact neg_act _ _ h1 (by intro req n hh; cases hh)
        · exact h1
      · exact h1
    clear_value s2
    have h4 : Negotiated s4 := by
      simp only [s4]
      split
      · exact neg_act _ _ (neg_same (act s2 (Action.storeKeys res)) _
          (neg_act _ _ h2 (by intro req n hh; cases hh)) rfl rfl rfl) (by intro req n hh; cases hh)
      · exact h2
    clear_value s4
    have h5 : Negotiated s5 := by
      simp only [s5]
      split
      · exact neg_same s4 _ h4 rfl rfl rfl
      · exact h4
    clear_value s5
    exact neg_emit _ _ h5 (by intro req n hh; cases hh)

/-- The negotiation of the responder: Numeric Comparison comes out of capabilities in
range only with Secure Connections. -/
theorem neg_cont (i : Inputs) (req : PairingFeatures) (u : Bool) (n : Nat) (rsp : Option UserFeatures)
    (s : SlaveState) (h : Negotiated s) (hreq : req.ioCap ≤ 4) : Negotiated (cont i req u n rsp s) := by
  unfold cont
  split
  · exact h
  · dsimp only
    have h1 : Negotiated { s with pairingResponseData := some (buildPairingFeaturesPacket SMP_PAIRING_RESPONSE (bitwiseAndKeys (fixFeaturesFromUser rsp) req)), pairingFeatures := some (combineAuthReq (bitwiseAndKeys (fixFeaturesFromUser rsp) req) req), associationModel := some (getAssociationModel req.ioCap (bitwiseAndKeys (fixFeaturesFromUser rsp) req).ioCap (combineAuthReq (bitwiseAndKeys (fixFeaturesFromUser rsp) req) req).sc (combineAuthReq (bitwiseAndKeys (fixFeaturesFromUser rsp) req) req).mitm) } := by
      refine ⟨?_, h.2⟩
      intro hm
      refine ⟨hm, _, rfl, ?_⟩
      dsimp only at hm
      exact getAssociationModel_numeric_sc _ _ _ _ hreq (fixFeaturesFromUser_ioCap_le rsp) (Option.some.inj hm)
    split
    · exact neg_pairingFailed _ _ h1
    · have h3 := neg_sendPacket _ (buildPairingFeaturesPacket SMP_PAIRING_RESPONSE (bitwiseAndKeys (fixFeaturesFromUser rsp) req)) (some (if (combineAuthReq (bitwiseAndKeys (fixFeaturesFromUser rsp) req) req).sc then SMP_PAIRING_PUBLIC_KEY else SMP_PAIRING_CONFIRM)) none (neg_same _ { s with pairingResponseData := some (buildPairingFeaturesPacket SMP_PAIRING_RESPONSE (bitwiseAndKeys (fixFeaturesFromUser rsp) req)), pairingFeatures := some (combineAuthReq (bitwiseAndKeys (fixFeaturesFromUser rsp) req) req), associationModel := some (getAssociationModel req.ioCap (bitwiseAndKeys (fixFeaturesFromUser rsp) req).ioCap (combineAuthReq (bitwiseAndKeys (fixFeaturesFromUser rsp) req) req).sc (combineAuthReq (bitwiseAndKeys (fixFeaturesFromUser rsp) req) req).mitm), userPasskey := initialPasskey (getAssociationModel req.ioCap (bitwiseAndKeys (fixFeaturesFromUser rsp) req).ioCap (combineAuthReq (bitwiseAndKeys (fixFeaturesFromUser rsp) req) req).sc (combineAuthReq (bitwiseAndKeys (fixFeaturesFromUser rsp) req) req).mitm) ASSOCIATION_MODEL_PASSKEY_ENTRY_INIT_INPUTS i.random4, rspLtk := none, rspEdivRand := none, initLtk := none, initEdivRand := none, initIrk := none, initIdentityAddressInformation := none, passkeyBitCounter := some 0 } h1 rfl rfl rfl)
      split
      · exact neg_emit _ _ h3 (by intro req n hh; cases hh)
      · exact h3

theorem neg_onPairingRequest (i : Inputs) (req : PairingFeatures) (s : SlaveState) (h : Negotiated s)
    (hreq : req.ioCap ≤ 4) : Negotiated (onPairingRequest i req s) := by
  have h2 : Negotiated { s with initIoCap := some req.ioCap, runCounter := s.runCounter + 1, state := STATE_W4_USER_FEATURES } :=
    neg_same s _ h rfl rfl rfl
  have he : ∀ n, Negotiated (emit { s with initIoCap := some req.ioCap, runCounter := s.runCounter + 1, state := STATE_W4_USER_FEATURES } (Event.pairingRequest req n)) := by
    intro n
    refine neg_emit _ _ h2 ?_
    intro req' n' hh
    cases hh
    exact hreq
  unfold onPairingRequest
  dsimp only
  split
  · exact neg_cont _ _ _ _ _ _ h2 hreq
  · exact he _
  · exact neg_cont _ _ _ _ _ _ (he _) hreq

theorem neg_onDataPairingRequest (i : Inputs) (data : List Nat) (s : SlaveState) (h : Negotiated s) :
    Negotiated (onDataPairingRequest i data s) := by
  unfold onDataPairingRequest
  split
  · exact h
  · split
    · exact neg_pairingFailed _ _ h
    · dsimp only
      split
      · exact neg_pairingFailed _ _ h
      · exact neg_onPairingRequest _ _ _ (neg_same s _ h rfl rfl rfl) (parsePairingReqRsp_ioCap_le data)

end SmpSlaveConnection
namespace SmpSlaveConnection

theorem neg_afterInitsConfirmAndPasskey (c : Crypto) (k : Link) (i : Inputs) (s : SlaveState)
    (h : Negotiated s) : Negotiated (afterInitsConfirmAndPasskey c k i s) := by
  unfold afterInitsConfirmAndPasskey
  try dsimp only
  repeat' first
    | (with_reducible refine neg_pairingFailed _ _ ?_)
    | (with_reducible refine neg_pairingDone _ ?_)
    | (with_reducible refine neg_sendPacket _ _ _ _ ?_)
    | (with_reducible refine neg_sendDataFn _ _ _ _ ?_)
    | (with_reducible refine neg_emit _ _ ?_ ?_)
    | (with_reducible refine neg_act _ _ ?_ ?_)
    | split
    | exact h
    | exact neg_same s _ h rfl rfl rfl
    | (intro req n hh; cases hh)

theorem neg_afterNumericComparisonOkAndDHKeyCheck (c : Crypto) (k : Link) (s : SlaveState)
    (h : Negotiated s) : Negotiated (afterNumericComparisonOkAndDHKeyCheck c k s) := by
  unfold afterNumericComparisonOkAndDHKeyCheck
  try dsimp only
  repeat' first
    | (with_reducible refine neg_pairingFailed _ _ ?_)
    | (with_reducible refine neg_pairingDone _ ?_)
    | (with_reducible refine neg_sendPacket _ _ _ _ ?_)
    | (with_reducible refine neg_sendDataFn _ _ _ _ ?_)
    | (with_reducible refine neg_emit _ _ ?_ ?_)
    | (with_reducible refine neg_act _ _ ?_ ?_)
    | split
    | exact h
    | exact neg_same s _ h rfl rfl rfl
    | (intro req n hh; cases hh)

theorem neg_onDataPairingConfirm (c : Crypto) (k : Link) (i : Inputs) (data : List Nat) (s : SlaveState)
    (h : Negotiated s) : Negotiated (onDataPairingConfirm c k i data s) := by
  unfold onDataPairingConfirm
  try dsimp only
  repeat' first
    | (with_reducible refine neg_afterInitsConfirmAndPasskey _ _ _ _ ?_)
    | (with_reducible refine neg_pairingFailed _ _ ?_)
    | (with_reducible refine neg_pairingDone _ ?_)
    | (with_reducible refine neg_sendPacket _ _ _ _ ?_)
    | (with_reducible refine neg_sendDataFn _ _ _ _ ?_)
    | (with_reducible refine neg_emit _ _ ?_ ?_)
    | (with_reducible refine neg_act _ _ ?_ ?_)
    | split
    | exact h

theorem neg_onDataPairingPublicKey (c : Crypto) (k : Link) (i : Inputs) (data : List Nat) (s : SlaveState)
    (h : Negotiated s) : Negotiated (onDataPairingPublicKey c k i data s) := by
  unfold onDataPairingPublicKey
  try dsimp only
  repeat' first
    | (with_reducible refine neg_onDataPairingConfirm _ _ _ _ _ ?_)
    | (with_reducible refine neg_pairingFailed _ _ ?_)
    | (with_reducible refine neg_pairingDone _ ?_)
    | (with_reducible refine neg_sendPacket _ _ _ _ ?_)
    | (with_reducible refine neg_sendDataFn _ _ _ _ ?_)
    | (with_reducible refine neg_emit _ _ ?_ ?_)
    | (with_reducible refine neg_act _ _ ?_ ?_)
    | split
    | exact h
    | exact neg_same s _ h rfl rfl rfl
    | (intro req n hh; cases hh)
    | exact neg_sendDataFn _ _ _ _ h

theorem neg_onDataPairingRandom (c : Crypto) (k : Link) (data : List Nat) (s : SlaveState)
    (h : Negotiated s) : Negotiated (onDataPairingRandom c k data s) := by
  unfold onDataPairingRandom
  try dsimp only
  repeat' first
    | (with_reducible refine neg_pairingFailed _ _ ?_)
    | (with_reducible refine neg_pairingDone _ ?_)
    | (with_reducible refine neg_sendPacket _ _ _ _ ?_)
    | (with_reducible refine neg_sendDataFn _ _ _ _ ?_)
    | (with_reducible refine neg_emit _ _ ?_ ?_)
    | (with_reducible refine neg_act _ _ ?_ ?_)
    | split
    | exact h
    | exact neg_same s _ h rfl rfl rfl
    | (intro req n hh; cases hh)

theorem neg_onDataDHKeyCheck (c : Crypto) (k : Link) (data : List Nat) (s : SlaveState)
    (h : Negotiated s) : Negotiated (onDataDHKeyCheck c k data s) := by
  unfold onDataDHKeyCheck
  try dsimp only
  repeat' first
    | (with_reducible refine neg_afterNumericComparisonOkAndDHKeyCheck _ _ _ ?_)
    | (with_reducible refine neg_pairingFailed _ _ ?_)
    | (with_reducible refine neg_pairingDone _ ?_)
    | (with_reducible refine neg_sendPacket _ _ _ _ ?_)
    | (with_reducible refine neg_sendDataFn _ _ _ _ ?_)
    | (with_reducible refine neg_emit _ _ ?_ ?_)
    | (with_reducible refine neg_act _ _ ?_ ?_)
    | split
    | exact h

theorem neg_onDataEncryptionInformation (data : List Nat) (s : SlaveState)
    (h : Negotiated s) : Negotiated (onDataEncryptionInformation data s) := by
  unfold onDataEncryptionInformation
  try dsimp only
  repeat' first
    | (with_reducible refine neg_pairingFailed _ _ ?_)
    | (with_reducible refine neg_pairingDone _ ?_)
    | (with_reducible refine neg_sendPacket _ _ _ _ ?_)
    | (with_reducible refine neg_sendDataFn _ _ _ _ ?_)
    | (with_reducible refine neg_emit _ _ ?_ ?_)
    | (with_reducible refine neg_act _ _ ?_ ?_)
    | split
    | exact h

theorem neg_onDataMasterIdentification (data : List Nat) (s : SlaveState)
    (h : Negotiated s) : Negotiated (onDataMasterIdentification data s) := by
  unfold onDataMasterIdentification
  try dsimp only
  repeat' first
    | (with_reducible refine neg_pairingFailed _ _ ?_)
    | (with_reducible refine neg_pairingDone _ ?_)
    | (with_reducible refine neg_sendPacket _ _ _ _ ?_)
    | (with_reducible refine neg_sendDataFn _ _ _ _ ?_)
    | (with_reducible refine neg_emit _ _ ?_ ?_)
    | (with_reducible refine neg_act _ _ ?_ ?_)
    | split
    | exact h
    | exact neg_same s _ h rfl rfl rfl
    | (intro req n hh; cases hh)

theorem neg_onDataIdentityInformation (data : List Nat) (s : SlaveState)
    (h : Negotiated s) : Negotiated (onDataIdentityInformation data s) := by
  unfold onDataIdentityInformation
  try dsimp only
  repeat' first
    | (with_reducible refine neg_pairingFailed _ _ ?_)
    | (with_reducible refine neg_pairingDone _ ?_)
    | (with_reducible refine neg_sendPacket _ _ _ _ ?_)
    | (with_reducible refine neg_sendDataFn _ _ _ _ ?_)
    | (with_reducible refine neg_emit _ _ ?_ ?_)
    | (with_reducible refine neg_act _ _ ?_ ?_)
    | split
    | exact h

theorem neg_onDataIdentityAddressInformation (data : List Nat) (s : SlaveState)
    (h : Negotiated s) : Negotiated (onDataIdentityAddressInformation data s) := by
  unfold onDataIdentityAddressInformation
  try dsimp only
  repeat' first
    | (with_reducible refine neg_pairingFailed _ _ ?_)
    | (with_reducible refine neg_pairingDone _ ?_)
    | (with_reducible refine neg_sendPacket _ _ _ _ ?_)
    | (with_reducible refine neg_sendDataFn _ _ _ _ ?_)
    | (with_reducible refine neg_emit _ _ ?_ ?_)
    | (with_reducible refine neg_act _ _ ?_ ?_)
    | split
    | exact h

theorem neg_onDataKeypressNotification (data : List Nat) (s : SlaveState)
    (h : Negotiated s) : Negotiated (onDataKeypressNotification data s) := by
  unfold onDataKeypressNotification
  try dsimp only
  repeat' first
    | (with_reducible refine neg_pairingFailed _ _ ?_)
    | (with_reducible refine neg_pairingDone _ ?_)
    | (with_reducible refine neg_sendPacket _ _ _ _ ?_)
    | (with_reducible refine neg_sendDataFn _ _ _ _ ?_)
    | (with_reducible refine neg_emit _ _ ?_ ?_)
    | (with_reducible refine neg_act _ _ ?_ ?_)
    | split
    | exact h
    | exact neg_same s _ h rfl rfl rfl
    | (intro req n hh; cases hh)

theorem neg_onDataPairingFailed (data : List Nat) (s : SlaveState)
    (h : Negotiated s) : Negotiated (onDataPairingFailed data s) := by
  unfold onDataPairingFailed
  try dsimp only
  repeat' first
    | (with_reducible refine neg_pairingFailed _ _ ?_)
    | (with_reducible refine neg_pairingDone _ ?_)
    | (with_reducible refine neg_sendPacket _ _ _ _ ?_)
    | (with_reducible refine neg_sendDataFn _ _ _ _ ?_)
    | (with_reducible refine neg_emit _ _ ?_ ?_)
    | (with_reducible refine neg_act _ _ ?_ ?_)
    | split
    | exact h
    | exact neg_same s _ h rfl rfl rfl
    | (intro req n hh; cases hh)

theorem neg_onCallback (cb : Callback) (s : SlaveState)
    (h : Negotiated s) : Negotiated (onCallback cb s) := by
  unfold onCallback
  try dsimp only
  repeat' first
    | (with_reducible refine neg_pairingFailed _ _ ?_)
    | (with_reducible refine neg_pairingDone _ ?_)
    | (with_reducible refine neg_sendPacket _ _ _ _ ?_)
    | (with_reducible refine neg_sendDataFn _ _ _ _ ?_)
    | (with_reducible refine neg_emit _ _ ?_ ?_)
    | (with_reducible refine neg_act _ _ ?_ ?_)
    | split
    | exact h

theorem neg_passkeyCallback (c : Crypto) (k : Link) (i : Inputs) (ignore : Bool) (n : Nat) (r : Option Int) (s : SlaveState)
    (h : Negotiated s) : Negotiated (passkeyCallback c k i ignore n r s) := by
  unfold passkeyCallback
  try dsimp only
  repeat' first
    | (with_reducible refine neg_afterInitsConfirmAndPasskey _ _ _ _ ?_)
    | (with_reducible refine neg_pairingFailed _ _ ?_)
    | (with_reducible refine neg_pairingDone _ ?_)
    | (with_reducible refine neg_sendPacket _ _ _ _ ?_)
    | (with_reducible refine neg_sendDataFn _ _ _ _ ?_)
    | (with_reducible refine neg_emit _ _ ?_ ?_)
    | (with_reducible refine neg_act _ _ ?_ ?_)
    | split
    | exact h
    | exact neg_same s _ h rfl rfl rfl
    | (intro req n hh; cases hh)

theorem neg_numericComparisonCallback (c : Crypto) (k : Link) (n : Nat) (s : SlaveState)
    (h : Negotiated s) : Negotiated (numericComparisonCallback c k n s) := by
  unfold numericComparisonCallback
  try dsimp only
  repeat' first
    | (with_reducible refine neg_afterNumericComparisonOkAndDHKeyCheck _ _ _ ?_)
    | (with_reducible refine neg_pairingFailed _ _ ?_)
    | (with_reducible refine neg_pairingDone _ ?_)
    | (with_reducible refine neg_sendPacket _ _ _ _ ?_)
    | (with_reducible refine neg_sendDataFn _ _ _ _ ?_)
    | (with_reducible refine neg_emit _ _ ?_ ?_)
    | (with_reducible refine neg_act _ _ ?_ ?_)
    | split
    | exact h

theorem neg_onLtkRequest (c : Crypto) (randNb : List Nat) (ediv : Nat) (s : SlaveState)
    (h : Negotiated s) : Negotiated (onLtkRequest c randNb ediv s) := by
  unfold onLtkRequest
  try dsimp only
  repeat' first
    | (with_reducible refine neg_pairingFailed _ _ ?_)
    | (with_reducible refine neg_pairingDone _ ?_)
    | (with_reducible refine neg_sendPacket _ _ _ _ ?_)
    | (with_reducible refine neg_sendDataFn _ _ _ _ ?_)
    | (with_reducible refine neg_emit _ _ ?_ ?_)
    | (with_reducible refine neg_act _ _ ?_ ?_)
    | split
    | exact h
    | exact neg_same s _ h rfl rfl rfl
    | (intro req n hh; cases hh)

theorem neg_encryptedAfterPairing (pf : PairingFeatures) (s : SlaveState)
    (h : Negotiated s) : Negotiated (encryptedAfterPairing pf s) := by
  unfold encryptedAfterPairing
  try dsimp only
  repeat' first
    | (with_reducible refine neg_pairingFailed _ _ ?_)
    | (with_reducible refine neg_pairingDone _ ?_)
    | (with_reducible refine neg_sendPacket _ _ _ _ ?_)
    | (with_reducible refine neg_sendDataFn _ _ _ _ ?_)
    | (with_reducible refine neg_emit _ _ ?_ ?_)
    | (with_reducible refine neg_act _ _ ?_ ?_)
    | split
    | exact h
    | exact neg_same s _ h rfl rfl rfl
    | (intro req n hh; cases hh)

theorem neg_setAvailableLtk (ltk rand : List Nat) (ediv : Nat) (mitm sc : Bool) (s : SlaveState)
    (h : Negotiated s) : Negotiated (setAvailableLtk ltk rand ediv mitm sc s) := by
  unfold setAvailableLtk
  try dsimp only
  repeat' first
    | (with_reducible refine neg_pairingFailed _ _ ?_)
    | (with_reducible refine neg_pairingDone _ ?_)
    | (with_reducible refine neg_sendPacket _ _ _ _ ?_)
    | (with_reducible refine neg_sendDataFn _ _ _ _ ?_)
    | (with_reducible refine neg_emit _ _ ?_ ?_)
    | (with_reducible refine neg_act _ _ ?_ ?_)
    | split
    | exact h
    | exact neg_same s _ h rfl rfl rfl
    | (intro req n hh; cases hh)

theorem neg_sendSecurityRequest (bond mitm keypress : Bool) (s : SlaveState)
    (h : Negotiated s) : Negotiated (sendSecurityRequest bond mitm keypress s) := by
  unfold sendSecurityRequest
  try dsimp only
  repeat' first
    | (with_reducible refine neg_pairingFailed _ _ ?_)
    | (with_reducible refine neg_pairingDone _ ?_)
    | (with_reducible refine neg_sendPacket _ _ _ _ ?_)
    | (with_reducible refine neg_sendDataFn _ _ _ _ ?_)
    | (with_reducible refine neg_emit _ _ ?_ ?_)
    | (with_reducible refine neg_act _ _ ?_ ?_)
    | split
    | exact h

theorem neg_sendPairingFailed (reason : Nat) (s : SlaveState)
    (h : Negotiated s) : Negotiated (sendPairingFailed reason s) := by
  unfold sendPairingFailed
  try dsimp only
  repeat' first
    | (with_reducible refine neg_pairingFailed _ _ ?_)
    | (with_reducible refine neg_pairingDone _ ?_)
    | (with_reducible refine neg_sendPacket _ _ _ _ ?_)
    | (with_reducible refine neg_sendDataFn _ _ _ _ ?_)
    | (with_reducible refine neg_emit _ _ ?_ ?_)
    | (with_reducible refine neg_act _ _ ?_ ?_)
    | split
    | exact h

theorem neg_sendKeypressNotification (t : Option Int) (s : SlaveState)
    (h : Negotiated s) : Negotiated (sendKeypressNotification t s) := by
  unfold sendKeypressNotification
  try dsimp only
  repeat' first
    | (with_reducible refine neg_pairingFailed _ _ ?_)
    | (with_reducible refine neg_pairingDone _ ?_)
    | (with_reducible refine neg_sendPacket _ _ _ _ ?_)
    | (with_reducible refine neg_sendDataFn _ _ _ _ ?_)
    | (with_reducible refine neg_emit _ _ ?_ ?_)
    | (with_reducible refine neg_act _ _ ?_ ?_)
    | split
    | exact h
    | exact neg_same s _ h rfl rfl rfl
    | (intro req n hh; cases hh)

theorem neg_onTimeout (i : Inputs) (s : SlaveState)
    (h : Negotiated s) : Negotiated (onTimeout i s) := by
  unfold onTimeout
  try dsimp only
  repeat' first
    | (with_reducible refine neg_pairingFailed _ _ ?_)
    | (with_reducible refine neg_pairingDone _ ?_)
    | (with_reducible refine neg_sendPacket _ _ _ _ ?_)
    | (with_reducible refine neg_sendDataFn _ _ _ _ ?_)
    | (with_reducible refine neg_emit _ _ ?_ ?_)
    | (with_reducible refine neg_act _ _ ?_ ?_)
    | split
    | exact h
    | exact neg_same s _ h rfl rfl rfl
    | (intro req n hh; cases hh)

end SmpSlaveConnection
namespace SmpSlaveConnection

theorem neg_sendAll (ps : List (List Nat)) (s : SlaveState) (h : Negotiated s) :
    Negotiated (ps.foldl (fun s p => sendDataFn (restartTimeout s) p none none) s) := by
  induction ps generalizing s with
  | nil => exact h
  | cons p ps ih => exact ih _ (neg_sendDataFn _ _ _ _ (neg_same s _ h rfl rfl rfl))

theorem neg_onLtkReplyDoneAfterPairing (k : Link) (i : Inputs) (s : SlaveState) (h : Negotiated s) :
    Negotiated (onLtkReplyDoneAfterPairing k i s) := by
  unfold onLtkReplyDoneAfterPairing
  split
  · split
    · exact neg_act _ _ h (by intro req n hh; cases hh)
    · exact neg_act _ _ (neg_same s _ h rfl rfl rfl) (by intro req n hh; cases hh)
  · split
    · lift_lets
      intro rb rl re r s1 packets s2 nxt s3 trc s4
      have h1 : Negotiated s1 := by
        simp only [s1, r]
        split
        · exact neg_same s _ h rfl rfl rfl
        · exact h
      have h2 : Negotiated s2 := neg_sendAll _ _ h1
      have h3 : Negotiated s3 := neg_same s2 _ h2 rfl rfl rfl
      have h4 : Negotiated s4 := neg_encryptedAfterPairing _ _ h2
      clear_value s4 trc s3 s2 nxt
      split
      · split
        · exact neg_encryptedAfterPairing _ _ (neg_sendPacket _ _ _ _ h2)
        · exact neg_encryptedAfterPairing _ _ (neg_same s2 _ h2 rfl rfl rfl)
      · split
        · exact neg_encryptedAfterPairing _ _ (neg_sendDataFn _ _ _ _ (neg_same s3 _ h3 rfl rfl rfl))
        · split
          · exact neg_pairingDone _ h4
          · exact h4
    · exact neg_encryptedAfterPairing _ _ h

theorem neg_onLtkReplyDone (k : Link) (i : Inputs) (d : LtkReplyDone) (s : SlaveState) (h : Negotiated s) :
    Negotiated (onLtkReplyDone k i d s) := by
  unfold onLtkReplyDone
  split
  · exact neg_onLtkReplyDoneAfterPairing _ _ _ h
  · dsimp only
    refine neg_emit _ _ ?_ (by intro req n hh; cases hh)
    split
    · exact neg_same s _ h rfl rfl rfl
    · exact neg_same s _ h rfl rfl rfl
  · dsimp only
    refine neg_emit _ _ ?_ (by intro req n hh; cases hh)
    split
    · exact neg_same s _ h rfl rfl rfl
    · exact h

theorem neg_onData (c : Crypto) (k : Link) (i : Inputs) (data : List Nat) (s : SlaveState)
    (h : Negotiated s) : Negotiated (onData c k i data s) := by
  apply slave_onData_cases Negotiated
  · exact h
  · exact neg_onDataPairingRequest _ _ _ h
  · exact neg_onDataPairingPublicKey _ _ _ _ _ h
  · exact neg_onDataPairingConfirm _ _ _ _ _ h
  · exact neg_onDataPairingRandom _ _ _ _ h
  · exact neg_onDataDHKeyCheck _ _ _ _ h
  · exact neg_onDataEncryptionInformation _ _ h
  · exact neg_onDataMasterIdentification _ _ h
  · exact neg_onDataIdentityInformation _ _ h
  · exact neg_onDataIdentityAddressInformation _ _ h
  · exact neg_onDataKeypressNotification _ _ h
  · exact neg_onDataPairingFailed _ _ h
  · exact neg_pairingFailed _ _ h

theorem neg_step (c : Crypto) (k : Link) (i : Inputs) (e : SlaveInput) (s : SlaveState)
    (h : Negotiated s) (hen : enabled e s) : Negotiated (step c k i e s) := by
  cases e with
  | data d => exact neg_onData _ _ _ _ _ h
  | ltkRequest randNb ediv => exact neg_onLtkRequest _ _ _ _ h
  | ltkReplyDone d => exact neg_onLtkReplyDone _ _ _ _ h
  | setAvailableLtk ltk rand ediv mitm sc => exact neg_setAvailableLtk _ _ _ _ _ _ h
  | sendSecurityRequest bond mitm keypress => exact neg_sendSecurityRequest _ _ _ _ h
  | sendPairingFailed reason => exact neg_sendPairingFailed _ _ h
  | sendKeypressNotification t => exact neg_sendKeypressNotification _ _ h
  | pairingRequestCallback req n rsp => exact neg_cont _ _ _ _ _ _ h (h.2 req n hen)
  | passkeyCallback ignore n r => exact neg_passkeyCallback _ _ _ _ _ _ _ h
  | numericComparisonCallback n => exact neg_numericComparisonCallback _ _ _ _ h
  | acknowledge cb => exact neg_onCallback _ _ h
  | timeout => exact neg_onTimeout _ _ h

theorem neg_init (stored : Option AvailableLtk) : Negotiated (init stored) := by
  refine ⟨?_, ?_⟩
  · intro h; exact absurd h (by simp [init])
  · intro req n h; simp [init] at h

theorem neg_of_reachable (c : Crypto) (k : Link) (s : SlaveState) (g : Option Nat)
    (h : ReachableConfirmed c k s g) : Negotiated s := by
  induction h with
  | init stored => exact neg_init stored
  | step i e s g _ hen ih => exact neg_step _ _ _ _ _ ih hen

end SmpSlaveConnection

/-! ## Numeric comparison gates the DHKey Check: the initiator (claim C38) -/

theorem afterPairingStarts_append (a b : List Action) :
    afterPairingStarts (a ++ b) = afterPairingStarts a ++ afterPairingStarts b := by
  simp [afterPairingStarts]

theorem gatedActions_other (log : List Action) (a : Action)
    (h1 : ∀ d x y, a = Action.sendData d x y → d.head? ≠ some SMP_DHKEY_CHECK)
    (h2 : ∀ r e k, a ≠ Action.startEncryption r e k EncryptionStart.afterPairing) :
    gatedActions (log ++ [a]) = gatedActions log := by
  unfold gatedActions
  rw [dhKeyChecks_other log a h1, afterPairingStarts_append]
  cases a with
  | startEncryption r e k o =>
    cases o with
    | afterPairing => exact absurd rfl (h2 r e k)
    | withAvailableLtk a1 a2 a3 a4 a5 => simp [afterPairingStarts]
  | _ => simp [afterPairingStarts]

namespace SmpMasterConnection

theorem mdh_act (b : List (List Nat) × List Action) (s : MasterState) (a : Action)
    (h : gatedActions s.log = b)
    (h1 : ∀ d x y, a = Action.sendData d x y → d.head? ≠ some SMP_DHKEY_CHECK)
    (h2 : ∀ r e k, a ≠ Action.startEncryption r e k EncryptionStart.afterPairing) :
    gatedActions (act s a).log = b := by
  rw [← h]
  exact gatedActions_other _ _ h1 h2

theorem mdh_emit (b : List (List Nat) × List Action) (s : MasterState) (e : Event)
    (h : gatedActions s.log = b) : gatedActions (emit s e).log = b :=
  mdh_act b s _ h (by intro d x y hh; cases hh) (by intro r e k hh; cases hh)

theorem mdh_throw (b : List (List Nat) × List Action) (s : MasterState)
    (h : gatedActions s.log = b) : gatedActions (act s Action.throwError).log = b :=
  mdh_act b s _ h (by intro d x y hh; cases hh) (by intro r e k hh; cases hh)

theorem mdh_disconnect (b : List (List Nat) × List Action) (s : MasterState)
    (h : gatedActions s.log = b) : gatedActions (act s Action.disconnect).log = b :=
  mdh_act b s _ h (by intro d x y hh; cases hh) (by intro r e k hh; cases hh)

theorem mdh_sendDataFn (b : List (List Nat) × List Action) (s : MasterState) (data : List Nat)
    (cb1 cb2 : Option Callback) (h : gatedActions s.log = b) (hd : data.head? ≠ some SMP_DHKEY_CHECK) :
    gatedActions (sendDataFn s data cb1 cb2).log = b := by
  unfold sendDataFn
  split
  · exact h
  · exact mdh_act b s _ h (by intro d x y hh; cases hh; exact hd) (by intro r e k hh; cases hh)

theorem mdh_pairingFailed (b : List (List Nat) × List Action) (s : MasterState) (reason : Nat) (remote : Bool)
    (h : gatedActions s.log = b) : gatedActions (pairingFailed s reason remote).log = b := by
  unfold pairingFailed
  lift_lets
  extract_lets s1 s2 s3
  have h2 : gatedActions s2.log = b := by
    simp only [s2]
    split
    · exact mdh_sendDataFn b _ _ _ _ h (by simp [bufferFrom, SMP_PAIRING_FAILED, SMP_DHKEY_CHECK])
    · exact h
  have h3 : gatedActions s3.log = b := h2
  clear_value s3 s2
  split
  · exact mdh_emit b _ _ h3
  · exact h3

theorem mdh_sendPacket (b : List (List Nat) × List Action) (s : MasterState) (data : List Nat)
    (next : Option Nat) (h : gatedActions s.log = b) (hd : data.head? ≠ some SMP_DHKEY_CHECK) :
    gatedActions (sendPacket s data next).log = b := by
  unfold sendPacket
  split
  · exact h
  · exact mdh_sendDataFn _ _ _ _ _ h hd

theorem mdh_pairingDone (b : List (List Nat) × List Action) (s : MasterState)
    (h : gatedActions s.log = b) : gatedActions (pairingDone s).log = b := by
  have step : ∀ (t : MasterState) (x : Action), (∀ d u v, x ≠ Action.sendData d u v) →
      (∀ r e k o, x ≠ Action.startEncryption r e k o) → gatedActions t.log = b →
      gatedActions (act t x).log = b := by
    intro t x hx1 hx2 ht
    exact mdh_act b t x ht (fun d u v hh => absurd hh (hx1 d u v)) (fun r e k => hx2 r e k _)
  unfold pairingDone
  lift_lets
  extract_lets s0 s1
  have h1 : gatedActions s1.log = b := h
  clear_value s1
  split
  · exact step _ _ (by simp) (by simp) h1
  · lift_lets
    extract_lets sc res s2 s3 s4 s5
    have h2 : gatedActions s2.log = b := by
      simp only [s2]
      split
      · split
        · exact step _ _ (by simp) (by simp) h1
        · exact h1
      · exact h1
    clear_value s2
    have h4 : gatedActions s4.log = b := by
      simp only [s4]
      split
      · exact step _ _ (by simp) (by simp) (step _ _ (by simp) (by simp) h2)
      · exact h2
    clear_value s4
    have h5 : gatedActions s5.log = b := by
      simp only [s5]
      split
      · exact h4
      · exact h4
    clear_value s5
    exact mdh_emit _ _ _ h5

end SmpMasterConnection
namespace SmpMasterConnection

theorem mdh_startPairingRequest (b : List (List Nat) × List Action) (req : Option UserFeatures) (s : MasterState)
    (h : gatedActions s.log = b) : gatedActions (startPairingRequest req s).log = b := by
  unfold startPairingRequest
  try dsimp only
  repeat' first
    | (with_reducible refine mdh_pairingFailed _ _ _ _ ?_)
    | (with_reducible refine mdh_pairingDone _ _ ?_)
    | (with_reducible refine mdh_sendPacket _ _ _ _ ?_ ?_)
    | (with_reducible refine mdh_sendDataFn _ _ _ _ _ ?_ ?_)
    | (with_reducible refine mdh_emit _ _ _ ?_)
    | (with_reducible refine mdh_throw _ _ ?_)
    | (with_reducible refine mdh_disconnect _ _ ?_)
    | (with_reducible refine mdh_act _ _ _ ?_ ?_ ?_)
    | split
    | rfl
    | exact h
    | (intro d x y hh; cases hh)
    | (intro r e k hh; cases hh)
    | (simp [buildPairingFeaturesPacket, bufferFrom, copyInto, bufferAlloc, SMP_PAIRING_REQUEST, SMP_PAIRING_RESPONSE, SMP_DHKEY_CHECK, SMP_PAIRING_CONFIRM, SMP_PAIRING_RANDOM, SMP_PAIRING_PUBLIC_KEY, SMP_SECURITY_REQUEST, SMP_KEYPRESS_NOTIFICATION, SMP_PAIRING_FAILED, SMP_ENCRYPTION_INFORMATION, SMP_MASTER_IDENTIFICATION, SMP_IDENTITY_INFORMATION, SMP_IDENTITY_ADDRESS_INFORMATION])

theorem mdh_cont (b : List (List Nat) × List Action) (n : Nat) (req : Option UserFeatures) (s : MasterState)
    (h : gatedActions s.log = b) : gatedActions (cont n req s).log = b := by
  unfold cont
  try dsimp only
  repeat' first
    | (with_reducible refine mdh_startPairingRequest _ _ _ ?_)
    | (with_reducible refine mdh_pairingFailed _ _ _ _ ?_)
    | (with_reducible refine mdh_pairingDone _ _ ?_)
    | (with_reducible refine mdh_sendPacket _ _ _ _ ?_ ?_)
    | (with_reducible refine mdh_sendDataFn _ _ _ _ _ ?_ ?_)
    | (with_reducible refine mdh_emit _ _ _ ?_)
    | (with_reducible refine mdh_throw _ _ ?_)
    | (with_reducible refine mdh_disconnect _ _ ?_)
    | (with_reducible refine mdh_act _ _ _ ?_ ?_ ?_)
    | split
    | rfl
    | exact h

theorem mdh_askStartPairing (b : List (List Nat) × List Action) (i : Inputs) (bondingFlags : Nat) (mitm sc keypress : Bool) (s : MasterState)
    (h : gatedActions s.log = b) : gatedActions (askStartPairing i bondingFlags mitm sc keypress s).log = b := by
  unfold askStartPairing
  try dsimp only
  repeat' first
    | (with_reducible refine mdh_cont _ _ _ _ ?_)
    | (with_reducible refine mdh_pairingFailed _ _ _ _ ?_)
    | (with_reducible refine mdh_pairingDone _ _ ?_)
    | (with_reducible refine mdh_sendPacket _ _ _ _ ?_ ?_)
    | (with_reducible refine mdh_sendDataFn _ _ _ _ _ ?_ ?_)
    | (with_reducible refine mdh_emit _ _ _ ?_)
    | (with_reducible refine mdh_throw _ _ ?_)
    | (with_reducible refine mdh_disconnect _ _ ?_)
    | (with_reducible refine mdh_act _ _ _ ?_ ?_ ?_)
    | split
    | rfl
    | exact h

theorem mdh_sendConfirm (b : List (List Nat) × List Action) (c : Crypto) (k : Link) (i : Inputs) (s : MasterState)
    (h : gatedActions s.log = b) : gatedActions (sendConfirm c k i s).log = b := by
  unfold sendConfirm
  try dsimp only
  repeat' first
    | (with_reducible refine mdh_pairingFailed _ _ _ _ ?_)
    | (with_reducible refine mdh_pairingDone _ _ ?_)
    | (with_reducible refine mdh_sendPacket _ _ _ _ ?_ ?_)
    | (with_reducible refine mdh_sendDataFn _ _ _ _ _ ?_ ?_)
    | (with_reducible refine mdh_emit _ _ _ ?_)
    | (with_reducible refine mdh_throw _ _ ?_)
    | (with_reducible refine mdh_disconnect _ _ ?_)
    | (with_reducible refine mdh_act _ _ _ ?_ ?_ ?_)
    | split
    | rfl
    | exact h
    | (intro d x y hh; cases hh)
    | (intro r e k hh; cases hh)
    | (simp [buildPairingFeaturesPacket, bufferFrom, copyInto, bufferAlloc, SMP_PAIRING_REQUEST, SMP_PAIRING_RESPONSE, SMP_DHKEY_CHECK, SMP_PAIRING_CONFIRM, SMP_PAIRING_RANDOM, SMP_PAIRING_PUBLIC_KEY, SMP_SECURITY_REQUEST, SMP_KEYPRESS_NOTIFICATION, SMP_PAIRING_FAILED, SMP_ENCRYPTION_INFORMATION, SMP_MASTER_IDENTIFICATION, SMP_IDENTITY_INFORMATION, SMP_IDENTITY_ADDRESS_INFORMATION])

theorem mdh_startPasskeyExchange (b : List (List Nat) × List Action) (c : Crypto) (k : Link) (i : Inputs) (s : MasterState)
    (h : gatedActions s.log = b) : gatedActions (startPasskeyExchange c k i s).log = b := by
  unfold startPasskeyExchange
  try dsimp only
  repeat' first
    | (with_reducible refine mdh_sendConfirm _ _ _ _ _ ?_)
    | (with_reducible refine mdh_pairingFailed _ _ _ _ ?_)
    | (with_reducible refine mdh_pairingDone _ _ ?_)
    | (with_reducible refine mdh_sendPacket _ _ _ _ ?_ ?_)
    | (with_reducible refine mdh_sendDataFn _ _ _ _ _ ?_ ?_)
    | (with_reducible refine mdh_emit _ _ _ ?_)
    | (with_reducible refine mdh_throw _ _ ?_)
    | (with_reducible refine mdh_disconnect _ _ ?_)
    | (with_reducible refine mdh_act _ _ _ ?_ ?_ ?_)
    | split
    | rfl
    | exact h

theorem mdh_passkeyCallback (b : List (List Nat) × List Action) (c : Crypto) (k : Link) (i : Inputs) (ignore : Bool) (n : Nat) (r : Option Int) (s : MasterState)
    (h : gatedActions s.log = b) : gatedActions (passkeyCallback c k i ignore n r s).log = b := by
  unfold passkeyCallback
  try dsimp only
  repeat' first
    | (with_reducible refine mdh_sendConfirm _ _ _ _ _ ?_)
    | (with_reducible refine mdh_pairingFailed _ _ _ _ ?_)
    | (with_reducible refine mdh_pairingDone _ _ ?_)
    | (with_reducible refine mdh_sendPacket _ _ _ _ ?_ ?_)
    | (with_reducible refine mdh_sendDataFn _ _ _ _ _ ?_ ?_)
    | (with_reducible refine mdh_emit _ _ _ ?_)
    | (with_reducible refine mdh_throw _ _ ?_)
    | (with_reducible refine mdh_disconnect _ _ ?_)
    | (with_reducible refine mdh_act _ _ _ ?_ ?_ ?_)
    | split
    | rfl
    | exact h

theorem mdh_onPairingResponse (b : List (List Nat) × List Action) (c : Crypto) (k : Link) (i : Inputs) (s : MasterState)
    (h : gatedActions s.log = b) : gatedActions (onPairingResponse c k i s).log = b := by
  unfold onPairingResponse
  try dsimp only
  repeat' first
    | (with_reducible refine mdh_startPasskeyExchange _ _ _ _ _ ?_)
    | (with_reducible refine mdh_pairingFailed _ _ _ _ ?_)
    | (with_reducible refine mdh_pairingDone _ _ ?_)
    | (with_reducible refine mdh_sendPacket _ _ _ _ ?_ ?_)
    | (with_reducible refine mdh_sendDataFn _ _ _ _ _ ?_ ?_)
    | (with_reducible refine mdh_emit _ _ _ ?_)
    | (with_reducible refine mdh_throw _ _ ?_)
    | (with_reducible refine mdh_disconnect _ _ ?_)
    | (with_reducible refine mdh_act _ _ _ ?_ ?_ ?_)
    | split
    | rfl
    | exact h
    | (intro d x y hh; cases hh)
    | (intro r e k hh; cases hh)
    | (simp [buildPairingFeaturesPacket, bufferFrom, copyInto, bufferAlloc, SMP_PAIRING_REQUEST, SMP_PAIRING_RESPONSE, SMP_DHKEY_CHECK, SMP_PAIRING_CONFIRM, SMP_PAIRING_RANDOM, SMP_PAIRING_PUBLIC_KEY, SMP_SECURITY_REQUEST, SMP_KEYPRESS_NOTIFICATION, SMP_PAIRING_FAILED, SMP_ENCRYPTION_INFORMATION, SMP_MASTER_IDENTIFICATION, SMP_IDENTITY_INFORMATION, SMP_IDENTITY_ADDRESS_INFORMATION])

theorem mdh_onPairingFailed (b : List (List Nat) × List Action) (reason : Nat) (s : MasterState)
    (h : gatedActions s.log = b) : gatedActions (onPairingFailed reason s).log = b := by
  unfold onPairingFailed
  try dsimp only
  repeat' first
    | (with_reducible refine mdh_pairingFailed _ _ _ _ ?_)
    | (with_reducible refine mdh_pairingDone _ _ ?_)
    | (with_reducible refine mdh_sendPacket _ _ _ _ ?_ ?_)
    | (with_reducible refine mdh_sendDataFn _ _ _ _ _ ?_ ?_)
    | (with_reducible refine mdh_emit _ _ _ ?_)
    | (with_reducible refine mdh_throw _ _ ?_)
    | (with_reducible refine mdh_disconnect _ _ ?_)
    | (with_reducible refine mdh_act _ _ _ ?_ ?_ ?_)
    | split
    | rfl
    | exact h

theorem mdh_sendPairingFailed (b : List (List Nat) × List Action) (reason : Nat) (s : MasterState)
    (h : gatedActions s.log = b) : gatedActions (sendPairingFailed reason s).log = b := by
  unfold sendPairingFailed
  try dsimp only
  repeat' first
    | (with_reducible refine mdh_pairingFailed _ _ _ _ ?_)
    | (with_reducible refine mdh_pairingDone _ _ ?_)
    | (with_reducible refine mdh_sendPacket _ _ _ _ ?_ ?_)
    | (with_reducible refine mdh_sendDataFn _ _ _ _ _ ?_ ?_)
    | (with_reducible refine mdh_emit _ _ _ ?_)
    | (with_reducible refine mdh_throw _ _ ?_)
    | (with_reducible refine mdh_disconnect _ _ ?_)
    | (with_reducible refine mdh_act _ _ _ ?_ ?_ ?_)
    | split
    | rfl
    | exact h

theorem mdh_startEncryptWithAvailableLtk (b : List (List Nat) × List Action) (isSecReq : Bool) (bondingFlags : Nat) (mitm sc keypress : Bool) (s : MasterState)
    (h : gatedActions s.log = b) : gatedActions (startEncryptWithAvailableLtk isSecReq bondingFlags mitm sc keypress s).log = b := by
  unfold startEncryptWithAvailableLtk
  try dsimp only
  repeat' first
    | (with_reducible refine mdh_pairingFailed _ _ _ _ ?_)
    | (with_reducible refine mdh_pairingDone _ _ ?_)
    | (with_reducible refine mdh_sendPacket _ _ _ _ ?_ ?_)
    | (with_reducible refine mdh_sendDataFn _ _ _ _ _ ?_ ?_)
    | (with_reducible refine mdh_emit _ _ _ ?_)
    | (with_reducible refine mdh_throw _ _ ?_)
    | (with_reducible refine mdh_disconnect _ _ ?_)
    | (with_reducible refine mdh_act _ _ _ ?_ ?_ ?_)
    | split
    | rfl
    | exact h
    | (intro d x y hh; cases hh)

theorem mdh_onDataSecurityRequest (b : List (List Nat) × List Action) (i : Inputs) (data : List Nat) (s : MasterState)
    (h : gatedActions s.log = b) : gatedActions (onDataSecurityRequest i data s).log = b := by
  unfold onDataSecurityRequest
  try dsimp only
  repeat' first
    | (with_reducible refine mdh_startEncryptWithAvailableLtk _ _ _ _ _ _ _ ?_)
    | (with_reducible refine mdh_askStartPairing _ _ _ _ _ _ _ ?_)
    | (with_reducible refine mdh_pairingFailed _ _ _ _ ?_)
    | (with_reducible refine mdh_pairingDone _ _ ?_)
    | (with_reducible refine mdh_sendPacket _ _ _ _ ?_ ?_)
    | (with_reducible refine mdh_sendDataFn _ _ _ _ _ ?_ ?_)
    | (with_reducible refine mdh_emit _ _ _ ?_)
    | (with_reducible refine mdh_throw _ _ ?_)
    | (with_reducible refine mdh_disconnect _ _ ?_)
    | (with_reducible refine mdh_act _ _ _ ?_ ?_ ?_)
    | split
    | rfl
    | exact h

theorem mdh_onDataPairingResponse (b : List (List Nat) × List Action) (c : Crypto) (k : Link) (i : Inputs) (data : List Nat) (s : MasterState)
    (h : gatedActions s.log = b) : gatedActions (onDataPairingResponse c k i data s).log = b := by
  unfold onDataPairingResponse
  try dsimp only
  repeat' first
    | (with_reducible refine mdh_onPairingResponse _ _ _ _ _ ?_)
    | (with_reducible refine mdh_pairingFailed _ _ _ _ ?_)
    | (with_reducible refine mdh_pairingDone _ _ ?_)
    | (with_reducible refine mdh_sendPacket _ _ _ _ ?_ ?_)
    | (with_reducible refine mdh_sendDataFn _ _ _ _ _ ?_ ?_)
    | (with_reducible refine mdh_emit _ _ _ ?_)
    | (with_reducible refine mdh_throw _ _ ?_)
    | (with_reducible refine mdh_disconnect _ _ ?_)
    | (with_reducible refine mdh_act _ _ _ ?_ ?_ ?_)
    | split
    | rfl
    | exact h

theorem mdh_onDataPairingPublicKey (b : List (List Nat) × List Action) (c : Crypto) (k : Link) (i : Inputs) (data : List Nat) (s : MasterState)
    (h : gatedActions s.log = b) : gatedActions (onDataPairingPublicKey c k i data s).log = b := by
  unfold onDataPairingPublicKey
  try dsimp only
  repeat' first
    | (with_reducible refine mdh_startPasskeyExchange _ _ _ _ _ ?_)
    | (with_reducible refine mdh_pairingFailed _ _ _ _ ?_)
    | (with_reducible refine mdh_pairingDone _ _ ?_)
    | (with_reducible refine mdh_sendPacket _ _ _ _ ?_ ?_)
    | (with_reducible refine mdh_sendDataFn _ _ _ _ _ ?_ ?_)
    | (with_reducible refine mdh_emit _ _ _ ?_)
    | (with_reducible refine mdh_throw _ _ ?_)
    | (with_reducible refine mdh_disconnect _ _ ?_)
    | (with_reducible refine mdh_act _ _ _ ?_ ?_ ?_)
    | split
    | rfl
    | exact h

theorem mdh_onDataPairingConfirm (b : List (List Nat) × List Action) (data : List Nat) (s : MasterState)
    (h : gatedActions s.log = b) : gatedActions (onDataPairingConfirm data s).log = b := by
  unfold onDataPairingConfirm
  try dsimp only
  repeat' first
    | (with_reducible refine mdh_pairingFailed _ _ _ _ ?_)
    | (with_reducible refine mdh_pairingDone _ _ ?_)
    | (with_reducible refine mdh_sendPacket _ _ _ _ ?_ ?_)
    | (with_reducible refine mdh_sendDataFn _ _ _ _ _ ?_ ?_)
    | (with_reducible refine mdh_emit _ _ _ ?_)
    | (with_reducible refine mdh_throw _ _ ?_)
    | (with_reducible refine mdh_disconnect _ _ ?_)
    | (with_reducible refine mdh_act _ _ _ ?_ ?_ ?_)
    | split
    | rfl
    | exact h
    | (intro d x y hh; cases hh)
    | (intro r e k hh; cases hh)
    | (simp [buildPairingFeaturesPacket, bufferFrom, copyInto, bufferAlloc, SMP_PAIRING_REQUEST, SMP_PAIRING_RESPONSE, SMP_DHKEY_CHECK, SMP_PAIRING_CONFIRM, SMP_PAIRING_RANDOM, SMP_PAIRING_PUBLIC_KEY, SMP_SECURITY_REQUEST, SMP_KEYPRESS_NOTIFICATION, SMP_PAIRING_FAILED, SMP_ENCRYPTION_INFORMATION, SMP_MASTER_IDENTIFICATION, SMP_IDENTITY_INFORMATION, SMP_IDENTITY_ADDRESS_INFORMATION])

theorem mdh_onDataEncryptionInformation (b : List (List Nat) × List Action) (data : List Nat) (s : MasterState)
    (h : gatedActions s.log = b) : gatedActions (onDataEncryptionInformation data s).log = b := by
  unfold onDataEncryptionInformation
  try dsimp only
  repeat' first
    | (with_reducible refine mdh_pairingFailed _ _ _ _ ?_)
    | (with_reducible refine mdh_pairingDone _ _ ?_)
    | (with_reducible refine mdh_sendPacket _ _ _ _ ?_ ?_)
    | (with_reducible refine mdh_sendDataFn _ _ _ _ _ ?_ ?_)
    | (with_reducible refine mdh_emit _ _ _ ?_)
    | (with_reducible refine mdh_throw _ _ ?_)
    | (with_reducible refine mdh_disconnect _ _ ?_)
    | (with_reducible refine mdh_act _ _ _ ?_ ?_ ?_)
    | split
    | rfl
    | exact h

theorem mdh_onDataIdentityInformation (b : List (List Nat) × List Action) (data : List Nat) (s : MasterState)
    (h : gatedActions s.log = b) : gatedActions (onDataIdentityInformation data s).log = b := by
  unfold onDataIdentityInformation
  try dsimp only
  repeat' first
    | (with_reducible refine mdh_pairingFailed _ _ _ _ ?_)
    | (with_reducible refine mdh_pairingDone _ _ ?_)
    | (with_reducible refine mdh_sendPacket _ _ _ _ ?_ ?_)
    | (with_reducible refine mdh_sendDataFn _ _ _ _ _ ?_ ?_)
    | (with_reducible refine mdh_emit _ _ _ ?_)
    | (with_reducible refine mdh_throw _ _ ?_)
    | (with_reducible refine mdh_disconnect _ _ ?_)
    | (with_reducible refine mdh_act _ _ _ ?_ ?_ ?_)
    | split
    | rfl
    | exact h

theorem mdh_onDataKeypressNotification (b : List (List Nat) × List Action) (data : List Nat) (s : MasterState)
    (h : gatedActions s.log = b) : gatedActions (onDataKeypressNotification data s).log = b := by
  unfold onDataKeypressNotification
  try dsimp only
  repeat' first
    | (with_reducible refine mdh_pairingFailed _ _ _ _ ?_)
    | (with_reducible refine mdh_pairingDone _ _ ?_)
    | (with_reducible refine mdh_sendPacket _ _ _ _ ?_ ?_)
    | (with_reducible refine mdh_sendDataFn _ _ _ _ _ ?_ ?_)
    | (with_reducible refine mdh_emit _ _ _ ?_)
    | (with_reducible refine mdh_throw _ _ ?_)
    | (with_reducible refine mdh_disconnect _ _ ?_)
    | (with_reducible refine mdh_act _ _ _ ?_ ?_ ?_)
    | split
    | rfl
    | exact h

theorem mdh_onDataPairingFailed (b : List (List Nat) × List Action) (data : List Nat) (s : MasterState)
    (h : gatedActions s.log = b) : gatedActions (onDataPairingFailed data s).log = b := by
  unfold onDataPairingFailed
  try dsimp only
  repeat' first
    | (with_reducible refine mdh_onPairingFailed _ _ _ ?_)
    | (with_reducible refine mdh_pairingFailed _ _ _ _ ?_)
    | (with_reducible refine mdh_pairingDone _ _ ?_)
    | (with_reducible refine mdh_sendPacket _ _ _ _ ?_ ?_)
    | (with_reducible refine mdh_sendDataFn _ _ _ _ _ ?_ ?_)
    | (with_reducible refine mdh_emit _ _ _ ?_)
    | (with_reducible refine mdh_throw _ _ ?_)
    | (with_reducible refine mdh_disconnect _ _ ?_)
    | (with_reducible refine mdh_act _ _ _ ?_ ?_ ?_)
    | split
    | rfl
    | exact h

theorem mdh_onCallback (b : List (List Nat) × List Action) (cb : Callback) (s : MasterState)
    (h : gatedActions s.log = b) : gatedActions (onCallback cb s).log = b := by
  unfold onCallback
  try dsimp only
  repeat' first
    | (with_reducible refine mdh_pairingFailed _ _ _ _ ?_)
    | (with_reducible refine mdh_pairingDone _ _ ?_)
    | (with_reducible refine mdh_sendPacket _ _ _ _ ?_ ?_)
    | (with_reducible refine mdh_sendDataFn _ _ _ _ _ ?_ ?_)
    | (with_reducible refine mdh_emit _ _ _ ?_)
    | (with_reducible refine mdh_throw _ _ ?_)
    | (with_reducible refine mdh_disconnect _ _ ?_)
    | (with_reducible refine mdh_act _ _ _ ?_ ?_ ?_)
    | split
    | rfl
    | exact h

theorem mdh_setAvailableLtk (b : List (List Nat) × List Action) (ltk rand : List Nat) (ediv : Nat) (mitm sc : Bool) (s : MasterState)
    (h : gatedActions s.log = b) : gatedActions (setAvailableLtk ltk rand ediv mitm sc s).log = b := by
  unfold setAvailableLtk
  try dsimp only
  repeat' first
    | (with_reducible refine mdh_pairingFailed _ _ _ _ ?_)
    | (with_reducible refine mdh_pairingDone _ _ ?_)
    | (with_reducible refine mdh_sendPacket _ _ _ _ ?_ ?_)
    | (with_reducible refine mdh_sendDataFn _ _ _ _ _ ?_ ?_)
    | (with_reducible refine mdh_emit _ _ _ ?_)
    | (with_reducible refine mdh_throw _ _ ?_)
    | (with_reducible refine mdh_disconnect _ _ ?_)
    | (with_reducible refine mdh_act _ _ _ ?_ ?_ ?_)
    | split
    | rfl
    | exact h

theorem mdh_startEncryption (b : List (List Nat) × List Action)  (s : MasterState)
    (h : gatedActions s.log = b) : gatedActions (startEncryption s).log = b := by
  unfold startEncryption
  try dsimp only
  repeat' first
    | (with_reducible refine mdh_startEncryptWithAvailableLtk _ _ _ _ _ _ _ ?_)
    | (with_reducible refine mdh_pairingFailed _ _ _ _ ?_)
    | (with_reducible refine mdh_pairingDone _ _ ?_)
    | (with_reducible refine mdh_sendPacket _ _ _ _ ?_ ?_)
    | (with_reducible refine mdh_sendDataFn _ _ _ _ _ ?_ ?_)
    | (with_reducible refine mdh_emit _ _ _ ?_)
    | (with_reducible refine mdh_throw _ _ ?_)
    | (with_reducible refine mdh_disconnect _ _ ?_)
    | (with_reducible refine mdh_act _ _ _ ?_ ?_ ?_)
    | split
    | rfl
    | exact h

theorem mdh_sendPairingRequest (b : List (List Nat) × List Action) (req : Option UserFeatures) (s : MasterState)
    (h : gatedActions s.log = b) : gatedActions (sendPairingRequest req s).log = b := by
  unfold sendPairingRequest
  try dsimp only
  repeat' first
    | (with_reducible refine mdh_startPairingRequest _ _ _ ?_)
    | (with_reducible refine mdh_pairingFailed _ _ _ _ ?_)
    | (with_reducible refine mdh_pairingDone _ _ ?_)
    | (with_reducible refine mdh_sendPacket _ _ _ _ ?_ ?_)
    | (with_reducible refine mdh_sendDataFn _ _ _ _ _ ?_ ?_)
    | (with_reducible refine mdh_emit _ _ _ ?_)
    | (with_reducible refine mdh_throw _ _ ?_)
    | (with_reducible refine mdh_disconnect _ _ ?_)
    | (with_reducible refine mdh_act _ _ _ ?_ ?_ ?_)
    | split
    | rfl
    | exact h

theorem mdh_this_sendPairingFailed (b : List (List Nat) × List Action) (reason : Nat) (s : MasterState)
    (h : gatedActions s.log = b) : gatedActions (this_sendPairingFailed reason s).log = b := by
  unfold this_sendPairingFailed
  try dsimp only
  repeat' first
    | (with_reducible refine mdh_sendPairingFailed _ _ _ ?_)
    | (with_reducible refine mdh_pairingFailed _ _ _ _ ?_)
    | (with_reducible refine mdh_pairingDone _ _ ?_)
    | (with_reducible refine mdh_sendPacket _ _ _ _ ?_ ?_)
    | (with_reducible refine mdh_sendDataFn _ _ _ _ _ ?_ ?_)
    | (with_reducible refine mdh_emit _ _ _ ?_)
    | (with_reducible refine mdh_throw _ _ ?_)
    | (with_reducible refine mdh_disconnect _ _ ?_)
    | (with_reducible refine mdh_act _ _ _ ?_ ?_ ?_)
    | split
    | rfl
    | exact h

theorem mdh_sendKeypressNotification (b : List (List Nat) × List Action) (t : Option Int) (s : MasterState)
    (h : gatedActions s.log = b) : gatedActions (sendKeypressNotification t s).log = b := by
  unfold sendKeypressNotification
  try dsimp only
  repeat' first
    | (with_reducible refine mdh_pairingFailed _ _ _ _ ?_)
    | (with_reducible refine mdh_pairingDone _ _ ?_)
    | (with_reducible refine mdh_sendPacket _ _ _ _ ?_ ?_)
    | (with_reducible refine mdh_sendDataFn _ _ _ _ _ ?_ ?_)
    | (with_reducible refine mdh_emit _ _ _ ?_)
    | (with_reducible refine mdh_throw _ _ ?_)
    | (with_reducible refine mdh_disconnect _ _ ?_)
    | (with_reducible refine mdh_act _ _ _ ?_ ?_ ?_)
    | split
    | rfl
    | exact h
    | (intro d x y hh; cases hh)
    | (intro r e k hh; cases hh)
    | (simp [buildPairingFeaturesPacket, bufferFrom, copyInto, bufferAlloc, SMP_PAIRING_REQUEST, SMP_PAIRING_RESPONSE, SMP_DHKEY_CHECK, SMP_PAIRING_CONFIRM, SMP_PAIRING_RANDOM, SMP_PAIRING_PUBLIC_KEY, SMP_SECURITY_REQUEST, SMP_KEYPRESS_NOTIFICATION, SMP_PAIRING_FAILED, SMP_ENCRYPTION_INFORMATION, SMP_MASTER_IDENTIFICATION, SMP_IDENTITY_INFORMATION, SMP_IDENTITY_ADDRESS_INFORMATION])

theorem mdh_onTimeout (b : List (List Nat) × List Action) (i : Inputs) (s : MasterState)
    (h : gatedActions s.log = b) : gatedActions (onTimeout i s).log = b := by
  unfold onTimeout
  try dsimp only
  repeat' first
    | (with_reducible refine mdh_pairingFailed _ _ _ _ ?_)
    | (with_reducible refine mdh_pairingDone _ _ ?_)
    | (with_reducible refine mdh_sendPacket _ _ _ _ ?_ ?_)
    | (with_reducible refine mdh_sendDataFn _ _ _ _ _ ?_ ?_)
    | (with_reducible refine mdh_emit _ _ _ ?_)
    | (with_reducible refine mdh_throw _ _ ?_)
    | (with_reducible refine mdh_disconnect _ _ ?_)
    | (with_reducible refine mdh_act _ _ _ ?_ ?_ ?_)
    | split
    | rfl
    | exact h

end SmpMasterConnection
namespace SmpMasterConnection

theorem mdh_sendAll (b : List (List Nat) × List Action) (ps : List (List Nat)) (s : MasterState)
    (h : gatedActions s.log = b) (hp : ∀ p ∈ ps, p.head? ≠ some SMP_DHKEY_CHECK) :
    gatedActions (ps.foldl (fun s p => sendDataFn (restartTimeout s) p none none) s).log = b := by
  induction ps generalizing s with
  | nil => exact h
  | cons p ps ih =>
    exact ih _ (mdh_sendDataFn _ _ _ _ _ h (hp p (List.mem_cons_self _ _)))
      (fun q hq => hp q (List.mem_cons_of_mem _ hq))

theorem mdh_startDistributeOwnKeys (b : List (List Nat) × List Action) (k : Link) (i : Inputs)
    (s : MasterState) (h : gatedActions s.log = b) :
    gatedActions (startDistributeOwnKeys k i s).log = b := by
  unfold startDistributeOwnKeys
  split
  · exact mdh_throw _ _ h
  · lift_lets
    intro rb rl re r s1 packets s2
    have hp : ∀ p ∈ packets, p.head? ≠ some SMP_DHKEY_CHECK := by
      intro p hp
      simp only [packets, r, List.mem_append] at hp
      rcases hp with hp | hp
      · split at hp
        · simp only [List.mem_cons, List.mem_singleton, List.not_mem_nil, or_false] at hp
          rcases hp with rfl | rfl <;>
            simp [bufferFrom, SMP_ENCRYPTION_INFORMATION, SMP_MASTER_IDENTIFICATION, SMP_DHKEY_CHECK]
        · simp at hp
      · split at hp
        · simp only [List.mem_cons, List.mem_singleton, List.not_mem_nil, or_false] at hp
          rcases hp with rfl | rfl <;>
            simp [copyInto, SMP_IDENTITY_INFORMATION, SMP_IDENTITY_ADDRESS_INFORMATION, SMP_DHKEY_CHECK]
        · simp at hp
    have h1 : gatedActions s1.log = b := by
      simp only [s1, r]
      split
      · exact h
      · exact h
    have h2 : gatedActions s2.log = b := mdh_sendAll _ _ _ h1 (fun p hp' => hp p (List.mem_of_mem_dropLast hp'))
    clear_value s2
    split
    · rename_i lastPacket hlast
      exact mdh_sendDataFn _ _ _ _ _ h2 (hp _ (List.mem_of_mem_getLast? hlast))
    · exact mdh_pairingDone _ _ h2

end SmpMasterConnection
namespace SmpMasterConnection

theorem mdh_onDataMasterIdentification (b : List (List Nat) × List Action) (k : Link) (i : Inputs) (data : List Nat) (s : MasterState)
    (h : gatedActions s.log = b) : gatedActions (onDataMasterIdentification k i data s).log = b := by
  unfold onDataMasterIdentification
  try dsimp only
  repeat' first
    | (with_reducible refine mdh_startDistributeOwnKeys _ _ _ _ ?_)
    | (with_reducible refine mdh_pairingFailed _ _ _ _ ?_)
    | (with_reducible refine mdh_pairingDone _ _ ?_)
    | (with_reducible refine mdh_sendPacket _ _ _ _ ?_ ?_)
    | (with_reducible refine mdh_sendDataFn _ _ _ _ _ ?_ ?_)
    | (with_reducible refine mdh_emit _ _ _ ?_)
    | (with_reducible refine mdh_throw _ _ ?_)
    | (with_reducible refine mdh_disconnect _ _ ?_)
    | (with_reducible refine mdh_act _ _ _ ?_ ?_ ?_)
    | split
    | rfl
    | exact h

theorem mdh_onDataIdentityAddressInformation (b : List (List Nat) × List Action) (k : Link) (i : Inputs) (data : List Nat) (s : MasterState)
    (h : gatedActions s.log = b) : gatedActions (onDataIdentityAddressInformation k i data s).log = b := by
  unfold onDataIdentityAddressInformation
  try dsimp only
  repeat' first
    | (with_reducible refine mdh_startDistributeOwnKeys _ _ _ _ ?_)
    | (with_reducible refine mdh_pairingFailed _ _ _ _ ?_)
    | (with_reducible refine mdh_pairingDone _ _ ?_)
    | (with_reducible refine mdh_sendPacket _ _ _ _ ?_ ?_)
    | (with_reducible refine mdh_sendDataFn _ _ _ _ _ ?_ ?_)
    | (with_reducible refine mdh_emit _ _ _ ?_)
    | (with_reducible refine mdh_throw _ _ ?_)
    | (with_reducible refine mdh_disconnect _ _ ?_)
    | (with_reducible refine mdh_act _ _ _ ?_ ?_ ?_)
    | split
    | rfl
    | exact h

theorem mdh_onEncryptionStartedAfterPairing (b : List (List Nat) × List Action) (k : Link) (i : Inputs) (status : Nat) (isOn : Bool) (s : MasterState)
    (h : gatedActions s.log = b) : gatedActions (onEncryptionStartedAfterPairing k i status isOn s).log = b := by
  unfold onEncryptionStartedAfterPairing
  try dsimp only
  repeat' first
    | (with_reducible refine mdh_startDistributeOwnKeys _ _ _ _ ?_)
    | (with_reducible refine mdh_pairingFailed _ _ _ _ ?_)
    | (with_reducible refine mdh_pairingDone _ _ ?_)
    | (with_reducible refine mdh_sendPacket _ _ _ _ ?_ ?_)
    | (with_reducible refine mdh_sendDataFn _ _ _ _ _ ?_ ?_)
    | (with_reducible refine mdh_emit _ _ _ ?_)
    | (with_reducible refine mdh_throw _ _ ?_)
    | (with_reducible refine mdh_disconnect _ _ ?_)
    | (with_reducible refine mdh_act _ _ _ ?_ ?_ ?_)
    | split
    | rfl
    | exact h

theorem mdh_onEncryptionStartedWithAvailableLtk (b : List (List Nat) × List Action) (i : Inputs) (isSecReq : Bool) (bondingFlags : Nat) (mitm sc keypress : Bool) (status : Nat) (isOn : Bool) (s : MasterState)
    (h : gatedActions s.log = b) : gatedActions (onEncryptionStartedWithAvailableLtk i isSecReq bondingFlags mitm sc keypress status isOn s).log = b := by
  unfold onEncryptionStartedWithAvailableLtk
  try dsimp only
  repeat' first
    | (with_reducible refine mdh_askStartPairing _ _ _ _ _ _ _ ?_)
    | (with_reducible refine mdh_pairingFailed _ _ _ _ ?_)
    | (with_reducible refine mdh_pairingDone _ _ ?_)
    | (with_reducible refine mdh_sendPacket _ _ _ _ ?_ ?_)
    | (with_reducible refine mdh_sendDataFn _ _ _ _ _ ?_ ?_)
    | (with_reducible refine mdh_emit _ _ _ ?_)
    | (with_reducible refine mdh_throw _ _ ?_)
    | (with_reducible refine mdh_disconnect _ _ ?_)
    | (with_reducible refine mdh_act _ _ _ ?_ ?_ ?_)
    | split
    | rfl
    | exact h

theorem mdh_onEncryptionStarted (b : List (List Nat) × List Action) (k : Link) (i : Inputs) (origin : EncryptionStart) (status : Nat) (isOn : Bool) (s : MasterState)
    (h : gatedActions s.log = b) : gatedActions (onEncryptionStarted k i origin status isOn s).log = b := by
  unfold onEncryptionStarted
  try dsimp only
  repeat' first
    | (with_reducible refine mdh_onEncryptionStartedAfterPairing _ _ _ _ _ _ ?_)
    | (with_reducible refine mdh_onEncryptionStartedWithAvailableLtk _ _ _ _ _ _ _ _ _ _ ?_)
    | (with_reducible refine mdh_pairingFailed _ _ _ _ ?_)
    | (with_reducible refine mdh_pairingDone _ _ ?_)
    | (with_reducible refine mdh_sendPacket _ _ _ _ ?_ ?_)
    | (with_reducible refine mdh_sendDataFn _ _ _ _ _ ?_ ?_)
    | (with_reducible refine mdh_emit _ _ _ ?_)
    | (with_reducible refine mdh_throw _ _ ?_)
    | (with_reducible refine mdh_disconnect _ _ ?_)
    | (with_reducible refine mdh_act _ _ _ ?_ ?_ ?_)
    | split
    | rfl
    | exact h

end SmpMasterConnection
namespace SmpMasterConnection

/-- The Pairing Random of the responder is processed: a DHKey Check is sent or encryption
is started only when Numeric Comparison is not the model of a Secure-Connections
pairing. -/
theorem mdh_onPairingRandom (c : Crypto) (k : Link) (i : Inputs) (s : MasterState) :
    gatedActions (onPairingRandom c k i s).log = gatedActions s.log
    ∨ ¬ comparisonInUse s.associationModel s.pairingFeatures := by
  unfold onPairingRandom
  dsimp only
  repeat' split
  all_goals first
    | exact Or.inl (mdh_throw _ _ rfl)
    | exact Or.inl (mdh_pairingFailed _ _ _ _ rfl)
    | exact Or.inl (mdh_emit _ _ _ rfl)
    | exact Or.inl (mdh_sendConfirm _ _ _ _ _ rfl)
    | (right; rintro ⟨hm, pf', hpf', hsc'⟩; simp_all [ASSOCIATION_MODEL_NUMERIC_COMPARISON, ASSOCIATION_MODEL_JUST_WORKS])

theorem mdh_onDataPairingRandom (c : Crypto) (k : Link) (i : Inputs) (data : List Nat) (s : MasterState) :
    gatedActions (onDataPairingRandom c k i data s).log = gatedActions s.log
    ∨ ¬ comparisonInUse s.associationModel s.pairingFeatures := by
  unfold onDataPairingRandom
  split
  · exact Or.inl rfl
  · split
    · exact Or.inl (mdh_pairingFailed _ _ _ _ rfl)
    · exact mdh_onPairingRandom c k i { s with rspRandomValue := some (data.drop 1) }

theorem mdh_onDataDHKeyCheck (c : Crypto) (data : List Nat) (s : MasterState) :
    gatedActions (onDataDHKeyCheck c data s).log = gatedActions s.log
    ∨ (s.state = STATE_W4_PACKET ∧ s.packetWaitOpcode = some SMP_DHKEY_CHECK) := by
  unfold onDataDHKeyCheck
  split
  · exact Or.inl rfl
  · rename_i hw
    simp only [notWaitingFor, Bool.or_eq_true, bne_iff_ne, ne_eq, not_or, Decidable.not_not] at hw
    exact Or.inr hw

theorem mdh_numericComparisonCallback (c : Crypto) (k : Link) (n : Nat) (s : MasterState) :
    gatedActions (numericComparisonCallback c k n s).log = gatedActions s.log
    ∨ (n = s.runCounter ∧ s.state = STATE_W4_USER_NUMERIC_COMPARISON) := by
  unfold numericComparisonCallback
  split
  · exact Or.inl rfl
  · rename_i hc
    simp only [Bool.or_eq_true, bne_iff_ne, ne_eq, not_or, Decidable.not_not] at hc
    exact Or.inr ⟨hc.2.symm, hc.1⟩

theorem mdh_onData (c : Crypto) (k : Link) (i : Inputs) (data : List Nat) (s : MasterState) :
    gatedActions (onData c k i data s).log = gatedActions s.log
    ∨ ¬ comparisonInUse s.associationModel s.pairingFeatures
    ∨ (s.state = STATE_W4_PACKET ∧ s.packetWaitOpcode = some SMP_DHKEY_CHECK) := by
  apply master_onData_cases (fun s' => gatedActions s'.log = gatedActions s.log
    ∨ ¬ comparisonInUse s.associationModel s.pairingFeatures
    ∨ (s.state = STATE_W4_PACKET ∧ s.packetWaitOpcode = some SMP_DHKEY_CHECK))
  · exact Or.inl rfl
  · exact Or.inl (mdh_onDataSecurityRequest _ _ _ _ rfl)
  · exact Or.inl (mdh_onDataPairingResponse _ _ _ _ _ _ rfl)
  · exact Or.inl (mdh_onDataPairingPublicKey _ _ _ _ _ _ rfl)
  · exact Or.inl (mdh_onDataPairingConfirm _ _ _ rfl)
  · rcases mdh_onDataPairingRandom c k i data s with h | h
    · exact Or.inl h
    · exact Or.inr (Or.inl h)
  · rcases mdh_onDataDHKeyCheck c data s with h | h
    · exact Or.inl h
    · exact Or.inr (Or.inr h)
  · exact Or.inl (mdh_onDataEncryptionInformation _ _ _ rfl)
  · exact Or.inl (mdh_onDataMasterIdentification _ _ _ _ _ rfl)
  · exact Or.inl (mdh_onDataIdentityInformation _ _ _ rfl)
  · exact Or.inl (mdh_onDataIdentityAddressInformation _ _ _ _ _ rfl)
  · exact Or.inl (mdh_onDataKeypressNotification _ _ _ rfl)
  · exact Or.inl (mdh_onDataPairingFailed _ _ _ rfl)
  · exact Or.inl (mdh_sendPairingFailed _ _ _ rfl)

/-- A step of the initiator sends a DHKey Check or starts encryption after a pairing only
if it is the confirmation callback of the current run, called while the initiator waits
for the confirmation, or Numeric Comparison is not the model of a Secure-Connections
pairing, or it is the receipt of a PDU in a session that awaits the DHKey Check of the
responder. -/
theorem mdh_step (c : Crypto) (k : Link) (i : Inputs) (e : MasterInput) (s : MasterState) :
    gatedActions (step c k i e s).log = gatedActions s.log
    ∨ (e = MasterInput.numericComparisonCallback s.runCounter
        ∧ s.state = STATE_W4_USER_NUMERIC_COMPARISON)
    ∨ ¬ comparisonInUse s.associationModel s.pairingFeatures
    ∨ (s.state = STATE_W4_PACKET ∧ s.packetWaitOpcode = some SMP_DHKEY_CHECK) := by
  cases e with
  | data d =>
    rcases mdh_onData c k i d s with h | h
    · exact Or.inl h
    · exact Or.inr (Or.inr h)
  | encryptionStarted origin status isOn => exact Or.inl (mdh_onEncryptionStarted _ _ _ _ _ _ _ rfl)
  | setAvailableLtk ltk rand ediv mitm sc => exact Or.inl (mdh_setAvailableLtk _ _ _ _ _ _ _ rfl)
  | startEncryption => exact Or.inl (mdh_startEncryption _ _ rfl)
  | sendPairingRequest req => exact Or.inl (mdh_sendPairingRequest _ _ _ rfl)
  | sendPairingFailed reason => exact Or.inl (mdh_this_sendPairingFailed _ _ _ rfl)
  | sendKeypressNotification t => exact Or.inl (mdh_sendKeypressNotification _ _ _ rfl)
  | pairingRequestCallback n req => exact Or.inl (mdh_cont _ _ _ _ rfl)
  | passkeyCallback ignore n r => exact Or.inl (mdh_passkeyCallback _ _ _ _ _ _ _ _ rfl)
  | numericComparisonCallback n =>
    rcases mdh_numericComparisonCallback c k n s with h | h
    · exact Or.inl h
    · exact Or.inr (Or.inl ⟨by rw [h.1], h.2⟩)
  | acknowledge cb => exact Or.inl (mdh_onCallback _ _ _ rfl)
  | timeout => exact Or.inl (mdh_onTimeout _ _ _ rfl)

end SmpMasterConnection
namespace SmpMasterConnection

/-- A session that agrees with a gated one on run counter, log and negotiation, and whose
state and awaited PDU open no way to the DHKey Check that the other does not have. -/
theorem mgate_frame (g : Option Nat) (s s' : MasterState) (h : Gate g s)
    (hr : s'.runCounter = s.runCounter) (hl : s'.log = s.log)
    (ha : s'.associationModel = s.associationModel) (hp : s'.pairingFeatures = s.pairingFeatures)
    (hw : s'.packetWaitOpcode = some SMP_DHKEY_CHECK →
      s.packetWaitOpcode = some SMP_DHKEY_CHECK ∧ (s'.state ≠ STATE_W4_PACKET ∨ s'.state = s.state)) :
    Gate g s' := by
  obtain ⟨hC, hQ, hN⟩ := h
  refine ⟨by rw [hr, hl]; exact hC, ?_, by rw [ha, hp]; exact hN⟩
  intro hw' hm
  obtain ⟨h3, h4⟩ := hw hw'
  rw [ha] at hm
  rcases hQ h3 hm with h1 | h1
  · left; rw [hr]; exact h1
  · right
    rw [hr, hl]
    refine ⟨?_, h1.2⟩
    rcases h4 with h4 | h4
    · exact h4
    · rw [h4]; exact h1.1

/-- An update of variables the gate does not read. -/
theorem mgate_same (g : Option Nat) (s s' : MasterState) (h : Gate g s)
    (hst : s'.state = s.state) (hw : s'.packetWaitOpcode = s.packetWaitOpcode)
    (hr : s'.runCounter = s.runCounter) (hl : s'.log = s.log)
    (ha : s'.associationModel = s.associationModel) (hp : s'.pairingFeatures = s.pairingFeatures) :
    Gate g s' :=
  mgate_frame g s s' h hr hl ha hp (fun x => ⟨by rw [← hw]; exact x, Or.inr hst⟩)

/-- An update that sets the state to a value from which no PDU is taken and keeps the
awaited PDU. -/
theorem mgate_leave (g : Option Nat) (s s' : MasterState) (h : Gate g s)
    (hr : s'.runCounter = s.runCounter) (hl : s'.log = s.log)
    (ha : s'.associationModel = s.associationModel) (hp : s'.pairingFeatures = s.pairingFeatures)
    (hw : s'.packetWaitOpcode = s.packetWaitOpcode) (h1 : s'.state ≠ STATE_W4_PACKET) : Gate g s' :=
  mgate_frame g s s' h hr hl ha hp (fun x => ⟨by rw [← hw]; exact x, Or.inl h1⟩)

/-- An update that sets the awaited PDU to one other than the DHKey Check. -/
theorem mgate_wait (g : Option Nat) (s s' : MasterState) (h : Gate g s)
    (hr : s'.runCounter = s.runCounter) (hl : s'.log = s.log)
    (ha : s'.associationModel = s.associationModel) (hp : s'.pairingFeatures = s.pairingFeatures)
    (hw : s'.packetWaitOpcode ≠ some SMP_DHKEY_CHECK) : Gate g s' :=
  mgate_frame g s s' h hr hl ha hp (fun x => absurd x hw)

theorem mgate_act (g : Option Nat) (s : MasterState) (a : Action) (h : Gate g s) (ha : callbacksOf a = []) :
    Gate g (act s a) := by
  obtain ⟨hC, hQ, hN⟩ := h
  have hc : callbackCounters a = [] := by
    cases a <;> simp_all [callbacksOf, callbackCounters]
  have hn : ∀ n cb, Callback.packetSent n cb ∉ callbacksOf a := by
    intro n cb; rw [ha]; simp
  refine ⟨SmpSlaveConnection.countersLe_append _ _ _ hc hC, ?_, hN⟩
  intro hw hm
  rcases hQ hw hm with h1 | h1
  · exact Or.inl h1
  · exact Or.inr ⟨h1.1, fun cb => noPacketSent_append _ _ _ _ (h1.2 cb) (hn _ _)⟩

theorem mgate_emit (g : Option Nat) (s : MasterState) (e : Event) (h : Gate g s) : Gate g (emit s e) :=
  mgate_act g s _ h rfl

/-- A PDU handed over without a closure of `sendPacket`. -/
theorem mgate_sendDataFn (g : Option Nat) (s : MasterState) (data : List Nat) (cb1 cb2 : Option Callback)
    (h : Gate g s)
    (hc : ∀ cb ∈ callbacksOf (Action.sendData data cb1 cb2),
      (∀ n x, cb ≠ Callback.packetSent n x) ∧ ∀ n, Callback.counter cb = some n → n ≤ s.runCounter) :
    Gate g (sendDataFn s data cb1 cb2) := by
  unfold sendDataFn
  split
  · exact h
  · obtain ⟨hC, hQ, hN⟩ := h
    have hn : ∀ n cb, Callback.packetSent n cb ∉ callbacksOf (Action.sendData data cb1 cb2) :=
      fun n x hm => (hc _ hm).1 n x rfl
    refine ⟨?_, ?_, hN⟩
    · intro a ha m hm
      simp only [act, List.mem_append, List.mem_singleton] at ha
      rcases ha with ha | rfl
      · exact hC a ha m hm
      · simp only [callbackCounters, List.mem_filterMap] at hm
        obtain ⟨cb, hcb, hm⟩ := hm
        exact (hc cb hcb).2 m hm
    · intro hw hm
      rcases hQ hw hm with h1 | h1
      · exact Or.inl h1
      · exact Or.inr ⟨h1.1, fun cb => noPacketSent_append _ _ _ _ (h1.2 cb) (hn _ _)⟩

/-- A session whose run counter has just been drawn anew and that takes no PDU: nothing in
its log belongs to the new run. -/
theorem mgate_newRun (g : Option Nat) (s s' : MasterState) (h : Gate g s)
    (hr : s'.runCounter = s.runCounter + 1) (hl : s'.log = s.log)
    (ha : s'.associationModel = s.associationModel) (hp : s'.pairingFeatures = s.pairingFeatures)
    (h1 : s'.state ≠ STATE_W4_PACKET) : Gate g s' := by
  obtain ⟨hC, hQ, hN⟩ := h
  refine ⟨?_, ?_, by rw [ha, hp]; exact hN⟩
  · intro a ha' m hm
    rw [hl] at ha'
    have := hC a ha' m hm
    rw [hr]
    omega
  · intro _ _
    right
    refine ⟨h1, ?_⟩
    intro cb a ha' hmem
    rw [hl] at ha'
    have := hC a ha' _ (counter_mem_callbackCounters a _ cb hmem)
    rw [hr] at this
    omega

theorem mgate_pairingFailed (g : Option Nat) (s : MasterState) (reason : Nat) (remote : Bool)
    (h : Gate g s) : Gate g (pairingFailed s reason remote) := by
  unfold pairingFailed
  lift_lets
  extract_lets s1 s2 s3
  have h2 : Gate g s2 := by
    simp only [s2]
    split
    · refine mgate_sendDataFn _ _ _ _ _ (mgate_same g s _ h rfl rfl rfl rfl rfl rfl) ?_
      intro cb hcb
      simp only [callbacksOf, Option.toList, List.append_nil, List.mem_singleton] at hcb
      subst hcb
      exact ⟨fun n x => by simp, fun n hn => by simp [Callback.counter] at hn⟩
    · exact mgate_same g s _ h rfl rfl rfl rfl rfl rfl
  have h3 : Gate g s3 := mgate_newRun g s2 _ h2 rfl rfl rfl rfl (by simp only [s3]; decide)
  clear_value s3 s2
  split
  · exact mgate_emit _ _ _ h3
  · exact h3

theorem mgate_pairingDone (g : Option Nat) (s : MasterState) (h : Gate g s) : Gate g (pairingDone s) := by
  unfold pairingDone
  lift_lets
  extract_lets s0 s1
  have h1 : Gate g s1 := mgate_newRun g s _ h rfl rfl rfl rfl (by simp only [s1]; decide)
  clear_value s1
  split
  · exact mgate_act _ _ _ h1 rfl
  · lift_lets
    extract_lets sc res s2 s3 s4 s5
    have h2 : Gate g s2 := by
      simp only [s2]
      split
      · split
        · exact mgate_act _ _ _ h1 rfl
        · exact h1
      · exact h1
    clear_value s2
    have h4 : Gate g s4 := by
      simp only [s4]
      split
      · exact mgate_act _ _ _ (mgate_same g (act s2 (Action.storeKeys res)) _ (mgate_act _ _ _ h2 rfl) rfl rfl rfl rfl rfl rfl) rfl
      · exact h2
    clear_value s4
    have h5 : Gate g s5 := by
      simp only [s5]
      split
      · exact mgate_same g s4 _ h4 rfl rfl rfl rfl rfl rfl
      · exact h4
    clear_value s5
    exact mgate_emit _ _ _ h5

/-- A PDU sent by `sendPacket`: the awaited PDU is set anew.  When the DHKey Check of the
responder is awaited next under Numeric Comparison, the user has confirmed in this run. -/
theorem mgate_sendPacket (g : Option Nat) (s : MasterState) (data : List Nat) (next : Option Nat)
    (h : Gate g s)
    (hn : next ≠ some SMP_DHKEY_CHECK
      ∨ (s.associationModel = some ASSOCIATION_MODEL_NUMERIC_COMPARISON → g = some s.runCounter)) :
    Gate g (sendPacket s data next) := by
  unfold sendPacket
  split
  · exact h
  · obtain ⟨hC, hQ, hN⟩ := h
    have hq : next = some SMP_DHKEY_CHECK →
        s.associationModel = some ASSOCIATION_MODEL_NUMERIC_COMPARISON → g = some s.runCounter := by
      intro hw hm
      rcases hn with hn | hn
      · exact absurd hw hn
      · exact hn hm
    unfold sendDataFn
    dsimp only [restartTimeout, timeoutClearFn]
    split
    · exact ⟨hC, fun hw hm => Or.inl (hq hw hm), hN⟩
    · refine ⟨?_, fun hw hm => Or.inl (hq hw hm), hN⟩
      intro a ha m hm
      simp only [act, List.mem_append, List.mem_singleton] at ha
      rcases ha with ha | rfl
      · exact hC a ha m hm
      · simp only [callbackCounters, Option.toList, List.append_nil, List.filterMap_cons, Callback.counter,
          List.filterMap_nil, List.mem_singleton] at hm
        subst hm
        exact le_refl _

end SmpMasterConnection
namespace SmpMasterConnection

theorem mgate_startPairingRequest (g : Option Nat) (req : Option UserFeatures) (s : MasterState)
    (h : Gate g s) : Gate g (startPairingRequest req s) := by
  unfold startPairingRequest
  try dsimp only
  repeat' first
    | (with_reducible refine mgate_pairingFailed _ _ _ _ ?_)
    | (with_reducible refine mgate_pairingDone _ _ ?_)
    | (with_reducible refine mgate_sendPacket _ _ _ _ ?_ ?_)
    | (with_reducible refine mgate_sendDataFn _ _ _ _ _ ?_ ?_)
    | (with_reducible refine mgate_emit _ _ _ ?_)
    | (with_reducible refine mgate_act _ _ _ ?_ ?_)
    | split
    | rfl
    | exact h
    | exact Or.inl (by decide)

theorem mgate_cont (g : Option Nat) (n : Nat) (req : Option UserFeatures) (s : MasterState)
    (h : Gate g s) : Gate g (cont n req s) := by
  unfold cont
  try dsimp only
  repeat' first
    | (with_reducible refine mgate_startPairingRequest _ _ _ ?_)
    | (with_reducible refine mgate_pairingFailed _ _ _ _ ?_)
    | (with_reducible refine mgate_pairingDone _ _ ?_)
    | (with_reducible refine mgate_sendPacket _ _ _ _ ?_ ?_)
    | (with_reducible refine mgate_sendDataFn _ _ _ _ _ ?_ ?_)
    | (with_reducible refine mgate_emit _ _ _ ?_)
    | (with_reducible refine mgate_act _ _ _ ?_ ?_)
    | split
    | rfl
    | exact h

theorem mgate_askStartPairing (g : Option Nat) (i : Inputs) (bondingFlags : Nat) (mitm sc keypress : Bool) (s : MasterState)
    (h : Gate g s) : Gate g (askStartPairing i bondingFlags mitm sc keypress s) := by
  unfold askStartPairing
  try dsimp only
  repeat' first
    | (with_reducible refine mgate_cont _ _ _ _ ?_)
    | (with_reducible refine mgate_pairingFailed _ _ _ _ ?_)
    | (with_reducible refine mgate_pairingDone _ _ ?_)
    | (with_reducible refine mgate_sendPacket _ _ _ _ ?_ ?_)
    | (with_reducible refine mgate_sendDataFn _ _ _ _ _ ?_ ?_)
    | (with_reducible refine mgate_emit _ _ _ ?_)
    | (with_reducible refine mgate_act _ _ _ ?_ ?_)
    | split
    | rfl
    | exact h
    | exact Or.inl (by decide)
    | (intro cb hcb; simp [callbacksOf] at hcb)
    | exact mgate_same g s _ h rfl rfl rfl rfl rfl rfl
    | exact mgate_leave g s _ h rfl rfl rfl rfl rfl (by first | decide | (dsimp only; decide) | (dsimp only [restartTimeout, timeoutClearFn]; decide))

theorem mgate_sendConfirm (g : Option Nat) (c : Crypto) (k : Link) (i : Inputs) (s : MasterState)
    (h : Gate g s) : Gate g (sendConfirm c k i s) := by
  unfold sendConfirm
  try dsimp only
  repeat' first
    | (with_reducible refine mgate_pairingFailed _ _ _ _ ?_)
    | (with_reducible refine mgate_pairingDone _ _ ?_)
    | (with_reducible refine mgate_sendPacket _ _ _ _ ?_ ?_)
    | (with_reducible refine mgate_sendDataFn _ _ _ _ _ ?_ ?_)
    | (with_reducible refine mgate_emit _ _ _ ?_)
    | (with_reducible refine mgate_act _ _ _ ?_ ?_)
    | split
    | rfl
    | exact h
    | exact Or.inl (by decide)

theorem mgate_startPasskeyExchange (g : Option Nat) (c : Crypto) (k : Link) (i : Inputs) (s : MasterState)
    (h : Gate g s) : Gate g (startPasskeyExchange c k i s) := by
  unfold startPasskeyExchange
  try dsimp only
  repeat' first
    | (with_reducible refine mgate_sendConfirm _ _ _ _ _ ?_)
    | (with_reducible refine mgate_pairingFailed _ _ _ _ ?_)
    | (with_reducible refine mgate_pairingDone _ _ ?_)
    | (with_reducible refine mgate_sendPacket _ _ _ _ ?_ ?_)
    | (with_reducible refine mgate_sendDataFn _ _ _ _ _ ?_ ?_)
    | (with_reducible refine mgate_emit _ _ _ ?_)
    | (with_reducible refine mgate_act _ _ _ ?_ ?_)
    | split
    | rfl
    | exact h
    | exact Or.inl (by decide)
    | (intro cb hcb; simp [callbacksOf] at hcb)
    | exact mgate_same g s _ h rfl rfl rfl rfl rfl rfl
    | exact mgate_leave g s _ h rfl rfl rfl rfl rfl (by first | decide | (dsimp only; decide) | (dsimp only [restartTimeout, timeoutClearFn]; decide))
    | exact mgate_wait g s _ h rfl rfl rfl rfl (by first | decide | (dsimp only; decide) | (dsimp only [restartTimeout, timeoutClearFn]; decide))

theorem mgate_passkeyCallback (g : Option Nat) (c : Crypto) (k : Link) (i : Inputs) (ignore : Bool) (n : Nat) (r : Option Int) (s : MasterState)
    (h : Gate g s) : Gate g (passkeyCallback c k i ignore n r s) := by
  unfold passkeyCallback
  try dsimp only
  repeat' first
    | (with_reducible refine mgate_sendConfirm _ _ _ _ _ ?_)
    | (with_reducible refine mgate_pairingFailed _ _ _ _ ?_)
    | (with_reducible refine mgate_pairingDone _ _ ?_)
    | (with_reducible refine mgate_sendPacket _ _ _ _ ?_ ?_)
    | (with_reducible refine mgate_sendDataFn _ _ _ _ _ ?_ ?_)
    | (with_reducible refine mgate_emit _ _ _ ?_)
    | (with_reducible refine mgate_act _ _ _ ?_ ?_)
    | split
    | rfl
    | exact h

theorem mgate_startEncryptionAfterPairing (g : Option Nat) (c : Crypto) (s : MasterState)
    (h : Gate g s) : Gate g (startEncryptionAfterPairing c s) := by
  unfold startEncryptionAfterPairing
  try dsimp only
  repeat' first
    | (with_reducible refine mgate_pairingFailed _ _ _ _ ?_)
    | (with_reducible refine mgate_pairingDone _ _ ?_)
    | (with_reducible refine mgate_sendPacket _ _ _ _ ?_ ?_)
    | (with_reducible refine mgate_sendDataFn _ _ _ _ _ ?_ ?_)
    | (with_reducible refine mgate_emit _ _ _ ?_)
    | (with_reducible refine mgate_act _ _ _ ?_ ?_)
    | split
    | rfl
    | exact h
    | exact Or.inl (by decide)
    | (intro cb hcb; simp [callbacksOf] at hcb)
    | exact mgate_same g s _ h rfl rfl rfl rfl rfl rfl
    | exact mgate_leave g s _ h rfl rfl rfl rfl rfl (by first | decide | (dsimp only; decide) | (dsimp only [restartTimeout, timeoutClearFn]; decide))

theorem mgate_onDHKeyCheck (g : Option Nat) (c : Crypto) (eb : List Nat) (s : MasterState)
    (h : Gate g s) : Gate g (onDHKeyCheck c eb s) := by
  unfold onDHKeyCheck
  try dsimp only
  repeat' first
    | (with_reducible refine mgate_startEncryptionAfterPairing _ _ _ ?_)
    | (with_reducible refine mgate_pairingFailed _ _ _ _ ?_)
    | (with_reducible refine mgate_pairingDone _ _ ?_)
    | (with_reducible refine mgate_sendPacket _ _ _ _ ?_ ?_)
    | (with_reducible refine mgate_sendDataFn _ _ _ _ _ ?_ ?_)
    | (with_reducible refine mgate_emit _ _ _ ?_)
    | (with_reducible refine mgate_act _ _ _ ?_ ?_)
    | split
    | rfl
    | exact h

theorem mgate_onPairingFailed (g : Option Nat) (reason : Nat) (s : MasterState)
    (h : Gate g s) : Gate g (onPairingFailed reason s) := by
  unfold onPairingFailed
  try dsimp only
  repeat' first
    | (with_reducible refine mgate_pairingFailed _ _ _ _ ?_)
    | (with_reducible refine mgate_pairingDone _ _ ?_)
    | (with_reducible refine mgate_sendPacket _ _ _ _ ?_ ?_)
    | (with_reducible refine mgate_sendDataFn _ _ _ _ _ ?_ ?_)
    | (with_reducible refine mgate_emit _ _ _ ?_)
    | (with_reducible refine mgate_act _ _ _ ?_ ?_)
    | split
    | rfl
    | exact h
    | exact Or.inl (by decide)
    | (intro cb hcb; simp [callbacksOf] at hcb)
    | exact mgate_same g s _ h rfl rfl rfl rfl rfl rfl
    | exact mgate_leave g s _ h rfl rfl rfl rfl rfl (by first | decide | (dsimp only; decide) | (dsimp only [restartTimeout, timeoutClearFn]; decide))

theorem mgate_sendPairingFailed (g : Option Nat) (reason : Nat) (s : MasterState)
    (h : Gate g s) : Gate g (sendPairingFailed reason s) := by
  unfold sendPairingFailed
  try dsimp only
  repeat' first
    | (with_reducible refine mgate_pairingFailed _ _ _ _ ?_)
    | (with_reducible refine mgate_pairingDone _ _ ?_)
    | (with_reducible refine mgate_sendPacket _ _ _ _ ?_ ?_)
    | (with_reducible refine mgate_sendDataFn _ _ _ _ _ ?_ ?_)
    | (with_reducible refine mgate_emit _ _ _ ?_)
    | (with_reducible refine mgate_act _ _ _ ?_ ?_)
    | split
    | rfl
    | exact h
    | exact Or.inl (by decide)
    | (intro cb hcb; simp [callbacksOf] at hcb)
    | exact mgate_same g s _ h rfl rfl rfl rfl rfl rfl
    | exact mgate_leave g s _ h rfl rfl rfl rfl rfl (by first | decide | (dsimp only; decide) | (dsimp only [restartTimeout, timeoutClearFn]; decide))

theorem mgate_startEncryptWithAvailableLtk (g : Option Nat) (isSecReq : Bool) (bondingFlags : Nat) (mitm sc keypress : Bool) (s : MasterState)
    (h : Gate g s) : Gate g (startEncryptWithAvailableLtk isSecReq bondingFlags mitm sc keypress s) := by
  unfold startEncryptWithAvailableLtk
  try dsimp only
  repeat' first
    | (with_reducible refine mgate_pairingFailed _ _ _ _ ?_)
    | (with_reducible refine mgate_pairingDone _ _ ?_)
    | (with_reducible refine mgate_sendPacket _ _ _ _ ?_ ?_)
    | (with_reducible refine mgate_sendDataFn _ _ _ _ _ ?_ ?_)
    | (with_reducible refine mgate_emit _ _ _ ?_)
    | (with_reducible refine mgate_act _ _ _ ?_ ?_)
    | split
    | rfl
    | exact h
    | exact Or.inl (by decide)
    | (intro cb hcb; simp [callbacksOf] at hcb)
    | exact mgate_same g s _ h rfl rfl rfl rfl rfl rfl
    | exact mgate_leave g s _ h rfl rfl rfl rfl rfl (by first | decide | (dsimp only; decide) | (dsimp only [restartTimeout, timeoutClearFn]; decide))

theorem mgate_onDataSecurityRequest (g : Option Nat) (i : Inputs) (data : List Nat) (s : MasterState)
    (h : Gate g s) : Gate g (onDataSecurityRequest i data s) := by
  unfold onDataSecurityRequest
  try dsimp only
  repeat' first
    | (with_reducible refine mgate_startEncryptWithAvailableLtk _ _ _ _ _ _ _ ?_)
    | (with_reducible refine mgate_askStartPairing _ _ _ _ _ _ _ ?_)
    | (with_reducible refine mgate_pairingFailed _ _ _ _ ?_)
    | (with_reducible refine mgate_pairingDone _ _ ?_)
    | (with_reducible refine mgate_sendPacket _ _ _ _ ?_ ?_)
    | (with_reducible refine mgate_sendDataFn _ _ _ _ _ ?_ ?_)
    | (with_reducible refine mgate_emit _ _ _ ?_)
    | (with_reducible refine mgate_act _ _ _ ?_ ?_)
    | split
    | rfl
    | exact h

theorem mgate_onDataPairingPublicKey (g : Option Nat) (c : Crypto) (k : Link) (i : Inputs) (data : List Nat) (s : MasterState)
    (h : Gate g s) : Gate g (onDataPairingPublicKey c k i data s) := by
  unfold onDataPairingPublicKey
  try dsimp only
  repeat' first
    | (with_reducible refine mgate_startPasskeyExchange _ _ _ _ _ ?_)
    | (with_reducible refine mgate_pairingFailed _ _ _ _ ?_)
    | (with_reducible refine mgate_pairingDone _ _ ?_)
    | (with_reducible refine mgate_sendPacket _ _ _ _ ?_ ?_)
    | (with_reducible refine mgate_sendDataFn _ _ _ _ _ ?_ ?_)
    | (with_reducible refine mgate_emit _ _ _ ?_)
    | (with_reducible refine mgate_act _ _ _ ?_ ?_)
    | split
    | rfl
    | exact h

theorem mgate_onDataPairingConfirm (g : Option Nat) (data : List Nat) (s : MasterState)
    (h : Gate g s) : Gate g (onDataPairingConfirm data s) := by
  unfold onDataPairingConfirm
  try dsimp only
  repeat' first
    | (with_reducible refine mgate_pairingFailed _ _ _ _ ?_)
    | (with_reducible refine mgate_pairingDone _ _ ?_)
    | (with_reducible refine mgate_sendPacket _ _ _ _ ?_ ?_)
    | (with_reducible refine mgate_sendDataFn _ _ _ _ _ ?_ ?_)
    | (with_reducible refine mgate_emit _ _ _ ?_)
    | (with_reducible refine mgate_act _ _ _ ?_ ?_)
    | split
    | rfl
    | exact h
    | exact Or.inl (by decide)

theorem mgate_onDataDHKeyCheck (g : Option Nat) (c : Crypto) (data : List Nat) (s : MasterState)
    (h : Gate g s) : Gate g (onDataDHKeyCheck c data s) := by
  unfold onDataDHKeyCheck
  try dsimp only
  repeat' first
    | (with_reducible refine mgate_onDHKeyCheck _ _ _ _ ?_)
    | (with_reducible refine mgate_pairingFailed _ _ _ _ ?_)
    | (with_reducible refine mgate_pairingDone _ _ ?_)
    | (with_reducible refine mgate_sendPacket _ _ _ _ ?_ ?_)
    | (with_reducible refine mgate_sendDataFn _ _ _ _ _ ?_ ?_)
    | (with_reducible refine mgate_emit _ _ _ ?_)
    | (with_reducible refine mgate_act _ _ _ ?_ ?_)
    | split
    | rfl
    | exact h

theorem mgate_onDataEncryptionInformation (g : Option Nat) (data : List Nat) (s : MasterState)
    (h : Gate g s) : Gate g (onDataEncryptionInformation data s) := by
  unfold onDataEncryptionInformation
  try dsimp only
  repeat' first
    | (with_reducible refine mgate_pairingFailed _ _ _ _ ?_)
    | (with_reducible refine mgate_pairingDone _ _ ?_)
    | (with_reducible refine mgate_sendPacket _ _ _ _ ?_ ?_)
    | (with_reducible refine mgate_sendDataFn _ _ _ _ _ ?_ ?_)
    | (with_reducible refine mgate_emit _ _ _ ?_)
    | (with_reducible refine mgate_act _ _ _ ?_ ?_)
    | split
    | rfl
    | exact h
    | exact Or.inl (by decide)
    | (intro cb hcb; simp [callbacksOf] at hcb)
    | exact mgate_same g s _ h rfl rfl rfl rfl rfl rfl
    | exact mgate_leave g s _ h rfl rfl rfl rfl rfl (by first | decide | (dsimp only; decide) | (dsimp only [restartTimeout, timeoutClearFn]; decide))
    | exact mgate_wait g s _ h rfl rfl rfl rfl (by first | decide | (dsimp only; decide) | (dsimp only [restartTimeout, timeoutClearFn]; decide))

theorem mgate_onDataIdentityInformation (g : Option Nat) (data : List Nat) (s : MasterState)
    (h : Gate g s) : Gate g (onDataIdentityInformation data s) := by
  unfold onDataIdentityInformation
  try dsimp only
  repeat' first
    | (with_reducible refine mgate_pairingFailed _ _ _ _ ?_)
    | (with_reducible refine mgate_pairingDone _ _ ?_)
    | (with_reducible refine mgate_sendPacket _ _ _ _ ?_ ?_)
    | (with_reducible refine mgate_sendDataFn _ _ _ _ _ ?_ ?_)
    | (with_reducible refine mgate_emit _ _ _ ?_)
    | (with_reducible refine mgate_act _ _ _ ?_ ?_)
    | split
    | rfl
    | exact h
    | exact Or.inl (by decide)
    | (intro cb hcb; simp [callbacksOf] at hcb)
    | exact mgate_same g s _ h rfl rfl rfl rfl rfl rfl
    | exact mgate_leave g s _ h rfl rfl rfl rfl rfl (by first | decide | (dsimp only; decide) | (dsimp only [restartTimeout, timeoutClearFn]; decide))
    | exact mgate_wait g s _ h rfl rfl rfl rfl (by first | decide | (dsimp only; decide) | (dsimp only [restartTimeout, timeoutClearFn]; decide))

theorem mgate_onDataKeypressNotification (g : Option Nat) (data : List Nat) (s : MasterState)
    (h : Gate g s) : Gate g (onDataKeypressNotification data s) := by
  unfold onDataKeypressNotification
  try dsimp only
  repeat' first
    | (with_reducible refine mgate_pairingFailed _ _ _ _ ?_)
    | (with_reducible refine mgate_pairingDone _ _ ?_)
    | (with_reducible refine mgate_sendPacket _ _ _ _ ?_ ?_)
    | (with_reducible refine mgate_sendDataFn _ _ _ _ _ ?_ ?_)
    | (with_reducible refine mgate_emit _ _ _ ?_)
    | (with_reducible refine mgate_act _ _ _ ?_ ?_)
    | split
    | rfl
    | exact h

theorem mgate_onDataPairingFailed (g : Option Nat) (data : List Nat) (s : MasterState)
    (h : Gate g s) : Gate g (onDataPairingFailed data s) := by
  unfold onDataPairingFailed
  try dsimp only
  repeat' first
    | (with_reducible refine mgate_onPairingFailed _ _ _ ?_)
    | (with_reducible refine mgate_pairingFailed _ _ _ _ ?_)
    | (with_reducible refine mgate_pairingDone _ _ ?_)
    | (with_reducible refine mgate_sendPacket _ _ _ _ ?_ ?_)
    | (with_reducible refine mgate_sendDataFn _ _ _ _ _ ?_ ?_)
    | (with_reducible refine mgate_emit _ _ _ ?_)
    | (with_reducible refine mgate_act _ _ _ ?_ ?_)
    | split
    | rfl
    | exact h

theorem mgate_setAvailableLtk (g : Option Nat) (ltk rand : List Nat) (ediv : Nat) (mitm sc : Bool) (s : MasterState)
    (h : Gate g s) : Gate g (setAvailableLtk ltk rand ediv mitm sc s) := by
  unfold setAvailableLtk
  try dsimp only
  repeat' first
    | (with_reducible refine mgate_pairingFailed _ _ _ _ ?_)
    | (with_reducible refine mgate_pairingDone _ _ ?_)
    | (with_reducible refine mgate_sendPacket _ _ _ _ ?_ ?_)
    | (with_reducible refine mgate_sendDataFn _ _ _ _ _ ?_ ?_)
    | (with_reducible refine mgate_emit _ _ _ ?_)
    | (with_reducible refine mgate_act _ _ _ ?_ ?_)
    | split
    | rfl
    | exact h

theorem mgate_startEncryption (g : Option Nat)  (s : MasterState)
    (h : Gate g s) : Gate g (startEncryption s) := by
  unfold startEncryption
  try dsimp only
  repeat' first
    | (with_reducible refine mgate_startEncryptWithAvailableLtk _ _ _ _ _ _ _ ?_)
    | (with_reducible refine mgate_pairingFailed _ _ _ _ ?_)
    | (with_reducible refine mgate_pairingDone _ _ ?_)
    | (with_reducible refine mgate_sendPacket _ _ _ _ ?_ ?_)
    | (with_reducible refine mgate_sendDataFn _ _ _ _ _ ?_ ?_)
    | (with_reducible refine mgate_emit _ _ _ ?_)
    | (with_reducible refine mgate_act _ _ _ ?_ ?_)
    | split
    | rfl
    | exact h

theorem mgate_sendPairingRequest (g : Option Nat) (req : Option UserFeatures) (s : MasterState)
    (h : Gate g s) : Gate g (sendPairingRequest req s) := by
  unfold sendPairingRequest
  try dsimp only
  repeat' first
    | (with_reducible refine mgate_startPairingRequest _ _ _ ?_)
    | (with_reducible refine mgate_pairingFailed _ _ _ _ ?_)
    | (with_reducible refine mgate_pairingDone _ _ ?_)
    | (with_reducible refine mgate_sendPacket _ _ _ _ ?_ ?_)
    | (with_reducible refine mgate_sendDataFn _ _ _ _ _ ?_ ?_)
    | (with_reducible refine mgate_emit _ _ _ ?_)
    | (with_reducible refine mgate_act _ _ _ ?_ ?_)
    | split
    | rfl
    | exact h

theorem mgate_this_sendPairingFailed (g : Option Nat) (reason : Nat) (s : MasterState)
    (h : Gate g s) : Gate g (this_sendPairingFailed reason s) := by
  unfold this_sendPairingFailed
  try dsimp only
  repeat' first
    | (with_reducible refine mgate_sendPairingFailed _ _ _ ?_)
    | (with_reducible refine mgate_pairingFailed _ _ _ _ ?_)
    | (with_reducible refine mgate_pairingDone _ _ ?_)
    | (with_reducible refine mgate_sendPacket _ _ _ _ ?_ ?_)
    | (with_reducible refine mgate_sendDataFn _ _ _ _ _ ?_ ?_)
    | (with_reducible refine mgate_emit _ _ _ ?_)
    | (with_reducible refine mgate_act _ _ _ ?_ ?_)
    | split
    | rfl
    | exact h

theorem mgate_sendKeypressNotification (g : Option Nat) (t : Option Int) (s : MasterState)
    (h : Gate g s) : Gate g (sendKeypressNotification t s) := by
  unfold sendKeypressNotification
  try dsimp only
  repeat' first
    | (with_reducible refine mgate_pairingFailed _ _ _ _ ?_)
    | (with_reducible refine mgate_pairingDone _ _ ?_)
    | (with_reducible refine mgate_sendPacket _ _ _ _ ?_ ?_)
    | (with_reducible refine mgate_sendDataFn _ _ _ _ _ ?_ ?_)
    | (with_reducible refine mgate_emit _ _ _ ?_)
    | (with_reducible refine mgate_act _ _ _ ?_ ?_)
    | split
    | rfl
    | exact h
    | exact Or.inl (by decide)
    | (intro cb hcb; simp [callbacksOf] at hcb)

end SmpMasterConnection
namespace SmpMasterConnection

/-- The DHKey Check of the initiator is built and sent: under Numeric Comparison the caller
holds the confirmation of this run. -/
theorem mgate_sendDHKeyCheck (g : Option Nat) (c : Crypto) (k : Link) (s : MasterState) (h : Gate g s)
    (hc : s.associationModel = some ASSOCIATION_MODEL_NUMERIC_COMPARISON → g = some s.runCounter) :
    Gate g (sendDHKeyCheck c k s) := by
  unfold sendDHKeyCheck
  split
  · split
    · exact mgate_pairingFailed _ _ _ _ h
    · exact mgate_sendPacket _ _ _ _ (mgate_same g s _ h rfl rfl rfl rfl rfl rfl) (Or.inr hc)
  · exact mgate_act _ _ _ h rfl

theorem mgate_onPairingRandom (g : Option Nat) (c : Crypto) (k : Link) (i : Inputs) (s : MasterState)
    (h : Gate g s) : Gate g (onPairingRandom c k i s) := by
  unfold onPairingRandom
  dsimp only
  repeat' split
  all_goals first
    | exact mgate_act _ _ _ h rfl
    | exact mgate_pairingFailed _ _ _ _ h
    | exact mgate_startEncryptionAfterPairing _ _ _ h
    | exact mgate_sendConfirm _ _ _ _ _ (mgate_same g s _ h rfl rfl rfl rfl rfl rfl)
    | exact mgate_emit _ _ _ (mgate_leave g s _ h rfl rfl rfl rfl rfl (by dsimp only; decide))
    | exact mgate_sendDHKeyCheck _ _ _ _ h (fun hm => by simp_all [ASSOCIATION_MODEL_NUMERIC_COMPARISON, ASSOCIATION_MODEL_JUST_WORKS])
    | exact mgate_sendDHKeyCheck _ _ _ _ (mgate_same g s _ h rfl rfl rfl rfl rfl rfl) (fun hm => by simp_all [ASSOCIATION_MODEL_NUMERIC_COMPARISON, ASSOCIATION_MODEL_JUST_WORKS])

theorem mgate_onDataPairingRandom (g : Option Nat) (c : Crypto) (k : Link) (i : Inputs) (data : List Nat)
    (s : MasterState) (h : Gate g s) : Gate g (onDataPairingRandom c k i data s) := by
  unfold onDataPairingRandom
  split
  · exact h
  · split
    · exact mgate_pairingFailed _ _ _ _ h
    · exact mgate_onPairingRandom _ _ _ _ _ (mgate_same g s _ h rfl rfl rfl rfl rfl rfl)

/-- The negotiation is set while the Pairing Response is awaited. -/
theorem mgate_onPairingResponse (g : Option Nat) (c : Crypto) (k : Link) (i : Inputs) (s : MasterState)
    (h : Gate g s) (hw : s.packetWaitOpcode ≠ some SMP_DHKEY_CHECK) : Gate g (onPairingResponse c k i s) := by
  unfold onPairingResponse
  split
  · rename_i reqData rspData _ _
    dsimp only
    split
    · exact mgate_pairingFailed _ _ _ _ h
    · have h1 : Gate g { s with pairingFeatures := some (combineAuthReq (bitwiseAndKeys (parsePairingReqRsp rspData) (parsePairingReqRsp reqData)) (parsePairingReqRsp reqData)), associationModel := some (getAssociationModel (parsePairingReqRsp reqData).ioCap (bitwiseAndKeys (parsePairingReqRsp rspData) (parsePairingReqRsp reqData)).ioCap (combineAuthReq (bitwiseAndKeys (parsePairingReqRsp rspData) (parsePairingReqRsp reqData)) (parsePairingReqRsp reqData)).sc (combineAuthReq (bitwiseAndKeys (parsePairingReqRsp rspData) (parsePairingReqRsp reqData)) (parsePairingReqRsp reqData)).mitm), initIoCap := some (parsePairingReqRsp reqData).ioCap, rspIoCap := some (bitwiseAndKeys (parsePairingReqRsp rspData) (parsePairingReqRsp reqData)).ioCap } := by
        refine ⟨h.1, fun hw' => absurd hw' hw, ?_⟩
        intro hm
        refine ⟨hm, _, rfl, ?_⟩
        dsimp only at hm
        exact getAssociationModel_numeric_sc _ _ _ _ (parsePairingReqRsp_ioCap_le _)
          (parsePairingReqRsp_ioCap_le rspData) (Option.some.inj hm)
      split
      · exact mgate_pairingFailed _ _ _ _ h1
      · split
        · exact mgate_sendPacket _ _ _ _ (mgate_same g _ _ h1 rfl rfl rfl rfl rfl rfl) (Or.inl (by decide))
        · exact mgate_startPasskeyExchange _ _ _ _ _ (mgate_same g _ _ h1 rfl rfl rfl rfl rfl rfl)
  · exact mgate_act _ _ _ h rfl

theorem mgate_onDataPairingResponse (g : Option Nat) (c : Crypto) (k : Link) (i : Inputs) (data : List Nat)
    (s : MasterState) (h : Gate g s) : Gate g (onDataPairingResponse c k i data s) := by
  unfold onDataPairingResponse
  split
  · exact h
  · rename_i hw
    simp only [notWaitingFor, Bool.or_eq_true, bne_iff_ne, ne_eq, not_or, Decidable.not_not] at hw
    split
    · exact mgate_pairingFailed _ _ _ _ h
    · refine mgate_onPairingResponse _ _ _ _ _ (mgate_same g s _ h rfl rfl rfl rfl rfl rfl) ?_
      dsimp only
      rw [hw.2]
      decide

/-- The confirmation callback of the current run, called while the initiator waits for the
confirmation: its run is recorded as confirmed. -/
theorem mgate_numericComparisonCallback (g : Option Nat) (c : Crypto) (k : Link) (n : Nat) (s : MasterState)
    (h : Gate g s) :
    Gate (if n = s.runCounter ∧ s.state = STATE_W4_USER_NUMERIC_COMPARISON then some n else g)
      (numericComparisonCallback c k n s) := by
  unfold numericComparisonCallback
  by_cases hn : n = s.runCounter ∧ s.state = STATE_W4_USER_NUMERIC_COMPARISON
  · rw [if_pos hn, if_neg (by simp [hn.1.symm, hn.2])]
    obtain ⟨hn1, _⟩ := hn
    subst hn1
    exact mgate_sendDHKeyCheck _ _ _ _ ⟨h.1, fun _ _ => Or.inl rfl, h.2.2⟩ (fun _ => rfl)
  · rw [if_neg hn, if_pos]
    · exact h
    · simp only [Bool.or_eq_true, bne_iff_ne, ne_eq]
      by_cases hs : s.state = STATE_W4_USER_NUMERIC_COMPARISON
      · right
        intro hr
        exact hn ⟨hr.symm, hs⟩
      · exact Or.inl hs

/-- The transport calls a closure it has received: the closure is in the log, so that the
state it leads to was opened by the PDU that carried it. -/
theorem mgate_onCallback (g : Option Nat) (cb : Callback) (s : MasterState) (h : Gate g s)
    (hen : enabled (MasterInput.acknowledge cb) s) : Gate g (onCallback cb s) := by
  have hmem : ∃ a ∈ s.log, cb ∈ callbacksOf a := by
    obtain ⟨data, other, hm | hm⟩ := hen
    · exact ⟨_, hm, by simp [callbacksOf]⟩
    · exact ⟨_, hm, by simp [callbacksOf]⟩
  obtain ⟨a, ha, hcb⟩ := hmem
  unfold onCallback
  split
  · exact mgate_same g s _ h rfl rfl rfl rfl rfl rfl
  · rename_i n x
    split
    · exact h
    · rename_i hn
      have hn' : n = s.runCounter := by
        simp only [bne_iff_ne, ne_eq, Decidable.not_not] at hn
        exact hn.symm
      subst hn'
      obtain ⟨hC, hQ, hN⟩ := h
      refine ⟨hC, ?_, hN⟩
      intro hw hm
      rcases hQ hw hm with h1 | h1
      · exact Or.inl h1
      · exact absurd hcb (h1.2 x a ha)
  · split
    · exact h
    · exact mgate_pairingDone _ _ h

theorem mgate_sendAll (g : Option Nat) (ps : List (List Nat)) (s : MasterState) (h : Gate g s) :
    Gate g (ps.foldl (fun s p => sendDataFn (restartTimeout s) p none none) s) := by
  induction ps generalizing s with
  | nil => exact h
  | cons p ps ih =>
    exact ih _ (mgate_sendDataFn _ _ _ _ _ (mgate_same g s _ h rfl rfl rfl rfl rfl rfl)
      (by intro cb hcb; simp [callbacksOf] at hcb))

theorem mgate_startDistributeOwnKeys (g : Option Nat) (k : Link) (i : Inputs) (s : MasterState)
    (h : Gate g s) : Gate g (startDistributeOwnKeys k i s) := by
  unfold startDistributeOwnKeys
  split
  · exact mgate_act _ _ _ h rfl
  · lift_lets
    intro rb rl re r s1 packets s2
    have h1 : Gate g s1 := by
      simp only [s1, r]
      split
      · exact mgate_same g s _ h rfl rfl rfl rfl rfl rfl
      · exact h
    have h2 : Gate g s2 := mgate_sendAll _ _ _ h1
    clear_value s2
    split
    · refine mgate_sendDataFn _ _ _ _ _
        (mgate_leave g s2 _ h2 rfl rfl rfl rfl rfl (by dsimp only [restartTimeout, timeoutClearFn]; decide)) ?_
      intro cb hcb
      simp only [callbacksOf, Option.toList, List.nil_append, List.mem_singleton] at hcb
      subst hcb
      refine ⟨fun n x => by simp, ?_⟩
      intro n hn
      simp only [Callback.counter, Option.some.injEq] at hn
      subst hn
      exact le_refl _
    · exact mgate_pairingDone _ _ h2

theorem mgate_onTimeout (g : Option Nat) (i : Inputs) (s : MasterState) (h : Gate g s) :
    Gate g (onTimeout i s) := by
  have h2 : Gate g { s with timeoutPending := false, runCounter := s.runCounter + 1, state := STATE_TIMEDOUT, sendDisabled := true } :=
    mgate_newRun g s _ h rfl rfl rfl rfl (by dsimp only; decide)
  unfold onTimeout
  dsimp only
  split
  · exact h
  · split
    · exact mgate_emit _ _ _ h2
    · exact mgate_act _ _ _ h2 rfl

end SmpMasterConnection
namespace SmpMasterConnection

theorem mgate_onDataMasterIdentification (g : Option Nat) (k : Link) (i : Inputs) (data : List Nat) (s : MasterState)
    (h : Gate g s) : Gate g (onDataMasterIdentification k i data s) := by
  unfold onDataMasterIdentification
  try dsimp only
  repeat' first
    | (with_reducible refine mgate_startDistributeOwnKeys _ _ _ _ ?_)
    | (with_reducible refine mgate_pairingFailed _ _ _ _ ?_)
    | (with_reducible refine mgate_pairingDone _ _ ?_)
    | (with_reducible refine mgate_sendPacket _ _ _ _ ?_ ?_)
    | (with_reducible refine mgate_sendDataFn _ _ _ _ _ ?_ ?_)
    | (with_reducible refine mgate_emit _ _ _ ?_)
    | (with_reducible refine mgate_act _ _ _ ?_ ?_)
    | split
    | rfl
    | exact h
    | exact Or.inl (by decide)
    | (intro cb hcb; simp [callbacksOf] at hcb)
    | exact mgate_same g s _ h rfl rfl rfl rfl rfl rfl
    | exact mgate_leave g s _ h rfl rfl rfl rfl rfl (by first | decide | (dsimp only; decide) | (dsimp only [restartTimeout, timeoutClearFn]; decide))
    | exact mgate_wait g s _ h rfl rfl rfl rfl (by first | decide | (dsimp only; decide) | (dsimp only [restartTimeout, timeoutClearFn]; decide))
    | exact mgate_leave g (act s Action.disconnect) _ (mgate_act g s _ h rfl) rfl rfl rfl rfl rfl (by first | decide | (dsimp only; decide) | (dsimp only [restartTimeout, timeoutClearFn]; decide))

theorem mgate_onDataIdentityAddressInformation (g : Option Nat) (k : Link) (i : Inputs) (data : List Nat) (s : MasterState)
    (h : Gate g s) : Gate g (onDataIdentityAddressInformation k i data s) := by
  unfold onDataIdentityAddressInformation
  try dsimp only
  repeat' first
    | (with_reducible refine mgate_startDistributeOwnKeys _ _ _ _ ?_)
    | (with_reducible refine mgate_pairingFailed _ _ _ _ ?_)
    | (with_reducible refine mgate_pairingDone _ _ ?_)
    | (with_reducible refine mgate_sendPacket _ _ _ _ ?_ ?_)
    | (with_reducible refine mgate_sendDataFn _ _ _ _ _ ?_ ?_)
    | (with_reducible refine mgate_emit _ _ _ ?_)
    | (with_reducible refine mgate_act _ _ _ ?_ ?_)
    | split
    | rfl
    | exact h
    | exact Or.inl (by decide)
    | (intro cb hcb; simp [callbacksOf] at hcb)
    | exact mgate_same g s _ h rfl rfl rfl rfl rfl rfl
    | exact mgate_leave g s _ h rfl rfl rfl rfl rfl (by first | decide | (dsimp only; decide) | (dsimp only [restartTimeout, timeoutClearFn]; decide))
    | exact mgate_wait g s _ h rfl rfl rfl rfl (by first | decide | (dsimp only; decide) | (dsimp only [restartTimeout, timeoutClearFn]; decide))
    | exact mgate_leave g (act s Action.disconnect) _ (mgate_act g s _ h rfl) rfl rfl rfl rfl rfl (by first | decide | (dsimp only; decide) | (dsimp only [restartTimeout, timeoutClearFn]; decide))

end SmpMasterConnection
namespace SmpMasterConnection

theorem mgate_onEncryptionStartedAfterPairing (g : Option Nat) (k : Link) (i : Inputs) (status : Nat)
    (isOn : Bool) (s : MasterState) (h : Gate g s) :
    Gate g (onEncryptionStartedAfterPairing k i status isOn s) := by
  unfold onEncryptionStartedAfterPairing
  lift_lets
  intro success
  split
  · exact mgate_leave g (act s Action.disconnect) _ (mgate_act g s _ h rfl) rfl rfl rfl rfl rfl
      (by dsimp only; decide)
  · split
    · repeat' split
      all_goals first
        | exact mgate_act _ _ _ (mgate_same g s _ h rfl rfl rfl rfl rfl rfl) rfl
        | exact mgate_pairingFailed _ _ _ _ h
        | exact mgate_act _ _ _ h rfl
    · lift_lets
      intro level s1
      have h1 : Gate g s1 := by
        simp only [s1]
        split
        · exact mgate_emit _ _ _ (mgate_same g s _ h rfl rfl rfl rfl rfl rfl)
        · exact h
      clear_value s1
      repeat' split
      all_goals first
        | exact mgate_pairingFailed _ _ _ _ h1
        | exact mgate_startDistributeOwnKeys _ _ _ _ h1
        | exact mgate_act _ _ _ h1 rfl
        | exact mgate_wait g s1 _ h1 rfl rfl rfl rfl (by dsimp only; decide)

theorem mgate_onEncryptionStartedWithAvailableLtk (g : Option Nat) (i : Inputs) (isSecReq : Bool)
    (bondingFlags : Nat) (mitm sc keypress : Bool) (status : Nat) (isOn : Bool) (s : MasterState)
    (h : Gate g s) :
    Gate g (onEncryptionStartedWithAvailableLtk i isSecReq bondingFlags mitm sc keypress status isOn s) := by
  unfold onEncryptionStartedWithAvailableLtk
  dsimp only
  repeat' first
    | (with_reducible refine mgate_askStartPairing _ _ _ _ _ _ _ ?_)
    | (with_reducible refine mgate_emit _ _ _ ?_)
    | (with_reducible refine mgate_act _ _ _ ?_ ?_)
    | split
    | rfl
    | exact mgate_same g s _ h rfl rfl rfl rfl rfl rfl
    | exact mgate_newRun g s _ h rfl rfl rfl rfl (by first | decide | (dsimp only; decide) | (dsimp only [restartTimeout, timeoutClearFn]; decide))
    | exact mgate_leave g (act { s with encryptionProcessWithLtk := false } Action.disconnect) _ (mgate_act g _ _ (mgate_same g s _ h rfl rfl rfl rfl rfl rfl) rfl) rfl rfl rfl rfl rfl (by first | decide | (dsimp only; decide) | (dsimp only [restartTimeout, timeoutClearFn]; decide))

theorem mgate_onEncryptionStarted (g : Option Nat) (k : Link) (i : Inputs) (origin : EncryptionStart)
    (status : Nat) (isOn : Bool) (s : MasterState) (h : Gate g s) :
    Gate g (onEncryptionStarted k i origin status isOn s) := by
  unfold onEncryptionStarted
  split
  · exact mgate_onEncryptionStartedAfterPairing _ _ _ _ _ _ h
  · exact mgate_onEncryptionStartedWithAvailableLtk _ _ _ _ _ _ _ _ _ _ h

theorem mgate_onData (g : Option Nat) (c : Crypto) (k : Link) (i : Inputs) (data : List Nat) (s : MasterState)
    (h : Gate g s) : Gate g (onData c k i data s) := by
  apply master_onData_cases (Gate g)
  · exact h
  · exact mgate_onDataSecurityRequest _ _ _ _ h
  · exact mgate_onDataPairingResponse _ _ _ _ _ _ h
  · exact mgate_onDataPairingPublicKey _ _ _ _ _ _ h
  · exact mgate_onDataPairingConfirm _ _ _ h
  · exact mgate_onDataPairingRandom _ _ _ _ _ _ h
  · exact mgate_onDataDHKeyCheck _ _ _ _ h
  · exact mgate_onDataEncryptionInformation _ _ _ h
  · exact mgate_onDataMasterIdentification _ _ _ _ _ h
  · exact mgate_onDataIdentityInformation _ _ _ h
  · exact mgate_onDataIdentityAddressInformation _ _ _ _ _ h
  · exact mgate_onDataKeypressNotification _ _ _ h
  · exact mgate_onDataPairingFailed _ _ _ h
  · exact mgate_sendPairingFailed _ _ _ h

/-- Every step that can be taken keeps the gate, with the confirmation recorded. -/
theorem mgate_step (g : Option Nat) (c : Crypto) (k : Link) (i : Inputs) (e : MasterInput) (s : MasterState)
    (h : Gate g s) (hen : enabled e s) : Gate (confirmedAfter e s g) (step c k i e s) := by
  cases e with
  | data d => exact mgate_onData _ _ _ _ _ _ h
  | encryptionStarted origin status isOn => exact mgate_onEncryptionStarted _ _ _ _ _ _ _ h
  | setAvailableLtk ltk rand ediv mitm sc => exact mgate_setAvailableLtk _ _ _ _ _ _ _ h
  | startEncryption => exact mgate_startEncryption _ _ h
  | sendPairingRequest req => exact mgate_sendPairingRequest _ _ _ h
  | sendPairingFailed reason => exact mgate_this_sendPairingFailed _ _ _ h
  | sendKeypressNotification t => exact mgate_sendKeypressNotification _ _ _ h
  | pairingRequestCallback n req => exact mgate_cont _ _ _ _ h
  | passkeyCallback ignore n r => exact mgate_passkeyCallback _ _ _ _ _ _ _ _ h
  | numericComparisonCallback n => exact mgate_numericComparisonCallback _ _ _ _ _ h
  | acknowledge cb => exact mgate_onCallback _ _ _ h hen
  | timeout => exact mgate_onTimeout _ _ _ h

theorem mgate_init (stored : Option AvailableLtk) : Gate none (init stored) := by
  refine ⟨?_, ?_, ?_⟩
  · intro a ha; simp [init] at ha
  · intro h; exact absurd h (by simp [init])
  · intro h; exact absurd h (by simp [init])

theorem mgate_of_reachable (c : Crypto) (k : Link) (s : MasterState) (g : Option Nat)
    (h : ReachableConfirmed c k s g) : Gate g s := by
  induction h with
  | init stored => exact mgate_init stored
  | step i e s g _ hen ih => exact mgate_step _ _ _ _ _ _ ih hen

end SmpMasterConnection

/-! ## Numeric comparison gates the DHKey Check (claim C38) -/

/-- C38: under Numeric Comparison neither session sends its DHKey Check before the user has
confirmed the comparison value of the current pairing run.  Sessions are taken with the
run whose comparison value was confirmed last (`ReachableConfirmed`: the run counter at the
last call of a confirmation callback that passed the tests of the callback; a callback can
only be called after the event that carries it was emitted).  For every session that arises
from the constructor by steps and whose association model is Numeric Comparison: a step of
the responder that hands a DHKey Check PDU to the transport is, or comes after, the
confirmation of the current run; a responder in `STATE_W4_LTK_REQUEST` holds the
confirmation of the current run; a step of the initiator that hands a DHKey Check PDU to
the transport or issues the start-encryption command of a pairing is, or comes after, the
confirmation of the current run.  A confirmation callback that captured another run counter
than the current one returns the session as it is, in both roles; a failed pairing and an
expired timer each raise the run counter by one, so that the callbacks handed out before
have captured another one. -/
theorem numeric_comparison_gates_dhkey_check (c : Crypto) (k : Link) :
    (∀ (i : Inputs) (e : SlaveInput) (s : SlaveState) (confirmed : Option Nat),
      SmpSlaveConnection.ReachableConfirmed c k s confirmed → SmpSlaveConnection.enabled e s →
      s.associationModel = some ASSOCIATION_MODEL_NUMERIC_COMPARISON →
      dhKeyChecks (SmpSlaveConnection.step c k i e s).log ≠ dhKeyChecks s.log →
      SmpSlaveConnection.confirmedAfter e s confirmed = some s.runCounter)
    ∧ (∀ (s : SlaveState) (confirmed : Option Nat),
      SmpSlaveConnection.ReachableConfirmed c k s confirmed →
      s.associationModel = some ASSOCIATION_MODEL_NUMERIC_COMPARISON →
      s.state = STATE_W4_LTK_REQUEST → confirmed = some s.runCounter)
    ∧ (∀ (i : Inputs) (e : MasterInput) (m : MasterState) (confirmed : Option Nat),
      SmpMasterConnection.ReachableConfirmed c k m confirmed → SmpMasterConnection.enabled e m →
      m.associationModel = some ASSOCIATION_MODEL_NUMERIC_COMPARISON →
      (dhKeyChecks (SmpMasterConnection.step c k i e m).log ≠ dhKeyChecks m.log
        ∨ afterPairingStarts (SmpMasterConnection.step c k i e m).log ≠ afterPairingStarts m.log) →
      SmpMasterConnection.confirmedAfter e m confirmed = some m.runCounter)
    ∧ (∀ (n : Nat) (s : SlaveState), n ≠ s.runCounter →
      SmpSlaveConnection.numericComparisonCallback c k n s = s)
    ∧ (∀ (n : Nat) (m : MasterState), n ≠ m.runCounter →
      SmpMasterConnection.numericComparisonCallback c k n m = m)
    ∧ (∀ (s : SlaveState) (reason : Nat),
      (SmpSlaveConnection.pairingFailed s reason).runCounter = s.runCounter + 1)
    ∧ (∀ (m : MasterState) (reason : Nat) (isErrorFromRemote : Bool),
      (SmpMasterConnection.pairingFailed m reason isErrorFromRemote).runCounter = m.runCounter + 1)
    ∧ (∀ (i : Inputs) (s : SlaveState), s.timeoutPending = true →
      (SmpSlaveConnection.onTimeout i s).runCounter = s.runCounter + 1)
    ∧ (∀ (i : Inputs) (m : MasterState), m.timeoutPending = true →
      (SmpMasterConnection.onTimeout i m).runCounter = m.runCounter + 1) := by
  refine ⟨?_, ?_, ?_, ?_, ?_, ?_, ?_, ?_, ?_⟩
  · intro i e s g hr _ hm hne
    have hg := SmpSlaveConnection.gate_of_reachable c k s g hr
    rcases SmpSlaveConnection.dh_step c k i e s with h | h | h
    · exact absurd h hne
    · rw [h]
      simp [SmpSlaveConnection.confirmedAfter]
    · have hgc : g = some s.runCounter := by
        rcases hg.2.1 (h.2.2 hm) with h1 | h1
        · exact h1
        · exact absurd h.1 (h1 h.2.1).1
      cases e with
      | numericComparisonCallback n =>
        simp only [SmpSlaveConnection.confirmedAfter]
        split
        · rename_i hn; rw [hn]
        · exact hgc
      | _ => exact hgc
  · intro s g hr hm hs
    exact (SmpSlaveConnection.gate_of_reachable c k s g hr).2.2.2.2 hs
      ((SmpSlaveConnection.neg_of_reachable c k s g hr).1 hm)
  · intro i e m g hr _ hm hne
    have hg := SmpMasterConnection.mgate_of_reachable c k m g hr
    have hcu := hg.2.2 hm
    rcases SmpMasterConnection.mdh_step c k i e m with h | h | h | h
    · rcases hne with hne | hne
      · exact absurd (congrArg Prod.fst h) hne
      · exact absurd (congrArg Prod.snd h) hne
    · rw [h.1]
      simp [SmpMasterConnection.confirmedAfter, h.2]
    · exact absurd hcu h
    · have hgc : g = some m.runCounter := by
        rcases hg.2.1 h.2 hm with h1 | h1
        · exact h1
        · exact absurd h.1 h1.1
      cases e with
      | numericComparisonCallback n =>
        simp only [SmpMasterConnection.confirmedAfter]
        split
        · rename_i hn; rw [hn.1]
        · exact hgc
      | _ => exact hgc
  · intro n s hn
    unfold SmpSlaveConnection.numericComparisonCallback
    rw [if_pos (by simpa using fun h => hn h.symm)]
  · intro n m hn
    unfold SmpMasterConnection.numericComparisonCallback
    rw [if_pos (by simp [Ne.symm hn])]
  · intro s reason
    exact SmpSlaveConnection.slave_pairingFailed_runCounter s reason
  · intro m reason remote
    cases hf : m.hasOutgoingFailedMsg <;> cases hd : m.sendDisabled <;> cases remote <;>
      cases he : m.encryptionProcessWithLtk <;>
      simp [SmpMasterConnection.pairingFailed, SmpMasterConnection.timeoutClearFn,
        SmpMasterConnection.sendDataFn, SmpMasterConnection.emit, SmpMasterConnection.act, hf, hd, he]
  · intro i s hp
    cases hl : i.timeoutListener <;>
      simp [SmpSlaveConnection.onTimeout, SmpSlaveConnection.emit, SmpSlaveConnection.act, hp, hl]
  · intro i m hp
    cases hl : i.timeoutListener <;>
      simp [SmpMasterConnection.onTimeout, SmpMasterConnection.emit, SmpMasterConnection.act, hp, hl]

/-- The sample responder arises by steps, with no confirmation so far. -/
theorem sampleSlaveComparing_reachable :
    SmpSlaveConnection.ReachableConfirmed sampleCryptoResponder sampleLink (sampleSlaveComparing 7) none :=
  have r0 : SmpSlaveConnection.ReachableConfirmed sampleCryptoResponder sampleLink (sampleSlaveComparing 0) none :=
    SmpSlaveConnection.ReachableConfirmed.init none
  have r1 : SmpSlaveConnection.ReachableConfirmed sampleCryptoResponder sampleLink (sampleSlaveComparing 1) none :=
    SmpSlaveConnection.ReachableConfirmed.step sampleInputsComparison (SlaveInput.data sampleScRequest) _ _ r0 trivial
  have r2 : SmpSlaveConnection.ReachableConfirmed sampleCryptoResponder sampleLink (sampleSlaveComparing 2) none :=
    SmpSlaveConnection.ReachableConfirmed.step sampleInputsComparison
      (SlaveInput.acknowledge (Callback.packetSent 1 none)) _ _ r1
      ⟨[2, 4, 0, 13, 16, 3, 3], none, Or.inl (by decide)⟩
  have r3 : SmpSlaveConnection.ReachableConfirmed sampleCryptoResponder sampleLink (sampleSlaveComparing 3) none :=
    SmpSlaveConnection.ReachableConfirmed.step sampleInputsComparison (SlaveInput.data sampleInitiatorKey) _ _ r2 trivial
  have r4 : SmpSlaveConnection.ReachableConfirmed sampleCryptoResponder sampleLink (sampleSlaveComparing 4) none :=
    SmpSlaveConnection.ReachableConfirmed.step sampleInputsComparison
      (SlaveInput.acknowledge (Callback.packetSent 1 none)) _ _ r3
      ⟨[2, 4, 0, 13, 16, 3, 3], none, Or.inl (by decide)⟩
  have r5 : SmpSlaveConnection.ReachableConfirmed sampleCryptoResponder sampleLink (sampleSlaveComparing 5) none :=
    SmpSlaveConnection.ReachableConfirmed.step sampleInputsComparison (SlaveInput.data sampleInitiatorRandom) _ _ r4 trivial
  have r6 : SmpSlaveConnection.ReachableConfirmed sampleCryptoResponder sampleLink (sampleSlaveComparing 6) none :=
    SmpSlaveConnection.ReachableConfirmed.step sampleInputsComparison
      (SlaveInput.acknowledge (Callback.packetSent 1 none)) _ _ r5
      ⟨[2, 4, 0, 13, 16, 3, 3], none, Or.inl (by decide)⟩
  SmpSlaveConnection.ReachableConfirmed.step sampleInputsComparison (SlaveInput.data sampleInitiatorCheck) _ _ r6 trivial

theorem sampleMasterComparing_reachable :
    SmpMasterConnection.ReachableConfirmed sampleCryptoInitiator sampleLink (sampleMasterComparing 8) none :=
  have r0 : SmpMasterConnection.ReachableConfirmed sampleCryptoInitiator sampleLink (sampleMasterComparing 0) none :=
    SmpMasterConnection.ReachableConfirmed.init none
  have r1 : SmpMasterConnection.ReachableConfirmed sampleCryptoInitiator sampleLink (sampleMasterComparing 1) none :=
    SmpMasterConnection.ReachableConfirmed.step sampleInputsInitiator
      (MasterInput.sendPairingRequest (some sampleUserComparison)) _ _ r0 trivial
  have r2 : SmpMasterConnection.ReachableConfirmed sampleCryptoInitiator sampleLink (sampleMasterComparing 2) none :=
    SmpMasterConnection.ReachableConfirmed.step sampleInputsInitiator
      (MasterInput.acknowledge (Callback.packetSent 0 none)) _ _ r1
      ⟨[1, 4, 0, 13, 16, 3, 3], none, Or.inl (by decide)⟩
  have r3 : SmpMasterConnection.ReachableConfirmed sampleCryptoInitiator sampleLink (sampleMasterComparing 3) none :=
    SmpMasterConnection.ReachableConfirmed.step sampleInputsInitiator (MasterInput.data sampleScResponse) _ _ r2 trivial
  have r4 : SmpMasterConnection.ReachableConfirmed sampleCryptoInitiator sampleLink (sampleMasterComparing 4) none :=
    SmpMasterConnection.ReachableConfirmed.step sampleInputsInitiator
      (MasterInput.acknowledge (Callback.packetSent 0 none)) _ _ r3
      ⟨[1, 4, 0, 13, 16, 3, 3], none, Or.inl (by decide)⟩
  have r5 : SmpMasterConnection.ReachableConfirmed sampleCryptoInitiator sampleLink (sampleMasterComparing 5) none :=
    SmpMasterConnection.ReachableConfirmed.step sampleInputsInitiator (MasterInput.data sampleResponderKey) _ _ r4 trivial
  have r6 : SmpMasterConnection.ReachableConfirmed sampleCryptoInitiator sampleLink (sampleMasterComparing 6) none :=
    SmpMasterConnection.ReachableConfirmed.step sampleInputsInitiator (MasterInput.data sampleResponderConfirm) _ _ r5 trivial
  have r7 : SmpMasterConnection.ReachableConfirmed sampleCryptoInitiator sampleLink (sampleMasterComparing 7) none :=
    SmpMasterConnection.ReachableConfirmed.step sampleInputsInitiator
      (MasterInput.acknowledge (Callback.packetSent 0 none)) _ _ r6
      ⟨[1, 4, 0, 13, 16, 3, 3], none, Or.inl (by decide)⟩
  SmpMasterConnection.ReachableConfirmed.step sampleInputsInitiator (MasterInput.data sampleResponderRandom) _ _ r7 trivial

/-- Witness of `numeric_comparison_gates_dhkey_check`: in the sample pairing the responder
has received the DHKey Check of the initiator and the initiator the nonce of the responder,
both wait for the user and have sent no DHKey Check; the confirmation callback of the
current run is the step that sends it, in both roles. -/
theorem numeric_comparison_gates_dhkey_check_witness :
    (sampleSlaveComparing 7).associationModel = some ASSOCIATION_MODEL_NUMERIC_COMPARISON
    ∧ (sampleSlaveComparing 7).state = STATE_W4_USER_NUMERIC_COMPARISON
    ∧ dhKeyChecks (sampleSlaveComparing 7).log = []
    ∧ dhKeyChecks (SmpSlaveConnection.step sampleCryptoResponder sampleLink sampleInputsComparison
        (SlaveInput.numericComparisonCallback 1) (sampleSlaveComparing 7)).log
      = [[13, 219, 37, 214, 11, 165, 89, 196, 89, 104, 196, 210, 74, 113, 203, 142, 207]]
    ∧ SmpSlaveConnection.confirmedAfter (SlaveInput.numericComparisonCallback 1) (sampleSlaveComparing 7) none
      = some (sampleSlaveComparing 7).runCounter
    ∧ (sampleMasterComparing 8).associationModel = some ASSOCIATION_MODEL_NUMERIC_COMPARISON
    ∧ (sampleMasterComparing 8).state = STATE_W4_USER_NUMERIC_COMPARISON
    ∧ dhKeyChecks (sampleMasterComparing 8).log = []
    ∧ dhKeyChecks (SmpMasterConnection.step sampleCryptoInitiator sampleLink sampleInputsInitiator
        (MasterInput.numericComparisonCallback 0) (sampleMasterComparing 8)).log = [sampleInitiatorCheck]
    ∧ SmpMasterConnection.confirmedAfter (MasterInput.numericComparisonCallback 0) (sampleMasterComparing 8) none
      = some (sampleMasterComparing 8).runCounter :=
  ⟨by decide, by decide, by decide, by decide,
    (numeric_comparison_gates_dhkey_check sampleCryptoResponder sampleLink).1 sampleInputsComparison
      (SlaveInput.numericComparisonCallback 1) (sampleSlaveComparing 7) none sampleSlaveComparing_reachable
      ⟨some ['8', '8', '1', '3', '0', '5'], by decide⟩ (by decide) (by decide),
    by decide, by decide, by decide, by decide,
    (numeric_comparison_gates_dhkey_check sampleCryptoInitiator sampleLink).2.2.1 sampleInputsInitiator
      (MasterInput.numericComparisonCallback 0) (sampleMasterComparing 8) none sampleMasterComparing_reachable
      ⟨some ['8', '8', '1', '3', '0', '5'], by decide⟩ (by decide) (Or.inl (by decide))⟩

end BleHost
